import Mathlib

/-! # Nuki Opener reconciler (src/src/NukiOpenerWrapper.cpp)

A shallow embedding of `NukiOpenerWrapper`: the wrapper object is a record of its
member variables, every member function is a function on that record, and every
call that leaves the wrapper (BLE transport, network publisher, GPIO, restart) is
appended to a trace.  What the outside world answers (command results, fetched
data, the millisecond clock) is read from a `World`, indexed by the number of
interactions performed so far.
-/

namespace NukiOpener

/-! ## Enumerations of the transport library -/

/-- Enumerators of `NukiOpener::LockAction` that the wrapper names, and the value
`(NukiOpener::LockAction)0xff` it uses for "no action". -/
inductive LockAction
  | ActivateRTO
  | DeactivateRTO
  | ElectricStrikeActuation
  | ActivateCM
  | DeactivateCM
  | FobAction1
  | FobAction2
  | FobAction3
  | noAction
  deriving DecidableEq, Repr

/-- Return type of the lock-action callback. -/
inductive LockActionResult
  | Success
  | UnknownAction
  | AccessDenied
  deriving DecidableEq, Repr

/-- Values of `Nuki::CmdResult`; `unset` is the initial `(Nuki::CmdResult)-1`. -/
inductive CmdResult
  | Success
  | Failed
  | TimeOut
  | Working
  | NotPaired
  | Error
  | Undefined
  | unset
  deriving DecidableEq, Repr

/-- Modelled from the spec: `NukiOpener::cmdResultToString` of the transport library
is not part of the sources; the spec names the result strings "success", "timeout",
"unknown" and the retry verdict "failed". -/
def cmdResultToString : CmdResult → String
  | .Success => "success"
  | .Failed => "failed"
  | .TimeOut => "timeout"
  | .Working => "working"
  | .NotPaired => "notPaired"
  | .Error => "error"
  | .Undefined => "unknown"
  | .unset => "unknown"

/-- Lock states named by the wrapper; every other value of the enum is `other`. -/
inductive LockState
  | Undefined
  | Locked
  | Open
  | RTOactive
  | other (code : Nat)
  deriving DecidableEq, Repr

/-- The `nukiState` of the opener: the wrapper names `ContinuousMode` only, the spec
also names `Online`. -/
inductive NukiState
  | Online
  | ContinuousMode
  | other (code : Nat)
  deriving DecidableEq, Repr

/-- Last trigger; the wrapper names `Manual` only. -/
inductive Trigger
  | Manual
  | Automatic
  | other (code : Nat)
  deriving DecidableEq, Repr

/-- The fields of `NukiOpener::OpenerState` the wrapper reads. -/
structure OpenerState where
  nukiState : NukiState := .other 0
  lockState : LockState := .Undefined
  trigger : Trigger := .other 0
  deriving DecidableEq, Repr

/-! ## Lock-action names -/

/-- `NukiOpenerWrapper::lockActionToEnum` (lines 730-741): a chain of `strcmp`
tests, two spellings per action. -/
def lockActionToEnum (str : String) : LockAction :=
  if str = "activateRTO" ∨ str = "ActivateRTO" then .ActivateRTO
  else if str = "deactivateRTO" ∨ str = "DeactivateRTO" then .DeactivateRTO
  else if str = "electricStrikeActuation" ∨ str = "ElectricStrikeActuation" then
    .ElectricStrikeActuation
  else if str = "activateCM" ∨ str = "ActivateCM" then .ActivateCM
  else if str = "deactivateCM" ∨ str = "DeactivateCM" then .DeactivateCM
  else if str = "fobAction2" ∨ str = "FobAction2" then .FobAction2
  else if str = "fobAction1" ∨ str = "FobAction1" then .FobAction1
  else if str = "fobAction3" ∨ str = "FobAction3" then .FobAction3
  else .noAction

/-- The eight action names of the specification with their peripheral action. -/
def actionNames : List (String × LockAction) :=
  [("ActivateRTO", .ActivateRTO), ("DeactivateRTO", .DeactivateRTO),
   ("ElectricStrikeActuation", .ElectricStrikeActuation),
   ("ActivateCM", .ActivateCM), ("DeactivateCM", .DeactivateCM),
   ("FobAction1", .FobAction1), ("FobAction2", .FobAction2),
   ("FobAction3", .FobAction3)]

/-- Equality of two strings ignoring letter case, character by character. -/
def eqIgnoreCase (a b : String) : Bool :=
  a.data.map Char.toLower == b.data.map Char.toLower

/-- The name with its first letter in lower case, the second spelling the code
accepts. -/
def lowerFirst (name : String) : String :=
  match name.data with
  | [] => ""
  | c :: cs => String.mk (c.toLower :: cs)

/-! ## Enumerations of the config blocks -/

/-- Enumerators of `Nuki::AdvertisingMode` that the wrapper names; `invalid` is
`(Nuki::AdvertisingMode)0xff`.  The enumerators are declared in the transport library:
the model takes them as pairwise different values, none of them 0xff. -/
inductive AdvertisingMode
  | Automatic | Normal | Slow | Slowest
  | invalid
  deriving DecidableEq, Repr

/-- Enumerators of `Nuki::TimeZoneId` that the wrapper names; `invalid` is
`(Nuki::TimeZoneId)0xff`.  As for `AdvertisingMode`, pairwise different values. -/
inductive TimeZoneId
  | Africa_Cairo | Africa_Lagos | Africa_Maputo | Africa_Nairobi | America_Anchorage
  | America_Argentina_Buenos_Aires | America_Chicago | America_Denver | America_Halifax
  | America_Los_Angeles | America_Manaus | America_Mexico_City | America_New_York
  | America_Phoenix | America_Regina | America_Santiago | America_Sao_Paulo | America_St_Johns
  | Asia_Bangkok | Asia_Dubai | Asia_Hong_Kong | Asia_Jerusalem | Asia_Karachi | Asia_Kathmandu
  | Asia_Kolkata | Asia_Riyadh | Asia_Seoul | Asia_Shanghai | Asia_Tehran | Asia_Tokyo
  | Asia_Yangon | Australia_Adelaide | Australia_Brisbane | Australia_Darwin | Australia_Hobart
  | Australia_Perth | Australia_Sydney | Europe_Berlin | Europe_Helsinki | Europe_Istanbul
  | Europe_London | Europe_Moscow | Pacific_Auckland | Pacific_Guam | Pacific_Honolulu
  | Pacific_Pago_Pago | None
  | invalid
  deriving DecidableEq, Repr

/-- Enumerators of `NukiOpener::ButtonPressAction` that the wrapper names (`DectivateCM`
is the spelling of the library); `invalid` is `(NukiOpener::ButtonPressAction)0xff`. -/
inductive ButtonPressAction
  | NoAction | ToggleRTO | ActivateRTO | DeactivateRTO | ToggleCM | ActivateCM | DectivateCM
  | Open
  | invalid
  deriving DecidableEq, Repr

/-- Enumerators of `Nuki::BatteryType` that the wrapper names; `invalid` is
`(Nuki::BatteryType)0xff`. -/
inductive BatteryType
  | Alkali | Accumulators | Lithium
  | invalid
  deriving DecidableEq, Repr

/-- A chain `if(strcmp(str, w1) == 0) return v1; else if ... return sentinel;` read as
a table: the value of the first word equal to `str`, the sentinel when there is none. -/
def firstMatch {α : Type} (sentinel : α) : List (String × α) → String → α
  | [], _ => sentinel
  | (word, value) :: rest, str => if str = word then value else firstMatch sentinel rest str

/-- The words and values of `advertisingModeToEnum` (lines 781-784). -/
def advertisingModeTable : List (String × AdvertisingMode) :=
  [("Automatic", .Automatic), ("Normal", .Normal), ("Slow", .Slow), ("Slowest", .Slowest)]

/-- `advertisingModeToEnum` (lines 779-786). -/
def advertisingModeToEnum (str : String) : AdvertisingMode :=
  firstMatch .invalid advertisingModeTable str

/-- The words and values of `timeZoneToEnum` (lines 790-836). -/
def timeZoneTable : List (String × TimeZoneId) :=
  [("Africa/Cairo", .Africa_Cairo), ("Africa/Lagos", .Africa_Lagos),
   ("Africa/Maputo", .Africa_Maputo), ("Africa/Nairobi", .Africa_Nairobi),
   ("America/Anchorage", .America_Anchorage),
   ("America/Argentina/Buenos_Aires", .America_Argentina_Buenos_Aires),
   ("America/Chicago", .America_Chicago), ("America/Denver", .America_Denver),
   ("America/Halifax", .America_Halifax), ("America/Los_Angeles", .America_Los_Angeles),
   ("America/Manaus", .America_Manaus), ("America/Mexico_City", .America_Mexico_City),
   ("America/New_York", .America_New_York), ("America/Phoenix", .America_Phoenix),
   ("America/Regina", .America_Regina), ("America/Santiago", .America_Santiago),
   ("America/Sao_Paulo", .America_Sao_Paulo), ("America/St_Johns", .America_St_Johns),
   ("Asia/Bangkok", .Asia_Bangkok), ("Asia/Dubai", .Asia_Dubai),
   ("Asia/Hong_Kong", .Asia_Hong_Kong), ("Asia/Jerusalem", .Asia_Jerusalem),
   ("Asia/Karachi", .Asia_Karachi), ("Asia/Kathmandu", .Asia_Kathmandu),
   ("Asia/Kolkata", .Asia_Kolkata), ("Asia/Riyadh", .Asia_Riyadh), ("Asia/Seoul", .Asia_Seoul),
   ("Asia/Shanghai", .Asia_Shanghai), ("Asia/Tehran", .Asia_Tehran),
   ("Asia/Tokyo", .Asia_Tokyo), ("Asia/Yangon", .Asia_Yangon),
   ("Australia/Adelaide", .Australia_Adelaide), ("Australia/Brisbane", .Australia_Brisbane),
   ("Australia/Darwin", .Australia_Darwin), ("Australia/Hobart", .Australia_Hobart),
   ("Australia/Perth", .Australia_Perth), ("Australia/Sydney", .Australia_Sydney),
   ("Europe/Berlin", .Europe_Berlin), ("Europe/Helsinki", .Europe_Helsinki),
   ("Europe/Istanbul", .Europe_Istanbul), ("Europe/London", .Europe_London),
   ("Europe/Moscow", .Europe_Moscow), ("Pacific/Auckland", .Pacific_Auckland),
   ("Pacific/Guam", .Pacific_Guam), ("Pacific/Honolulu", .Pacific_Honolulu),
   ("Pacific/Pago_Pago", .Pacific_Pago_Pago), ("None", .None)]

/-- `timeZoneToEnum` (lines 788-838). -/
def timeZoneToEnum (str : String) : TimeZoneId :=
  firstMatch .invalid timeZoneTable str

/-- The words and values of `fobActionToInt` (lines 842-847). -/
def fobActionTable : List (String × Nat) :=
  [("No Action", 0), ("Toggle RTO", 1), ("Activate RTO", 2), ("Deactivate RTO", 3),
   ("Open", 7), ("Ring", 8)]

/-- `fobActionToInt` (lines 840-849). -/
def fobActionToInt (str : String) : Nat :=
  firstMatch 99 fobActionTable str

/-- The words and values of `operatingModeToInt` (lines 853-868). -/
def operatingModeTable : List (String × Nat) :=
  [("Generic door opener", 0), ("Analogue intercom", 1), ("Digital intercom", 2),
   ("Siedle", 3), ("TCS", 4), ("Bticino", 5), ("Siedle HTS", 6), ("STR", 7), ("Ritto", 8),
   ("Fermax", 9), ("Comelit", 10), ("Urmet BiBus", 11), ("Urmet 2Voice", 12),
   ("Golmar", 13), ("SKS", 14), ("Spare", 15)]

/-- `operatingModeToInt` (lines 851-870). -/
def operatingModeToInt (str : String) : Nat :=
  firstMatch 99 operatingModeTable str

/-- The words and values of `doorbellSuppressionToInt` (lines 874-881). -/
def doorbellSuppressionTable : List (String × Nat) :=
  [("Off", 0), ("CM", 1), ("RTO", 2), ("CM & RTO", 3), ("Ring", 4), ("CM & Ring", 5),
   ("RTO & Ring", 6), ("CM & RTO & Ring", 7)]

/-- `doorbellSuppressionToInt` (lines 872-883). -/
def doorbellSuppressionToInt (str : String) : Nat :=
  firstMatch 99 doorbellSuppressionTable str

/-- The words and values of `soundToInt` (lines 887-890). -/
def soundTable : List (String × Nat) :=
  [("No Sound", 0), ("Sound 1", 1), ("Sound 2", 2), ("Sound 3", 3)]

/-- `soundToInt` (lines 885-892). -/
def soundToInt (str : String) : Nat :=
  firstMatch 99 soundTable str

/-- The words and values of `buttonPressActionToEnum` (lines 896-903). -/
def buttonPressActionTable : List (String × ButtonPressAction) :=
  [("No Action", .NoAction), ("Toggle RTO", .ToggleRTO), ("Activate RTO", .ActivateRTO),
   ("Deactivate RTO", .DeactivateRTO), ("Toggle CM", .ToggleCM), ("Activate CM", .ActivateCM),
   ("Deactivate CM", .DectivateCM), ("Open", .Open)]

/-- `buttonPressActionToEnum` (lines 894-905). -/
def buttonPressActionToEnum (str : String) : ButtonPressAction :=
  firstMatch .invalid buttonPressActionTable str

/-- The words and values of `batteryTypeToEnum` (lines 909-911). -/
def batteryTypeTable : List (String × BatteryType) :=
  [("Alkali", .Alkali), ("Accumulators", .Accumulators), ("Lithium", .Lithium)]

/-- `batteryTypeToEnum` (lines 907-913). -/
def batteryTypeToEnum (str : String) : BatteryType :=
  firstMatch .invalid batteryTypeTable str

/-! ## Data exchanged with the transport -/

/-- Battery readings; the wrapper forwards the report without reading it. -/
structure BatteryReport where
  batteryVoltage : Nat := 0
  criticalBatteryState : Nat := 0
  deriving DecidableEq, Repr

/-- The fields of `NukiOpener::Config` read by the refresh functions and by the config
handler.  `name` is the name buffer up to its first zero byte; `latitude` and
`longitude` are the `float` members, taken as rationals. -/
structure Config where
  nukiId : Nat := 0
  name : String := ""
  hasKeypad : Nat := 0
  hasKeypadV2 : Nat := 0
  firmwareVersion : Nat × Nat × Nat := (0, 0, 0)
  hardwareRevision : Nat × Nat := (0, 0)
  latitude : Rat := 0
  longitude : Rat := 0
  pairingEnabled : Nat := 0
  buttonEnabled : Nat := 0
  ledFlashEnabled : Nat := 0
  timeZoneOffset : Int := 0
  dstMode : Nat := 0
  fobAction1 : Nat := 0
  fobAction2 : Nat := 0
  fobAction3 : Nat := 0
  operatingMode : Nat := 0
  advertisingMode : AdvertisingMode := .Automatic
  timeZoneId : TimeZoneId := .Africa_Cairo
  deriving DecidableEq, Repr

/-- The fields of `NukiOpener::AdvancedConfig` read by the config handler. -/
structure AdvancedConfig where
  intercomID : Nat := 0
  busModeSwitch : Nat := 0
  shortCircuitDuration : Nat := 0
  electricStrikeDelay : Nat := 0
  randomElectricStrikeDelay : Nat := 0
  electricStrikeDuration : Nat := 0
  disableRtoAfterRing : Nat := 0
  rtoTimeout : Nat := 0
  doorbellSuppression : Nat := 0
  doorbellSuppressionDuration : Nat := 0
  soundRing : Nat := 0
  soundOpen : Nat := 0
  soundRto : Nat := 0
  soundCm : Nat := 0
  soundConfirmation : Nat := 0
  soundLevel : Nat := 0
  singleButtonPressAction : ButtonPressAction := .NoAction
  doubleButtonPressAction : ButtonPressAction := .NoAction
  batteryType : BatteryType := .Alkali
  automaticBatteryTypeDetection : Nat := 0
  deriving DecidableEq, Repr

/-- The write commands of the transport that the config handler issues, with their
arguments. -/
inductive ConfigCommand
  | setName (name : String)
  | setLatitude (degrees : Rat)
  | setLongitude (degrees : Rat)
  | enablePairing (enable : Bool)
  | enableButton (enable : Bool)
  | enableLedFlash (enable : Bool)
  | setTimeZoneOffset (minutes : Int)
  | enableDst (enable : Bool)
  | setFobAction (fobActionNr : Nat) (fobAction : Nat)
  | setOperatingMode (opmode : Nat)
  | setAdvertisingMode (mode : AdvertisingMode)
  | setTimeZoneId (timeZoneId : TimeZoneId)
  | setIntercomID (intercomID : Nat)
  | setBusModeSwitch (enable : Bool)
  | setShortCircuitDuration (duration : Nat)
  | setElectricStrikeDelay (delay : Nat)
  | enableRandomElectricStrikeDelay (enable : Bool)
  | setElectricStrikeDuration (duration : Nat)
  | disableRtoAfterRing (disable : Bool)
  | setRtoTimeout (timeout : Nat)
  | setDoorbellSuppression (suppression : Nat)
  | setDoorbellSuppressionDuration (duration : Nat)
  | setSoundRing (sound : Nat)
  | setSoundOpen (sound : Nat)
  | setSoundRto (sound : Nat)
  | setSoundCm (sound : Nat)
  | enableSoundConfirmation (enable : Bool)
  | setSoundLevel (level : Nat)
  | setSingleButtonPressAction (action : ButtonPressAction)
  | setDoubleButtonPressAction (action : ButtonPressAction)
  | setBatteryType (batteryType : BatteryType)
  | enableAutoBatteryTypeDetection (enable : Bool)
  deriving DecidableEq, Repr

/-- An authorization log entry: the sort key and the rest of the record. -/
structure LogEntry where
  index : Nat := 0
  authId : Nat := 0
  deriving DecidableEq, Repr

/-- A date and time as six integers (year, month, day, hour, minute, second). -/
structure DateTime where
  year : Nat := 0
  month : Nat := 0
  day : Nat := 0
  hour : Nat := 0
  min : Nat := 0
  sec : Nat := 0
  deriving DecidableEq, Repr

/-- A time of day (hour, minute). -/
structure TimeOfDay where
  hour : Nat := 0
  min : Nat := 0
  deriving DecidableEq, Repr

/-- `NukiOpener::KeypadEntry` as returned by `getKeypadEntries`; `name` is the
20-byte name buffer up to its first zero byte, one `Char` per byte. -/
structure KeypadEntry where
  codeId : Nat := 0
  code : Nat := 0
  name : String := ""
  enabled : Nat := 0
  timeLimited : Nat := 0
  allowedFrom : DateTime := {}
  allowedUntil : DateTime := {}
  allowedWeekdays : Nat := 0
  allowedFromTime : TimeOfDay := {}
  allowedUntilTime : TimeOfDay := {}
  deriving DecidableEq, Repr

/-- `NukiOpener::NewKeypadEntry`, all zero after the `memset`. -/
structure NewKeypadEntry where
  name : String := ""
  code : Nat := 0
  timeLimited : Nat := 0
  allowedFrom : DateTime := {}
  allowedUntil : DateTime := {}
  allowedWeekdays : Nat := 0
  allowedFromTime : TimeOfDay := {}
  allowedUntilTime : TimeOfDay := {}
  deriving DecidableEq, Repr

/-- `NukiOpener::UpdatedKeypadEntry`, all zero after the `memset`. -/
structure UpdatedKeypadEntry where
  codeId : Nat := 0
  name : String := ""
  code : Nat := 0
  enabled : Nat := 0
  timeLimited : Nat := 0
  allowedFrom : DateTime := {}
  allowedUntil : DateTime := {}
  allowedWeekdays : Nat := 0
  allowedFromTime : TimeOfDay := {}
  allowedUntilTime : TimeOfDay := {}
  deriving DecidableEq, Repr

/-- `NukiOpener::TimeControlEntry` as returned by `getTimeControlEntries`. -/
structure TimeControlEntry where
  entryId : Nat := 0
  enabled : Nat := 0
  weekdays : Nat := 0
  timeHour : Nat := 0
  timeMin : Nat := 0
  lockAction : LockAction := .noAction
  deriving DecidableEq, Repr

/-- `NukiOpener::NewTimeControlEntry`, all zero after the `memset`. -/
structure NewTimeControlEntry where
  weekdays : Nat := 0
  timeHour : Nat := 0
  timeMin : Nat := 0
  lockAction : LockAction := .noAction
  deriving DecidableEq, Repr

/-- Output roles of a GPIO pin; input roles and unused pins are `other`. -/
inductive PinRole
  | OutputHighRtoActive
  | OutputHighCmActive
  | OutputHighRtoOrCmActive
  | other (code : Nat)
  deriving DecidableEq, Repr

/-- One entry of the pin configuration list. -/
structure PinEntry where
  pin : Nat := 0
  role : PinRole := .other 0
  deriving DecidableEq, Repr

/-- Reasons passed to `restartEsp`. -/
inductive RestartReason
  | BLEBeaconWatchdog
  deriving DecidableEq, Repr

/-! ## Calls that leave the wrapper -/

/-- One call made by the wrapper on the network publisher, the BLE transport, the
GPIO driver, the preference store (writes only) or the platform.  Logging and the
cooperative `delay` calls change no variable of the wrapper and are not recorded.
`publishConfigCommandResult` carries the members of the serialized JSON object in
their order; `configCommand` is one write command of the config handler together with
the result the transport returned for it.  `addCallback` is the registration with
the GPIO driver.  The set-up calls made on the transport at start-up (lines 50-51 and
104-105) are not recorded. -/
inductive Event
  | publishBleAddress (address : String)
  | publishStatusUpdated (statusUpdated : Bool)
  | publishLockstateCommandResult (str : String)
  | publishRing (lockedMode : Bool)
  | publishKeyTurnerState (cur prev : OpenerState)
  | publishBatteryReport (report : BatteryReport)
  | publishConfig (config : Config)
  | publishAdvancedConfig (config : AdvancedConfig)
  | publishAuthorizationInfo (log : List LogEntry) (latest : Bool)
  | clearAuthorizationInfo
  | publishKeypad (entries : List KeypadEntry) (maxKeypadCodeCount : Nat)
  | publishTimeControl (entries : List TimeControlEntry) (maxCount : Nat)
  | publishCommandResult (str : String)
  | publishRetry (str : String)
  | publishRssi (rssi : Int)
  | publishKeypadCommandResult (str : String)
  | publishKeypadJsonCommandResult (str : String)
  | publishHASSConfig (uid : Nat) (continuousMode : Bool)
  | setPinOutput (pin : Nat) (high : Bool)
  | putInt (key : String) (value : Int)
  | putUInt (key : String) (value : Nat)
  | restartEsp (reason : RestartReason)
  | pairNuki (asApp : Bool)
  | updateConnectionState
  | lockAction (action : LockAction)
  | requestOpenerState
  | requestBatteryReport
  | requestConfig
  | requestAdvancedConfig
  | verifySecurityPin
  | retrieveLogEntries (count : Int)
  | retrieveKeypadEntries (count : Int)
  | retrieveTimeControlEntries
  | addKeypadEntry (entry : NewKeypadEntry)
  | updateKeypadEntry (entry : UpdatedKeypadEntry)
  | deleteKeypadEntry (codeId : Nat)
  | publishConfigCommandResult (members : List (String × String))
  | configCommand (cmd : ConfigCommand) (result : CmdResult)
  | publishTimeControlCommandResult (str : String)
  | addTimeControlEntry (entry : NewTimeControlEntry)
  | updateTimeControlEntry (entry : TimeControlEntry)
  | removeTimeControlEntry (entryId : Nat)
  | setLockActionReceivedCallback
  | setConfigUpdateReceivedCallback
  | setKeypadCommandReceivedCallback
  | setKeypadJsonCommandReceivedCallback
  | addCallback
  deriving DecidableEq, Repr

/-! ## The outside world -/

/-- What the collaborators answer.  Every field that is a function is indexed by the
number of interactions the wrapper has performed before the call (`State.io`), so
one `World` fixes one run.  `openerState io`, `batteryReport io`, `config io` and
`advancedConfig io` are what the out-parameter of the request made at interaction
`io` holds after the call, whether the call succeeded or not.  `uninit io k` is the
indeterminate content of the k-th word of the local arrays a handler declares
without initialising them, `uninitLockAction io` that of the local
`timeControlLockAction`.  `atof` is the `float` that the C library reads from a
text, as a rational (a NaN as 0: both fail the test `> 0`).  The last seven fields are constants declared in headers
that are not part of the sources (`QueryCommand.h`, `Config.h`) and the pin list of
the GPIO object. -/
structure World where
  millis : Nat → Int := fun _ => 0
  pairNuki : Nat → Bool := fun _ => false
  getBleAddress : Nat → String := fun _ => ""
  getLastReceivedBeaconTs : Nat → Int := fun _ => 0
  queryCommands : Nat → Nat := fun _ => 0
  reconnected : Nat → Bool := fun _ => false
  getRssi : Nat → Int := fun _ => 0
  cmdResult : Nat → CmdResult := fun _ => .Success
  openerState : Nat → OpenerState := fun _ => {}
  batteryReport : Nat → BatteryReport := fun _ => {}
  config : Nat → Config := fun _ => {}
  advancedConfig : Nat → AdvancedConfig := fun _ => {}
  logEntries : Nat → List LogEntry := fun _ => []
  keypadEntries : Nat → List KeypadEntry := fun _ => []
  timeControlEntries : Nat → List TimeControlEntry := fun _ => []
  uninit : Nat → Nat → Nat := fun _ _ => 0
  uninitLockAction : Nat → LockAction := fun _ => .noAction
  atof : String → Rat := fun _ => 0
  pinConfiguration : List PinEntry := []
  QUERY_COMMAND_LOCKSTATE : Nat := 1
  QUERY_COMMAND_CONFIG : Nat := 2
  QUERY_COMMAND_KEYPAD : Nat := 4
  QUERY_COMMAND_BATTERY : Nat := 8
  MAX_AUTHLOG : Int := 5
  MAX_KEYPAD : Int := 10
  MAX_TIMECONTROL : Int := 10

/-! ## The wrapper object -/

/-- The persisted preferences the wrapper reads.  A key read with an explicit non-zero
default is an `Option`; a boolean, integer or string key whose default is `false`, 0
or the empty string holds that default when absent. -/
structure Preferences where
  query_interval_lockstate : Int := 0
  query_interval_configuration : Int := 0
  query_interval_battery : Int := 0
  query_interval_keypad : Int := 0
  publish_authdata : Bool := false
  restart_ble_beacon_lost : Int := 0
  mqtt_hass_discovery : String := ""
  command_nr_of_retries : Option Int := none
  command_retry_delay : Int := 0
  rssi_publish_interval : Int := 0
  timecontrol_control_enabled : Bool := false
  register_opener_as_app : Bool := false
  opener_pin_status : Option Int := none
  keypad_control_enabled : Bool := false
  keypad_info_enabled : Bool := false
  disable_non_json : Bool := false
  conf_info_enabled : Bool := false
  timecontrol_info_enabled : Bool := false
  opener_continuous_mode : Bool := false
  nuki_id_opener : Nat := 0
  authlog_max_entries : Option Int := none
  keypad_max_entries : Option Int := none
  timecontrol_max_entries : Option Int := none
  opener_max_keypad_code_count : Nat := 0
  opener_max_timecontrol_entry_count : Nat := 0
  acl : Nat → Nat := fun _ => 0
  conf_opener_basic_acl : Nat → Nat := fun _ => 0
  conf_opener_advanced_acl : Nat → Nat := fun _ => 0

/-- The member variables of `NukiOpenerWrapper`. -/
structure Vars where
  paired : Bool := false
  statusUpdated : Bool := false
  keyTurnerState : OpenerState := {}
  lastKeyTurnerState : OpenerState := {}
  batteryReport : BatteryReport := {}
  nukiConfig : Config := {}
  nukiConfigValid : Bool := false
  nukiAdvancedConfig : AdvancedConfig := {}
  nukiAdvancedConfigValid : Bool := false
  configRead : Bool := false
  hasKeypad : Bool := false
  keypadEnabled : Bool := false
  publishAuthData : Bool := false
  clearAuthData : Bool := false
  hassEnabled : Bool := false
  hassSetupCompleted : Bool := false
  firmwareVersion : String := ""
  hardwareVersion : String := ""
  intervalLockstate : Int := 0
  intervalConfig : Int := 0
  intervalBattery : Int := 0
  intervalKeypad : Int := 0
  restartBeaconTimeout : Int := 0
  nrOfRetries : Int := 0
  retryDelay : Int := 0
  rssiPublishInterval : Int := 0
  retryCount : Int := 0
  retryLockstateCount : Int := 0
  retryConfigCount : Int := 0
  nextLockStateUpdateTs : Int := 0
  nextBatteryReportTs : Int := 0
  nextConfigUpdateTs : Int := 0
  waitAuthLogUpdateTs : Int := 0
  waitKeypadUpdateTs : Int := 0
  waitTimeControlUpdateTs : Int := 0
  nextKeypadUpdateTs : Int := 0
  nextRssiTs : Int := 0
  nextRetryTs : Int := 0
  disableBleWatchdogTs : Int := 0
  lastRssi : Int := 0
  nextLockAction : LockAction := .noAction
  keypadCodeIds : List Nat := []
  timeControlIds : List Nat := []
  maxKeypadCodeCount : Nat := 0
  maxTimeControlEntryCount : Nat := 0

/-- The wrapper object together with what it talks to: its member variables, the
preference store, the security PIN held by the transport, the number of interactions
with the outside world so far, and the trace of calls. -/
structure State extends Vars where
  prefs : Preferences := {}
  securityPincode : Nat := 0
  io : Nat := 0
  trace : List Event := []

/-- Assignment to member variables: `s.set fun m => { m with x := a }` is `_x = a`. -/
def State.set (f : Vars → Vars) (s : State) : State :=
  { s with toVars := f s.toVars }

/-- A write to the preference store. -/
def State.setPrefs (f : Preferences → Preferences) (s : State) : State :=
  { s with prefs := f s.prefs }

/-- Record one call in the trace. -/
def emit (e : Event) (s : State) : State :=
  { s with trace := s.trace ++ [e] }

/-- One interaction with the outside world has been consumed. -/
def State.step (s : State) : State :=
  { s with io := s.io + 1 }

/-- The value of a signed 32-bit `int` expression: the mathematical result reduced
to the range [-2^31, 2^31) (two-complement wrap-around). -/
def wrapInt32 (x : Int) : Int :=
  (x + 2147483648) % 4294967296 - 2147483648

/-- Conversion of an `int` to the 32-bit unsigned `size_t` of the target. -/
def toSizeT (x : Int) : Nat :=
  (x % 4294967296).toNat

/-! ## Helpers of the wrapper -/

/-- `postponeBleWatchdog` (lines 725-728): reads the clock. -/
def postponeBleWatchdog (W : World) (s : State) : State :=
  (s.step.set fun m => { m with disableBleWatchdogTs := W.millis s.io + 15000 })

/-- `isPinSet` (lines 316-319). -/
def isPinSet (s : State) : Bool :=
  s.securityPincode != 0

/-- `isPinValid` (lines 321-324): the persisted status, 4 when absent, equals 1. -/
def isPinValid (s : State) : Bool :=
  s.prefs.opener_pin_status.getD 4 == 1

/-- The command loop shared by the refresh functions,
`while(_retryCount < _nrOfRetries + 1)`: issue `cmd`, let `store` take the answer of
interaction `io` into the wrapper, count a failure in `_retryCount` and go round
again, leave the loop on `Success`.  The first argument bounds the number of rounds;
`loopFuel` is enough for a loop entered with `_retryCount = 0`. -/
def retryLoop (W : World) (cmd : Event) (store : Nat → CmdResult → State → State) :
    Nat → CmdResult → State → CmdResult × State
  | 0, result, s => (result, s)
  | fuel + 1, result, s =>
    if s.retryCount < s.nrOfRetries + 1 then
      let r := W.cmdResult s.io
      let s1 := store s.io r (emit cmd s.step)
      if r ≠ .Success then
        retryLoop W cmd store fuel r (s1.set fun m => { m with retryCount := s1.retryCount + 1 })
      else (r, s1)
    else (result, s)

/-- Number of rounds a command loop entered with `_retryCount = 0` can make. -/
def loopFuel (s : State) : Nat :=
  (s.nrOfRetries + 1).toNat

/-- The `std::list::sort` calls: a stable sort by ascending key. -/
def sortBy {α : Type} (key : α → Nat) (l : List α) : List α :=
  l.insertionSort (fun a b => key a ≤ key b)

/-- The truncation `if(list.size() > max) list.resize(max)`, `max` an `int` that is
converted to `size_t` by the comparison and by `resize`. -/
def truncateTo {α : Type} (max : Int) (l : List α) : List α :=
  if l.length > toSizeT max then l.take (toSizeT max) else l

/-- `updateAuthData` (lines 531-601). -/
def updateAuthData (W : World) (retrieved : Bool) (s : State) : State :=
  if !isPinValid s then s
  else if !retrieved then
    let count := s.prefs.authlog_max_entries.getD W.MAX_AUTHLOG
    let (result, s1) := retryLoop W (.retrieveLogEntries count) (fun _ _ t => t)
      (loopFuel s) .unset (s.set fun m => { m with retryCount := 0 })
    if result = .Success then
      let s2 := (s1.step.set fun m => { m with waitAuthLogUpdateTs := W.millis s1.io + 5000 })
      let log := W.logEntries s2.io
      let s3 := s2.step
      let log1 := sortBy LogEntry.index (truncateTo (s3.prefs.authlog_max_entries.getD 3) log)
      let s4 := if log1.length > 0 then emit (.publishAuthorizationInfo log1 true) s3 else s3
      postponeBleWatchdog W s4
    else postponeBleWatchdog W s1
  else
    let log := W.logEntries s.io
    let s1 := s.step
    let log1 := sortBy LogEntry.index
      (truncateTo (s1.prefs.authlog_max_entries.getD W.MAX_AUTHLOG) log)
    let s2 := if log1.length > 0 then emit (.publishAuthorizationInfo log1 false) s1 else s1
    postponeBleWatchdog W s2

/-- `updateKeypad` (lines 603-662). -/
def updateKeypad (W : World) (retrieved : Bool) (s : State) : State :=
  if !s.prefs.keypad_info_enabled then s
  else if !retrieved then
    let count := s.prefs.keypad_max_entries.getD W.MAX_KEYPAD
    let (result, s1) := retryLoop W (.retrieveKeypadEntries count) (fun _ _ t => t)
      (loopFuel s) .unset (s.set fun m => { m with retryCount := 0 })
    let s2 :=
      if result = .Success then
          (s1.step.set fun m => { m with waitKeypadUpdateTs := W.millis s1.io + 5000 })
      else s1
    postponeBleWatchdog W s2
  else
    let entries := W.keypadEntries s.io
    let s1 := s.step
    let entries1 := truncateTo (s1.prefs.keypad_max_entries.getD W.MAX_KEYPAD)
      (sortBy KeypadEntry.codeId entries)
    let keypadCount := entries1.length
    let s2 :=
      if keypadCount > s1.maxKeypadCodeCount then
        emit (.putUInt "opener_max_keypad_code_count" keypadCount)
          ((s1.set fun m => { m with maxKeypadCodeCount := keypadCount }).setPrefs
            fun p => { p with opener_max_keypad_code_count := keypadCount })
      else s1
    let s3 := emit (.publishKeypad entries1 s2.maxKeypadCodeCount) s2
    postponeBleWatchdog W
        (s3.set fun m => { m with keypadCodeIds := entries1.map KeypadEntry.codeId })

/-- `updateTimeControl` (lines 664-723). -/
def updateTimeControl (W : World) (retrieved : Bool) (s : State) : State :=
  if !s.prefs.timecontrol_info_enabled then s
  else if !retrieved then
    let (result, s1) := retryLoop W .retrieveTimeControlEntries (fun _ _ t => t)
      (loopFuel s) .unset (s.set fun m => { m with retryCount := 0 })
    let s2 :=
      if result = .Success then
        (s1.step.set fun m => { m with waitTimeControlUpdateTs := W.millis s1.io + 5000 })
      else s1
    postponeBleWatchdog W s2
  else
    let entries := W.timeControlEntries s.io
    let s1 := s.step
    let entries1 := truncateTo (s1.prefs.timecontrol_max_entries.getD W.MAX_TIMECONTROL)
      (sortBy TimeControlEntry.entryId entries)
    let timeControlCount := entries1.length
    let s2 :=
      if timeControlCount > s1.maxTimeControlEntryCount then
        emit (.putUInt "opener_max_timecontrol_entry_count" timeControlCount)
          ((s1.set fun m => { m with maxTimeControlEntryCount := timeControlCount }).setPrefs
            fun p => { p with opener_max_timecontrol_entry_count := timeControlCount })
      else s1
    let s3 := emit (.publishTimeControl entries1 s2.maxTimeControlEntryCount) s2
    postponeBleWatchdog W
        (s3.set fun m => { m with timeControlIds := entries1.map TimeControlEntry.entryId })

/-- The writes of `updateGpioOutputs` (lines 2427-2453), in list order. -/
def gpioWrites (cur : OpenerState) : List PinEntry → List Event
  | [] => []
  | entry :: rest =>
    let rtoActive := cur.lockState = .RTOactive
    let cmActive := cur.nukiState = .ContinuousMode
    match entry.role with
    | .OutputHighRtoActive =>
      .setPinOutput entry.pin (decide rtoActive) :: gpioWrites cur rest
    | .OutputHighCmActive =>
      .setPinOutput entry.pin (decide cmActive) :: gpioWrites cur rest
    | .OutputHighRtoOrCmActive =>
      .setPinOutput entry.pin (decide (rtoActive ∨ cmActive)) :: gpioWrites cur rest
    | .other _ => gpioWrites cur rest

/-- `updateGpioOutputs` (lines 2427-2453). -/
def updateGpioOutputs (W : World) (s : State) : State :=
  { s with trace := s.trace ++ gpioWrites s.keyTurnerState W.pinConfiguration }

/-- The ring detection and state publication of `updateKeyTurnerState`
(lines 376-405). -/
def ringStep (W : World) (s : State) : State :=
  if s.statusUpdated ∧
      s.keyTurnerState.lockState = .Locked ∧
      s.lastKeyTurnerState.lockState = .Locked ∧
      s.lastKeyTurnerState.nukiState = s.keyTurnerState.nukiState then
    emit (.publishRing true) s
  else
    let s1 :=
      if s.keyTurnerState.lockState ≠ s.lastKeyTurnerState.lockState ∧
          s.keyTurnerState.lockState = .Open ∧
          s.keyTurnerState.trigger = .Manual then
        emit (.publishRing false) s
      else s
    updateGpioOutputs W (emit (.publishKeyTurnerState s1.keyTurnerState s1.lastKeyTurnerState) s1)

/-- `updateKeyTurnerState` (lines 343-416). -/
def updateKeyTurnerState (W : World) (s : State) : State :=
  let (result, s1) := retryLoop W .requestOpenerState
    (fun io _ t => t.set fun m => { m with keyTurnerState := W.openerState io })
    (loopFuel s) .unset (s.set fun m => { m with retryCount := 0 })
  let s2 := emit (.publishLockstateCommandResult (cmdResultToString result)) s1
  if result ≠ .Success then
    let s3 := postponeBleWatchdog W
      (s2.set fun m => { m with retryLockstateCount := s2.retryLockstateCount + 1 })
    if s3.retryLockstateCount < s3.nrOfRetries + 1 then
      s3.step.set fun m => { m with nextLockStateUpdateTs := W.millis s3.io + s3.retryDelay }
    else s3
  else
    let s3 := ringStep W (s2.set fun m => { m with retryLockstateCount := 0 })
    let s4 := if s3.publishAuthData then updateAuthData W false s3 else s3
    postponeBleWatchdog W s4

/-- `updateBatteryState` (lines 418-441). -/
def updateBatteryState (W : World) (s : State) : State :=
  let (result, s1) := retryLoop W .requestBatteryReport
    (fun io _ t => (t.set fun m => { m with batteryReport := W.batteryReport io }))
    (loopFuel s) .unset (s.set fun m => { m with retryCount := 0 })
  let s2 := if result = .Success then emit (.publishBatteryReport s1.batteryReport) s1 else s1
  postponeBleWatchdog W s2

/-- `readConfig` (lines 2313-2334). -/
def readConfig (W : World) (s : State) : State :=
  let (_, s1) := retryLoop W .requestConfig
    (fun io r t => (t.set fun m =>
      { m with nukiConfig := W.config io, nukiConfigValid := decide (r = .Success) }))
    (loopFuel s) .unset (s.set fun m => { m with retryCount := 0 })
  postponeBleWatchdog W s1

/-- `readAdvancedConfig` (lines 2336-2357). -/
def readAdvancedConfig (W : World) (s : State) : State :=
  let (_, s1) := retryLoop W .requestAdvancedConfig
    (fun io r t => t.set fun m => { m with
      nukiAdvancedConfig := W.advancedConfig io
      nukiAdvancedConfigValid := decide (r = .Success) })
    (loopFuel s) .unset (s.set fun m => { m with retryCount := 0 })
  postponeBleWatchdog W s1

/-- The PIN verification inside `updateConfig` (lines 467-501). -/
def verifyPinStatus (W : World) (s : State) : State :=
  let pinStatus := s.prefs.opener_pin_status.getD 4
  let setStatus (v : Int) (t : State) : State :=
    if pinStatus ≠ v then
      emit (.putInt "opener_pin_status" v)
        (t.setPrefs fun p => { p with opener_pin_status := some v })
    else t
  if isPinSet s then
    let (result, s1) := retryLoop W .verifySecurityPin (fun _ _ t => t)
      (loopFuel s) .unset (s.set fun m => { m with retryCount := 0 })
    if result ≠ .Success then setStatus 2 s1 else setStatus 1 s1
  else setStatus 0 s

/-- The write of the opener identifier in `updateConfig` (lines 452-455). -/
def storeNukiId (s : State) : State :=
  if s.prefs.nuki_id_opener = 0 ∨ s.retryConfigCount = 10 then
    emit (.putUInt "nuki_id_opener" s.nukiConfig.nukiId)
      (s.setPrefs fun p => { p with nuki_id_opener := s.nukiConfig.nukiId })
  else s

/-- The block of `updateConfig` for a valid basic config whose identifier is the
persisted one (lines 459-501). -/
def matchedConfigStep (W : World) (s : State) : State :=
  let fw := s.nukiConfig.firmwareVersion
  let hw := s.nukiConfig.hardwareRevision
  let s1 := s.set fun m => { m with
    hasKeypad := decide (s.nukiConfig.hasKeypad > 0 ∨ s.nukiConfig.hasKeypadV2 > 0)
    firmwareVersion := toString fw.1 ++ "." ++ toString fw.2.1 ++ "." ++ toString fw.2.2
    hardwareVersion := toString hw.1 ++ "." ++ toString hw.2 }
  let s2 := if s1.prefs.conf_info_enabled then emit (.publishConfig s1.nukiConfig) s1 else s1
  let s3 := (s2.set fun m => { m with retryConfigCount := 0 })
  let s4 := if s3.prefs.timecontrol_info_enabled then updateTimeControl W false s3 else s3
  verifyPinStatus W s4

/-- The basic-config half of `updateConfig` (lines 450-513); the flag is the local
`expectedConfig`. -/
def basicConfigStep (W : World) (s : State) : State × Bool :=
  if s.nukiConfigValid then
    let s1 := storeNukiId s
    if s1.prefs.nuki_id_opener = s1.nukiConfig.nukiId then (matchedConfigStep W s1, true)
    else ((s1.set fun m => { m with retryConfigCount := s1.retryConfigCount + 1 }), false)
  else ((s.set fun m => { m with retryConfigCount := s.retryConfigCount + 1 }), false)

/-- The advanced-config half of `updateConfig` (lines 514-523). -/
def advancedConfigStep (s : State) (expectedConfig : Bool) : State × Bool :=
  if s.nukiAdvancedConfigValid ∧ s.prefs.nuki_id_opener = s.nukiConfig.nukiId then
    let s1 :=
      if s.prefs.conf_info_enabled then emit (.publishAdvancedConfig s.nukiAdvancedConfig) s
      else s
    ((s1.set fun m => { m with retryConfigCount := 0 }), expectedConfig)
  else ((s.set fun m => { m with retryConfigCount := s.retryConfigCount + 1 }), false)

/-- `updateConfig` (lines 443-529). -/
def updateConfig (W : World) (s : State) : State :=
  let s1 := (readAdvancedConfig W (readConfig W s)).set fun m => { m with configRead := true }
  let basic := basicConfigStep W s1
  let advanced := advancedConfigStep basic.1 basic.2
  if !advanced.2 ∧ advanced.1.retryConfigCount < 11 then
    advanced.1.step.set fun m => { m with nextConfigUpdateTs := W.millis advanced.1.io + 60000 }
  else advanced.1

/-- `setupHASS` (lines 2359-2374). -/
def setupHASS (s : State) : State :=
  if !s.nukiConfigValid then s
  else if s.prefs.nuki_id_opener ≠ s.nukiConfig.nukiId then s
  else
    (emit (.publishHASSConfig s.nukiConfig.nukiId s.prefs.opener_continuous_mode) s).set
      fun m => { m with hassSetupCompleted := true }

/-- `notify` (lines 2303-2311) for the event `KeyTurnerStatusUpdated`. -/
def notify (s : State) : State :=
  emit (.publishStatusUpdated true) (s.set fun m => { m with statusUpdated := true })

/-! ## One pass of `update` -/

/-- The pairing block of `update` (lines 123-143); the flag tells whether the pass
goes on (`false` is the early `return` after a failed pairing). -/
def pairingStep (W : World) (s : State) : State × Bool :=
  if !s.paired then
    let s1 := emit (.publishBleAddress "") s
    let ok := W.pairNuki s1.io
    let s2 := emit (.pairNuki s1.prefs.register_opener_as_app) s1.step
    if ok then
      (emit (.publishBleAddress (W.getBleAddress s2.io))
          (s2.step.set fun m => { m with paired := true }), true)
    else (s2, false)
  else (s, true)

/-- The condition of the beacon watchdog (lines 149-153); the product is an `int`. -/
def watchdogTrips (s : State) (ts lastReceivedBeaconTs : Int) : Bool :=
  decide (s.restartBeaconTimeout > 0 ∧
    ts > 60000 ∧
    lastReceivedBeaconTs > 0 ∧
    s.disableBleWatchdogTs < ts ∧
    ts - lastReceivedBeaconTs > wrapInt32 (s.restartBeaconTimeout * 1000))

/-- The query-now test `(queryCommands & bit) > 0` on the `uint8_t` bitmask. -/
def queryBit (queryCommands bit : Nat) : Bool :=
  decide (Nat.land (queryCommands % 256) bit > 0)

/-- Lock state refresh of `update` (lines 164-170). -/
def lockStateStep (W : World) (ts : Int) (queryCommands : Nat) (s : State) : State :=
  if s.statusUpdated ∨ s.nextLockStateUpdateTs = 0 ∨ ts ≥ s.nextLockStateUpdateTs ∨
      queryBit queryCommands W.QUERY_COMMAND_LOCKSTATE then
    let s1 := updateKeyTurnerState W
      (s.set fun m => { m with
        statusUpdated := false
        nextLockStateUpdateTs := ts + wrapInt32 (s.intervalLockstate * 1000) })
    emit (.publishStatusUpdated s1.statusUpdated) s1
  else s

/-- Battery refresh of `update` (lines 171-175). -/
def batteryStep (W : World) (ts : Int) (queryCommands : Nat) (s : State) : State :=
  if s.nextBatteryReportTs = 0 ∨ ts > s.nextBatteryReportTs ∨
      queryBit queryCommands W.QUERY_COMMAND_BATTERY then
    updateBatteryState W
      (s.set fun m => { m with nextBatteryReportTs := ts + wrapInt32 (s.intervalBattery * 1000) })
  else s

/-- Config refresh of `update` (lines 176-184). -/
def configStep (W : World) (ts : Int) (queryCommands : Nat) (s : State) : State :=
  if s.nextConfigUpdateTs = 0 ∨ ts > s.nextConfigUpdateTs ∨
      queryBit queryCommands W.QUERY_COMMAND_CONFIG then
    let s1 := updateConfig W
      (s.set fun m => { m with nextConfigUpdateTs := ts + wrapInt32 (s.intervalConfig * 1000) })
    if s1.hassEnabled ∧ !s1.hassSetupCompleted then setupHASS s1 else s1
  else s

/-- The three follow-up fetches of `update` (lines 185-199). -/
def followUpStep (W : World) (ts : Int) (s : State) : State :=
  let s1 :=
    if s.waitAuthLogUpdateTs ≠ 0 ∧ ts > s.waitAuthLogUpdateTs then
      updateAuthData W true (s.set fun m => { m with waitAuthLogUpdateTs := 0 })
    else s
  let s2 :=
    if s1.waitKeypadUpdateTs ≠ 0 ∧ ts > s1.waitKeypadUpdateTs then
      updateKeypad W true (s1.set fun m => { m with waitKeypadUpdateTs := 0 })
    else s1
  if s2.waitTimeControlUpdateTs ≠ 0 ∧ ts > s2.waitTimeControlUpdateTs then
    updateTimeControl W true (s2.set fun m => { m with waitTimeControlUpdateTs := 0 })
  else s2

/-- HASS set-up after a reconnect (lines 200-203); `reconnected` is asked only when
the first two conditions hold. -/
def hassStep (W : World) (s : State) : State :=
  if s.hassEnabled ∧ s.configRead then
    if W.reconnected s.io then setupHASS s.step else s.step
  else s

/-- RSSI publication of `update` (lines 204-214). -/
def rssiStep (W : World) (ts : Int) (s : State) : State :=
  if s.rssiPublishInterval > 0 ∧ (s.nextRssiTs = 0 ∨ ts > s.nextRssiTs) then
    let rssi := W.getRssi s.io
    let s1 := (s.step.set fun m => { m with nextRssiTs := ts + s.rssiPublishInterval })
    if rssi ≠ s1.lastRssi then
        (emit (.publishRssi rssi) s1).set fun m => { m with lastRssi := rssi }
    else s1
  else s

/-- Periodic keypad refresh of `update` (lines 216-220). -/
def keypadStep (W : World) (ts : Int) (queryCommands : Nat) (s : State) : State :=
  if s.hasKeypad ∧ s.keypadEnabled ∧
      (s.nextKeypadUpdateTs = 0 ∨ ts > s.nextKeypadUpdateTs ∨
        queryBit queryCommands W.QUERY_COMMAND_KEYPAD) then
    updateKeypad W false
      (s.set fun m => { m with nextKeypadUpdateTs := ts + wrapInt32 (s.intervalKeypad * 1000) })
  else s

/-- Dispatch of the pending lock action in `update` (lines 222-273). -/
def dispatchLockAction (W : World) (ts : Int) (s : State) : State :=
  if s.nextLockAction ≠ .noAction ∧ ts > s.nextRetryTs then
    let cmdResult := W.cmdResult s.io
    let s1 := emit (.publishCommandResult (cmdResultToString cmdResult))
      (emit (.lockAction s.nextLockAction) s.step)
    let s2 :=
      if cmdResult = .Success then
        let s3 := emit (.publishRetry "--")
          (s1.set fun m => { m with retryCount := 0, nextLockAction := .noAction })
        if s3.intervalLockstate > 10 then
            (s3.set fun m => { m with nextLockStateUpdateTs := ts + 10 * 1000 })
        else s3
      else if s1.retryCount < s1.nrOfRetries then
        let s3 := emit (.publishRetry (toString (s1.retryCount + 1))) s1
        s3.step.set fun m => { m with
          nextRetryTs := W.millis s3.io + s3.retryDelay
          retryCount := s3.retryCount + 1 }
      else
        (emit (.publishRetry "failed") s1).set fun m => { m with
          retryCount := 0
          nextRetryTs := 0
          nextLockAction := .noAction }
    postponeBleWatchdog W s2
  else s

/-- Clearing of the authorization data in `update` (lines 275-279). -/
def clearAuthDataStep (s : State) : State :=
  if s.clearAuthData then
    (emit .clearAuthorizationInfo s).set fun m => { m with clearAuthData := false }
  else s

/-- The part of `update` after the watchdog (lines 162-281), for the pass that read
the clock value `ts` and the query bitmask `queryCommands`. -/
def updateBody (W : World) (ts : Int) (queryCommands : Nat) (s : State) : State :=
  let s1 := emit .updateConnectionState s
  let s2 := lockStateStep W ts queryCommands s1
  let s3 := batteryStep W ts queryCommands s2
  let s4 := configStep W ts queryCommands s3
  let s5 := followUpStep W ts s4
  let s6 := hassStep W s5
  let s7 := rssiStep W ts s6
  let s8 := keypadStep W ts queryCommands s7
  let s9 := dispatchLockAction W ts s8
  let s10 := clearAuthDataStep s9
  (s10.set fun m => { m with lastKeyTurnerState := s10.keyTurnerState })

/-- `NukiOpenerWrapper::update` (lines 121-282).  `restartEsp` does not return: the
pass ends with that call. -/
def update (W : World) (s : State) : State :=
  let (s1, goOn) := pairingStep W s
  if !goOn then s1
  else
    let lastReceivedBeaconTs := W.getLastReceivedBeaconTs s1.io
    let ts := W.millis (s1.io + 1)
    let queryCommands := W.queryCommands (s1.io + 2)
    let s2 := { s1 with io := s1.io + 3 }
    if watchdogTrips s2 ts lastReceivedBeaconTs then
      emit (.restartEsp .BLEBeaconWatchdog) s2
    else updateBody W ts queryCommands s2

/-- The state with an empty trace. -/
def State.fresh (s : State) : State :=
  { s with trace := [] }

/-- The calls made by `f` from state `s`, whatever was recorded before. -/
def callsOf (f : State → State) (s : State) : List Event :=
  (f s.fresh).trace

/-! ## Arduino `String` helpers -/

/-- The value of a C++ `bool` used as an integer. -/
def boolToNat (b : Bool) : Nat :=
  if b then 1 else 0

/-- Conversion to `uint8_t`. -/
def toUInt8 (x : Int) : Nat :=
  (x % 256).toNat

/-- Conversion to `uint16_t`. -/
def toUInt16 (x : Int) : Nat :=
  (x % 65536).toNat

/-- The decimal digits at the head of a character list, as a number. -/
def leadingDigits : List Char → Nat → Nat
  | [], acc => acc
  | c :: cs, acc => if c.isDigit then leadingDigits cs (acc * 10 + (c.toNat - 48)) else acc

/-- The result of `strtol` is kept inside the 32-bit `long` of the target. -/
def clampLong (x : Int) : Int :=
  if x > 2147483647 then 2147483647 else if x < -2147483648 then -2147483648 else x

/-- The C `isspace` test. -/
def isSpace (c : Char) : Bool :=
  c = ' ' || (9 ≤ c.toNat && c.toNat ≤ 13)

/-- `String::toInt` (`atol`): optional white space, an optional sign, then the
leading decimal digits; 0 when there is none. -/
def toInt (str : String) : Int :=
  match str.data.dropWhile isSpace with
  | '-' :: rest => clampLong (-(leadingDigits rest 0 : Int))
  | '+' :: rest => clampLong (leadingDigits rest 0)
  | cs => clampLong (leadingDigits cs 0)

/-- `String::substring(left, right)` for `left ≤ right`. -/
def substring (str : String) (left right : Nat) : String :=
  String.mk ((str.data.drop left).take (right - left))

/-- Whether `sub` occurs in the character list (`indexOf(sub) >= 0`). -/
def occursIn (sub : List Char) : List Char → Bool
  | [] => sub.isEmpty
  | c :: cs => sub.isPrefixOf (c :: cs) || occursIn sub cs

/-- The `memcpy` of at most 20 bytes of a name into a zeroed name buffer. -/
def nameBuffer (name : String) : String :=
  String.mk (name.data.take 20)

/-- The weekday bitmask summed by the handlers (lines 1814-1820). -/
def weekdaysToInt (weekdays : String) : Nat :=
  (if occursIn "mon".data weekdays.data then 64 else 0) +
  (if occursIn "tue".data weekdays.data then 32 else 0) +
  (if occursIn "wed".data weekdays.data then 16 else 0) +
  (if occursIn "thu".data weekdays.data then 8 else 0) +
  (if occursIn "fri".data weekdays.data then 4 else 0) +
  (if occursIn "sat".data weekdays.data then 2 else 0) +
  (if occursIn "sun".data weekdays.data then 1 else 0)

/-- How a handler left its command loop. -/
inductive LoopExit
  | returned
  | finished (result : CmdResult)
  | running
  deriving DecidableEq, Repr

/-- The command loop of a control-plane handler,
`while(_retryCount < _nrOfRetries + 1) { round; if(result != Success) ++_retryCount;
else break; }`.  One pass of the loop body is `round`: it gives `none` when the body
executes `return` (after publishing what it publishes), and the transport result
with the handler locals otherwise.  `running` is a loop that has not ended after
`fuel` rounds. -/
def handlerLoop {σ : Type} (round : σ → State → Option (CmdResult × σ) × State) :
    Nat → CmdResult → σ → State → LoopExit × State
  | 0, result, _, s =>
    if s.retryCount < s.nrOfRetries + 1 then (.running, s) else (.finished result, s)
  | fuel + 1, result, v, s =>
    if s.retryCount < s.nrOfRetries + 1 then
      match round v s with
      | (none, s1) => (.returned, s1)
      | (some (r, v1), s1) =>
        if r ≠ .Success then
          handlerLoop round fuel r v1 (s1.set fun m => { m with retryCount := s1.retryCount + 1 })
        else (.finished r, s1)
    else (.finished result, s)

/-! ## The legacy keypad handler -/

/-- The loop body of `onKeypadCommandReceived` (lines 1488-1575).
`updateKeypad(false)` inside the body writes `_retryCount`. -/
def keypadCommandRound (W : World) (command : String) (id : Nat) (name : String)
    (enabled : Int) (idExists : Bool) (codeInt : Int) (codeValid : Bool) (_ : Unit)
    (s : State) : Option (CmdResult × Unit) × State :=
  let fail (str : String) : Option (CmdResult × Unit) × State :=
    (none, emit (.publishKeypadCommandResult str) s)
  if command = "add" then
    if name = "" ∨ name = "--" then fail "MissingParameterName"
    else if codeInt = 0 then fail "MissingParameterCode"
    else if !codeValid then fail "CodeInvalid"
    else
      let entry : NewKeypadEntry := { name := nameBuffer name, code := codeInt.toNat }
      (some (W.cmdResult s.io, ()), updateKeypad W false (emit (.addKeypadEntry entry) s.step))
  else if command = "delete" then
    if !idExists then fail "UnknownId"
    else
      (some (W.cmdResult s.io, ()),
        updateKeypad W false (emit (.deleteKeypadEntry (id % 65536)) s.step))
  else if command = "update" then
    if name = "" ∨ name = "--" then fail "MissingParameterName"
    else if codeInt = 0 then fail "MissingParameterCode"
    else if !codeValid then fail "CodeInvalid"
    else if !idExists then fail "UnknownId"
    else
      let entry : UpdatedKeypadEntry :=
        { codeId := id % 65536, name := nameBuffer name, code := codeInt.toNat,
          enabled := if enabled = 0 then 0 else 1 }
      (some (W.cmdResult s.io, ()), updateKeypad W false (emit (.updateKeypadEntry entry) s.step))
  else if command = "--" then (none, s)
  else fail "UnknownCommand"

/-- `onKeypadCommandReceived` (lines 1457-1590), run for at most `fuel` rounds of
its loop: the loop has no bound in terms of `_nrOfRetries`, because its body resets
`_retryCount`. -/
def onKeypadCommandReceived (W : World) (fuel : Nat) (command : String) (id : Nat)
    (name code : String) (enabled : Int) (s : State) : State :=
  if s.prefs.disable_non_json then s
  else if !s.prefs.keypad_control_enabled then
    emit (.publishKeypadCommandResult "KeypadControlDisabled") s
  else if !s.hasKeypad then
    if s.configRead then emit (.publishKeypadCommandResult "KeypadNotAvailable") s else s
  else if !s.keypadEnabled then s
  else
    let idExists := decide (id ∈ s.keypadCodeIds)
    let codeInt := toInt code
    let codeValid := decide (codeInt > 100000 ∧ codeInt < 1000000 ∧ '0' ∉ code.data)
    match handlerLoop (keypadCommandRound W command id name enabled idExists codeInt codeValid)
        fuel .unset () (s.set fun m => { m with retryCount := 0 }) with
    | (.finished result, s1) =>
      if result ≠ .unset then emit (.publishKeypadCommandResult (cmdResultToString result)) s1
      else s1
    | (_, s1) => s1

/-! ## The JSON keypad handler -/

/-- What the ArduinoJson accessors of `onKeypadJsonCommandReceived` return for a
document that parsed: `action` is `json["action"].as<const char*>()` (`none` is the
null pointer), `codeId` is `json["codeId"].as<unsigned int>()`, `codeStr` is
`json["code"].as<String>()`, and each other field is `none` when `containsKey` is
false and the converted member otherwise. -/
structure KeypadJson where
  action : Option String := none
  codeId : Nat := 0
  code : Option Nat := none
  codeStr : String := ""
  enabled : Option Nat := none
  timeLimited : Option Nat := none
  name : Option String := none
  allowedFrom : Option String := none
  allowedUntil : Option String := none
  allowedWeekdays : Option String := none
  allowedFromTime : Option String := none
  allowedUntilTime : Option String := none
  deriving DecidableEq, Repr

/-- The locals of the handler that are declared before its loop and written inside
it, so that a later round sees what an earlier round stored. -/
structure KeypadVars where
  code : Nat := 12
  enabled : Nat := 2
  timeLimited : Nat := 2
  allowedFrom : String := ""
  allowedUntil : String := ""
  allowedFromTime : String := ""
  allowedUntilTime : String := ""
  oldName : String := ""
  deriving DecidableEq, Repr

/-- The locals declared inside the loop body (lines 1718-1722). -/
structure KeypadWindows where
  allowedFromAr : DateTime := {}
  allowedUntilAr : DateTime := {}
  allowedFromTimeAr : TimeOfDay := {}
  allowedUntilTimeAr : TimeOfDay := {}
  allowedWeekdaysInt : Nat := 0
  deriving DecidableEq, Repr

/-- The loop-body arrays before anything is stored in them. -/
def uninitWindows (W : World) (io : Nat) : KeypadWindows :=
  { allowedFromAr :=
      { year := W.uninit io 0, month := W.uninit io 1, day := W.uninit io 2,
        hour := W.uninit io 3, min := W.uninit io 4, sec := W.uninit io 5 }
    allowedUntilAr :=
      { year := W.uninit io 6, month := W.uninit io 7, day := W.uninit io 8,
        hour := W.uninit io 9, min := W.uninit io 10, sec := W.uninit io 11 }
    allowedFromTimeAr := { hour := W.uninit io 12, min := W.uninit io 13 }
    allowedUntilTimeAr := { hour := W.uninit io 14, min := W.uninit io 15 }
    allowedWeekdaysInt := 0 }

/-- The six fields read from a `YYYY-MM-DD HH:MM:SS` text (lines 1730-1735). -/
def parseDateTime (str : String) : DateTime :=
  { year := toUInt16 (toInt (substring str 0 4))
    month := toUInt8 (toInt (substring str 5 7))
    day := toUInt8 (toInt (substring str 8 10))
    hour := toUInt8 (toInt (substring str 11 13))
    min := toUInt8 (toInt (substring str 14 16))
    sec := toUInt8 (toInt (substring str 17 19)) }

/-- The range test on the six fields (line 1737). -/
def dateTimeOutOfRange (d : DateTime) : Bool :=
  decide (d.year < 2000 ∨ d.year > 3000 ∨ d.month < 1 ∨ d.month > 12 ∨ d.day < 1 ∨
    d.day > 31 ∨ d.hour < 0 ∨ d.hour > 23 ∨ d.min < 0 ∨ d.min > 59 ∨ d.sec < 0 ∨ d.sec > 59)

/-- The two fields read from an `HH:MM` text (lines 1778-1779). -/
def parseTimeOfDay (str : String) : TimeOfDay :=
  { hour := toUInt8 (toInt (substring str 0 2))
    min := toUInt8 (toInt (substring str 3 5)) }

/-- The range test on hour and minute (line 1781). -/
def timeOfDayOutOfRange (t : TimeOfDay) : Bool :=
  decide (t.hour < 0 ∨ t.hour > 23 ∨ t.min < 0 ∨ t.min > 59)

/-- The name and code checks of an add or update (lines 1692-1716); the error is the
result string published before the `return`. -/
def checkNameCode (action name : String) (codeStr : String) (v : KeypadVars) :
    Except String Unit :=
  if name.length < 1 ∧ action ≠ "update" then .error "noNameSet"
  else if boolToNat (v.code == 0) = 12 then
    let codeValid := decide (v.code > 100000 ∧ v.code < 1000000 ∧ '0' ∉ codeStr.data)
    if !codeValid then .error "noValidCodeSet" else .ok ()
  else if action ≠ "update" then .error "noCodeSet"
  else .ok ()

/-- The time-window validation of an add or update (lines 1718-1821). -/
def parseWindows (W : World) (io : Nat) (allowedWeekdays : String) (v : KeypadVars) :
    Except String KeypadWindows :=
  let w0 := uninitWindows W io
  if v.timeLimited = 1 then do
    let w1 ←
      if v.allowedFrom.length > 0 then
        if v.allowedFrom.length = 19 then
          let d := parseDateTime v.allowedFrom
          if dateTimeOutOfRange d then .error "invalidAllowedFrom"
          else pure { w0 with allowedFromAr := d }
        else .error "invalidAllowedFrom"
      else pure w0
    let w2 ←
      if v.allowedUntil.length > 0 then
        if boolToNat (decide (v.allowedUntil.length > 0)) = 19 then
          let d := parseDateTime v.allowedUntil
          if dateTimeOutOfRange d then .error "invalidAllowedUntil"
          else pure { w1 with allowedUntilAr := d }
        else .error "invalidAllowedUntil"
      else pure w1
    let w3 ←
      if v.allowedFromTime.length > 0 then
        if v.allowedFromTime.length = 5 then
          let t := parseTimeOfDay v.allowedFromTime
          if timeOfDayOutOfRange t then .error "invalidAllowedFromTime"
          else pure { w2 with allowedFromTimeAr := t }
        else .error "invalidAllowedFromTime"
      else pure w2
    let w4 ←
      if v.allowedUntilTime.length > 0 then
        if v.allowedUntilTime.length = 5 then
          let t := parseTimeOfDay v.allowedUntilTime
          if timeOfDayOutOfRange t then .error "invalidAllowedUntilTime"
          else pure { w3 with allowedUntilTimeAr := t }
        else .error "invalidAllowedUntilTime"
      else pure w3
    pure { w4 with allowedWeekdaysInt := weekdaysToInt allowedWeekdays }
  else pure w0

/-- Storing six `unsigned int` words in the date fields of an entry (`uint16_t` year,
`uint8_t` for the rest). -/
def storeDateTime (d : DateTime) : DateTime :=
  { year := d.year % 65536, month := d.month % 256, day := d.day % 256,
    hour := d.hour % 256, min := d.min % 256, sec := d.sec % 256 }

/-- Storing two `unsigned int` words in the `uint8_t` time fields of an entry. -/
def storeTimeOfDay (t : TimeOfDay) : TimeOfDay :=
  { hour := t.hour % 256, min := t.min % 256 }

/-- The `NewKeypadEntry` built by an add (lines 1825-1864). -/
def newKeypadEntry (name : String) (v : KeypadVars) (w : KeypadWindows) : NewKeypadEntry :=
  { name := nameBuffer name
    code := v.code
    timeLimited := if v.timeLimited = 1 then 1 else 0
    allowedFrom := if v.allowedFrom.length > 0 then storeDateTime w.allowedFromAr else {}
    allowedUntil := if v.allowedUntil.length > 0 then storeDateTime w.allowedUntilAr else {}
    allowedWeekdays := w.allowedWeekdaysInt
    allowedFromTime :=
      if v.allowedFromTime.length > 0 then storeTimeOfDay w.allowedFromTimeAr else {}
    allowedUntilTime :=
      if v.allowedUntilTime.length > 0 then storeTimeOfDay w.allowedUntilTimeAr else {} }

/-- One pass of the body of the `for` loop over the fetched entries
(lines 1896-1940); the flag is `foundExisting`. -/
def mergeExisting (codeId : Nat) (name allowedWeekdays : String)
    (acc : KeypadVars × KeypadWindows × Bool) (entry : KeypadEntry) :
    KeypadVars × KeypadWindows × Bool :=
  let (v, w, found) := acc
  if codeId ≠ entry.codeId then (v, w, found)
  else
    let v1 := if name.length < 1 then { v with oldName := entry.name } else v
    let v2 := if v1.code = 12 then { v1 with code := entry.code } else v1
    let v3 := if v2.enabled = 2 then { v2 with enabled := entry.enabled } else v2
    let v4 := if v3.timeLimited = 2 then { v3 with timeLimited := entry.timeLimited } else v3
    let (v5, w1) :=
      if v4.allowedFrom.length < 1 then
        ({ v4 with allowedFrom := "old" }, { w with allowedFromAr := entry.allowedFrom })
      else (v4, w)
    let (v6, w2) :=
      if v5.allowedUntil.length < 1 then
        ({ v5 with allowedUntil := "old" }, { w1 with allowedUntilAr := entry.allowedUntil })
      else (v5, w1)
    let w3 :=
      if allowedWeekdays.length < 1 then { w2 with allowedWeekdaysInt := entry.allowedWeekdays }
      else w2
    let (v7, w4) :=
      if v6.allowedFromTime.length < 1 then
        ({ v6 with allowedFromTime := "old" },
            { w3 with allowedFromTimeAr := entry.allowedFromTime })
      else (v6, w3)
    let (v8, w5) :=
      if v7.allowedUntilTime.length < 1 then
        ({ v7 with allowedUntilTime := "old" },
          { w4 with allowedUntilTimeAr := entry.allowedUntilTime })
      else (v7, w4)
    (v8, w5, true)

/-- The `UpdatedKeypadEntry` built by an update (lines 1955-2012). -/
def updatedKeypadEntry (codeId : Nat) (name : String) (v : KeypadVars) (w : KeypadWindows) :
    UpdatedKeypadEntry :=
  let windows := v.enabled = 1 ∧ v.timeLimited = 1
  { codeId := codeId
    code := v.code
    name := if boolToNat (name.length == 0) > 0 then nameBuffer v.oldName else nameBuffer name
    enabled := v.enabled
    timeLimited := v.timeLimited
    allowedFrom :=
      if windows ∧ v.allowedFrom.length > 0 then storeDateTime w.allowedFromAr else {}
    allowedUntil :=
      if windows ∧ v.allowedUntil.length > 0 then storeDateTime w.allowedUntilAr else {}
    allowedWeekdays := if windows then w.allowedWeekdaysInt else 0
    allowedFromTime :=
      if windows ∧ v.allowedFromTime.length > 0 then storeTimeOfDay w.allowedFromTimeAr else {}
    allowedUntilTime :=
      if windows ∧ v.allowedUntilTime.length > 0 then storeTimeOfDay w.allowedUntilTimeAr
      else {} }

/-- The update branch up to the write (lines 1873-2014): the re-fetch of the keypad
list, the merge with the existing entry and the `updateKeypadEntry` call.  The result
is the error string of an early `return`, or the transport result with the locals as
the round leaves them. -/
def keypadJsonUpdate (W : World) (codeId : Nat) (idExists : Bool)
    (name allowedWeekdays : String) (v : KeypadVars) (w : KeypadWindows) (s : State) :
    Except String (CmdResult × KeypadVars) × State :=
  if codeId = 0 then (.error "noCodeIdSet", s)
  else if !idExists then (.error "noExistingCodeIdSet", s)
  else
    let resultKp := W.cmdResult s.io
    let s1 := emit (.retrieveKeypadEntries (s.prefs.keypad_max_entries.getD W.MAX_KEYPAD)) s.step
    if resultKp = .Success then
      let entries := W.keypadEntries s1.io
      let s2 := s1.step
      let (v1, w1, foundExisting) :=
        entries.foldl (mergeExisting codeId name allowedWeekdays) (v, w, false)
      if !foundExisting then (.error "failedToRetrieveExistingKeypadEntry", s2)
      else
        let result := W.cmdResult s2.io
        (.ok (result, v1), emit (.updateKeypadEntry (updatedKeypadEntry codeId name v1 w1)) s2.step)
    else (.error "failedToRetrieveExistingKeypadEntry", s1)

/-- The loop body of `onKeypadJsonCommandReceived` (lines 1676-2024). -/
def keypadJsonRound (W : World) (action : String) (codeId : Nat) (idExists : Bool)
    (name codeStr allowedWeekdays : String) (v : KeypadVars) (s : State) :
    Option (CmdResult × KeypadVars) × State :=
  let fail (str : String) (t : State) : Option (CmdResult × KeypadVars) × State :=
    (none, emit (.publishKeypadJsonCommandResult str) t)
  if action = "delete" then
    if idExists then (some (W.cmdResult s.io, v), emit (.deleteKeypadEntry codeId) s.step)
    else fail "noExistingCodeIdSet" s
  else if action = "add" ∨ action = "update" then
    match checkNameCode action name codeStr v with
    | .error str => fail str s
    | .ok _ =>
      match parseWindows W s.io allowedWeekdays v with
      | .error str => fail str s
      | .ok w =>
        if action = "add" then
          (some (W.cmdResult s.io, v), emit (.addKeypadEntry (newKeypadEntry name v w)) s.step)
        else
          match keypadJsonUpdate W codeId idExists name allowedWeekdays v w s with
          | (.error str, s1) => fail str s1
          | (.ok (r, v1), s1) => (some (r, v1), s1)
  else fail "invalidAction" s

/-- `onKeypadJsonCommandReceived` (lines 1592-2047); `json` is `none` when
`deserializeJson` reports an error. -/
def onKeypadJsonCommandReceived (W : World) (json : Option KeypadJson) (s : State) : State :=
  if !isPinValid s then emit (.publishKeypadJsonCommandResult "noValidPinSet") s
  else if !s.prefs.keypad_control_enabled then
    emit (.publishKeypadJsonCommandResult "keypadControlDisabled") s
  else if !s.hasKeypad then
    if s.configRead ∧ s.nukiConfigValid then
      emit (.publishKeypadJsonCommandResult "keypadNotAvailable") s
    else emit (.publishKeypadJsonCommandResult "configNotReady") s
  else if !s.keypadEnabled then emit (.publishKeypadJsonCommandResult "keypadDisabled") s
  else
    match json with
    | none => emit (.publishKeypadJsonCommandResult "invalidJson") s
    | some j =>
      let codeId := j.codeId % 65536
      let v : KeypadVars :=
        { code := (j.code.getD 12) % 4294967296
          enabled := (j.enabled.getD 2) % 256
          timeLimited := (j.timeLimited.getD 2) % 256
          allowedFrom := j.allowedFrom.getD ""
          allowedUntil := j.allowedUntil.getD ""
          allowedFromTime := j.allowedFromTime.getD ""
          allowedUntilTime := j.allowedUntilTime.getD "" }
      match j.action with
      | none => emit (.publishKeypadJsonCommandResult "noActionSet") s
      | some action =>
        let idExists := decide (codeId ≠ 0 ∧ codeId ∈ s.keypadCodeIds)
        match handlerLoop (keypadJsonRound W action codeId idExists (j.name.getD "") j.codeStr
            (j.allowedWeekdays.getD "")) (loopFuel s) .unset v
            (s.set fun m => { m with retryCount := 0 }) with
        | (.finished result, s1) =>
          let s2 := updateKeypad W false s1
          if result ≠ .unset then
            emit (.publishKeypadJsonCommandResult (cmdResultToString result)) s2
          else s2
        | (_, s1) => s1

/-! ## The lock-action callback -/

/-- `onLockActionReceivedCallback` (lines 743-772); `none` is the null pointer and
`aclPrefs` the 17 words read from the preference `acl`. -/
def onLockActionReceivedCallback (value : Option String) (s : State) :
    LockActionResult × State :=
  match value with
  | none => (.UnknownAction, s)
  | some v =>
    if v.length > 0 then
      let action := lockActionToEnum v
      if action = .noAction then (.UnknownAction, s)
      else
        let aclPrefs := s.prefs.acl
        if (action = .ActivateRTO ∧ aclPrefs 9 = 1) ∨
            (action = .DeactivateRTO ∧ aclPrefs 10 = 1) ∨
            (action = .ElectricStrikeActuation ∧ aclPrefs 11 = 1) ∨
            (action = .ActivateCM ∧ aclPrefs 12 = 1) ∨
            (action = .DeactivateCM ∧ aclPrefs 13 = 1) ∨
            (action = .FobAction1 ∧ aclPrefs 14 = 1) ∨
            (action = .FobAction2 ∧ aclPrefs 15 = 1) ∨
            (action = .FobAction3 ∧ aclPrefs 16 = 1) then
          (.Success, (s.set fun m => { m with nextLockAction := action }))
        else (.AccessDenied, s)
    else (.UnknownAction, s)

/-- The index of the lock-action ACL word of each action, as the specification
lists them. -/
def aclIndex : LockAction → Nat
  | .ActivateRTO => 9
  | .DeactivateRTO => 10
  | .ElectricStrikeActuation => 11
  | .ActivateCM => 12
  | .DeactivateCM => 13
  | .FobAction1 => 14
  | .FobAction2 => 15
  | .FobAction3 => 16
  | .noAction => 0

/-! ## The config handler -/

/-- A member of the document of `onConfigUpdateReceived` as the ArduinoJson accessors
see it: `falsy` when `json[key]` converts to `false` (no such member, `null`, `false`,
0); `text str` when the member is a string, `str` being `json[key].as<const char*>()`;
`other` when the member converts to `true` without being a string (a non-zero number,
`true`, an array, an object), for which `as<const char*>()` is the null pointer. -/
inductive JsonMember
  | falsy
  | text (str : String)
  | other
  deriving DecidableEq, Repr

/-- What the ArduinoJson accessors of `onConfigUpdateReceived` return for a document
that parsed: the member of each key. -/
abbrev ConfigJson := String → JsonMember

/-- `jsonResult[key] = value` on the members of a JSON object: the value of an existing
member is replaced, a new member is appended. -/
def setMember (key value : String) : List (String × String) → List (String × String)
  | [] => [(key, value)]
  | (k, v) :: rest =>
    if k = key then (key, value) :: rest else (k, v) :: setMember key value rest

/-- The value of the member `key`, `none` when the object has no such member. -/
def getMember (key : String) : List (String × String) → Option String
  | [] => none
  | (k, v) :: rest => if k = key then some v else getMember key rest

/-- `atoi` of the C library: as `toInt`, the `int` and the `long` of the target being
the same 32-bit type. -/
def atoi (str : String) : Int :=
  toInt str

/-- Conversion to `int16_t`. -/
def toInt16 (x : Int) : Int :=
  (x + 32768) % 65536 - 32768

/-- The array `basicKeys` (line 949). -/
def basicKeys : List String :=
  ["name", "latitude", "longitude", "pairingEnabled", "buttonEnabled", "ledFlashEnabled",
   "timeZoneOffset", "dstMode", "fobAction1", "fobAction2", "fobAction3", "operatingMode",
   "advertisingMode", "timeZone"]

/-- The array `advancedKeys` (line 950). -/
def advancedKeys : List String :=
  ["intercomID", "busModeSwitch", "shortCircuitDuration", "electricStrikeDelay",
   "randomElectricStrikeDelay", "electricStrikeDuration", "disableRtoAfterRing", "rtoTimeout",
   "doorbellSuppression", "doorbellSuppressionDuration", "soundRing", "soundOpen", "soundRto",
   "soundCm", "soundConfirmation", "soundLevel", "singleButtonPressAction",
   "doubleButtonPressAction", "batteryType", "automaticBatteryTypeDetection"]

/-- What one pass of a key's command loop does before the test of `cmdResult`: it
stores a verdict in `jsonResult[key]`, or it issues a write command and stores its
result in `cmdResult`, or (no branch of the chain applies) nothing. -/
inductive KeyStep
  | verdict (str : String)
  | command (cmd : ConfigCommand)
  | skip
  deriving DecidableEq, Repr

/-- The shape of every branch but `name`:
`if(valid) { if(mirror == value) verdict "unchanged"; else cmdResult = write; }
else verdict "invalidValue"`. -/
def valueStep (valid unchanged : Bool) (cmd : ConfigCommand) : KeyStep :=
  if valid then
    if unchanged then .verdict "unchanged" else .command cmd
  else .verdict "invalidValue"

/-- The chain of branches inside the loop of a basic key (lines 980-1131). -/
def basicKeyStep (W : World) (config : Config) (key jsonchar : String) : KeyStep :=
  if key = "name" then
    if jsonchar.length ≤ 32 then
      if config.name = jsonchar then .verdict "unchanged" else .command (.setName jsonchar)
    else .verdict "valueTooLong"
  else if key = "latitude" then
    let keyvalue := W.atof jsonchar
    valueStep (decide (keyvalue > 0)) (decide (config.latitude = keyvalue))
      (.setLatitude keyvalue)
  else if key = "longitude" then
    let keyvalue := W.atof jsonchar
    valueStep (decide (keyvalue > 0)) (decide (config.longitude = keyvalue))
      (.setLongitude keyvalue)
  else if key = "pairingEnabled" then
    let keyvalue := toUInt8 (atoi jsonchar)
    valueStep (decide (keyvalue = 0 ∨ keyvalue = 1)) (decide (config.pairingEnabled = keyvalue))
      (.enablePairing (decide (keyvalue > 0)))
  else if key = "buttonEnabled" then
    let keyvalue := toUInt8 (atoi jsonchar)
    valueStep (decide (keyvalue = 0 ∨ keyvalue = 1)) (decide (config.buttonEnabled = keyvalue))
      (.enableButton (decide (keyvalue > 0)))
  else if key = "ledFlashEnabled" then
    let keyvalue := toUInt8 (atoi jsonchar)
    valueStep (decide (keyvalue = 0 ∨ keyvalue = 1))
      (decide (config.ledFlashEnabled = keyvalue)) (.enableLedFlash (decide (keyvalue > 0)))
  else if key = "timeZoneOffset" then
    let keyvalue := toInt16 (atoi jsonchar)
    valueStep (decide (keyvalue ≥ 0 ∧ keyvalue ≤ 60)) (decide (config.timeZoneOffset = keyvalue))
      (.setTimeZoneOffset keyvalue)
  else if key = "dstMode" then
    let keyvalue := toUInt8 (atoi jsonchar)
    valueStep (decide (keyvalue = 0 ∨ keyvalue = 1)) (decide (config.dstMode = keyvalue))
      (.enableDst (decide (keyvalue > 0)))
  else if key = "fobAction1" then
    let fobAct1 := fobActionToInt jsonchar
    valueStep (decide (fobAct1 ≠ 99)) (decide (config.fobAction1 = fobAct1))
      (.setFobAction 1 fobAct1)
  else if key = "fobAction2" then
    let fobAct2 := fobActionToInt jsonchar
    valueStep (decide (fobAct2 ≠ 99)) (decide (config.fobAction2 = fobAct2))
      (.setFobAction 2 fobAct2)
  else if key = "fobAction3" then
    let fobAct3 := fobActionToInt jsonchar
    valueStep (decide (fobAct3 ≠ 99)) (decide (config.fobAction3 = fobAct3))
      (.setFobAction 3 fobAct3)
  else if key = "operatingMode" then
    let opmode := operatingModeToInt jsonchar
    valueStep (decide (opmode ≠ 99)) (decide (config.operatingMode = opmode))
      (.setOperatingMode opmode)
  else if key = "advertisingMode" then
    let advmode := advertisingModeToEnum jsonchar
    valueStep (decide (advmode ≠ .invalid)) (decide (config.advertisingMode = advmode))
      (.setAdvertisingMode advmode)
  else if key = "timeZone" then
    let tzid := timeZoneToEnum jsonchar
    valueStep (decide (tzid ≠ .invalid)) (decide (config.timeZoneId = tzid))
      (.setTimeZoneId tzid)
  else .skip

/-- The chain of branches inside the loop of an advanced key (lines 1170-1389).  The
tests `keyvalue >= 0` on unsigned values are kept as written. -/
def advancedKeyStep (config : AdvancedConfig) (key jsonchar : String) : KeyStep :=
  if key = "intercomID" then
    let keyvalue := toUInt16 (atoi jsonchar)
    valueStep (decide (keyvalue ≥ 0)) (decide (config.intercomID = keyvalue))
      (.setIntercomID keyvalue)
  else if key = "busModeSwitch" then
    let keyvalue := toUInt8 (atoi jsonchar)
    valueStep (decide (keyvalue = 0 ∨ keyvalue = 1)) (decide (config.busModeSwitch = keyvalue))
      (.setBusModeSwitch (decide (keyvalue > 0)))
  else if key = "shortCircuitDuration" then
    let keyvalue := toUInt16 (atoi jsonchar)
    valueStep (decide (keyvalue ≥ 0)) (decide (config.shortCircuitDuration = keyvalue))
      (.setShortCircuitDuration keyvalue)
  else if key = "electricStrikeDelay" then
    let keyvalue := toUInt16 (atoi jsonchar)
    valueStep (decide (keyvalue ≥ 0 ∧ keyvalue ≤ 30000))
      (decide (config.electricStrikeDelay = keyvalue)) (.setElectricStrikeDelay keyvalue)
  else if key = "randomElectricStrikeDelay" then
    let keyvalue := toUInt8 (atoi jsonchar)
    valueStep (decide (keyvalue = 0 ∨ keyvalue = 1))
      (decide (config.randomElectricStrikeDelay = keyvalue))
      (.enableRandomElectricStrikeDelay (decide (keyvalue > 0)))
  else if key = "electricStrikeDuration" then
    let keyvalue := toUInt16 (atoi jsonchar)
    valueStep (decide (keyvalue ≥ 1000 ∧ keyvalue ≤ 30000))
      (decide (config.electricStrikeDuration = keyvalue)) (.setElectricStrikeDuration keyvalue)
  else if key = "disableRtoAfterRing" then
    let keyvalue := toUInt8 (atoi jsonchar)
    valueStep (decide (keyvalue = 0 ∨ keyvalue = 1))
      (decide (config.disableRtoAfterRing = keyvalue))
      (.disableRtoAfterRing (decide (keyvalue > 0)))
  else if key = "rtoTimeout" then
    let keyvalue := toUInt8 (atoi jsonchar)
    valueStep (decide (keyvalue ≥ 5 ∧ keyvalue ≤ 60)) (decide (config.rtoTimeout = keyvalue))
      (.setRtoTimeout keyvalue)
  else if key = "doorbellSuppression" then
    let dbsupr := doorbellSuppressionToInt jsonchar
    valueStep (decide (dbsupr ≠ 99)) (decide (config.doorbellSuppression = dbsupr))
      (.setDoorbellSuppression dbsupr)
  else if key = "doorbellSuppressionDuration" then
    let keyvalue := toUInt16 (atoi jsonchar)
    valueStep (decide (keyvalue ≥ 500 ∧ keyvalue ≤ 10000))
      (decide (config.doorbellSuppressionDuration = keyvalue))
      (.setDoorbellSuppressionDuration keyvalue)
  else if key = "soundRing" then
    let sound := soundToInt jsonchar
    valueStep (decide (sound ≠ 99)) (decide (config.soundRing = sound)) (.setSoundRing sound)
  else if key = "soundOpen" then
    let sound := soundToInt jsonchar
    valueStep (decide (sound ≠ 99)) (decide (config.soundOpen = sound)) (.setSoundOpen sound)
  else if key = "soundRto" then
    let sound := soundToInt jsonchar
    valueStep (decide (sound ≠ 99)) (decide (config.soundRto = sound)) (.setSoundRto sound)
  else if key = "soundCm" then
    let sound := soundToInt jsonchar
    valueStep (decide (sound ≠ 99)) (decide (config.soundCm = sound)) (.setSoundCm sound)
  else if key = "soundConfirmation" then
    let keyvalue := toUInt8 (atoi jsonchar)
    valueStep (decide (keyvalue = 0 ∨ keyvalue = 1))
      (decide (config.soundConfirmation = keyvalue))
      (.enableSoundConfirmation (decide (keyvalue > 0)))
  else if key = "soundLevel" then
    let keyvalue := toUInt8 (atoi jsonchar)
    valueStep (decide (keyvalue ≥ 0 ∧ keyvalue ≤ 255)) (decide (config.soundLevel = keyvalue))
      (.setSoundLevel keyvalue)
  else if key = "singleButtonPressAction" then
    let sbpa := buttonPressActionToEnum jsonchar
    valueStep (decide (sbpa ≠ .invalid)) (decide (config.singleButtonPressAction = sbpa))
      (.setSingleButtonPressAction sbpa)
  else if key = "doubleButtonPressAction" then
    let dbpa := buttonPressActionToEnum jsonchar
    valueStep (decide (dbpa ≠ .invalid)) (decide (config.doubleButtonPressAction = dbpa))
      (.setDoubleButtonPressAction dbpa)
  else if key = "batteryType" then
    let battype := batteryTypeToEnum jsonchar
    valueStep (decide (battype ≠ .invalid)) (decide (config.batteryType = battype))
      (.setBatteryType battype)
  else if key = "automaticBatteryTypeDetection" then
    let keyvalue := toUInt8 (atoi jsonchar)
    valueStep (decide (keyvalue = 0 ∨ keyvalue = 1))
      (decide (config.automaticBatteryTypeDetection = keyvalue))
      (.enableAutoBatteryTypeDetection (decide (keyvalue > 0)))
  else .skip

/-- The locals of `onConfigUpdateReceived` that its loops write. -/
structure ConfigLocals where
  basicUpdated : Bool := false
  advancedUpdated : Bool := false
  cmdResult : CmdResult := .Error
  jsonResult : List (String × String) := []
  deriving DecidableEq, Repr

/-- One pass of the body of a key's command loop, up to the test of `cmdResult`:
`step` is the branch of the key, read from the wrapper. -/
def configRound (W : World) (step : State → KeyStep) (key : String) (v : ConfigLocals)
    (s : State) : ConfigLocals × State :=
  match step s with
  | .verdict str => ({ v with jsonResult := setMember key str v.jsonResult }, s)
  | .command cmd =>
    ({ v with cmdResult := W.cmdResult s.io },
      emit (.configCommand cmd (W.cmdResult s.io)) s.step)
  | .skip => (v, s)

/-- The command loop of one key (lines 978-1137 and 1168-1395),
`while(_retryCount < _nrOfRetries + 1) { branch; if(cmdResult != Success)
++_retryCount; else break; }`. -/
def configLoop (W : World) (step : State → KeyStep) (key : String) :
    Nat → ConfigLocals → State → ConfigLocals × State
  | 0, v, s => (v, s)
  | fuel + 1, v, s =>
    if s.retryCount < s.nrOfRetries + 1 then
      let r := configRound W step key v s
      if r.1.cmdResult ≠ .Success then
        configLoop W step key fuel r.1
          (r.2.set fun m => { m with retryCount := r.2.retryCount + 1 })
      else r
    else (v, s)

/-- What follows the command loop of a key (lines 1139-1145 and 1397-1403): the
update flag is set when the loop ended in `Success`, and a key without a verdict gets
the text of `cmdResult`.  `markUpdated` is the assignment `basicUpdated = true` or
`advancedUpdated = true`. -/
def configVerdict (markUpdated : ConfigLocals → ConfigLocals) (key : String)
    (v : ConfigLocals) : ConfigLocals :=
  let v1 := if v.cmdResult = .Success then markUpdated v else v
  if (getMember key v1.jsonResult).isNone then
    { v1 with jsonResult := setMember key (cmdResultToString v1.cmdResult) v1.jsonResult }
  else v1

/-- The body of a `for` loop over the keys for a member that is a string, from the
test of its length on (lines 967-1147 and 1157-1405): `jsonchar` is
`json[key].as<const char*>()` and `aclWord` the ACL word of the key. -/
def configText (W : World) (step : State → String → String → KeyStep)
    (markUpdated : ConfigLocals → ConfigLocals) (aclWord : Nat) (key jsonchar : String)
    (v : ConfigLocals) (s : State) : ConfigLocals × State :=
  if jsonchar.length = 0 then
    ({ v with jsonResult := setMember key "noValueSet" v.jsonResult }, s)
  else if aclWord = 1 then
    let r := configLoop W (fun t => step t key jsonchar) key (loopFuel s)
      { v with cmdResult := .Error } (s.set fun m => { m with retryCount := 0 })
    (configVerdict markUpdated key r.1, r.2)
  else ({ v with jsonResult := setMember key "accessDenied" v.jsonResult }, s)

/-- The point at which a call of `onConfigUpdateReceived` hands the null pointer to
`strlen` (lines 967 and 1157), where the behaviour of the program is undefined: the
key whose member is not a string, and the wrapper at that point, with the calls made
until then. -/
structure ConfigFault where
  key : String
  state : State

/-- One pass of the body of a `for` loop over the keys (lines 963-1148 and 1153-1406):
`value` is `json[key]` and `aclWord` the ACL word of the key.  The pass is skipped
when `json[key]` converts to `false` (lines 963 and 1153); for a member that converts
to `true` and is not a string, `jsonchar` is the null pointer and the call
`strlen(jsonchar)` that follows is the fault. -/
def configKey (W : World) (step : State → String → String → KeyStep)
    (markUpdated : ConfigLocals → ConfigLocals) (aclWord : Nat) (key : String)
    (value : JsonMember) (v : ConfigLocals) (s : State) :
    Except ConfigFault (ConfigLocals × State) :=
  match value with
  | .falsy => .ok (v, s)
  | .other => .error { key := key, state := s }
  | .text jsonchar => .ok (configText W step markUpdated aclWord key jsonchar v s)

/-- A `for` loop over the keys, from index `i` on; a fault ends it. -/
def configKeys (W : World) (step : State → String → String → KeyStep)
    (markUpdated : ConfigLocals → ConfigLocals) (acl : Nat → Nat) (json : ConfigJson) :
    List String → Nat → ConfigLocals → State → Except ConfigFault (ConfigLocals × State)
  | [], _, v, s => .ok (v, s)
  | key :: rest, i, v, s =>
    match configKey W step markUpdated (acl i) key (json key) v s with
    | .error fault => .error fault
    | .ok (v1, s1) => configKeys W step markUpdated acl json rest (i + 1) v1 s1

/-- The two `for` loops of `onConfigUpdateReceived` (lines 961-1407). -/
def configRun (W : World) (json : ConfigJson) (s : State) :
    Except ConfigFault (ConfigLocals × State) :=
  match configKeys W (fun t => basicKeyStep W t.nukiConfig)
      (fun v => { v with basicUpdated := true }) s.prefs.conf_opener_basic_acl json
      basicKeys 0 {} s with
  | .error fault => .error fault
  | .ok (v1, s1) =>
    configKeys W (fun t => advancedKeyStep t.nukiAdvancedConfig)
      (fun v => { v with advancedUpdated := true }) s1.prefs.conf_opener_advanced_acl json
      advancedKeys 0 v1 s1

/-- `onConfigUpdateReceived` (lines 915-1420); `json` is `none` when `deserializeJson`
reports an error.  The call returns with the wrapper it leaves, or ends in the fault
of one of its loops, before the result is published. -/
def onConfigUpdateReceived (W : World) (json : Option ConfigJson) (s : State) :
    Except ConfigFault State :=
  if !s.configRead ∨ !s.nukiConfigValid then
    .ok (emit (.publishConfigCommandResult [("general", "configNotReady")]) s)
  else if !isPinValid s then
    .ok (emit (.publishConfigCommandResult [("general", "noValidPinSet")]) s)
  else
    match json with
    | none => .ok (emit (.publishConfigCommandResult [("general", "invalidJson")]) s)
    | some j =>
      match configRun W j s with
      | .error fault => .error fault
      | .ok (v, s1) =>
        let general := if v.basicUpdated ∨ v.advancedUpdated then "success" else "noChange"
        let s2 := s1.step.set fun m => { m with nextConfigUpdateTs := W.millis s1.io + 300 }
        .ok (emit (.publishConfigCommandResult (setMember "general" general v.jsonResult)) s2)

/-! ## The time-control handler -/

/-- What the ArduinoJson accessors of `onTimeControlCommandReceived` return for a
document that parsed: `action` is `json["action"].as<const char*>()` (`none` is the
null pointer), `entryId` is `json["entryId"].as<unsigned int>()`, and each other field
is `none` when `containsKey` is false and the converted member otherwise. -/
structure TimeControlJson where
  action : Option String := none
  entryId : Nat := 0
  enabled : Option Nat := none
  weekdays : Option String := none
  time : Option String := none
  lockAction : Option String := none
  deriving DecidableEq, Repr

/-- The locals of the handler that are declared before its loop and written inside
it, so that a later round sees what an earlier round stored. -/
structure TimeControlVars where
  enabled : Nat := 2
  time : String := ""
  timeControlLockAction : LockAction := .noAction
  deriving DecidableEq, Repr

/-- The locals declared inside the loop body that the merge of an update writes
(lines 2132-2135): `weekdaysInt` and `timeAr`. -/
structure TimeControlWindow where
  weekdaysInt : Nat := 0
  timeAr : TimeOfDay := {}
  deriving DecidableEq, Repr

/-- The validation of `time` (lines 2137-2157): the array `timeAr` after it, or the
result string published before the `return`. -/
def parseTime (W : World) (io : Nat) (time : String) : Except String TimeOfDay :=
  let timeAr : TimeOfDay := { hour := W.uninit io 0, min := W.uninit io 1 }
  if time.length > 0 then
    if time.length = 5 then
      let t := parseTimeOfDay time
      if timeOfDayOutOfRange t then .error "invalidTime" else .ok t
    else .error "invalidTime"
  else .ok timeAr

/-- One pass of the body of the `for` loop over the fetched entries
(lines 2196-2210); the flag is `foundExisting`. -/
def mergeTimeControl (entryId : Nat) (weekdays lockAction : String)
    (acc : TimeControlVars × TimeControlWindow × Bool) (entry : TimeControlEntry) :
    TimeControlVars × TimeControlWindow × Bool :=
  if entryId ≠ entry.entryId then acc
  else
    let v := acc.1
    let w := acc.2.1
    let enabled := if v.enabled = 2 then entry.enabled else v.enabled
    let weekdaysInt := if weekdays.length < 1 then entry.weekdays else w.weekdaysInt
    let time := if v.time.length < 1 then "old" else v.time
    let timeAr : TimeOfDay :=
      if v.time.length < 1 then { hour := entry.timeHour, min := entry.timeMin } else w.timeAr
    let timeControlLockAction :=
      if lockAction.length < 1 then entry.lockAction else v.timeControlLockAction
    ({ enabled := enabled, time := time, timeControlLockAction := timeControlLockAction },
      { weekdaysInt := weekdaysInt, timeAr := timeAr }, true)

/-- The `NewTimeControlEntry` built by an add (lines 2169-2180). -/
def newTimeControlEntry (v : TimeControlVars) (w : TimeControlWindow) : NewTimeControlEntry :=
  { weekdays := w.weekdaysInt
    timeHour := if v.time.length > 0 then w.timeAr.hour % 256 else 0
    timeMin := if v.time.length > 0 then w.timeAr.min % 256 else 0
    lockAction := v.timeControlLockAction }

/-- The `TimeControlEntry` built by an update (lines 2226-2239). -/
def updatedTimeControlEntry (entryId : Nat) (v : TimeControlVars) (w : TimeControlWindow) :
    TimeControlEntry :=
  { entryId := entryId
    enabled := v.enabled
    weekdays := w.weekdaysInt
    timeHour := if v.time.length > 0 then w.timeAr.hour % 256 else 0
    timeMin := if v.time.length > 0 then w.timeAr.min % 256 else 0
    lockAction := v.timeControlLockAction }

/-- The update branch up to the write (lines 2183-2240): the re-fetch of the list, the
merge with the existing entry and the `updateTimeControlEntry` call.  The result is
the error string of an early `return`, or the transport result with the locals as the
round leaves them. -/
def timeControlUpdate (W : World) (entryId : Nat) (idExists : Bool)
    (weekdays lockAction : String) (v : TimeControlVars) (w : TimeControlWindow) (s : State) :
    Except String (CmdResult × TimeControlVars) × State :=
  if !idExists then (.error "noExistingEntryIdSet", s)
  else
    let resultTc := W.cmdResult s.io
    let s1 := emit .retrieveTimeControlEntries s.step
    if resultTc = .Success then
      let entries := W.timeControlEntries s1.io
      let s2 := s1.step
      let merged := entries.foldl (mergeTimeControl entryId weekdays lockAction) (v, w, false)
      if !merged.2.2 then (.error "failedToRetrieveExistingKeypadEntry", s2)
      else
        let result := W.cmdResult s2.io
        (.ok (result, merged.1),
          emit (.updateTimeControlEntry (updatedTimeControlEntry entryId merged.1 merged.2.1))
            s2.step)
    else (.error "failedToRetrieveExistingKeypadEntry", s1)

/-- The loop body of `onTimeControlCommandReceived` (lines 2118-2249). -/
def timeControlRound (W : World) (action : String) (entryId : Nat) (idExists : Bool)
    (weekdays lockAction : String) (v : TimeControlVars) (s : State) :
    Option (CmdResult × TimeControlVars) × State :=
  let fail (str : String) (t : State) : Option (CmdResult × TimeControlVars) × State :=
    (none, emit (.publishTimeControlCommandResult str) t)
  if action = "delete" then
    if idExists then (some (W.cmdResult s.io, v), emit (.removeTimeControlEntry entryId) s.step)
    else fail "noExistingEntryIdSet" s
  else if action = "add" ∨ action = "update" then
    match parseTime W s.io v.time with
    | .error str => fail str s
    | .ok timeAr =>
      let w : TimeControlWindow := { weekdaysInt := weekdaysToInt weekdays, timeAr := timeAr }
      if action = "add" then
        (some (W.cmdResult s.io, v), emit (.addTimeControlEntry (newTimeControlEntry v w)) s.step)
      else
        match timeControlUpdate W entryId idExists weekdays lockAction v w s with
        | (.error str, s1) => fail str s1
        | (.ok (r, v1), s1) => (some (r, v1), s1)
  else fail "invalidAction" s

/-- `onTimeControlCommandReceived` (lines 2049-2266); `json` is `none` when
`deserializeJson` reports an error. -/
def onTimeControlCommandReceived (W : World) (json : Option TimeControlJson) (s : State) :
    State :=
  if !s.configRead ∨ !s.nukiConfigValid then
    emit (.publishTimeControlCommandResult "configNotReady") s
  else if !isPinValid s then emit (.publishTimeControlCommandResult "noValidPinSet") s
  else if !s.prefs.timecontrol_control_enabled then
    emit (.publishTimeControlCommandResult "timeControlControlDisabled") s
  else
    match json with
    | none => emit (.publishTimeControlCommandResult "invalidJson") s
    | some j =>
      let entryId := j.entryId % 256
      let lockAction := j.lockAction.getD ""
      if lockAction.length > 0 ∧ lockActionToEnum lockAction = .noAction then
        emit (.publishTimeControlCommandResult "invalidLockAction") s
      else
        let v : TimeControlVars :=
          { enabled := (j.enabled.getD 2) % 256
            time := j.time.getD ""
            timeControlLockAction :=
              if lockAction.length > 0 then lockActionToEnum lockAction
              else W.uninitLockAction s.io }
        match j.action with
        | none => emit (.publishTimeControlCommandResult "noActionSet") s
        | some action =>
          let idExists := decide (entryId ≠ 0 ∧ entryId ∈ s.timeControlIds)
          match handlerLoop (timeControlRound W action entryId idExists (j.weekdays.getD "")
              lockAction) (loopFuel s) .unset v
              (s.set fun m => { m with retryCount := 0 }) with
          | (.finished result, s1) =>
            let s2 :=
              if result ≠ .unset then
                emit (.publishTimeControlCommandResult (cmdResultToString result)) s1
              else s1
            s2.step.set fun m => { m with nextConfigUpdateTs := W.millis s2.io + 300 }
          | (_, s1) => s1

/-! ## The constructor -/

/-- The constructor (lines 13-39): the wrapper it leaves, with the callback
registrations in the order they are made.  The header with the member initialisers is
not part of the sources; a member the constructor does not assign holds the default
of `Vars`. -/
def NukiOpenerWrapper (preferences : Preferences) : State :=
  { prefs := preferences
    keyTurnerState := { lockState := .Undefined }
    trace :=
      [.setLockActionReceivedCallback, .setConfigUpdateReceivedCallback] ++
      (if preferences.disable_non_json then [.setKeypadCommandReceivedCallback] else []) ++
      [.setKeypadJsonCommandReceivedCallback, .addCallback] }

/-! ## Start-up -/

/-- The reads of the preference store when the wrapper is started (lines 53-65). -/
def readPreferences (s : State) : State :=
  s.set fun m => { m with
    intervalLockstate := s.prefs.query_interval_lockstate
    intervalConfig := s.prefs.query_interval_configuration
    intervalBattery := s.prefs.query_interval_battery
    intervalKeypad := s.prefs.query_interval_keypad
    keypadEnabled := s.prefs.keypad_info_enabled
    publishAuthData := s.prefs.publish_authdata
    maxKeypadCodeCount := s.prefs.opener_max_keypad_code_count
    maxTimeControlEntryCount := s.prefs.opener_max_timecontrol_entry_count
    restartBeaconTimeout := s.prefs.restart_ble_beacon_lost
    hassEnabled := decide (s.prefs.mqtt_hass_discovery ≠ "")
    nrOfRetries := s.prefs.command_nr_of_retries.getD 200
    retryDelay := s.prefs.command_retry_delay
    rssiPublishInterval := wrapInt32 (s.prefs.rssi_publish_interval * 1000) }

/-- The test of `_nrOfRetries` (lines 67-71). -/
def clampNrOfRetries (s : State) : State :=
  if s.nrOfRetries < 0 ∨ s.nrOfRetries = 200 then
    emit (.putInt "command_nr_of_retries" 3)
      ((s.set fun m => { m with nrOfRetries := 3 }).setPrefs
        fun p => { p with command_nr_of_retries := some 3 })
  else s

/-- The test of `_retryDelay` (lines 73-77). -/
def clampRetryDelay (s : State) : State :=
  if s.retryDelay ≤ 100 then
    emit (.putInt "command_retry_delay" 100)
      ((s.set fun m => { m with retryDelay := 100 }).setPrefs
        fun p => { p with command_retry_delay := 100 })
  else s

/-- The test of `_intervalLockstate` (lines 79-83). -/
def defaultIntervalLockstate (s : State) : State :=
  if s.intervalLockstate = 0 then
    emit (.putInt "query_interval_lockstate" (60 * 30))
      ((s.set fun m => { m with intervalLockstate := 60 * 30 }).setPrefs
        fun p => { p with query_interval_lockstate := 60 * 30 })
  else s

/-- The test of `_intervalConfig` (lines 84-88). -/
def defaultIntervalConfig (s : State) : State :=
  if s.intervalConfig = 0 then
    emit (.putInt "query_interval_configuration" (60 * 60))
      ((s.set fun m => { m with intervalConfig := 60 * 60 }).setPrefs
        fun p => { p with query_interval_configuration := 60 * 60 })
  else s

/-- The test of `_intervalBattery` (lines 89-93). -/
def defaultIntervalBattery (s : State) : State :=
  if s.intervalBattery = 0 then
    emit (.putInt "query_interval_battery" (60 * 30))
      ((s.set fun m => { m with intervalBattery := 60 * 30 }).setPrefs
        fun p => { p with query_interval_battery := 60 * 30 })
  else s

/-- The test of `_intervalKeypad` (lines 94-98). -/
def defaultIntervalKeypad (s : State) : State :=
  if s.intervalKeypad = 0 then
    emit (.putInt "query_interval_keypad" (60 * 30))
      ((s.set fun m => { m with intervalKeypad := 60 * 30 }).setPrefs
        fun p => { p with query_interval_keypad := 60 * 30 })
  else s

/-- The test of `_restartBeaconTimeout` (lines 99-103). -/
def clampRestartBeaconTimeout (s : State) : State :=
  if s.restartBeaconTimeout < 10 then
    emit (.putInt "restart_ble_beacon_lost" (-1))
      ((s.set fun m => { m with restartBeaconTimeout := -1 }).setPrefs
        fun p => { p with restart_ble_beacon_lost := -1 })
  else s

/-- The start-up member function of the wrapper (lines 48-118), which the firmware
calls once after the constructor: the reads of the preference store, the seven tests
with their write-back, and `if(!_publishAuthData) _clearAuthData = true`. -/
def startUp (s : State) : State :=
  let s1 := clampRestartBeaconTimeout (defaultIntervalKeypad (defaultIntervalBattery
    (defaultIntervalConfig (defaultIntervalLockstate (clampRetryDelay (clampNrOfRetries
      (readPreferences s)))))))
  if !s1.publishAuthData then s1.set fun m => { m with clearAuthData := true } else s1

/-! ## Scenarios -/

/-- A wrapper past every gate of the keypad handlers: PIN status 1, keypad control
and keypad info enabled, a keypad present, three retries. -/
def keypadReady : State :=
  { prefs := { opener_pin_status := some 1, keypad_control_enabled := true,
               keypad_info_enabled := true }
    hasKeypad := true
    keypadEnabled := true
    configRead := true
    nukiConfigValid := true
    nrOfRetries := 3
    retryDelay := 100
    paired := true }

/-- The parsed request with action add, name Guest and code 123456. -/
def addGuest : KeypadJson :=
  { action := some "add", name := some "Guest", code := some 123456, codeStr := "123456" }

/-- The parsed request with action add, name X and code 100200. -/
def addInvalidCode : KeypadJson :=
  { action := some "add", name := some "X", code := some 100200, codeStr := "100200" }

/-- Whether a call is one of the three keypad writes. -/
def Event.isKeypadWrite : Event → Bool
  | .addKeypadEntry _ => true
  | .updateKeypadEntry _ => true
  | .deleteKeypadEntry _ => true
  | _ => false

/-- Whether a call is `addKeypadEntry`. -/
def Event.isAdd : Event → Bool
  | .addKeypadEntry _ => true
  | _ => false

/-- The retry messages among a list of calls, in order. -/
def retryMessages (l : List Event) : List String :=
  l.filterMap (fun e => match e with
    | .publishRetry str => some str
    | _ => none)

/-- The lock actions sent to the transport among a list of calls, in order. -/
def lockActionsSent (l : List Event) : List LockAction :=
  l.filterMap (fun e => match e with
    | .lockAction a => some a
    | _ => none)

/-! # Specification-side definitions -/

/-! ## Classes of calls and trace relations -/

/-- Calls of the periodic fetches and publications: everything except ring events,
restarts, lock actions, keypad writes, pairing and the command-result channels. -/
def Event.quiet : Event → Bool
  | .publishKeyTurnerState _ _ => true
  | .publishBatteryReport _ => true
  | .publishConfig _ => true
  | .publishAdvancedConfig _ => true
  | .publishAuthorizationInfo _ _ => true
  | .clearAuthorizationInfo => true
  | .publishKeypad _ _ => true
  | .publishTimeControl _ _ => true
  | .publishRssi _ => true
  | .publishHASSConfig _ _ => true
  | .setPinOutput _ _ => true
  | .putInt _ _ => true
  | .putUInt _ _ => true
  | .updateConnectionState => true
  | .requestOpenerState => true
  | .requestBatteryReport => true
  | .requestConfig => true
  | .requestAdvancedConfig => true
  | .verifySecurityPin => true
  | .retrieveLogEntries _ => true
  | .retrieveKeypadEntries _ => true
  | .retrieveTimeControlEntries => true
  | _ => false

/-- Every call recorded in `b` is recorded in `a` already or satisfies `P`. -/
def Within (P : Event → Prop) (a b : State) : Prop :=
  ∀ e, e ∈ b.trace → e ∈ a.trace ∨ P e

/-- Calls made by the body of `update`: the quiet ones, the lock-state result, ring
events, the status flag, and the dispatch of a lock action with its result and
retry messages. -/
def Event.inBody : Event → Bool
  | .publishRing _ => true
  | .publishLockstateCommandResult _ => true
  | .publishStatusUpdated _ => true
  | .lockAction _ => true
  | .publishCommandResult _ => true
  | .publishRetry _ => true
  | e => e.quiet

/-- Calls made by the body of `update` other than the ring-while-locked event. -/
def Event.noRingLocked : Event → Bool
  | .publishRing true => false
  | e => e.inBody

/-! ## Inputs of the beacon watchdog -/

/-- The pass gets past the pairing block: the wrapper is paired already, or the
pairing attempted by this pass succeeds. -/
def reachesWatchdog (W : World) (s : State) : Prop :=
  s.paired = true ∨ W.pairNuki s.io = true

instance (W : World) (s : State) : Decidable (reachesWatchdog W s) := by
  unfold reachesWatchdog; infer_instance

/-- Number of interactions consumed before the watchdog reads its inputs: none when
paired, the pairing call and the address query otherwise. -/
def passIo (s : State) : Nat :=
  if s.paired then s.io else s.io + 2

/-- The time of the last beacon as read by the pass. -/
def lastBeaconAt (W : World) (s : State) : Int :=
  W.getLastReceivedBeaconTs (passIo s)

/-- The clock value `ts` read by the pass. -/
def passNow (W : World) (s : State) : Int :=
  W.millis (passIo s + 1)

/-- Calls a pass of `update` can make before its watchdog test or in its body. -/
def Event.inPass (e : Event) : Prop :=
  e.inBody = true ∨ (∃ str, e = .publishBleAddress str) ∨ ∃ b, e = .pairNuki b

/-- A world in which the clock reads 105000 ms, the last beacon was received at
70000 ms and pairing fails. -/
def beaconSilent : World :=
  { millis := fun _ => 105000, getLastReceivedBeaconTs := fun _ => 70000 }

/-- A paired wrapper with a beacon timeout of 30 s. -/
def beaconLost : State :=
  { paired := true, restartBeaconTimeout := 30, nrOfRetries := 3, retryDelay := 100 }

/-- The same wrapper, not paired. -/
def beaconLostUnpaired : State :=
  { paired := false, restartBeaconTimeout := 30, nrOfRetries := 3, retryDelay := 100 }

/-! ## Query success and ring conditions -/

/-- One of the at most `_nrOfRetries + 1` attempts of a command loop entered at
interaction `s.io` returns `Success`. -/
def querySucceeds (W : World) (s : State) : Prop :=
  ∃ k, k < loopFuel s ∧ W.cmdResult (s.io + k) = .Success

/-- Every call recorded in `a` is still recorded in `b`. -/
def Grows (a b : State) : Prop :=
  ∀ e, e ∈ a.trace → e ∈ b.trace

/-- The first ring condition (lines 376-379). -/
def ringLocked (s : State) : Prop :=
  s.statusUpdated = true ∧ s.keyTurnerState.lockState = .Locked ∧
    s.lastKeyTurnerState.lockState = .Locked ∧
    s.lastKeyTurnerState.nukiState = s.keyTurnerState.nukiState

/-- The second ring condition (lines 386-388). -/
def ringOpen (s : State) : Prop :=
  s.keyTurnerState.lockState ≠ s.lastKeyTurnerState.lockState ∧
    s.keyTurnerState.lockState = .Open ∧ s.keyTurnerState.trigger = .Manual

/-! ## Runs of the dispatch block -/

/-- A run of `k` dispatch blocks: before the block of round `i` (read at clock value
`ts i`) whatever else the wrapper does is `between i`. -/
def dispatchRun (W : World) (between : Nat → State → State) (ts : Nat → Int) :
    Nat → State → State
  | 0, s => s
  | k + 1, s => dispatchLockAction W (ts k) (between k (dispatchRun W between ts k s))

/-- What happens between two dispatch attempts leaves the retry bookkeeping and the
retry messages alone. -/
def KeepsRetrySlot (between : Nat → State → State) : Prop :=
  ∀ k t, (between k t).retryCount = t.retryCount ∧
    (between k t).nextLockAction = t.nextLockAction ∧
    (between k t).nrOfRetries = t.nrOfRetries ∧
    retryMessages (between k t).trace = retryMessages t.trace

/-- Each of the first `n + 1` rounds is due and fails at transport level. -/
def AttemptsFail (W : World) (between : Nat → State → State) (ts : Nat → Int) (s : State)
    (n : Nat) : Prop :=
  ∀ k, k ≤ n → ts k > (between k (dispatchRun W between ts k s)).nextRetryTs ∧
    W.cmdResult (between k (dispatchRun W between ts k s)).io ≠ .Success

/-- A transport on which every command times out, with a clock that advances by one
second per interaction. -/
def deadLink : World :=
  { cmdResult := fun _ => .TimeOut, millis := fun io => 1000 * (io : Int) }

/-- A paired wrapper with three retries and a pending ActivateRTO. -/
def pendingRTO : State :=
  { paired := true, nrOfRetries := 3, retryDelay := 100, nextLockAction := .ActivateRTO }

/-! ## Calls of the keypad handlers -/

/-- What one run of a keypad loop may call, for the request with identifier `codeId`
whose existence test gave `idExists`: result publications, quiet calls, an add, and
a delete or update of `codeId` after a positive existence test. -/
def keypadLoopCall (codeId : Nat) (idExists : Bool) (e : Event) : Prop :=
  e.quiet = true ∨ (∃ str, e = .publishKeypadJsonCommandResult str) ∨
    (∃ str, e = .publishKeypadCommandResult str) ∨ (∃ entry, e = .addKeypadEntry entry) ∨
    (idExists = true ∧ e = .deleteKeypadEntry codeId) ∨
    (idExists = true ∧ ∃ entry, e = .updateKeypadEntry entry ∧ entry.codeId = codeId)

/-- The four gates of `onKeypadJsonCommandReceived` (lines 1594-1622). -/
def jsonKeypadGates (s : State) : Prop :=
  isPinValid s = true ∧ s.prefs.keypad_control_enabled = true ∧ s.hasKeypad = true ∧
    s.keypadEnabled = true

/-- The gates of `onKeypadCommandReceived` (lines 1459-1478); the PIN status is not
among them. -/
def legacyKeypadGates (s : State) : Prop :=
  s.prefs.disable_non_json = false ∧ s.prefs.keypad_control_enabled = true ∧
    s.hasKeypad = true ∧ s.keypadEnabled = true

/-- The parsed request with action delete and codeId 7. -/
def deleteSeven : KeypadJson :=
  { action := some "delete", codeId := 7 }

/-- The wrapper past every gate, with the cached identifier 7. -/
def keypadReadySeven : State :=
  { keypadReady with keypadCodeIds := [7] }

/-- The same wrapper with the persisted PIN status 0 (no PIN set). -/
def keypadSevenNoPin : State :=
  { keypadReadySeven with prefs := { keypadReadySeven.prefs with opener_pin_status := some 0 } }

/-- The wrapper past every gate, with the cached identifier 7, on a store with
`disable_non_json` true: the store on which the constructor registers the legacy keypad
callback. -/
def keypadSevenLegacy : State :=
  { keypadReadySeven with prefs := { keypadReadySeven.prefs with disable_non_json := true } }

/-! ## Further scenarios -/

/-- A transport on which state queries succeed and every lock action times out (a
paired pass that refreshes the lock state and dispatches consumes eight interactions,
the lock action being the sixth), with a clock that advances by one second per
interaction. -/
def lockActionsFail : World :=
  { cmdResult := fun io => if io % 8 = 5 then .TimeOut else .Success
    millis := fun io => 100000 + 1000 * (io : Int)
    openerState := fun _ => { nukiState := .Online, lockState := .Locked } }

/-- A paired wrapper with one retry, a pending ActivateRTO, and battery, config and
keypad refreshes that are not due. -/
def pendingOneRetry : State :=
  { paired := true, nrOfRetries := 1, retryDelay := 100, nextLockAction := .ActivateRTO
    intervalLockstate := 1800, intervalBattery := 1800, intervalConfig := 3600
    nextBatteryReportTs := 1000000000, nextConfigUpdateTs := 1000000000 }

/-- Three passes of `update`, a status notification of the opener arriving before the
second and before the third. -/
def threePasses (W : World) (s : State) : State :=
  update W (notify (update W (notify (update W s))))

/-- A transport on which every command succeeds and the opener reports Locked and
Online. -/
def lockedOnline : World :=
  { cmdResult := fun _ => .Success
    millis := fun io => 100000 + 1000 * (io : Int)
    openerState := fun _ => { nukiState := .Online, lockState := .Locked } }

/-- A paired wrapper whose previous snapshot is Locked and Online and whose
`_statusUpdated` flag is set. -/
def ringPending : State :=
  { paired := true, statusUpdated := true, nrOfRetries := 3, retryDelay := 100
    keyTurnerState := { nukiState := .Online, lockState := .Locked }
    lastKeyTurnerState := { nukiState := .Online, lockState := .Locked }
    intervalLockstate := 1800, intervalBattery := 1800, intervalConfig := 3600
    nextLockStateUpdateTs := 1000000000
    nextBatteryReportTs := 1000000000, nextConfigUpdateTs := 1000000000 }

/-! ## Config requests and results -/

/-- The key whose branch of `onConfigUpdateReceived` issues the command. -/
def ConfigCommand.key : ConfigCommand → String
  | .setName _ => "name"
  | .setLatitude _ => "latitude"
  | .setLongitude _ => "longitude"
  | .enablePairing _ => "pairingEnabled"
  | .enableButton _ => "buttonEnabled"
  | .enableLedFlash _ => "ledFlashEnabled"
  | .setTimeZoneOffset _ => "timeZoneOffset"
  | .enableDst _ => "dstMode"
  | .setFobAction fobActionNr _ =>
    if fobActionNr = 1 then "fobAction1" else if fobActionNr = 2 then "fobAction2"
    else "fobAction3"
  | .setOperatingMode _ => "operatingMode"
  | .setAdvertisingMode _ => "advertisingMode"
  | .setTimeZoneId _ => "timeZone"
  | .setIntercomID _ => "intercomID"
  | .setBusModeSwitch _ => "busModeSwitch"
  | .setShortCircuitDuration _ => "shortCircuitDuration"
  | .setElectricStrikeDelay _ => "electricStrikeDelay"
  | .enableRandomElectricStrikeDelay _ => "randomElectricStrikeDelay"
  | .setElectricStrikeDuration _ => "electricStrikeDuration"
  | .disableRtoAfterRing _ => "disableRtoAfterRing"
  | .setRtoTimeout _ => "rtoTimeout"
  | .setDoorbellSuppression _ => "doorbellSuppression"
  | .setDoorbellSuppressionDuration _ => "doorbellSuppressionDuration"
  | .setSoundRing _ => "soundRing"
  | .setSoundOpen _ => "soundOpen"
  | .setSoundRto _ => "soundRto"
  | .setSoundCm _ => "soundCm"
  | .enableSoundConfirmation _ => "soundConfirmation"
  | .setSoundLevel _ => "soundLevel"
  | .setSingleButtonPressAction _ => "singleButtonPressAction"
  | .setDoubleButtonPressAction _ => "doubleButtonPressAction"
  | .setBatteryType _ => "batteryType"
  | .enableAutoBatteryTypeDetection _ => "automaticBatteryTypeDetection"

/-- Whether a call is a write command of the config handler. -/
def Event.isConfigCommand : Event → Bool
  | .configCommand _ _ => true
  | _ => false

/-- Whether a call is a write command of the config handler for the key `key`. -/
def Event.isCommandFor (key : String) : Event → Bool
  | .configCommand cmd _ => decide (cmd.key = key)
  | _ => false

/-- Whether a call is a write command of the config handler that returned `Success`. -/
def Event.isSuccessfulWrite : Event → Bool
  | .configCommand _ result => decide (result = .Success)
  | _ => false

/-- The config results published among a list of calls, in order. -/
def publishedConfig (l : List Event) : List (List (String × String)) :=
  l.filterMap (fun e => match e with
    | .publishConfigCommandResult members => some members
    | _ => none)

/-- The gates of `onConfigUpdateReceived` before the payload is parsed (lines
921-935). -/
def configGates (s : State) : Prop :=
  s.configRead = true ∧ s.nukiConfigValid = true ∧ isPinValid s = true

instance (s : State) : Decidable (configGates s) := by
  unfold configGates; infer_instance

/-! ## The config handler on a document whose members are strings -/

/-- The keys the handler recognises, in the order in which it visits them. -/
def recognisedKeys : List String :=
  basicKeys ++ advancedKeys

/-- No recognised member of the document converts to `true` without being a string:
the handler hands no null pointer to `strlen`. -/
def ConfigJson.textual (json : ConfigJson) : Prop :=
  ∀ key ∈ recognisedKeys, json key ≠ .other

instance (json : ConfigJson) : Decidable json.textual :=
  inferInstanceAs (Decidable (∀ key ∈ recognisedKeys, json key ≠ .other))

/-- The string of a member that is one. -/
def JsonMember.asText : JsonMember → Option String
  | .text str => some str
  | _ => none

/-- The strings of a document, key by key. -/
abbrev ConfigTexts := String → Option String

/-- The strings of the document `json`. -/
def ConfigJson.texts (json : ConfigJson) : ConfigTexts :=
  fun key => (json key).asText

/-- The pass `configKey` for a member that is falsy (`none`) or a string: it returns. -/
def textKey (W : World) (step : State → String → String → KeyStep)
    (markUpdated : ConfigLocals → ConfigLocals) (aclWord : Nat) (key : String)
    (value : Option String) (v : ConfigLocals) (s : State) : ConfigLocals × State :=
  match value with
  | none => (v, s)
  | some jsonchar => configText W step markUpdated aclWord key jsonchar v s

/-- The loop `configKeys` over members that are falsy or strings. -/
def textKeys (W : World) (step : State → String → String → KeyStep)
    (markUpdated : ConfigLocals → ConfigLocals) (acl : Nat → Nat) (json : ConfigTexts) :
    List String → Nat → ConfigLocals → State → ConfigLocals × State
  | [], _, v, s => (v, s)
  | key :: rest, i, v, s =>
    let (v1, s1) := textKey W step markUpdated (acl i) key (json key) v s
    textKeys W step markUpdated acl json rest (i + 1) v1 s1

/-- The two loops `configRun` over members that are falsy or strings. -/
def textRun (W : World) (json : ConfigTexts) (s : State) : ConfigLocals × State :=
  let (v1, s1) := textKeys W (fun t => basicKeyStep W t.nukiConfig)
    (fun v => { v with basicUpdated := true }) s.prefs.conf_opener_basic_acl json
    basicKeys 0 {} s
  textKeys W (fun t => advancedKeyStep t.nukiAdvancedConfig)
    (fun v => { v with advancedUpdated := true }) s1.prefs.conf_opener_advanced_acl json
    advancedKeys 0 v1 s1

/-- The wrapper that `onConfigUpdateReceived` leaves for a document whose recognised
members are falsy or strings; `onConfigUpdateReceived_textual` shows that the handler
returns it. -/
def textHandler (W : World) (json : Option ConfigTexts) (s : State) : State :=
  if !s.configRead ∨ !s.nukiConfigValid then
    emit (.publishConfigCommandResult [("general", "configNotReady")]) s
  else if !isPinValid s then
    emit (.publishConfigCommandResult [("general", "noValidPinSet")]) s
  else
    match json with
    | none => emit (.publishConfigCommandResult [("general", "invalidJson")]) s
    | some j =>
      let (v, s1) := textRun W j s
      let general := if v.basicUpdated ∨ v.advancedUpdated then "success" else "noChange"
      let s2 := s1.step.set fun m => { m with nextConfigUpdateTs := W.millis s1.io + 300 }
      emit (.publishConfigCommandResult (setMember "general" general v.jsonResult)) s2

/-- The calls recorded by a call of `onConfigUpdateReceived` from `s`, whatever was
recorded before: up to its return or, when it ends in a fault, up to the fault. -/
def configCalls (W : World) (json : Option ConfigJson) (s : State) : List Event :=
  match onConfigUpdateReceived W json s.fresh with
  | .ok t => t.trace
  | .error fault => fault.state.trace

/-- The call of `onConfigUpdateReceived` from `s` returns. -/
def configReturns (W : World) (json : Option ConfigJson) (s : State) : Bool :=
  match onConfigUpdateReceived W json s with
  | .ok _ => true
  | .error _ => false

/-- What the key loops of the config handler leave alone: the preference store, both
config mirrors and the retry limit. -/
def SameConfig (a b : State) : Prop :=
  b.prefs = a.prefs ∧ b.nukiConfig = a.nukiConfig ∧
    b.nukiAdvancedConfig = a.nukiAdvancedConfig ∧ b.nrOfRetries = a.nrOfRetries

/-- What the processing of `key` may have done between the locals `v`, wrapper `a`
and the locals `w`, wrapper `b`: the preference store, the mirrors, the update flags
and the members of the other keys are as before, no call is lost, every new call is
a write command of `key`, and `cmdResult` is `Success` exactly when one of them
returned it. -/
def KeyRan (key : String) (v : ConfigLocals) (a : State) (w : ConfigLocals) (b : State) :
    Prop :=
  SameConfig a b ∧ w.basicUpdated = v.basicUpdated ∧ w.advancedUpdated = v.advancedUpdated ∧
    (∀ other, other ≠ key → getMember other w.jsonResult = getMember other v.jsonResult) ∧
    Grows a b ∧
    (∀ e ∈ b.trace, e ∈ a.trace ∨
      ∃ cmd res, e = .configCommand cmd res ∧ cmd.key = key ∧
        (res = .Success → w.cmdResult = .Success)) ∧
    (w.cmdResult = .Success → ∃ cmd, Event.configCommand cmd .Success ∈ b.trace)

/-- The test `basicUpdated || advancedUpdated` of line 1411. -/
def ConfigLocals.anyUpdated (v : ConfigLocals) : Bool :=
  v.basicUpdated || v.advancedUpdated

/-- What the processing of the keys in `K` may have done between the locals `v`,
wrapper `a` and the locals `w`, wrapper `b`: the preference store, the mirrors and the
members of the keys outside `K` are as before, no call is lost, every new call is a
write command of a key in `K`, an update flag once set stays set, and a flag is newly
set exactly when a write command returned `Success`. -/
def RanOn (K : String → Prop) (v : ConfigLocals) (a : State) (w : ConfigLocals) (b : State) :
    Prop :=
  SameConfig a b ∧
    (∀ other, ¬ K other → getMember other w.jsonResult = getMember other v.jsonResult) ∧
    Grows a b ∧
    (v.anyUpdated = true → w.anyUpdated = true) ∧
    (w.anyUpdated = true → v.anyUpdated = true ∨
      ∃ cmd, Event.configCommand cmd .Success ∈ b.trace) ∧
    (∀ e ∈ b.trace, e ∈ a.trace ∨
      ∃ cmd res, e = .configCommand cmd res ∧ K cmd.key ∧
        (res = .Success → w.anyUpdated = true))

/-! ## Scenarios of the config handler -/

/-- A wrapper past the gates of the config handler: config read, basic mirror valid,
PIN status 1, three retries; the advanced mirror is not valid and the persisted opener
identifier differs from the one in the basic mirror. -/
def configReady : State :=
  { prefs := { opener_pin_status := some 1, nuki_id_opener := 1 }
    configRead := true
    nukiConfigValid := true
    nukiConfig := { nukiId := 2, name := "Hall" }
    nrOfRetries := 3
    retryDelay := 100
    paired := true }

/-- The request with the single member name = Front. -/
def nameFront : ConfigJson :=
  fun key => if key = "name" then .text "Front" else .falsy

/-- The wrapper `configReady` with the ACL word of `name` set. -/
def configWritable : State :=
  { configReady with
    prefs := { configReady.prefs with
      conf_opener_basic_acl := fun i => if i = 0 then 1 else 0 } }

/-! ## Requested values and the mirrors -/

/-- The text is a decimal integer in `[lo, hi]` and the mirror holds that integer. -/
def intHeld (lo hi : Int) (mirror : Int) (value : String) : Bool :=
  decide (lo ≤ atoi value ∧ atoi value ≤ hi ∧ mirror = atoi value)

/-- The word is in the vocabulary (its code is not the sentinel) and the mirror holds
its code. -/
def wordHeld {α : Type} [DecidableEq α] (sentinel mirror code : α) : Bool :=
  decide (code ≠ sentinel ∧ mirror = code)

/-- The requested value of a recognised key is valid and equals the value currently
held in the config mirror: a name of at most 32 bytes, a positive latitude or
longitude, an integer in the range of the key (0 or 1 for the switches, the ranges of
the specification for the ranged keys, the 16-bit range for `intercomID` and
`shortCircuitDuration`), a word of the vocabulary for the enumerated keys. -/
def valueHeld (W : World) (config : Config) (advanced : AdvancedConfig)
    (key value : String) : Bool :=
  if key = "name" then decide (value.length ≤ 32 ∧ config.name = value)
  else if key = "latitude" then decide (W.atof value > 0 ∧ config.latitude = W.atof value)
  else if key = "longitude" then decide (W.atof value > 0 ∧ config.longitude = W.atof value)
  else if key = "pairingEnabled" then intHeld 0 1 config.pairingEnabled value
  else if key = "buttonEnabled" then intHeld 0 1 config.buttonEnabled value
  else if key = "ledFlashEnabled" then intHeld 0 1 config.ledFlashEnabled value
  else if key = "timeZoneOffset" then intHeld 0 60 config.timeZoneOffset value
  else if key = "dstMode" then intHeld 0 1 config.dstMode value
  else if key = "fobAction1" then wordHeld 99 config.fobAction1 (fobActionToInt value)
  else if key = "fobAction2" then wordHeld 99 config.fobAction2 (fobActionToInt value)
  else if key = "fobAction3" then wordHeld 99 config.fobAction3 (fobActionToInt value)
  else if key = "operatingMode" then
    wordHeld 99 config.operatingMode (operatingModeToInt value)
  else if key = "advertisingMode" then
    wordHeld .invalid config.advertisingMode (advertisingModeToEnum value)
  else if key = "timeZone" then wordHeld .invalid config.timeZoneId (timeZoneToEnum value)
  else if key = "intercomID" then intHeld 0 65535 advanced.intercomID value
  else if key = "busModeSwitch" then intHeld 0 1 advanced.busModeSwitch value
  else if key = "shortCircuitDuration" then
    intHeld 0 65535 advanced.shortCircuitDuration value
  else if key = "electricStrikeDelay" then
    intHeld 0 30000 advanced.electricStrikeDelay value
  else if key = "randomElectricStrikeDelay" then
    intHeld 0 1 advanced.randomElectricStrikeDelay value
  else if key = "electricStrikeDuration" then
    intHeld 1000 30000 advanced.electricStrikeDuration value
  else if key = "disableRtoAfterRing" then intHeld 0 1 advanced.disableRtoAfterRing value
  else if key = "rtoTimeout" then intHeld 5 60 advanced.rtoTimeout value
  else if key = "doorbellSuppression" then
    wordHeld 99 advanced.doorbellSuppression (doorbellSuppressionToInt value)
  else if key = "doorbellSuppressionDuration" then
    intHeld 500 10000 advanced.doorbellSuppressionDuration value
  else if key = "soundRing" then wordHeld 99 advanced.soundRing (soundToInt value)
  else if key = "soundOpen" then wordHeld 99 advanced.soundOpen (soundToInt value)
  else if key = "soundRto" then wordHeld 99 advanced.soundRto (soundToInt value)
  else if key = "soundCm" then wordHeld 99 advanced.soundCm (soundToInt value)
  else if key = "soundConfirmation" then intHeld 0 1 advanced.soundConfirmation value
  else if key = "soundLevel" then intHeld 0 255 advanced.soundLevel value
  else if key = "singleButtonPressAction" then
    wordHeld .invalid advanced.singleButtonPressAction (buttonPressActionToEnum value)
  else if key = "doubleButtonPressAction" then
    wordHeld .invalid advanced.doubleButtonPressAction (buttonPressActionToEnum value)
  else if key = "batteryType" then
    wordHeld .invalid advanced.batteryType (batteryTypeToEnum value)
  else if key = "automaticBatteryTypeDetection" then
    intHeld 0 1 advanced.automaticBatteryTypeDetection value
  else false

/-- A wrapper past the gates with every ACL word set, whose basic mirror holds the
name Hall and whose advanced mirror holds an RTO timeout of 20. -/
def configOpen : State :=
  { configReady with
    prefs := { configReady.prefs with
      conf_opener_basic_acl := fun _ => 1
      conf_opener_advanced_acl := fun _ => 1 }
    nukiAdvancedConfig := { rtoTimeout := 20 } }

/-- The request with the two members name = Hall and rtoTimeout = 20. -/
def sameValues : ConfigJson :=
  fun key => if key = "name" then .text "Hall" else if key = "rtoTimeout" then .text "20"
    else .falsy

/-- The request with the two members name = Front, a string, and rtoTimeout = 20, a
number. -/
def rtoTimeoutNumber : ConfigJson :=
  fun key => if key = "name" then .text "Front" else if key = "rtoTimeout" then .other
    else .falsy

/-! ## Vocabularies of the enumerated keys -/

/-- The words of a mapper's table. -/
def words {α : Type} (table : List (String × α)) : List String :=
  table.map Prod.fst

/-- What the specification asks of a string-to-code mapper with its vocabulary: the
sentinel is returned exactly for the strings outside the vocabulary, and different
words of the vocabulary have different codes. -/
def MapperSpec {α : Type} (mapper : String → α) (sentinel : α) (vocabulary : List String) :
    Prop :=
  (∀ str, mapper str = sentinel ↔ str ∉ vocabulary) ∧
    ∀ a ∈ vocabulary, ∀ b ∈ vocabulary, mapper a = mapper b → a = b

/-- The vocabulary of an enumerated config key, `none` for the other keys. -/
def vocabulary (key : String) : Option (List String) :=
  if key = "advertisingMode" then some (words advertisingModeTable)
  else if key = "timeZone" then some (words timeZoneTable)
  else if key = "fobAction1" ∨ key = "fobAction2" ∨ key = "fobAction3" then
    some (words fobActionTable)
  else if key = "operatingMode" then some (words operatingModeTable)
  else if key = "doorbellSuppression" then some (words doorbellSuppressionTable)
  else if key = "soundRing" ∨ key = "soundOpen" ∨ key = "soundRto" ∨ key = "soundCm" then
    some (words soundTable)
  else if key = "singleButtonPressAction" ∨ key = "doubleButtonPressAction" then
    some (words buttonPressActionTable)
  else if key = "batteryType" then some (words batteryTypeTable)
  else none

/-- The request with the single member fobAction1 = Dance. -/
def fobDance : ConfigJson :=
  fun key => if key = "fobAction1" then .text "Dance" else .falsy

/-! ## Scenarios for the ranged keys and the keypad update -/

/-- A wrapper past the gates with every ACL word set, whose mirrors hold a time zone
offset of 30, a strike duration of 3000, an RTO timeout of 20 and a sound level
of 10. -/
def configRanged : State :=
  { configOpen with
    nukiConfig := { nukiId := 2, name := "Hall", timeZoneOffset := 30 }
    nukiAdvancedConfig := { electricStrikeDuration := 3000, rtoTimeout := 20, soundLevel := 10 } }

/-- The request with timeZoneOffset = 65536, electricStrikeDuration = 66536,
rtoTimeout = 261 and soundLevel = 256, each outside the range of its key. -/
def outOfRange : ConfigJson :=
  fun key =>
    if key = "timeZoneOffset" then .text "65536"
    else if key = "electricStrikeDuration" then .text "66536"
    else if key = "rtoTimeout" then .text "261"
    else if key = "soundLevel" then .text "256"
    else .falsy

/-- The keypad entry 7 as the opener holds it: enabled, not time-limited. -/
def entrySeven : KeypadEntry :=
  { codeId := 7, code := 234567, name := "Guest", enabled := 1 }

/-- A transport on which every command succeeds and the keypad list holds the
entry 7. -/
def keypadHoldsSeven : World :=
  { keypadEntries := fun _ => [entrySeven] }

/-- The parsed request with action update, codeId 7, name X and the code 100200, which
contains the digit 0. -/
def updateInvalidCode : KeypadJson :=
  { action := some "update", codeId := 7, name := some "X", code := some 100200,
    codeStr := "100200" }

/-- The parsed request with action update, codeId 7, name X, timeLimited 1 and a
well-formed allowedUntil. -/
def updateUntil : KeypadJson :=
  { action := some "update", codeId := 7, name := some "X", timeLimited := some 1,
    allowedUntil := some "2030-01-01 00:00:00" }

/-- The same request with the window given as allowedFrom. -/
def updateFrom : KeypadJson :=
  { action := some "update", codeId := 7, name := some "X", timeLimited := some 1,
    allowedFrom := some "2030-01-01 00:00:00" }

/-! ## The merge of an update in closed form -/

/-- The locals `code`, `enabled`, `timeLimited`, the four window texts and `oldName`
after the loop body of lines 1896-1940 has met the entry with the requested
identifier: a local the request left at its default takes the fetched value, a window
text the request left empty becomes the marker `old`. -/
def mergedVars (name : String) (v : KeypadVars) (entry : KeypadEntry) : KeypadVars :=
  { code := if v.code = 12 then entry.code else v.code
    enabled := if v.enabled = 2 then entry.enabled else v.enabled
    timeLimited := if v.timeLimited = 2 then entry.timeLimited else v.timeLimited
    allowedFrom := if v.allowedFrom.length < 1 then "old" else v.allowedFrom
    allowedUntil := if v.allowedUntil.length < 1 then "old" else v.allowedUntil
    allowedFromTime := if v.allowedFromTime.length < 1 then "old" else v.allowedFromTime
    allowedUntilTime := if v.allowedUntilTime.length < 1 then "old" else v.allowedUntilTime
    oldName := if name.length < 1 then entry.name else v.oldName }

/-- The window arrays after the same pass: an array whose text the request left empty
takes the fetched fields. -/
def mergedWindows (allowedWeekdays : String) (v : KeypadVars) (w : KeypadWindows)
    (entry : KeypadEntry) : KeypadWindows :=
  { allowedFromAr := if v.allowedFrom.length < 1 then entry.allowedFrom else w.allowedFromAr
    allowedUntilAr := if v.allowedUntil.length < 1 then entry.allowedUntil else w.allowedUntilAr
    allowedFromTimeAr :=
      if v.allowedFromTime.length < 1 then entry.allowedFromTime else w.allowedFromTimeAr
    allowedUntilTimeAr :=
      if v.allowedUntilTime.length < 1 then entry.allowedUntilTime else w.allowedUntilTimeAr
    allowedWeekdaysInt :=
      if allowedWeekdays.length < 1 then entry.allowedWeekdays else w.allowedWeekdaysInt }

/-! ## Scenarios for the keypad update and delete -/

/-- The keypad entry 7 as the opener holds it after it was disabled: time-limited,
with a window from 2030-01-01 00:00:00 to 2030-12-31 23:59:59, on every weekday,
between 08:00 and 18:00. -/
def disabledSeven : KeypadEntry :=
  { codeId := 7, code := 234567, name := "Guest", enabled := 0, timeLimited := 1
    allowedFrom := { year := 2030, month := 1, day := 1 }
    allowedUntil := { year := 2030, month := 12, day := 31, hour := 23, min := 59, sec := 59 }
    allowedWeekdays := 127
    allowedFromTime := { hour := 8 }
    allowedUntilTime := { hour := 18 } }

/-- A transport on which every command succeeds and the keypad list holds the
disabled entry 7. -/
def keypadHoldsDisabled : World :=
  { keypadEntries := fun _ => [disabledSeven] }

/-- The same entry, enabled. -/
def limitedSeven : KeypadEntry :=
  { disabledSeven with enabled := 1 }

/-- A transport on which every command succeeds and the keypad list holds the
enabled, time-limited entry 7. -/
def keypadHoldsLimited : World :=
  { keypadEntries := fun _ => [limitedSeven] }

/-- The parsed request with action update, codeId 7 and the new name X; no other
field is sent. -/
def renameSeven : KeypadJson :=
  { action := some "update", codeId := 7, name := some "X" }

/-! ## What a keypad refresh leaves alone -/

/-- What a keypad refresh leaves alone: the PIN status, the keypad control
preference, the keypad flags of the config and the retry limit. -/
def SameGates (a b : State) : Prop :=
  b.prefs.opener_pin_status = a.prefs.opener_pin_status ∧
    b.prefs.keypad_control_enabled = a.prefs.keypad_control_enabled ∧
    b.hasKeypad = a.hasKeypad ∧ b.keypadEnabled = a.keypadEnabled ∧
    b.nrOfRetries = a.nrOfRetries

/-- A transport on which every command succeeds and the keypad list is empty. -/
def keypadEmpty : World :=
  { keypadEntries := fun _ => [] }

/-! ## Results of the keypad and time-control handlers -/

/-- The selector of the keypad-JSON result channel. -/
def keypadJsonResult : Event → Option String
  | .publishKeypadJsonCommandResult str => some str
  | _ => none

/-- The selector of the time-control result channel. -/
def timeControlResult : Event → Option String
  | .publishTimeControlCommandResult str => some str
  | _ => none

/-- The results published on the keypad-JSON channel among a list of calls, in
order. -/
def publishedKeypadJson (l : List Event) : List String :=
  l.filterMap keypadJsonResult

/-- The results published on the time-control channel among a list of calls, in
order. -/
def publishedTimeControl (l : List Event) : List String :=
  l.filterMap timeControlResult

/-! ## Scenarios for the retry of a control-plane write -/

/-- The time-control entry 3 as the opener holds it: enabled, on Mondays at 08:30,
ActivateRTO. -/
def entryThree : TimeControlEntry :=
  { entryId := 3, enabled := 1, weekdays := 64, timeHour := 8, timeMin := 30
    lockAction := .ActivateRTO }

/-- A transport whose third command fails and every other command succeeds; the
keypad list holds the enabled, time-limited entry 7 and the time-control list the
entry 3.  In an update the third command is the first write attempt (after the
re-fetch of the list and the read of the fetched entries). -/
def firstWriteFails : World :=
  { cmdResult := fun io => if io = 2 then .Failed else .Success
    keypadEntries := fun _ => [limitedSeven]
    timeControlEntries := fun _ => [entryThree] }

/-- The same transport with every command succeeding. -/
def writesSucceed : World :=
  { keypadEntries := fun _ => [limitedSeven]
    timeControlEntries := fun _ => [entryThree] }

/-- A wrapper past every gate of the time-control handler: config read, basic mirror
valid, PIN status 1, time-control control enabled, one retry, the cached entry 3. -/
def timeControlReady : State :=
  { prefs := { opener_pin_status := some 1, timecontrol_control_enabled := true }
    configRead := true
    nukiConfigValid := true
    nrOfRetries := 1
    retryDelay := 100
    paired := true
    timeControlIds := [3] }

/-- The parsed request with action update, entryId 3 and enabled 0; `time`,
`weekdays` and `lockAction` are not sent. -/
def disableThree : TimeControlJson :=
  { action := some "update", entryId := 3, enabled := some 0 }

/-! ## One result per handler call -/

/-- Nothing is published between `a` and `b` on the channel that `f` reads: the
messages selected by `f` are the same in both traces. -/
def Silent {α : Type} (f : Event → Option α) (a b : State) : Prop :=
  b.trace.filterMap f = a.trace.filterMap f

/-- One pass of a loop body either returns after one message on the channel that `f`
reads, or publishes nothing on it, leaves `_retryCount` and `_nrOfRetries` alone and
hands on a result the transport returned. -/
def RoundPublishes {σ α : Type} (f : Event → Option α) (W : World)
    (round : σ → State → Option (CmdResult × σ) × State) : Prop :=
  ∀ v s,
    (∀ t, round v s = (none, t) → ∃ x, t.trace.filterMap f = s.trace.filterMap f ++ [x]) ∧
    (∀ r v1 t, round v s = (some (r, v1), t) →
      Silent f s t ∧ (∃ io, r = W.cmdResult io) ∧ t.retryCount = s.retryCount ∧
        t.nrOfRetries = s.nrOfRetries)

/-! ## Scenarios for the dispatch of a lock action -/

/-- The same transport with the clock at 5001 ms. -/
def clockAt5001 : World :=
  { millis := fun _ => 5001 }

/-! ## The weekday bitmask -/

/-- The weekday tokens with their weights. -/
def weekdayWeights : List (String × Nat) :=
  [("mon", 64), ("tue", 32), ("wed", 16), ("thu", 8), ("fri", 4), ("sat", 2), ("sun", 1)]

/-- Whether the token occurs in the string, as a run of consecutive characters. -/
def occurs (token weekdays : String) : Prop :=
  token.data <:+: weekdays.data

instance (token weekdays : String) : Decidable (occurs token weekdays) :=
  inferInstanceAs (Decidable (token.data <:+: weekdays.data))

/-- The bitmask in the words of the specification: the sum of the weights of the
tokens that occur in the string, each token counted once. -/
def weekdayMask (weekdays : String) : Nat :=
  (weekdayWeights.map fun p => if occurs p.1 weekdays then p.2 else 0).sum

/-! ## The authorisation log -/

/-- A transport whose log holds three entries, out of order. -/
def logOfThree : World :=
  { logEntries := fun _ => [{ index := 9, authId := 1 }, { index := 4, authId := 2 },
      { index := 6, authId := 3 }] }

/-- A wrapper with a valid PIN that publishes at most two log entries. -/
def logLimitedToTwo : State :=
  { prefs := { opener_pin_status := some 1, authlog_max_entries := some 2 }, nrOfRetries := 3 }

/-! ## The PIN status -/

/-- The state in which `updateConfig` reaches the test of line 450: after
`readConfig`, `readAdvancedConfig` and `_configRead = true` (lines 445-447). -/
def configFetched (W : World) (s : State) : State :=
  (readAdvancedConfig W (readConfig W s)).set fun m => { m with configRead := true }

/-- The block of `updateConfig` between the identifier test and the PIN verification
(lines 459-465), the part of `matchedConfigStep` before `verifyPinStatus`. -/
def matchedConfigEntry (W : World) (s : State) : State :=
  let fw := s.nukiConfig.firmwareVersion
  let hw := s.nukiConfig.hardwareRevision
  let s1 := s.set fun m => { m with
    hasKeypad := decide (s.nukiConfig.hasKeypad > 0 ∨ s.nukiConfig.hasKeypadV2 > 0)
    firmwareVersion := toString fw.1 ++ "." ++ toString fw.2.1 ++ "." ++ toString fw.2.2
    hardwareVersion := toString hw.1 ++ "." ++ toString hw.2 }
  let s2 := if s1.prefs.conf_info_enabled then emit (.publishConfig s1.nukiConfig) s1 else s1
  let s3 := (s2.set fun m => { m with retryConfigCount := 0 })
  if s3.prefs.timecontrol_info_enabled then updateTimeControl W false s3 else s3

/-- The state in which a call of `updateConfig` from `s` reaches line 467, when it
reaches it. -/
def pinCheckEntry (W : World) (s : State) : State :=
  matchedConfigEntry W (storeNukiId (configFetched W s))

/-- The basic config fetch of a call of `updateConfig` from `s` succeeded (line 450)
and its `nukiId` is the persisted opener identifier (line 457, read after the write of
lines 452-455). -/
def configMatches (W : World) (s : State) : Prop :=
  (configFetched W s).nukiConfigValid = true ∧
    (storeNukiId (configFetched W s)).prefs.nuki_id_opener =
      (storeNukiId (configFetched W s)).nukiConfig.nukiId

instance (W : World) (s : State) : Decidable (configMatches W s) :=
  inferInstanceAs (Decidable (_ ∧ _))

/-- The PIN status in the words of the specification: 0 when no security PIN is
stored, 1 when one of the at most `nrOfRetries + 1` calls of `verifySecurityPin`
succeeds, 2 otherwise.  The calls are the interactions from `io` on. -/
def pinVerdict (W : World) (s : State) (io : Nat) : Int :=
  if !isPinSet s then 0
  else if ∃ k, k < loopFuel s ∧ W.cmdResult (io + k) = .Success then 1
  else 2

/-- The value of a `putInt` on the key `key`. -/
def writtenTo (key : String) : Event → Option Int
  | .putInt k value => if k = key then some value else none
  | _ => none

/-- The value of a `putInt` on the PIN status key. -/
def pinStatusWrite : Event → Option Int :=
  writtenTo "opener_pin_status"

/-- Between `a` and `b` the persisted PIN status, the stored security PIN and the retry
limit are left alone and the PIN status is not written. -/
def PinKept (a b : State) : Prop :=
  b.prefs.opener_pin_status = a.prefs.opener_pin_status ∧
    b.securityPincode = a.securityPincode ∧
    b.nrOfRetries = a.nrOfRetries ∧
    Silent pinStatusWrite a b

/-- A wrapper with a stored security PIN whose status was never persisted. -/
def pinNeverChecked : State :=
  { securityPincode := 1234, nrOfRetries := 3, prefs := { nuki_id_opener := 0 } }

/-- A transport on which every command succeeds and the config carries identifier 77. -/
def configOfSeventySeven : World :=
  { config := fun _ => { nukiId := 77 } }

/-! ## Start-up scenarios -/

/-- A wrapper whose store holds 250 as the retry limit. -/
def retriesPersistedAs250 : State :=
  { prefs := { command_nr_of_retries := some 250 } }

/-- A wrapper whose store holds no retry limit. -/
def retriesNotPersisted : State :=
  { prefs := { command_nr_of_retries := none } }

/-! ## The output pins -/

/-- The level the specification gives for a pin role, `none` for a role that is not
driven: HIGH (`true`) when RTO is active for `OutputHighRtoActive`, when continuous
mode is on for `OutputHighCmActive`, when either holds for `OutputHighRtoOrCmActive`. -/
def pinLevel (cur : OpenerState) : PinRole → Option Bool
  | .OutputHighRtoActive => some (decide (cur.lockState = .RTOactive))
  | .OutputHighCmActive => some (decide (cur.nukiState = .ContinuousMode))
  | .OutputHighRtoOrCmActive =>
    some (decide (cur.lockState = .RTOactive ∨ cur.nukiState = .ContinuousMode))
  | .other _ => none

/-- The writes the specification asks for: one per driven entry, in list order. -/
def expectedPinWrites (cur : OpenerState) (pins : List PinEntry) : List Event :=
  pins.filterMap fun entry => (pinLevel cur entry.role).map (Event.setPinOutput entry.pin)

/-- A pin list with one entry of each role. -/
def fourPins : World :=
  { pinConfiguration :=
      [{ pin := 4, role := .OutputHighRtoActive }, { pin := 5, role := .other 1 },
       { pin := 6, role := .OutputHighCmActive }, { pin := 7, role := .OutputHighRtoOrCmActive }] }

/-- A wrapper whose opener is in continuous mode, RTO not active. -/
def continuousMode : State :=
  { keyTurnerState := { lockState := .Locked, nukiState := .ContinuousMode } }

/-! ## Cached identifiers -/

/-- A transport whose keypad list holds the codes 9, 4 and 6 and whose time-control
list holds the entries 3 and 1. -/
def listsOutOfOrder : World :=
  { keypadEntries := fun _ => [{ codeId := 9 }, { codeId := 4 }, { codeId := 6 }]
    timeControlEntries := fun _ => [{ entryId := 3 }, { entryId := 1 }] }

/-- A wrapper with keypad and time-control info enabled that publishes at most two
keypad codes and has seen one keypad code and five time-control entries so far. -/
def listsLimited : State :=
  { prefs := { keypad_info_enabled := true, timecontrol_info_enabled := true,
               keypad_max_entries := some 2 }
    maxKeypadCodeCount := 1
    maxTimeControlEntryCount := 5 }

/-! ## The entry identifier of a time-control request -/

/-- The parsed request with action delete and the given `entryId`. -/
def deleteEntry (entryId : Nat) : TimeControlJson :=
  { action := some "delete", entryId := entryId }

/-- The wrapper past every gate of the time-control handler, with the cached entry 1. -/
def timeControlReadyOne : State :=
  { timeControlReady with timeControlIds := [1] }

/-! ## Attempts of a command loop -/

/-- The results the transport returns for the `n` commands issued from interaction
`io` on. -/
def firstResults (W : World) (io n : Nat) : List CmdResult :=
  (List.range n).map fun i => W.cmdResult (io + i)

/-- The number of requests in the words of the specification: the position of the
first `Success` among the results, and the number of results when there is none. -/
def attemptsMade (results : List CmdResult) : Nat :=
  if .Success ∈ results then results.indexOf .Success + 1 else results.length

/-- The selector of the calls equal to `cmd`. -/
def sameAs (cmd : Event) (e : Event) : Option Event :=
  if e = cmd then some e else none

/-- The requests `cmd` among a list of calls. -/
def requestsOf (cmd : Event) (l : List Event) : List Event :=
  l.filterMap (sameAs cmd)

/-- The loop of a refresh function has ended by its own test: it was left on `Success`
or its condition `_retryCount < _nrOfRetries + 1` is false. -/
def loopEnded (r : CmdResult × State) : Prop :=
  r.1 = .Success ∨ ¬ r.2.retryCount < r.2.nrOfRetries + 1

/-- A transport whose first two commands time out and whose later commands succeed. -/
def thirdTimeLucky : World :=
  { cmdResult := fun io => if io < 2 then .TimeOut else .Success }

/-- A wrapper with three retries. -/
def threeRetries : State :=
  { nrOfRetries := 3, retryDelay := 100, paired := true }

/-! ## State delta and pin writes of the lock-state refresh -/

/-- The selector of the state deltas: the pair handed to `publishKeyTurnerState`. -/
def keyTurnerDelta : Event → Option (OpenerState × OpenerState)
  | .publishKeyTurnerState cur prev => some (cur, prev)
  | _ => none

/-- The selector of the pin writes. -/
def pinWrite : Event → Option Event
  | .setPinOutput pin high => some (.setPinOutput pin high)
  | _ => none

/-- The selector of the ring events. -/
def ringEvent : Event → Option Bool
  | .publishRing locked => some locked
  | _ => none

/-- A transport on which every command succeeds and the opener reports Open with a
manual trigger; one pin follows RTO. -/
def openedByHand : World :=
  { openerState := fun _ => { lockState := .Open, trigger := .Manual }
    pinConfiguration := [{ pin := 4, role := .OutputHighRtoActive }] }

/-- A wrapper with three retries whose previous snapshot is Locked. -/
def wasLocked : State :=
  { nrOfRetries := 3, retryDelay := 100, paired := true
    lastKeyTurnerState := { lockState := .Locked } }

/-! ## The schedule of the lock-state and battery refresh -/

/-- The variables that schedule the lock-state and the battery refresh, with the
status flag. -/
structure LockSchedule where
  nextLockStateUpdateTs : Int
  nextBatteryReportTs : Int
  retryLockstateCount : Int
  intervalLockstate : Int
  intervalBattery : Int
  nrOfRetries : Int
  retryDelay : Int
  statusUpdated : Bool
  deriving DecidableEq, Repr

/-- The schedule held by the member variables. -/
def lockSchedule (m : Vars) : LockSchedule :=
  { nextLockStateUpdateTs := m.nextLockStateUpdateTs
    nextBatteryReportTs := m.nextBatteryReportTs
    retryLockstateCount := m.retryLockstateCount
    intervalLockstate := m.intervalLockstate
    intervalBattery := m.intervalBattery
    nrOfRetries := m.nrOfRetries
    retryDelay := m.retryDelay
    statusUpdated := m.statusUpdated }

/-- Between `a` and `b` the part `view` of the member variables is left alone. -/
def Keeps {α : Type} (view : Vars → α) (a b : State) : Prop :=
  view b.toVars = view a.toVars

/-- The test of the lock-state block of `update` (line 164). -/
def lockStateDue (W : World) (ts : Int) (queryCommands : Nat) (s : State) : Prop :=
  s.statusUpdated = true ∨ s.nextLockStateUpdateTs = 0 ∨ ts ≥ s.nextLockStateUpdateTs ∨
    queryBit queryCommands W.QUERY_COMMAND_LOCKSTATE = true

instance (W : World) (ts : Int) (queryCommands : Nat) (s : State) :
    Decidable (lockStateDue W ts queryCommands s) :=
  inferInstanceAs (Decidable (_ ∨ _))

/-- A run of `k` lock-state blocks: before the block of round `i` (read at clock value
`ts i` with the query bitmask `queryCommands i`) whatever else the wrapper does is
`between i`. -/
def lockStateRun (W : World) (between : Nat → State → State) (ts : Nat → Int)
    (queryCommands : Nat → Nat) : Nat → State → State
  | 0, s => s
  | k + 1, s =>
    lockStateStep W (ts k) (queryCommands k)
      (between k (lockStateRun W between ts queryCommands k s))

/-- What happens between two lock-state blocks leaves the dedicated retry counter, the
retry limit, the retry delay and the interval alone. -/
def KeepsLockstateCount (between : Nat → State → State) : Prop :=
  ∀ k t, (between k t).retryLockstateCount = t.retryLockstateCount ∧
    (between k t).nrOfRetries = t.nrOfRetries ∧
    (between k t).retryDelay = t.retryDelay ∧
    (between k t).intervalLockstate = t.intervalLockstate

/-- Each of the first `rounds` blocks is due and its state query fails. -/
def RefreshesFail (W : World) (between : Nat → State → State) (ts : Nat → Int)
    (queryCommands : Nat → Nat) (s : State) (rounds : Nat) : Prop :=
  ∀ k, k < rounds →
    lockStateDue W (ts k) (queryCommands k)
      (between k (lockStateRun W between ts queryCommands k s)) ∧
    ¬ querySucceeds W (between k (lockStateRun W between ts queryCommands k s))

/-- A wrapper with one retry, a retry delay of 100 ms and a lock-state interval of
1800 s, paired, whose lock-state refresh is due. -/
def refreshDue : State :=
  { paired := true, nrOfRetries := 1, retryDelay := 100, intervalLockstate := 1800 }

/-! ## The schedule at the end of a pass -/

/-- The test of the battery block of `update` (line 171). -/
def batteryDue (W : World) (ts : Int) (queryCommands : Nat) (s : State) : Prop :=
  s.nextBatteryReportTs = 0 ∨ ts > s.nextBatteryReportTs ∨
    queryBit queryCommands W.QUERY_COMMAND_BATTERY = true

instance (W : World) (ts : Int) (queryCommands : Nat) (s : State) :
    Decidable (batteryDue W ts queryCommands s) :=
  inferInstanceAs (Decidable (_ ∨ _))

/-- The state in which the pass of `update` reaches the dispatch of the pending lock
action (line 222). -/
def beforeDispatch (W : World) (ts : Int) (queryCommands : Nat) (s : State) : State :=
  keypadStep W ts queryCommands (rssiStep W ts (hassStep W (followUpStep W ts
    (configStep W ts queryCommands (batteryStep W ts queryCommands
      (lockStateStep W ts queryCommands (emit .updateConnectionState s)))))))

/-- A pending lock action is dispatched in this pass and succeeds (lines 222-227). -/
def lockActionSucceeds (W : World) (ts : Int) (queryCommands : Nat) (s : State) : Prop :=
  (beforeDispatch W ts queryCommands s).nextLockAction ≠ .noAction ∧
    ts > (beforeDispatch W ts queryCommands s).nextRetryTs ∧
    W.cmdResult (beforeDispatch W ts queryCommands s).io = .Success

instance (W : World) (ts : Int) (queryCommands : Nat) (s : State) :
    Decidable (lockActionSucceeds W ts queryCommands s) :=
  inferInstanceAs (Decidable (_ ∧ _))

/-- The state in which a paired wrapper enters the body of `update`, after the three
reads of lines 145-147. -/
def State.afterReads (s : State) : State :=
  { s with io := s.io + 3 }

/-- A paired wrapper with intervals of 1800 s whose lock-state and battery refreshes
are due and whose config refresh is not. -/
def bothDue : State :=
  { paired := true, nrOfRetries := 3, retryDelay := 100
    intervalLockstate := 1800, intervalBattery := 1800, intervalConfig := 3600
    nextConfigUpdateTs := 1000000000 }

/-- The retry counter of the config refresh and the schedule of the next one. -/
def configRetry (m : Vars) : Int × Int :=
  (m.retryConfigCount, m.nextConfigUpdateTs)

/-- The basic half of a call of `updateConfig` from `s` ends in one of the two `else`
branches (lines 503-512): the fetch is invalid or its `nukiId` is not the persisted
identifier. -/
def basicFails (W : World) (s : State) : Prop :=
  ¬ configMatches W s

instance (W : World) (s : State) : Decidable (basicFails W s) :=
  inferInstanceAs (Decidable (¬ _))

/-- The advanced half of a call of `updateConfig` from `s` ends in the `else` branch
(lines 519-523): the test of line 514 fails in the state left by the basic half. -/
def advancedFails (W : World) (s : State) : Prop :=
  ¬ ((basicConfigStep W (configFetched W s)).1.nukiAdvancedConfigValid = true ∧
    (basicConfigStep W (configFetched W s)).1.prefs.nuki_id_opener =
      (basicConfigStep W (configFetched W s)).1.nukiConfig.nukiId)

instance (W : World) (s : State) : Decidable (advancedFails W s) :=
  inferInstanceAs (Decidable (¬ _))

/-- The state in which a call of `updateConfig` from `s` reaches the test of line 524. -/
def configCycleEnd (W : World) (s : State) : State :=
  (advancedConfigStep (basicConfigStep W (configFetched W s)).1
    (basicConfigStep W (configFetched W s)).2).1

/-- The local `expectedConfig` at line 524. -/
def configExpected (W : World) (s : State) : Bool :=
  (advancedConfigStep (basicConfigStep W (configFetched W s)).1
    (basicConfigStep W (configFetched W s)).2).2

/-- The counter that a call of `updateConfig` entered with the counter at `count`
leaves. -/
def countAfterCycle (basic advanced : Prop) [Decidable basic] [Decidable advanced]
    (count : Int) : Int :=
  if advanced then (if basic then count + 2 else 1) else 0

/-- A run of `k` calls of `updateConfig`: before call `i` whatever else the wrapper
does is `between i`. -/
def configCycles (W : World) (between : Nat → State → State) : Nat → State → State
  | 0, s => s
  | k + 1, s => updateConfig W (between k (configCycles W between k s))

/-- The state in which call `k` (counted from 0) of the run is entered. -/
def cycleEntry (W : World) (between : Nat → State → State) (k : Nat) (s : State) :
    State :=
  between k (configCycles W between k s)

/-- The value of a write of the persisted opener identifier. -/
def idWrite : Event → Option Nat
  | .putUInt key value => if key = "nuki_id_opener" then some value else none
  | _ => none

/-- A paired wrapper without retries whose config retry counter is 0. -/
def configStart : State :=
  { paired := true, nrOfRetries := 0 }

/-- An opener that answers `requestConfig` and never `requestAdvancedConfig`, for a
wrapper without retries whose calls of `updateConfig` all reschedule: each call makes
five interactions, the third of which is the advanced request.  The clock advances by
one second per interaction. -/
def advancedTimesOut : World :=
  { cmdResult := fun io => if io % 5 = 2 then .TimeOut else .Success
    millis := fun io => 1000 * (io : Int) }

/-- A wrapper without retries that has persisted the opener identifier 5, with the
config retry counter at 0. -/
def knowsOpenerFive : State :=
  { paired := true, nrOfRetries := 0, prefs := { nuki_id_opener := 5 } }

/-! # Theorems -/

set_option linter.unusedTactic false
set_option linter.unreachableTactic false
set_option linter.unusedVariables false

/-! ## Calls made by the refresh functions -/

@[simp] theorem State.set_trace (f : Vars → Vars) (s : State) : (s.set f).trace = s.trace := rfl

@[simp] theorem State.setPrefs_trace (f : Preferences → Preferences) (s : State) :
    (s.setPrefs f).trace = s.trace := rfl

@[simp] theorem State.step_trace (s : State) : s.step.trace = s.trace := rfl

@[simp] theorem emit_trace (e : Event) (s : State) : (emit e s).trace = s.trace ++ [e] := rfl

@[simp] theorem postponeBleWatchdog_trace (W : World) (s : State) :
    (postponeBleWatchdog W s).trace = s.trace := rfl

theorem Within.refl (P : Event → Prop) (a : State) : Within P a a :=
  fun _ h => Or.inl h

theorem Within.trans {P : Event → Prop} {a b c : State} (h1 : Within P a b)
    (h2 : Within P b c) : Within P a c := by
  intro e he
  rcases h2 e he with h | h
  · exact h1 e h
  · exact Or.inr h

theorem Within.mono {P Q : Event → Prop} {a b : State} (hPQ : ∀ e, P e → Q e)
    (h : Within P a b) : Within Q a b :=
  fun e he => (h e he).imp id (hPQ e)

theorem Within.set {P : Event → Prop} {a b : State} (f : Vars → Vars) (h : Within P a b) :
    Within P a (b.set f) := h

theorem Within.setPrefs {P : Event → Prop} {a b : State} (f : Preferences → Preferences)
    (h : Within P a b) : Within P a (b.setPrefs f) := h

theorem Within.step {P : Event → Prop} {a b : State} (h : Within P a b) :
    Within P a b.step := h

theorem Within.postpone {P : Event → Prop} {a b : State} (W : World) (h : Within P a b) :
    Within P a (postponeBleWatchdog W b) := h

theorem Within.emitted {P : Event → Prop} {a b : State} {e : Event} (hP : P e)
    (h : Within P a b) : Within P a (emit e b) := by
  intro x hx
  rw [emit_trace, List.mem_append, List.mem_singleton] at hx
  rcases hx with hx | hx
  · exact h x hx
  · exact Or.inr (hx ▸ hP)

theorem Within.ite {P : Event → Prop} {a x y : State} {c : Prop} [Decidable c]
    (hx : Within P a x) (hy : Within P a y) : Within P a (if c then x else y) := by
  split_ifs
  · exact hx
  · exact hy

theorem retryLoop_within {P : Event → Prop} (W : World) (cmd : Event)
    (store : Nat → CmdResult → State → State)
    (hstore : ∀ io r t, (store io r t).trace = t.trace) (hcmd : P cmd) (a : State) :
    ∀ (fuel : Nat) (result : CmdResult) (s : State), Within P a s →
      Within P a (retryLoop W cmd store fuel result s).2 := by
  intro fuel
  induction fuel with
  | zero => intro result s h; exact h
  | succ n ih =>
    intro result s h
    have hs : Within P a (store s.io (W.cmdResult s.io) (emit cmd s.step)) := by
      intro e he
      rw [hstore] at he
      exact Within.emitted hcmd h.step e he
    simp only [retryLoop]
    split_ifs with h1 h2
    · exact ih _ _ (Within.set _ hs)
    · exact hs
    · exact h

theorem updateAuthData_within {P : Event → Prop} (hq : ∀ e, e.quiet = true → P e)
    (W : World) (retrieved : Bool)
    {a s : State} (h : Within P a s) : Within P a (updateAuthData W retrieved s) := by
  unfold updateAuthData
  simp only []
  repeat' (first
    | with_reducible exact h
    | with_reducible apply Within.ite
    | with_reducible apply Within.postpone
    | with_reducible apply Within.set
    | with_reducible apply Within.setPrefs
    | with_reducible apply Within.step
    | with_reducible apply Within.emitted
    | with_reducible apply retryLoop_within
    | (intro _ _ _; rfl)
    | exact hq _ rfl)

theorem updateKeypad_within {P : Event → Prop} (hq : ∀ e, e.quiet = true → P e)
    (W : World) (retrieved : Bool)
    {a s : State} (h : Within P a s) : Within P a (updateKeypad W retrieved s) := by
  unfold updateKeypad
  simp only []
  repeat' (first
    | with_reducible exact h
    | with_reducible apply Within.ite
    | with_reducible apply Within.postpone
    | with_reducible apply Within.set
    | with_reducible apply Within.setPrefs
    | with_reducible apply Within.step
    | with_reducible apply Within.emitted
    | with_reducible apply retryLoop_within
    | (intro _ _ _; rfl)
    | exact hq _ rfl)

theorem updateTimeControl_within {P : Event → Prop} (hq : ∀ e, e.quiet = true → P e)
    (W : World) (retrieved : Bool)
    {a s : State} (h : Within P a s) : Within P a (updateTimeControl W retrieved s) := by
  unfold updateTimeControl
  simp only []
  repeat' (first
    | with_reducible exact h
    | with_reducible apply Within.ite
    | with_reducible apply Within.postpone
    | with_reducible apply Within.set
    | with_reducible apply Within.setPrefs
    | with_reducible apply Within.step
    | with_reducible apply Within.emitted
    | with_reducible apply retryLoop_within
    | (intro _ _ _; rfl)
    | exact hq _ rfl)

theorem gpioWrites_quiet (cur : OpenerState) (pins : List PinEntry) :
    ∀ e ∈ gpioWrites cur pins, e.quiet = true := by
  induction pins with
  | nil => simp [gpioWrites]
  | cons p ps ih =>
    intro e he
    simp only [gpioWrites] at he
    split at he
    · rcases List.mem_cons.mp he with h | h
      · subst h; rfl
      · exact ih e h
    · rcases List.mem_cons.mp he with h | h
      · subst h; rfl
      · exact ih e h
    · rcases List.mem_cons.mp he with h | h
      · subst h; rfl
      · exact ih e h
    · exact ih e he

theorem updateGpioOutputs_within {P : Event → Prop} (hq : ∀ e, e.quiet = true → P e) (W : World)
    {a s : State} (h : Within P a s) : Within P a (updateGpioOutputs W s) := by
  intro e he
  simp only [updateGpioOutputs, List.mem_append] at he
  rcases he with he | he
  · exact h e he
  · exact Or.inr (hq e (gpioWrites_quiet _ _ e he))

theorem updateBatteryState_within {P : Event → Prop} (hq : ∀ e, e.quiet = true → P e) (W : World)
    {a s : State} (h : Within P a s) : Within P a (updateBatteryState W s) := by
  unfold updateBatteryState
  simp only []
  repeat' (first
    | with_reducible exact h
    | with_reducible apply Within.ite
    | with_reducible apply Within.postpone
    | with_reducible apply Within.set
    | with_reducible apply Within.setPrefs
    | with_reducible apply Within.step
    | with_reducible apply Within.emitted
    | with_reducible apply retryLoop_within
    | (intro _ _ _; rfl)
    | exact hq _ rfl)

theorem readConfig_within {P : Event → Prop} (hq : ∀ e, e.quiet = true → P e) (W : World)
    {a s : State} (h : Within P a s) : Within P a (readConfig W s) := by
  unfold readConfig
  simp only []
  repeat' (first
    | with_reducible exact h
    | with_reducible apply Within.ite
    | with_reducible apply Within.postpone
    | with_reducible apply Within.set
    | with_reducible apply Within.setPrefs
    | with_reducible apply Within.step
    | with_reducible apply Within.emitted
    | with_reducible apply retryLoop_within
    | (intro _ _ _; rfl)
    | exact hq _ rfl)

theorem readAdvancedConfig_within {P : Event → Prop} (hq : ∀ e, e.quiet = true → P e) (W : World)
    {a s : State} (h : Within P a s) : Within P a (readAdvancedConfig W s) := by
  unfold readAdvancedConfig
  simp only []
  repeat' (first
    | with_reducible exact h
    | with_reducible apply Within.ite
    | with_reducible apply Within.postpone
    | with_reducible apply Within.set
    | with_reducible apply Within.setPrefs
    | with_reducible apply Within.step
    | with_reducible apply Within.emitted
    | with_reducible apply retryLoop_within
    | (intro _ _ _; rfl)
    | exact hq _ rfl)

theorem verifyPinStatus_within {P : Event → Prop} (hq : ∀ e, e.quiet = true → P e) (W : World)
    {a s : State} (h : Within P a s) : Within P a (verifyPinStatus W s) := by
  unfold verifyPinStatus
  simp only []
  repeat' (first
    | with_reducible exact h
    | with_reducible apply Within.ite
    | with_reducible apply Within.postpone
    | with_reducible apply Within.set
    | with_reducible apply Within.setPrefs
    | with_reducible apply Within.step
    | with_reducible apply Within.emitted
    | with_reducible apply retryLoop_within
    | (intro _ _ _; rfl)
    | exact hq _ rfl)

theorem storeNukiId_within {P : Event → Prop} (hq : ∀ e, e.quiet = true → P e) 
    {a s : State} (h : Within P a s) : Within P a (storeNukiId s) := by
  unfold storeNukiId
  repeat' (first
    | with_reducible exact h
    | with_reducible apply Within.ite
    | with_reducible apply Within.postpone
    | with_reducible apply Within.set
    | with_reducible apply Within.setPrefs
    | with_reducible apply Within.step
    | with_reducible apply Within.emitted
    | with_reducible apply retryLoop_within
    | (intro _ _ _; rfl)
    | exact hq _ rfl)

theorem matchedConfigStep_within {P : Event → Prop} (hq : ∀ e, e.quiet = true → P e) (W : World)
    {a s : State} (h : Within P a s) : Within P a (matchedConfigStep W s) := by
  unfold matchedConfigStep
  simp only []
  repeat' (first
    | with_reducible exact h
    | with_reducible apply Within.ite
    | with_reducible apply Within.postpone
    | with_reducible apply Within.set
    | with_reducible apply Within.setPrefs
    | with_reducible apply Within.step
    | with_reducible apply Within.emitted
    | with_reducible apply retryLoop_within
    | (intro _ _ _; rfl)
    | with_reducible apply verifyPinStatus_within hq
    | with_reducible apply updateTimeControl_within hq
    | exact hq _ rfl)

theorem setupHASS_within {P : Event → Prop} (hq : ∀ e, e.quiet = true → P e) 
    {a s : State} (h : Within P a s) : Within P a (setupHASS s) := by
  unfold setupHASS
  repeat' (first
    | with_reducible exact h
    | with_reducible apply Within.ite
    | with_reducible apply Within.postpone
    | with_reducible apply Within.set
    | with_reducible apply Within.setPrefs
    | with_reducible apply Within.step
    | with_reducible apply Within.emitted
    | with_reducible apply retryLoop_within
    | (intro _ _ _; rfl)
    | exact hq _ rfl)

theorem basicConfigStep_within {P : Event → Prop} (hq : ∀ e, e.quiet = true → P e) (W : World)
    {a s : State} (h : Within P a s) : Within P a (basicConfigStep W s).1 := by
  unfold basicConfigStep
  simp only []
  split_ifs
  · exact matchedConfigStep_within hq W (storeNukiId_within hq h)
  · exact Within.set _ (storeNukiId_within hq h)
  · exact Within.set _ h

theorem advancedConfigStep_within {P : Event → Prop} (hq : ∀ e, e.quiet = true → P e)
    (expectedConfig : Bool) {a s : State} (h : Within P a s) :
    Within P a (advancedConfigStep s expectedConfig).1 := by
  unfold advancedConfigStep
  simp only []
  split_ifs
  · exact Within.set _ (Within.emitted (hq _ rfl) h)
  · exact Within.set _ h
  · exact Within.set _ h

theorem updateConfig_within {P : Event → Prop} (hq : ∀ e, e.quiet = true → P e) (W : World)
    {a s : State} (h : Within P a s) : Within P a (updateConfig W s) := by
  unfold updateConfig
  simp only []
  repeat' (first
    | with_reducible exact h
    | with_reducible apply Within.ite
    | with_reducible apply Within.postpone
    | with_reducible apply Within.set
    | with_reducible apply Within.setPrefs
    | with_reducible apply Within.step
    | with_reducible apply Within.emitted
    | with_reducible apply retryLoop_within
    | (intro _ _ _; rfl)
    | with_reducible apply advancedConfigStep_within hq
    | with_reducible apply basicConfigStep_within hq
    | with_reducible apply readAdvancedConfig_within hq
    | with_reducible apply readConfig_within hq
    | exact hq _ rfl)

theorem Event.inBody_of_quiet (e : Event) (h : e.quiet = true) : e.inBody = true := by
  cases e <;> first | rfl | exact h

theorem ringStep_within {P : Event → Prop} (hb : ∀ e, e.inBody = true → P e)
    (W : World) {a s : State} (h : Within P a s) : Within P a (ringStep W s) := by
  have hq : ∀ e, e.quiet = true → P e := fun e he => hb e (e.inBody_of_quiet he)
  unfold ringStep
  simp only []
  repeat' (first
    | with_reducible exact h
    | with_reducible apply Within.ite
    | with_reducible apply Within.emitted
    | with_reducible apply updateGpioOutputs_within hq
    | exact hb _ rfl)

theorem updateKeyTurnerState_within {P : Event → Prop} (hb : ∀ e, e.inBody = true → P e)
    (W : World) {a s : State} (h : Within P a s) : Within P a (updateKeyTurnerState W s) := by
  have hq : ∀ e, e.quiet = true → P e := fun e he => hb e (e.inBody_of_quiet he)
  unfold updateKeyTurnerState
  simp only []
  repeat' (first
    | with_reducible exact h
    | with_reducible apply Within.ite
    | with_reducible apply Within.postpone
    | with_reducible apply Within.set
    | with_reducible apply Within.setPrefs
    | with_reducible apply Within.step
    | with_reducible apply Within.emitted
    | with_reducible apply retryLoop_within
    | (intro _ _ _; rfl)
    | with_reducible apply updateAuthData_within hq
    | with_reducible apply ringStep_within hb
    | exact hb _ rfl)

theorem lockStateStep_within {P : Event → Prop} (hb : ∀ e, e.inBody = true → P e)
    (W : World) (ts : Int) (queryCommands : Nat) {a s : State} (h : Within P a s) :
    Within P a (lockStateStep W ts queryCommands s) := by
  unfold lockStateStep
  simp only []
  repeat' (first
    | with_reducible exact h
    | with_reducible apply Within.ite
    | with_reducible apply Within.postpone
    | with_reducible apply Within.set
    | with_reducible apply Within.setPrefs
    | with_reducible apply Within.step
    | with_reducible apply Within.emitted
    | with_reducible apply retryLoop_within
    | (intro _ _ _; rfl)
    | with_reducible apply updateKeyTurnerState_within hb
    | exact hb _ rfl)

theorem batteryStep_within {P : Event → Prop} (hq : ∀ e, e.quiet = true → P e)
    (W : World) (ts : Int) (queryCommands : Nat) {a s : State} (h : Within P a s) :
    Within P a (batteryStep W ts queryCommands s) := by
  unfold batteryStep
  repeat' (first
    | with_reducible exact h
    | with_reducible apply Within.ite
    | with_reducible apply Within.postpone
    | with_reducible apply Within.set
    | with_reducible apply Within.setPrefs
    | with_reducible apply Within.step
    | with_reducible apply Within.emitted
    | with_reducible apply retryLoop_within
    | (intro _ _ _; rfl)
    | with_reducible apply updateBatteryState_within hq
    | exact hq _ rfl)

theorem configStep_within {P : Event → Prop} (hq : ∀ e, e.quiet = true → P e)
    (W : World) (ts : Int) (queryCommands : Nat) {a s : State} (h : Within P a s) :
    Within P a (configStep W ts queryCommands s) := by
  unfold configStep
  simp only []
  repeat' (first
    | with_reducible exact h
    | with_reducible apply Within.ite
    | with_reducible apply Within.postpone
    | with_reducible apply Within.set
    | with_reducible apply Within.setPrefs
    | with_reducible apply Within.step
    | with_reducible apply Within.emitted
    | with_reducible apply retryLoop_within
    | (intro _ _ _; rfl)
    | with_reducible apply setupHASS_within hq
    | with_reducible apply updateConfig_within hq
    | exact hq _ rfl)

theorem followUpStep_within {P : Event → Prop} (hq : ∀ e, e.quiet = true → P e)
    (W : World) (ts : Int) {a s : State} (h : Within P a s) :
    Within P a (followUpStep W ts s) := by
  unfold followUpStep
  simp only []
  repeat' (first
    | with_reducible exact h
    | with_reducible apply Within.ite
    | with_reducible apply Within.postpone
    | with_reducible apply Within.set
    | with_reducible apply Within.setPrefs
    | with_reducible apply Within.step
    | with_reducible apply Within.emitted
    | with_reducible apply retryLoop_within
    | (intro _ _ _; rfl)
    | with_reducible apply updateAuthData_within hq
    | with_reducible apply updateKeypad_within hq
    | with_reducible apply updateTimeControl_within hq
    | exact hq _ rfl)

theorem hassStep_within {P : Event → Prop} (hq : ∀ e, e.quiet = true → P e)
    (W : World) {a s : State} (h : Within P a s) : Within P a (hassStep W s) := by
  unfold hassStep
  repeat' (first
    | with_reducible exact h
    | with_reducible apply Within.ite
    | with_reducible apply Within.postpone
    | with_reducible apply Within.set
    | with_reducible apply Within.setPrefs
    | with_reducible apply Within.step
    | with_reducible apply Within.emitted
    | with_reducible apply retryLoop_within
    | (intro _ _ _; rfl)
    | with_reducible apply setupHASS_within hq
    | exact hq _ rfl)

theorem rssiStep_within {P : Event → Prop} (hq : ∀ e, e.quiet = true → P e)
    (W : World) (ts : Int) {a s : State} (h : Within P a s) : Within P a (rssiStep W ts s) := by
  unfold rssiStep
  simp only []
  repeat' (first
    | with_reducible exact h
    | with_reducible apply Within.ite
    | with_reducible apply Within.postpone
    | with_reducible apply Within.set
    | with_reducible apply Within.setPrefs
    | with_reducible apply Within.step
    | with_reducible apply Within.emitted
    | with_reducible apply retryLoop_within
    | (intro _ _ _; rfl)
    | exact hq _ rfl)

theorem keypadStep_within {P : Event → Prop} (hq : ∀ e, e.quiet = true → P e)
    (W : World) (ts : Int) (queryCommands : Nat) {a s : State} (h : Within P a s) :
    Within P a (keypadStep W ts queryCommands s) := by
  unfold keypadStep
  repeat' (first
    | with_reducible exact h
    | with_reducible apply Within.ite
    | with_reducible apply Within.postpone
    | with_reducible apply Within.set
    | with_reducible apply Within.setPrefs
    | with_reducible apply Within.step
    | with_reducible apply Within.emitted
    | with_reducible apply retryLoop_within
    | (intro _ _ _; rfl)
    | with_reducible apply updateKeypad_within hq
    | exact hq _ rfl)

theorem dispatchLockAction_within {P : Event → Prop} (hb : ∀ e, e.inBody = true → P e)
    (W : World) (ts : Int) {a s : State} (h : Within P a s) :
    Within P a (dispatchLockAction W ts s) := by
  unfold dispatchLockAction
  simp only []
  repeat' (first
    | with_reducible exact h
    | with_reducible apply Within.ite
    | with_reducible apply Within.postpone
    | with_reducible apply Within.set
    | with_reducible apply Within.setPrefs
    | with_reducible apply Within.step
    | with_reducible apply Within.emitted
    | with_reducible apply retryLoop_within
    | (intro _ _ _; rfl)
    | exact hb _ rfl)

theorem clearAuthDataStep_within {P : Event → Prop} (hq : ∀ e, e.quiet = true → P e)
    {a s : State} (h : Within P a s) : Within P a (clearAuthDataStep s) := by
  unfold clearAuthDataStep
  repeat' (first
    | with_reducible exact h
    | with_reducible apply Within.ite
    | with_reducible apply Within.postpone
    | with_reducible apply Within.set
    | with_reducible apply Within.setPrefs
    | with_reducible apply Within.step
    | with_reducible apply Within.emitted
    | with_reducible apply retryLoop_within
    | (intro _ _ _; rfl)
    | exact hq _ rfl)

theorem updateBody_within {P : Event → Prop} (hb : ∀ e, e.inBody = true → P e)
    (W : World) (ts : Int) (queryCommands : Nat) {a s : State} (h : Within P a s) :
    Within P a (updateBody W ts queryCommands s) := by
  have hq : ∀ e, e.quiet = true → P e := fun e he => hb e (e.inBody_of_quiet he)
  unfold updateBody
  simp only []
  exact Within.set _ (clearAuthDataStep_within hq (dispatchLockAction_within hb W ts
    (keypadStep_within hq W ts queryCommands (rssiStep_within hq W ts (hassStep_within hq W
    (followUpStep_within hq W ts (configStep_within hq W ts queryCommands
    (batteryStep_within hq W ts queryCommands (lockStateStep_within hb W ts queryCommands
    (Within.emitted (hq _ rfl) h))))))))))

/-! ## Beacon watchdog -/

theorem wrapInt32_of_fits (x : Int) (h1 : -2147483648 ≤ x) (h2 : x ≤ 2147483647) :
    wrapInt32 x = x := by
  unfold wrapInt32
  omega

theorem pairingStep_within {P : Event → Prop} (hb : ∀ str, P (.publishBleAddress str))
    (hp : ∀ b, P (.pairNuki b)) (W : World) {a s : State} (h : Within P a s) :
    Within P a (pairingStep W s).1 := by
  unfold pairingStep
  simp only []
  split_ifs
  · exact Within.emitted (hb _) (Within.set _ (Within.step (Within.emitted (hp _)
      (Within.step (Within.emitted (hb _) h)))))
  · exact Within.emitted (hp _) (Within.step (Within.emitted (hb _) h))
  · exact h

theorem pairingStep_goOn (W : World) (s : State) :
    (pairingStep W s).2 = true ↔ reachesWatchdog W s := by
  unfold pairingStep reachesWatchdog
  cases hp : s.paired <;> cases hn : W.pairNuki s.io <;> simp [hp, hn, emit]

theorem pairingStep_io (W : World) (s : State) (h : reachesWatchdog W s) :
    (pairingStep W s).1.io = passIo s := by
  unfold pairingStep passIo
  unfold reachesWatchdog at h
  cases hp : s.paired <;> cases hn : W.pairNuki s.io <;>
    simp [hp, hn, emit, State.step, State.set] at h ⊢

theorem pairingStep_vars (W : World) (s : State) :
    (pairingStep W s).1.restartBeaconTimeout = s.restartBeaconTimeout ∧
      (pairingStep W s).1.disableBleWatchdogTs = s.disableBleWatchdogTs := by
  unfold pairingStep
  cases hp : s.paired <;> cases hn : W.pairNuki s.io <;>
    simp [hp, hn, emit, State.step, State.set]

theorem watchdogTrips_iff (s : State) (ts beacon : Int)
    (hfit : s.restartBeaconTimeout * 1000 ≤ 2147483647) :
    watchdogTrips s ts beacon = true ↔
      s.restartBeaconTimeout > 0 ∧ ts > 60000 ∧ beacon > 0 ∧ s.disableBleWatchdogTs < ts ∧
        ts - beacon > s.restartBeaconTimeout * 1000 := by
  unfold watchdogTrips
  rw [decide_eq_true_iff]
  constructor
  · rintro ⟨h1, h2, h3, h4, h5⟩
    rw [wrapInt32_of_fits _ (by omega) hfit] at h5
    exact ⟨h1, h2, h3, h4, h5⟩
  · rintro ⟨h1, h2, h3, h4, h5⟩
    rw [wrapInt32_of_fits _ (by omega) hfit]
    exact ⟨h1, h2, h3, h4, h5⟩

theorem Event.inPass_ne_restart (e : Event) (h : e.inPass) (r : RestartReason) :
    e ≠ .restartEsp r := by
  rintro rfl
  rcases h with h | ⟨str, h⟩ | ⟨b, h⟩
  · simp [Event.inBody, Event.quiet] at h
  · cases h
  · cases h

/-- C9, as the code has it: with the configured timeout within the range of the
32-bit product `_restartBeaconTimeout * 1000`, a pass of `update` forces a restart
with reason BLEBeaconWatchdog exactly when the pass gets past the pairing block and
the configured timeout is positive, the clock read of the pass is above 60000 ms,
the last beacon timestamp is positive, the clock is past `_disableBleWatchdogTs`,
and the beacon silence exceeds the timeout in milliseconds. -/
theorem beacon_watchdog_restart_iff (W : World) (s : State)
    (hfit : s.restartBeaconTimeout * 1000 ≤ 2147483647) :
    Event.restartEsp .BLEBeaconWatchdog ∈ callsOf (update W) s ↔
      reachesWatchdog W s ∧ s.restartBeaconTimeout > 0 ∧ passNow W s > 60000 ∧
        lastBeaconAt W s > 0 ∧ s.disableBleWatchdogTs < passNow W s ∧
        passNow W s - lastBeaconAt W s > s.restartBeaconTimeout * 1000 := by
  have hgo : (pairingStep W s.fresh).2 = true ↔ reachesWatchdog W s :=
    pairingStep_goOn W s.fresh
  have hvars := pairingStep_vars W s.fresh
  have hpre : Within Event.inPass s.fresh (pairingStep W s.fresh).1 :=
    pairingStep_within (fun str => Or.inr (Or.inl ⟨str, rfl⟩))
      (fun b => Or.inr (Or.inr ⟨b, rfl⟩)) W (Within.refl _ _)
  have hclean : ∀ t : State, Within Event.inPass s.fresh t →
      Event.restartEsp .BLEBeaconWatchdog ∉ t.trace := by
    intro t ht hmem
    rcases ht _ hmem with h | h
    · exact absurd h (List.not_mem_nil _)
    · exact Event.inPass_ne_restart _ h _ rfl
  unfold callsOf update
  simp only []
  by_cases hreaches : reachesWatchdog W s
  · have hio : (pairingStep W s.fresh).1.io = passIo s := pairingStep_io W s.fresh hreaches
    have h2 := hgo.mpr hreaches
    simp only [h2, Bool.not_true, Bool.false_eq_true, if_false, hreaches, true_and]
    have hw := watchdogTrips_iff
      ({ (pairingStep W s.fresh).1 with io := (pairingStep W s.fresh).1.io + 3 })
      (passNow W s) (lastBeaconAt W s) (by simpa [hvars.1] using hfit)
    simp only [hvars.1, hvars.2] at hw
    have hw2 : _ ↔ (s.restartBeaconTimeout > 0 ∧ passNow W s > 60000 ∧
        lastBeaconAt W s > 0 ∧ s.disableBleWatchdogTs < passNow W s ∧
        passNow W s - lastBeaconAt W s > s.restartBeaconTimeout * 1000) := hw
    rw [← hw2]
    simp only [hio, passNow, lastBeaconAt]
    split_ifs with ht
    · simp only [emit_trace, List.mem_append, List.mem_singleton, or_true, true_iff]
      exact ht
    · have hpre3 : Within Event.inPass s.fresh
          { (pairingStep W s.fresh).1 with io := passIo s + 3 } := hpre
      have hno := hclean _ (updateBody_within (fun e he => Or.inl he) W
        (W.millis (passIo s + 1)) (W.queryCommands (passIo s + 2)) hpre3)
      simp only [ht, Bool.false_eq_true, iff_false]
      exact hno
  · have h2 : (pairingStep W s.fresh).2 = false := by
      cases hb : (pairingStep W s.fresh).2
      · rfl
      · exact absurd (hgo.mp hb) hreaches
    simp only [h2, Bool.not_false, if_true, hreaches, false_and, iff_false]
    exact hclean _ hpre

/-- C9 at a concrete input: a paired wrapper with timeout 30 s, clock 105000 ms and
last beacon at 70000 ms is restarted by the watchdog. -/
theorem beacon_watchdog_restart_iff_witness :
    beaconLost.restartBeaconTimeout * 1000 ≤ 2147483647 ∧
      Event.restartEsp .BLEBeaconWatchdog ∈ callsOf (update beaconSilent) beaconLost :=
  ⟨by decide, (beacon_watchdog_restart_iff beaconSilent beaconLost (by decide)).mpr (by decide)⟩

/-- C9 as stated fails: in a pass that starts unpaired and whose pairing fails, all
five conditions hold (timeout 30 s, clock 105000 ms, last beacon at 70000 ms,
watchdog not suppressed) and no restart is forced, because `update` returns after
the failed pairing (line 141). -/
theorem beacon_watchdog_skipped_when_pairing_fails :
    (beaconLostUnpaired.restartBeaconTimeout > 0 ∧
      passNow beaconSilent beaconLostUnpaired > 60000 ∧
      lastBeaconAt beaconSilent beaconLostUnpaired > 0 ∧
      beaconLostUnpaired.disableBleWatchdogTs < passNow beaconSilent beaconLostUnpaired ∧
      passNow beaconSilent beaconLostUnpaired - lastBeaconAt beaconSilent beaconLostUnpaired >
        beaconLostUnpaired.restartBeaconTimeout * 1000) ∧
    Event.restartEsp .BLEBeaconWatchdog ∉ callsOf (update beaconSilent) beaconLostUnpaired := by
  decide

/-! ## Command loops -/

theorem retryLoop_frame {α : Type} (f : State → α) (W : World) (cmd : Event)
    (store : Nat → CmdResult → State → State)
    (hstore : ∀ io r t, f (store io r t) = f t)
    (hstep : ∀ t, f t.step = f t)
    (hemit : ∀ e t, f (emit e t) = f t)
    (hcount : ∀ (t : State) (n : Int), f (t.set fun m => { m with retryCount := n }) = f t) :
    ∀ (fuel : Nat) (result : CmdResult) (s : State),
      f (retryLoop W cmd store fuel result s).2 = f s := by
  intro fuel
  induction fuel with
  | zero => intro result s; rfl
  | succ n ih =>
    intro result s
    simp only [retryLoop]
    split_ifs with h1 h2
    · rw [ih, hcount, hstore, hemit, hstep]
    · rw [hstore, hemit, hstep]
    · rfl

theorem retryLoop_result (W : World) (cmd : Event) (store : Nat → CmdResult → State → State)
    (hio : ∀ io r t, (store io r t).io = t.io)
    (hrc : ∀ io r t, (store io r t).retryCount = t.retryCount)
    (hnr : ∀ io r t, (store io r t).nrOfRetries = t.nrOfRetries) :
    ∀ (fuel : Nat) (result : CmdResult) (s : State), result ≠ .Success →
      fuel = (s.nrOfRetries + 1 - s.retryCount).toNat →
      ((retryLoop W cmd store fuel result s).1 = .Success ↔
        ∃ k, k < fuel ∧ W.cmdResult (s.io + k) = .Success) := by
  intro fuel
  induction fuel with
  | zero =>
    intro result s hr _
    simp [retryLoop, hr]
  | succ n ih =>
    intro result s hr hfuel
    have hguard : s.retryCount < s.nrOfRetries + 1 := by omega
    simp only [retryLoop, hguard, if_true]
    split_ifs with h2
    · rw [ih _ _ h2]
      · simp only [State.set, hio, emit, State.step]
        constructor
        · rintro ⟨k, hk, hs⟩
          exact ⟨k + 1, by omega, by rw [← hs]; congr 1; omega⟩
        · rintro ⟨k, hk, hs⟩
          cases k with
          | zero => exact absurd hs h2
          | succ j => exact ⟨j, by omega, by rw [← hs]; congr 1; omega⟩
      · simp only [State.set, hrc, hnr, emit, State.step]
        omega
    · simp only [ne_eq, not_not] at h2
      simp only [h2, true_iff]
      exact ⟨0, by omega, h2⟩

theorem grows_refl (a : State) : Grows a a := fun _ h => h

theorem grows_set {a b : State} (f : Vars → Vars) (h : Grows a b) : Grows a (b.set f) := h

theorem grows_step {a b : State} (h : Grows a b) : Grows a b.step := h

theorem grows_postpone {a b : State} (W : World) (h : Grows a b) :
    Grows a (postponeBleWatchdog W b) := h

theorem grows_emitted {a b : State} (e : Event) (h : Grows a b) : Grows a (emit e b) := by
  intro x hx
  rw [emit_trace, List.mem_append]
  exact Or.inl (h x hx)

theorem grows_ite {a x y : State} {c : Prop} [Decidable c] (hx : Grows a x) (hy : Grows a y) :
    Grows a (if c then x else y) := by
  split_ifs
  · exact hx
  · exact hy

theorem retryLoop_grows (W : World) (cmd : Event) (store : Nat → CmdResult → State → State)
    (hstore : ∀ io r t, (store io r t).trace = t.trace) (a : State) :
    ∀ (fuel : Nat) (result : CmdResult) (s : State), Grows a s →
      Grows a (retryLoop W cmd store fuel result s).2 := by
  intro fuel
  induction fuel with
  | zero => intro result s h; exact h
  | succ n ih =>
    intro result s h
    have hs : Grows a (store s.io (W.cmdResult s.io) (emit cmd s.step)) := by
      intro e he
      rw [hstore]
      exact grows_emitted cmd (grows_step h) e he
    simp only [retryLoop]
    split_ifs with h1 h2
    · exact ih _ _ (grows_set _ hs)
    · exact hs
    · exact h

theorem updateAuthData_grows (W : World) (retrieved : Bool) {a s : State} (h : Grows a s) :
    Grows a (updateAuthData W retrieved s) := by
  unfold updateAuthData
  simp only []
  repeat' (first
    | with_reducible exact h
    | with_reducible apply grows_ite
    | with_reducible apply grows_postpone
    | with_reducible apply grows_set
    | with_reducible apply grows_step
    | with_reducible apply grows_emitted
    | with_reducible apply retryLoop_grows
    | (intro _ _ _; rfl))

theorem updateAuthData_keyTurnerState (W : World) (retrieved : Bool) (s : State) :
    (updateAuthData W retrieved s).keyTurnerState = s.keyTurnerState := by
  have hl := retryLoop_frame (fun t => t.keyTurnerState) W
    (.retrieveLogEntries (s.prefs.authlog_max_entries.getD W.MAX_AUTHLOG)) (fun _ _ t => t)
    (fun _ _ _ => rfl) (fun _ => rfl) (fun _ _ => rfl) (fun _ _ => rfl) (loopFuel s) .unset
    (s.set fun m => { m with retryCount := 0 })
  simp only [] at hl
  unfold updateAuthData
  simp only []
  split_ifs <;> first | rfl | exact hl

/-! ## Ring detection in `updateKeyTurnerState` -/

theorem updateGpioOutputs_toVars (W : World) (s : State) :
    (updateGpioOutputs W s).toVars = s.toVars := rfl

theorem ringStep_toVars (W : World) (s : State) : (ringStep W s).toVars = s.toVars := by
  unfold ringStep
  simp only []
  split_ifs <;> rfl

theorem ringStep_mem_ring (W : World) (s : State) (b : Bool) :
    Event.publishRing b ∈ (ringStep W s).trace ↔
      Event.publishRing b ∈ s.trace ∨
        (b = true ∧ ringLocked s) ∨ (b = false ∧ ¬ ringLocked s ∧ ringOpen s) := by
  have hg : ∀ t : State, Event.publishRing b ∈ (updateGpioOutputs W t).trace ↔
      Event.publishRing b ∈ t.trace := by
    intro t
    simp only [updateGpioOutputs, List.mem_append]
    constructor
    · rintro (h | h)
      · exact h
      · exact absurd (gpioWrites_quiet _ _ _ h) (by simp [Event.quiet])
    · exact Or.inl
  unfold ringStep
  simp only []
  split_ifs with h1 h2
  · have h1' : ringLocked s := h1
    cases b <;>
      simp only [emit_trace, List.mem_append, List.mem_singleton, Event.publishRing.injEq,
        Bool.false_eq_true, Bool.true_eq_false, reduceCtorEq, false_and, true_and, or_false,
        false_or] <;> tauto
  · have h1' : ¬ ringLocked s := h1
    have h2' : ringOpen s := h2
    rw [hg]
    cases b <;>
      simp only [emit_trace, List.mem_append, List.mem_singleton, Event.publishRing.injEq,
        Bool.false_eq_true, Bool.true_eq_false, reduceCtorEq, false_and, true_and, or_false,
        false_or] <;> tauto
  · have h1' : ¬ ringLocked s := h1
    have h2' : ¬ ringOpen s := h2
    rw [hg]
    cases b <;>
      simp only [emit_trace, List.mem_append, List.mem_singleton, Event.publishRing.injEq,
        Bool.false_eq_true, Bool.true_eq_false, reduceCtorEq, false_and, true_and, or_false,
        false_or] <;> tauto

theorem authDataStep_mem_ring (W : World) (s : State) (b : Bool) (c : Prop) [Decidable c] :
    Event.publishRing b ∈ (if c then updateAuthData W false s else s).trace ↔
      Event.publishRing b ∈ s.trace := by
  split_ifs
  · constructor
    · intro h
      rcases updateAuthData_within (P := fun e => e.quiet = true) (fun _ h => h) W false
        (Within.refl _ s) _ h with h | h
      · exact h
      · exact absurd h (by simp [Event.quiet])
    · exact updateAuthData_grows W false (grows_refl s) _
  · exact Iff.rfl

theorem authDataStep_keyTurnerState (W : World) (s : State) (c : Prop) [Decidable c] :
    (if c then updateAuthData W false s else s).keyTurnerState = s.keyTurnerState := by
  split_ifs
  · exact updateAuthData_keyTurnerState W false s
  · rfl

/-- What `updateKeyTurnerState` does after a successful query, from the state `s1`
the command loop left. -/
theorem ringTail (W : World) (s1 : State) (str : String)
    (hnoring : ∀ b, Event.publishRing b ∉ s1.trace) (t : State)
    (ht : t = postponeBleWatchdog W
      (if (ringStep W ((emit (.publishLockstateCommandResult str) s1).set
            fun m => { m with retryLockstateCount := 0 })).publishAuthData = true then
          updateAuthData W false (ringStep W ((emit (.publishLockstateCommandResult str) s1).set
            fun m => { m with retryLockstateCount := 0 }))
        else ringStep W ((emit (.publishLockstateCommandResult str) s1).set
            fun m => { m with retryLockstateCount := 0 }))) :
    t.keyTurnerState = s1.keyTurnerState ∧
      ∀ b, (Event.publishRing b ∈ t.trace ↔
        (b = true ∧ ringLocked s1) ∨ (b = false ∧ ¬ ringLocked s1 ∧ ringOpen s1)) := by
  subst ht
  constructor
  · show (if _ then _ else _ : State).keyTurnerState = _
    rw [authDataStep_keyTurnerState]
    show (ringStep W _).toVars.keyTurnerState = _
    rw [ringStep_toVars]
    rfl
  · intro b
    rw [postponeBleWatchdog_trace, authDataStep_mem_ring, ringStep_mem_ring]
    have h0 : Event.publishRing b ∉ ((emit (.publishLockstateCommandResult str) s1).set
        fun m => { m with retryLockstateCount := 0 }).trace := by
      rw [State.set_trace, emit_trace, List.mem_append, List.mem_singleton]
      rintro (h | h)
      · exact hnoring b h
      · cases h
    constructor
    · rintro (h | h)
      · exact absurd h h0
      · exact h
    · exact Or.inr

/-- C10: `updateKeyTurnerState` publishes ring-while-locked exactly when the state query
succeeds, `_statusUpdated` is set, the queried and the previous lock state are both
Locked and the queried Nuki state equals the previous one; it publishes ring-open
exactly when the query succeeds, the queried lock state is Open, the previous one
is not Open and the queried trigger is Manual. -/
theorem updateKeyTurnerState_ring (W : World) (s : State) :
    (Event.publishRing true ∈ callsOf (updateKeyTurnerState W) s ↔
      querySucceeds W s ∧ s.statusUpdated = true ∧
        (updateKeyTurnerState W s.fresh).keyTurnerState.lockState = .Locked ∧
        s.lastKeyTurnerState.lockState = .Locked ∧
        (updateKeyTurnerState W s.fresh).keyTurnerState.nukiState =
          s.lastKeyTurnerState.nukiState) ∧
    (Event.publishRing false ∈ callsOf (updateKeyTurnerState W) s ↔
      querySucceeds W s ∧
        (updateKeyTurnerState W s.fresh).keyTurnerState.lockState = .Open ∧
        s.lastKeyTurnerState.lockState ≠ .Open ∧
        (updateKeyTurnerState W s.fresh).keyTurnerState.trigger = .Manual) := by
  have hstatus := retryLoop_frame (fun t => t.statusUpdated) W .requestOpenerState
    (fun io _ t => t.set fun m => { m with keyTurnerState := W.openerState io })
    (fun _ _ _ => rfl) (fun _ => rfl) (fun _ _ => rfl) (fun _ _ => rfl) (loopFuel s.fresh) .unset
    (s.fresh.set fun m => { m with retryCount := 0 })
  have hlast := retryLoop_frame (fun t => t.lastKeyTurnerState) W .requestOpenerState
    (fun io _ t => t.set fun m => { m with keyTurnerState := W.openerState io })
    (fun _ _ _ => rfl) (fun _ => rfl) (fun _ _ => rfl) (fun _ _ => rfl) (loopFuel s.fresh) .unset
    (s.fresh.set fun m => { m with retryCount := 0 })
  have hres := retryLoop_result W .requestOpenerState
    (fun io _ t => t.set fun m => { m with keyTurnerState := W.openerState io })
    (fun _ _ _ => rfl) (fun _ _ _ => rfl) (fun _ _ _ => rfl) (loopFuel s.fresh) .unset
    (s.fresh.set fun m => { m with retryCount := 0 }) (by decide)
    (by show (s.nrOfRetries + 1).toNat = (s.nrOfRetries + 1 - 0).toNat; rw [Int.sub_zero])
  have hloop := retryLoop_within (P := fun e => e = .requestOpenerState) W .requestOpenerState
    (fun io _ t => t.set fun m => { m with keyTurnerState := W.openerState io })
    (fun _ _ _ => rfl) rfl s.fresh (loopFuel s.fresh) .unset
    (s.fresh.set fun m => { m with retryCount := 0 }) (Within.refl _ _)
  have hnoring : ∀ b, Event.publishRing b ∉ (retryLoop W .requestOpenerState
      (fun io _ t => t.set fun m => { m with keyTurnerState := W.openerState io })
      (loopFuel s.fresh) .unset (s.fresh.set fun m => { m with retryCount := 0 })).2.trace := by
    intro b hb
    rcases hloop _ hb with h | h
    · exact absurd h (List.not_mem_nil _)
    · cases h
  change _ ↔ querySucceeds W s at hres
  simp only [] at hstatus hlast
  change _ = s.statusUpdated at hstatus
  change _ = s.lastKeyTurnerState at hlast
  unfold callsOf updateKeyTurnerState
  simp only []
  generalize (retryLoop W .requestOpenerState
      (fun io _ t => t.set fun m => { m with keyTurnerState := W.openerState io })
      (loopFuel s.fresh) .unset (s.fresh.set fun m => { m with retryCount := 0 })) = L
    at hstatus hlast hres hnoring ⊢
  obtain ⟨result, s1⟩ := L
  simp only [] at hstatus hlast hres hnoring ⊢
  by_cases hr : result = .Success
  · have hq : querySucceeds W s := hres.mp hr
    simp only [hr, ne_eq, not_true_eq_false, if_false]
    obtain ⟨hcur, hmem⟩ := ringTail W s1 (cmdResultToString .Success) hnoring _ rfl
    rw [hmem true, hmem false, hcur]
    unfold ringLocked ringOpen
    rw [hstatus, hlast]
    simp only [hq, true_and, Bool.true_eq_false, false_and, or_false, Bool.false_eq_true, false_or]
    constructor
    · constructor
      · rintro ⟨h1, h2, h3, h4⟩
        exact ⟨h1, h2, h3, h4.symm⟩
      · rintro ⟨h1, h2, h3, h4⟩
        exact ⟨h1, h2, h3, h4.symm⟩
    · constructor
      · rintro ⟨_, h1, h2, h3⟩
        exact ⟨h2, fun h => h1 (h2.trans h.symm), h3⟩
      · rintro ⟨h1, h2, h3⟩
        refine ⟨?_, fun h => h2 (h ▸ h1), h1, h3⟩
        rintro ⟨_, h4, _⟩
        rw [h1] at h4
        cases h4
  · have hq : ¬ querySucceeds W s := fun h => hr (hres.mpr h)
    simp only [hr, ne_eq, not_false_eq_true, if_true, hq, false_and, iff_false]
    have hfail : ∀ b, Event.publishRing b ∉
        (emit (.publishLockstateCommandResult (cmdResultToString result)) s1).trace := by
      intro b h'
      rw [emit_trace, List.mem_append, List.mem_singleton] at h'
      rcases h' with h' | h'
      · exact hnoring _ h'
      · cases h'
    constructor
    · intro h
      exact hfail true (by split_ifs at h <;> exact h)
    · intro h
      exact hfail false (by split_ifs at h <;> exact h)

/-! ## Retry of a pending lock action -/

theorem retryMessages_append (l1 l2 : List Event) :
    retryMessages (l1 ++ l2) = retryMessages l1 ++ retryMessages l2 := by
  simp [retryMessages, List.filterMap_append]

theorem toString_natCast_succ (k : Nat) : toString ((k : Int) + 1) = toString (k + 1) := rfl

/-- One dispatch block whose transport call fails. -/
theorem dispatchLockAction_failed (W : World) (ts : Int) (t : State)
    (hpend : t.nextLockAction ≠ .noAction) (hdue : ts > t.nextRetryTs)
    (hfail : W.cmdResult t.io ≠ .Success) :
    (t.retryCount < t.nrOfRetries →
      (dispatchLockAction W ts t).retryCount = t.retryCount + 1 ∧
      (dispatchLockAction W ts t).nextLockAction = t.nextLockAction ∧
      (dispatchLockAction W ts t).nrOfRetries = t.nrOfRetries ∧
      retryMessages (dispatchLockAction W ts t).trace =
        retryMessages t.trace ++ [toString (t.retryCount + 1)]) ∧
    (¬ t.retryCount < t.nrOfRetries →
      (dispatchLockAction W ts t).retryCount = 0 ∧
      (dispatchLockAction W ts t).nextLockAction = .noAction ∧
      (dispatchLockAction W ts t).nextRetryTs = 0 ∧
      retryMessages (dispatchLockAction W ts t).trace = retryMessages t.trace ++ ["failed"]) := by
  unfold dispatchLockAction
  simp only [hpend, hdue, hfail, ne_eq, not_false_eq_true, and_self, if_true, if_false]
  constructor
  · intro h
    simp only [emit, State.step, h, if_true]
    refine ⟨rfl, rfl, rfl, ?_⟩
    simp [postponeBleWatchdog, State.set, State.step, retryMessages, List.filterMap_append]
  · intro h
    simp only [emit, State.step, h, if_false]
    refine ⟨rfl, rfl, rfl, ?_⟩
    simp [postponeBleWatchdog, State.set, State.step, retryMessages, List.filterMap_append]

theorem dispatchRun_invariant (W : World) (between : Nat → State → State) (ts : Nat → Int)
    (s : State) (n : Nat) (hn : s.nrOfRetries = n) (hpend : s.nextLockAction ≠ .noAction)
    (hcount : s.retryCount = 0) (hframe : KeepsRetrySlot between)
    (hfail : AttemptsFail W between ts s n) :
    ∀ k, k ≤ n →
      (dispatchRun W between ts k s).retryCount = k ∧
      (dispatchRun W between ts k s).nextLockAction = s.nextLockAction ∧
      (dispatchRun W between ts k s).nrOfRetries = n ∧
      retryMessages (dispatchRun W between ts k s).trace =
        retryMessages s.trace ++ (List.range k).map (fun i => toString (i + 1)) := by
  intro k
  induction k with
  | zero => intro _; simp [dispatchRun, hcount, hn]
  | succ j ih =>
    intro hj
    obtain ⟨h1, h2, h3, h4⟩ := ih (by omega)
    obtain ⟨f1, f2, f3, f4⟩ := hframe j (dispatchRun W between ts j s)
    obtain ⟨hdue, hres⟩ := hfail j (by omega)
    have hstep := (dispatchLockAction_failed W (ts j) (between j (dispatchRun W between ts j s))
      (by rw [f2, h2]; exact hpend) hdue hres).1 (by rw [f1, f3, h1, h3]; omega)
    obtain ⟨g1, g2, g3, g4⟩ := hstep
    simp only [dispatchRun]
    refine ⟨?_, ?_, ?_, ?_⟩
    · rw [g1, f1, h1]; push_cast; rfl
    · rw [g2, f2, h2]
    · rw [g3, f3, h3]
    · rw [g4, f4, h4, f1, h1, List.range_succ, List.map_append, List.append_assoc]
      rfl

/-- C8: with `nrOfRetries = n`, a pending lock action and retry counter 0, `n + 1`
consecutive dispatch attempts that fail at transport level publish the retry
messages "1", ..., "n" in that order and then "failed", and leave the pending slot
empty, the retry counter 0 and `nextRetryTs` 0, provided nothing between the
attempts touches the retry bookkeeping. -/
theorem lock_action_retry_exhaustion (W : World) (between : Nat → State → State)
    (ts : Nat → Int) (s : State) (n : Nat) (hn : s.nrOfRetries = n)
    (hpend : s.nextLockAction ≠ .noAction) (hcount : s.retryCount = 0)
    (hframe : KeepsRetrySlot between) (hfail : AttemptsFail W between ts s n) :
    retryMessages (dispatchRun W between ts (n + 1) s).trace =
        retryMessages s.trace ++ (List.range n).map (fun i => toString (i + 1)) ++ ["failed"] ∧
      (dispatchRun W between ts (n + 1) s).nextLockAction = .noAction ∧
      (dispatchRun W between ts (n + 1) s).retryCount = 0 ∧
      (dispatchRun W between ts (n + 1) s).nextRetryTs = 0 := by
  obtain ⟨h1, h2, h3, h4⟩ :=
    dispatchRun_invariant W between ts s n hn hpend hcount hframe hfail n (le_refl n)
  obtain ⟨f1, f2, f3, f4⟩ := hframe n (dispatchRun W between ts n s)
  obtain ⟨hdue, hres⟩ := hfail n (le_refl n)
  obtain ⟨g1, g2, g3, g4⟩ :=
    (dispatchLockAction_failed W (ts n) (between n (dispatchRun W between ts n s))
      (by rw [f2, h2]; exact hpend) hdue hres).2 (by rw [f1, f3, h1, h3]; omega)
  simp only [dispatchRun]
  exact ⟨by rw [g4, f4, h4], g2, g1, g3⟩

/-- C8 at a concrete input: with `nrOfRetries = 3` and a transport that always times
out, four dispatch attempts publish "1", "2", "3", "failed" and reset the
bookkeeping. -/
theorem lock_action_retry_exhaustion_witness :
    retryMessages (dispatchRun deadLink (fun _ t => t) (fun k => 1000000 * ((k : Int) + 1)) 4
        pendingRTO).trace = ["1", "2", "3", "failed"] ∧
      (dispatchRun deadLink (fun _ t => t) (fun k => 1000000 * ((k : Int) + 1)) 4
        pendingRTO).nextLockAction = .noAction ∧
      (dispatchRun deadLink (fun _ t => t) (fun k => 1000000 * ((k : Int) + 1)) 4
        pendingRTO).retryCount = 0 ∧
      (dispatchRun deadLink (fun _ t => t) (fun k => 1000000 * ((k : Int) + 1)) 4
        pendingRTO).nextRetryTs = 0 :=
  lock_action_retry_exhaustion deadLink (fun _ t => t) (fun k => 1000000 * ((k : Int) + 1))
    pendingRTO 3 rfl (by decide) rfl (fun _ _ => ⟨rfl, rfl, rfl, rfl⟩) (by
      unfold AttemptsFail
      decide)

/-! ## Keypad writes -/

theorem keypadJsonUpdate_within (W : World) (codeId : Nat) (idExists : Bool)
    (name allowedWeekdays : String) (v : KeypadVars) (w : KeypadWindows) {a s : State}
    (h : Within (keypadLoopCall codeId idExists) a s) :
    Within (keypadLoopCall codeId idExists) a
      (keypadJsonUpdate W codeId idExists name allowedWeekdays v w s).2 := by
  unfold keypadJsonUpdate
  simp only []
  split_ifs with h1 h2 h3 h4
  · exact h
  · exact h
  · exact Within.emitted (Or.inl rfl) h.step |>.step
  · refine Within.emitted ?_ (Within.emitted (Or.inl rfl) h.step).step.step
    refine Or.inr (Or.inr (Or.inr (Or.inr (Or.inr ⟨?_, _, rfl, rfl⟩))))
    simpa using h2
  · exact Within.emitted (Or.inl rfl) h.step

theorem handlerLoop_within {σ : Type} {P : Event → Prop}
    (round : σ → State → Option (CmdResult × σ) × State) (a : State)
    (hround : ∀ v s, Within P a s → Within P a (round v s).2) :
    ∀ (fuel : Nat) (result : CmdResult) (v : σ) (s : State),
      Within P a s → Within P a (handlerLoop round fuel result v s).2 := by
  intro fuel
  induction fuel with
  | zero =>
    intro result v s h
    simp only [handlerLoop]
    split_ifs <;> exact h
  | succ n ih =>
    intro result v s h
    have hr := hround v s h
    simp only [handlerLoop]
    split_ifs with hguard
    · split
      next s1 heq =>
        rw [heq] at hr
        exact hr
      next r v1 s1 heq =>
        rw [heq] at hr
        split_ifs
        · exact ih _ _ _ (Within.set _ hr)
        · exact hr
    · exact h

theorem keypadJsonRound_within (W : World) (action : String) (codeId : Nat) (idExists : Bool)
    (name codeStr allowedWeekdays : String) (v : KeypadVars) {a s : State}
    (h : Within (keypadLoopCall codeId idExists) a s) :
    Within (keypadLoopCall codeId idExists) a
      (keypadJsonRound W action codeId idExists name codeStr allowedWeekdays v s).2 := by
  have hpub : ∀ (str : String) (t : State), Within (keypadLoopCall codeId idExists) a t →
      Within (keypadLoopCall codeId idExists) a (emit (.publishKeypadJsonCommandResult str) t) :=
    fun str t ht => Within.emitted (Or.inr (Or.inl ⟨str, rfl⟩)) ht
  unfold keypadJsonRound
  simp only []
  split_ifs with hdel hid haddupd hadd
  · exact Within.emitted (Or.inr (Or.inr (Or.inr (Or.inr (Or.inl ⟨hid, rfl⟩))))) h.step
  · exact hpub _ _ h
  · split
    · exact hpub _ _ h
    · split
      · exact hpub _ _ h
      · exact Within.emitted (Or.inr (Or.inr (Or.inr (Or.inl ⟨_, rfl⟩)))) h.step
  · split
    · exact hpub _ _ h
    · split
      · exact hpub _ _ h
      · have hu := keypadJsonUpdate_within W codeId idExists name allowedWeekdays v ‹_› h
        split
        next str s1 heq =>
          rw [heq] at hu
          exact hpub _ _ hu
        next r v1 s1 heq =>
          rw [heq] at hu
          exact hu
  · exact hpub _ _ h

theorem keypadCommandRound_within (W : World) (command : String) (id : Nat) (name : String)
    (enabled : Int) (idExists : Bool) (codeInt : Int) (codeValid : Bool) (u : Unit)
    {a s : State} (h : Within (keypadLoopCall (id % 65536) idExists) a s) :
    Within (keypadLoopCall (id % 65536) idExists) a
      (keypadCommandRound W command id name enabled idExists codeInt codeValid u s).2 := by
  have hpub : ∀ (str : String), Within (keypadLoopCall (id % 65536) idExists) a
      (emit (.publishKeypadCommandResult str) s) :=
    fun str => Within.emitted (Or.inr (Or.inr (Or.inl ⟨str, rfl⟩))) h
  have hq : ∀ e : Event, e.quiet = true → keypadLoopCall (id % 65536) idExists e :=
    fun e he => Or.inl he
  unfold keypadCommandRound
  simp only []
  split_ifs with h1 h2 h3 h4 h5 h6 h7 h8 h9 h10 h11 h12
  all_goals first
    | exact hpub _
    | exact h
    | exact updateKeypad_within hq W false
        (Within.emitted (Or.inr (Or.inr (Or.inr (Or.inl ⟨_, rfl⟩)))) h.step)
    | exact updateKeypad_within hq W false
        (Within.emitted (Or.inr (Or.inr (Or.inr (Or.inr (Or.inl
          ⟨by simpa using ‹¬(!idExists) = true›, rfl⟩))))) h.step)
    | exact updateKeypad_within hq W false
        (Within.emitted (Or.inr (Or.inr (Or.inr (Or.inr (Or.inr
          ⟨by simpa using ‹¬(!idExists) = true›, _, rfl, rfl⟩))))) h.step)

theorem keypadLoopCall_target (codeId : Nat) (idExists : Bool) (e : Event)
    (h : keypadLoopCall codeId idExists e) (c : Nat)
    (hc : e = .deleteKeypadEntry c ∨ ∃ u, e = .updateKeypadEntry u ∧ u.codeId = c) :
    idExists = true ∧ c = codeId := by
  rcases h with h | ⟨str, h⟩ | ⟨str, h⟩ | ⟨entry, h⟩ | ⟨hid, h⟩ | ⟨hid, entry, h, hcode⟩
  · rcases hc with hc | ⟨u, hc, _⟩ <;> subst hc <;> simp [Event.quiet] at h
  · rcases hc with hc | ⟨u, hc, _⟩ <;> subst hc <;> cases h
  · rcases hc with hc | ⟨u, hc, _⟩ <;> subst hc <;> cases h
  · rcases hc with hc | ⟨u, hc, _⟩ <;> subst hc <;> cases h
  · rcases hc with hc | ⟨u, hc, _⟩
    · rw [hc] at h
      cases h
      exact ⟨hid, rfl⟩
    · rw [hc] at h
      cases h
  · rcases hc with hc | ⟨u, hc, hu⟩
    · rw [hc] at h
      cases h
    · rw [hc] at h
      cases h
      exact ⟨hid, by rw [← hu, hcode]⟩

/-- Everything `onKeypadJsonCommandReceived` calls is a result publication or, past
the four gates, a call of its loop for the requested `codeId`. -/
theorem onKeypadJsonCommandReceived_within (W : World) (json : Option KeypadJson) (s : State) :
    ∃ (codeId : Nat) (idExists : Bool),
      (idExists = true → codeId ∈ s.keypadCodeIds) ∧
      Within (fun e => (∃ str, e = .publishKeypadJsonCommandResult str) ∨
        (jsonKeypadGates s ∧ keypadLoopCall codeId idExists e)) s
        (onKeypadJsonCommandReceived W json s) := by
  have hpub : ∀ (c : Nat) (b : Bool) (str : String) (t : State),
      Within (fun e => (∃ str, e = .publishKeypadJsonCommandResult str) ∨
        (jsonKeypadGates s ∧ keypadLoopCall c b e)) s t →
      Within (fun e => (∃ str, e = .publishKeypadJsonCommandResult str) ∨
        (jsonKeypadGates s ∧ keypadLoopCall c b e)) s
        (emit (.publishKeypadJsonCommandResult str) t) :=
    fun c b str t ht => Within.emitted (Or.inl ⟨str, rfl⟩) ht
  unfold onKeypadJsonCommandReceived
  split_ifs with g1 g2 g3 g4 g5
  · exact ⟨0, false, by simp, hpub _ _ _ _ (Within.refl _ _)⟩
  · exact ⟨0, false, by simp, hpub _ _ _ _ (Within.refl _ _)⟩
  · exact ⟨0, false, by simp, hpub _ _ _ _ (Within.refl _ _)⟩
  · exact ⟨0, false, by simp, hpub _ _ _ _ (Within.refl _ _)⟩
  · exact ⟨0, false, by simp, hpub _ _ _ _ (Within.refl _ _)⟩
  · have hgates : jsonKeypadGates s :=
      ⟨by simpa using g1, by simpa using g2, by simpa using g3, by simpa using g5⟩
    split
    · exact ⟨0, false, by simp, hpub _ _ _ _ (Within.refl _ _)⟩
    next j =>
      simp only []
      split
      · exact ⟨0, false, by simp, hpub _ _ _ _ (Within.refl _ _)⟩
      next action hact =>
        refine ⟨j.codeId % 65536,
          decide (j.codeId % 65536 ≠ 0 ∧ j.codeId % 65536 ∈ s.keypadCodeIds), ?_, ?_⟩
        · intro h
          exact (of_decide_eq_true h).2
        · have hloop := handlerLoop_within
            (P := keypadLoopCall (j.codeId % 65536)
              (decide (j.codeId % 65536 ≠ 0 ∧ j.codeId % 65536 ∈ s.keypadCodeIds)))
            (keypadJsonRound W action (j.codeId % 65536)
              (decide (j.codeId % 65536 ≠ 0 ∧ j.codeId % 65536 ∈ s.keypadCodeIds))
              (j.name.getD "") j.codeStr (j.allowedWeekdays.getD "")) s
            (fun v t ht => keypadJsonRound_within W _ _ _ _ _ _ v ht)
            (loopFuel s) .unset
            { code := (j.code.getD 12) % 4294967296
              enabled := (j.enabled.getD 2) % 256
              timeLimited := (j.timeLimited.getD 2) % 256
              allowedFrom := j.allowedFrom.getD ""
              allowedUntil := j.allowedUntil.getD ""
              allowedFromTime := j.allowedFromTime.getD ""
              allowedUntilTime := j.allowedUntilTime.getD "" }
            (s.set fun m => { m with retryCount := 0 }) (Within.refl _ _)
          split
          next result s1 heq =>
            rw [heq] at hloop
            have hk := Within.mono
              (Q := fun e => (∃ str, e = .publishKeypadJsonCommandResult str) ∨
                (jsonKeypadGates s ∧ keypadLoopCall (j.codeId % 65536)
                  (decide (j.codeId % 65536 ≠ 0 ∧ j.codeId % 65536 ∈ s.keypadCodeIds)) e))
              (fun e he => Or.inr ⟨hgates, he⟩)
              (updateKeypad_within (fun e he => Or.inl he) W false hloop)
            split_ifs
            · exact hpub _ _ _ _ hk
            · exact hk
          next x s1 hne heq =>
            rw [heq] at hloop
            exact Within.mono (fun e he => Or.inr ⟨hgates, he⟩) hloop

theorem onKeypadCommandReceived_within (W : World) (fuel : Nat) (command : String) (id : Nat)
    (name code : String) (enabled : Int) (s : State) :
    Within (fun e => (∃ str, e = .publishKeypadCommandResult str) ∨
        (legacyKeypadGates s ∧
          keypadLoopCall (id % 65536) (decide (id ∈ s.keypadCodeIds)) e)) s
      (onKeypadCommandReceived W fuel command id name code enabled s) := by
  unfold onKeypadCommandReceived
  split_ifs with g1 g2 g3 g4 g5
  · exact Within.refl _ _
  · exact Within.emitted (Or.inl ⟨_, rfl⟩) (Within.refl _ _)
  · exact Within.emitted (Or.inl ⟨_, rfl⟩) (Within.refl _ _)
  · exact Within.refl _ _
  · exact Within.refl _ _
  · have hgates : legacyKeypadGates s :=
      ⟨by simpa using g1, by simpa using g2, by simpa using g3, by simpa using g5⟩
    simp only []
    have hloop := handlerLoop_within
      (P := keypadLoopCall (id % 65536) (decide (id ∈ s.keypadCodeIds)))
      (keypadCommandRound W command id name enabled (decide (id ∈ s.keypadCodeIds))
        (toInt code)
        (decide (toInt code > 100000 ∧ toInt code < 1000000 ∧ '0' ∉ code.data))) s
      (fun v t ht => keypadCommandRound_within W _ _ _ _ _ _ _ v ht)
      fuel .unset () (s.set fun m => { m with retryCount := 0 }) (Within.refl _ _)
    split
    next result s1 heq =>
      rw [heq] at hloop
      have hk := Within.mono (Q := fun e => (∃ str, e = .publishKeypadCommandResult str) ∨
        (legacyKeypadGates s ∧
          keypadLoopCall (id % 65536) (decide (id ∈ s.keypadCodeIds)) e))
        (fun e he => Or.inr ⟨hgates, he⟩) hloop
      split_ifs
      · exact Within.emitted (Or.inl ⟨_, rfl⟩) hk
      · exact hk
    next x s1 hne heq =>
      rw [heq] at hloop
      exact Within.mono (fun e he => Or.inr ⟨hgates, he⟩) hloop

/-- C4: a keypad write issued by `onKeypadJsonCommandReceived` implies PIN status 1,
keypad control and keypad info enabled and `hasKeypad`, and an update or a delete is
issued only for an identifier found in the cached `keypadCodeIds`.  The legacy
`onKeypadCommandReceived` is called through the callback of lines 1422-1425 only, which
the constructor registers on a store with `disable_non_json` true only (line 35): on
the store of a wrapper whose constructor registered it the handler returns at once
(line 1459) and calls nothing.  A keypad write in the body of the legacy handler
implies a store on which its callback is not registered, keypad control and keypad
info enabled and `hasKeypad`, and a cached identifier for an update or a delete. -/
theorem keypad_write_gates (W : World) :
    (∀ (json : Option KeypadJson) (s : State) (e : Event),
      e ∈ callsOf (onKeypadJsonCommandReceived W json) s → e.isKeypadWrite = true →
        isPinValid s = true ∧ s.prefs.keypad_control_enabled = true ∧
        s.hasKeypad = true ∧ s.keypadEnabled = true ∧
        ∀ c, (e = .deleteKeypadEntry c ∨ ∃ u, e = .updateKeypadEntry u ∧ u.codeId = c) →
          c ∈ s.keypadCodeIds) ∧
    (∀ (fuel : Nat) (command : String) (id : Nat) (name code : String) (enabled : Int)
      (s : State),
      Event.setKeypadCommandReceivedCallback ∈ (NukiOpenerWrapper s.prefs).trace →
        callsOf (onKeypadCommandReceived W fuel command id name code enabled) s = []) ∧
    (∀ (fuel : Nat) (command : String) (id : Nat) (name code : String) (enabled : Int)
      (s : State) (e : Event),
      e ∈ callsOf (onKeypadCommandReceived W fuel command id name code enabled) s →
        e.isKeypadWrite = true →
        Event.setKeypadCommandReceivedCallback ∉ (NukiOpenerWrapper s.prefs).trace ∧
        s.prefs.keypad_control_enabled = true ∧
        s.hasKeypad = true ∧ s.keypadEnabled = true ∧
        ∀ c, (e = .deleteKeypadEntry c ∨ ∃ u, e = .updateKeypadEntry u ∧ u.codeId = c) →
          id ∈ s.keypadCodeIds ∧ c = id % 65536) := by
  have hreg : ∀ s : State,
      Event.setKeypadCommandReceivedCallback ∈ (NukiOpenerWrapper s.prefs).trace ↔
        s.prefs.disable_non_json = true := by
    intro s
    unfold NukiOpenerWrapper
    cases h : s.prefs.disable_non_json <;> simp
  refine ⟨?_, ?_, ?_⟩
  · intro json s e he hw
    obtain ⟨codeId, idExists, hid, hwithin⟩ := onKeypadJsonCommandReceived_within W json s.fresh
    rcases hwithin e he with h | ⟨str, h⟩ | ⟨hg, h⟩
    · exact absurd h (List.not_mem_nil _)
    · subst h
      cases hw
    · refine ⟨hg.1, hg.2.1, hg.2.2.1, hg.2.2.2, ?_⟩
      intro c hc
      obtain ⟨h1, h2⟩ := keypadLoopCall_target _ _ e h c hc
      rw [h2]
      exact hid h1
  · intro fuel command id name code enabled s h
    have hd : s.fresh.prefs.disable_non_json = true := (hreg s).1 h
    unfold callsOf onKeypadCommandReceived
    rw [if_pos hd]
    rfl
  · intro fuel command id name code enabled s e he hw
    rcases onKeypadCommandReceived_within W fuel command id name code enabled s.fresh e he
      with h | ⟨str, h⟩ | ⟨hg, h⟩
    · exact absurd h (List.not_mem_nil _)
    · subst h
      cases hw
    · refine ⟨?_, hg.2.1, hg.2.2.1, hg.2.2.2, ?_⟩
      · intro hin
        have hd : s.prefs.disable_non_json = true := (hreg s).1 hin
        have hf : s.prefs.disable_non_json = false := hg.1
        rw [hf] at hd
        cases hd
      · intro c hc
        obtain ⟨h1, h2⟩ := keypadLoopCall_target _ _ e h c hc
        exact ⟨of_decide_eq_true h1, h2⟩

/-- C4 at concrete inputs: the JSON delete of the cached identifier 7 is issued, with
a valid PIN status and the identifier in the cache; and on a store with
`disable_non_json` true, on which the constructor registers the legacy callback, the
legacy delete of the cached identifier 7 calls nothing. -/
theorem keypad_write_gates_witness :
    Event.deleteKeypadEntry 7 ∈
        callsOf (onKeypadJsonCommandReceived {} (some deleteSeven)) keypadReadySeven ∧
      isPinValid keypadReadySeven = true ∧ 7 ∈ keypadReadySeven.keypadCodeIds ∧
      Event.setKeypadCommandReceivedCallback ∈
        (NukiOpenerWrapper keypadSevenLegacy.prefs).trace ∧
      callsOf (onKeypadCommandReceived {} 4 "delete" 7 "--" "--" 0) keypadSevenLegacy = [] :=
  ⟨by decide,
    ((keypad_write_gates {}).1 (some deleteSeven) keypadReadySeven (.deleteKeypadEntry 7)
      (by decide) rfl).1,
    ((keypad_write_gates {}).1 (some deleteSeven) keypadReadySeven (.deleteKeypadEntry 7)
      (by decide) rfl).2.2.2.2 7 (Or.inl rfl),
    by decide,
    (keypad_write_gates {}).2.1 4 "delete" 7 "--" "--" 0 keypadSevenLegacy (by decide)⟩

/-- The body of the legacy handler past line 1459 has no test of the PIN status: called
on a store with `disable_non_json` false and the PIN status 0, a store on which the
constructor does not register its callback, it issues `deleteKeypadEntry(7)` for the
cached identifier 7. -/
theorem legacy_keypad_body_without_pin_test :
    Event.setKeypadCommandReceivedCallback ∉ (NukiOpenerWrapper keypadSevenNoPin.prefs).trace ∧
      keypadSevenNoPin.prefs.opener_pin_status = some 0 ∧
      isPinValid keypadSevenNoPin = false ∧
      Event.deleteKeypadEntry 7 ∈
        callsOf (onKeypadCommandReceived {} 4 "delete" 7 "--" "--" 0) keypadSevenNoPin := by
  decide

/-! ## Lock-action names and the lock-action callback -/

theorem String.length_pos_iff_ne_empty (v : String) : v.length > 0 ↔ v ≠ "" := by
  show 0 < v.data.length ↔ v ≠ ""
  rw [List.length_pos, Ne, Ne, String.ext_iff]

/-- C5: `onLockActionReceivedCallback` returns `UnknownAction`, leaving the wrapper
unchanged, when the value is null, empty or not recognised by `lockActionToEnum`;
otherwise it returns `Success` and stores the action in `_nextLockAction` when the
ACL word of the action (index 9 to 16 as in `aclIndex`) equals 1, and returns
`AccessDenied`, leaving the wrapper unchanged, when it does not. -/
theorem onLockActionReceivedCallback_spec (value : Option String) (s : State) :
    onLockActionReceivedCallback value s =
      match value with
      | none => (.UnknownAction, s)
      | some v =>
        if v = "" ∨ lockActionToEnum v = .noAction then (.UnknownAction, s)
        else if s.prefs.acl (aclIndex (lockActionToEnum v)) = 1 then
          (.Success, s.set fun m => { m with nextLockAction := lockActionToEnum v })
        else (.AccessDenied, s) := by
  cases value with
  | none => rfl
  | some v =>
    have hlen := String.length_pos_iff_ne_empty v
    simp only [onLockActionReceivedCallback]
    by_cases hv : v = ""
    · subst hv; simp
    · have := hlen.mpr hv
      simp only [this, if_true, hv, false_or]
      cases h : lockActionToEnum v <;> simp [aclIndex]

/-- C6, as the code has it: `lockActionToEnum` maps each of the eight action names,
spelled exactly or with its first letter in lower case, to its action, and every
other string to the 0xff value. -/
theorem lockActionToEnum_spellings (str : String) :
    (∀ p ∈ actionNames, (str = p.1 ∨ str = lowerFirst p.1) → lockActionToEnum str = p.2) ∧
    ((∀ p ∈ actionNames, str ≠ p.1 ∧ str ≠ lowerFirst p.1) →
      lockActionToEnum str = .noAction) := by
  have e1 : lowerFirst "ActivateRTO" = "activateRTO" := by decide
  have e2 : lowerFirst "DeactivateRTO" = "deactivateRTO" := by decide
  have e3 : lowerFirst "ElectricStrikeActuation" = "electricStrikeActuation" := by decide
  have e4 : lowerFirst "ActivateCM" = "activateCM" := by decide
  have e5 : lowerFirst "DeactivateCM" = "deactivateCM" := by decide
  have e6 : lowerFirst "FobAction1" = "fobAction1" := by decide
  have e7 : lowerFirst "FobAction2" = "fobAction2" := by decide
  have e8 : lowerFirst "FobAction3" = "fobAction3" := by decide
  constructor
  · intro p hp h
    simp only [actionNames, List.mem_cons, List.mem_singleton, List.not_mem_nil, or_false] at hp
    rcases hp with rfl | rfl | rfl | rfl | rfl | rfl | rfl | rfl <;>
      simp only [e1, e2, e3, e4, e5, e6, e7, e8] at h <;>
      rcases h with rfl | rfl <;> decide
  · intro h
    simp only [actionNames, List.mem_cons, List.mem_singleton, List.not_mem_nil, or_false,
      forall_eq_or_imp, forall_eq, e1, e2, e3, e4, e5, e6, e7, e8] at h
    simp [lockActionToEnum, h]

/-- C6 at a concrete input: the lower-case-first spelling fobAction2 is accepted and
the string open is not an action name. -/
theorem lockActionToEnum_spellings_witness :
    lockActionToEnum "fobAction2" = .FobAction2 ∧ lockActionToEnum "open" = .noAction :=
  ⟨(lockActionToEnum_spellings "fobAction2").1 ("FobAction2", .FobAction2) (by decide)
      (Or.inr (by decide)),
    (lockActionToEnum_spellings "open").2 (by decide)⟩

/-- C6 as stated fails: the string ACTIVATERTO equals the action name ActivateRTO
when letter case is ignored, and `lockActionToEnum` maps it to the 0xff value. -/
theorem lockActionToEnum_upper_case_rejected :
    ¬ ∀ (str : String), ∀ p ∈ actionNames,
      eqIgnoreCase str p.1 = true → lockActionToEnum str = p.2 := by
  intro h
  have := h "ACTIVATERTO" ("ActivateRTO", .ActivateRTO) (by decide) (by decide)
  revert this
  decide

/-! ## JSON keypad add -/

/-- C1 (code defect): for the request with action add, name Guest and code 123456,
past every gate and whatever the transport would answer, the handler publishes
"noCodeSet" and calls nothing else; no `addKeypadEntry` is issued.  The test
`!code == 12` of line 1701 compares a `bool` with 12 and is never true. -/
theorem keypad_json_add_valid_code_rejected (W : World) :
    callsOf (onKeypadJsonCommandReceived W (some addGuest)) keypadReady =
      [.publishKeypadJsonCommandResult "noCodeSet"] :=
  rfl

/-- C2 (code defect): for the request with action add, name X and the invalid code
100200, past every gate, the handler publishes "noCodeSet", not "noValidCodeSet". -/
theorem keypad_json_add_invalid_code_result (W : World) :
    callsOf (onKeypadJsonCommandReceived W (some addInvalidCode)) keypadReady =
      [.publishKeypadJsonCommandResult "noCodeSet"] :=
  rfl

/-- The code check of an add never accepts and never reports an invalid code: with a
name, every add ends in "noCodeSet". -/
theorem checkNameCode_add (name codeStr : String) (v : KeypadVars) (h : name.length ≥ 1) :
    checkNameCode "add" name codeStr v = .error "noCodeSet" := by
  unfold checkNameCode
  have h1 : ¬ (name.length < 1 ∧ "add" ≠ "update") := by omega
  have h2 : boolToNat (v.code == 0) ≠ 12 := by
    unfold boolToNat
    split_ifs <;> decide
  simp only [h1, if_false, h2]
  rfl

theorem checkNameCode_add_error (name codeStr : String) (v : KeypadVars) :
    ∃ str, checkNameCode "add" name codeStr v = .error str := by
  by_cases h : name.length ≥ 1
  · exact ⟨_, checkNameCode_add name codeStr v h⟩
  · refine ⟨"noNameSet", ?_⟩
    unfold checkNameCode
    rw [if_pos ⟨by omega, by decide⟩]

theorem keypadJsonUpdate_noAdd (W : World) (codeId : Nat) (idExists : Bool)
    (name allowedWeekdays : String) (v : KeypadVars) (w : KeypadWindows) {a s : State}
    (h : Within (fun e => e.isAdd = false) a s) :
    Within (fun e => e.isAdd = false) a
      (keypadJsonUpdate W codeId idExists name allowedWeekdays v w s).2 := by
  have hem : ∀ (e : Event) (t : State), e.isAdd = false →
      Within (fun e => e.isAdd = false) a t → Within (fun e => e.isAdd = false) a (emit e t) :=
    fun e t he ht => Within.emitted he ht
  unfold keypadJsonUpdate
  simp only []
  split_ifs with h1 h2 h3 h4
  · exact h
  · exact h
  · exact (hem _ _ (by rfl) h.step).step
  · exact hem _ _ (by rfl) (hem _ _ (by rfl) h.step).step.step
  · exact hem _ _ (by rfl) h.step

theorem keypadJsonRound_noAdd (W : World) (action : String) (codeId : Nat) (idExists : Bool)
    (name codeStr allowedWeekdays : String) (v : KeypadVars) {a s : State}
    (h : Within (fun e => e.isAdd = false) a s) :
    Within (fun e => e.isAdd = false) a
      (keypadJsonRound W action codeId idExists name codeStr allowedWeekdays v s).2 := by
  have hpub : ∀ (str : String) (t : State), Within (fun e => e.isAdd = false) a t →
      Within (fun e => e.isAdd = false) a (emit (.publishKeypadJsonCommandResult str) t) :=
    fun str t ht => Within.emitted rfl ht
  unfold keypadJsonRound
  simp only []
  split_ifs with hdel hid haddupd hadd
  · exact Within.emitted (P := fun e => e.isAdd = false) rfl h.step
  · exact hpub _ _ h
  · subst hadd
    obtain ⟨str, hs⟩ := checkNameCode_add_error name codeStr v
    rw [hs]
    exact hpub _ _ h
  · split
    · exact hpub _ _ h
    · split
      · exact hpub _ _ h
      · have hu := keypadJsonUpdate_noAdd W codeId idExists name allowedWeekdays v ‹_› h
        split
        next str s1 heq =>
          rw [heq] at hu
          exact hpub _ _ hu
        next r v1 s1 heq =>
          rw [heq] at hu
          exact hu
  · exact hpub _ _ h

/-- The JSON keypad handler never issues `addKeypadEntry`, whatever the request, the
wrapper and the transport: an add without a name ends in "noNameSet", every other add
in "noCodeSet" (line 1701). -/
theorem keypad_json_never_adds (W : World) (json : Option KeypadJson) (s : State)
    (entry : NewKeypadEntry) :
    Event.addKeypadEntry entry ∉ callsOf (onKeypadJsonCommandReceived W json) s := by
  have hq : ∀ e : Event, e.quiet = true → e.isAdd = false := by
    intro e he
    cases e <;> first | rfl | cases he
  have hclean : ∀ t : State, Within (fun e => e.isAdd = false) s.fresh t →
      Event.addKeypadEntry entry ∉ t.trace := by
    intro t ht hmem
    rcases ht _ hmem with h | h
    · exact absurd h (List.not_mem_nil _)
    · cases h
  have hpub : ∀ (str : String) (t : State), Within (fun e => e.isAdd = false) s.fresh t →
      Within (fun e => e.isAdd = false) s.fresh
        (emit (.publishKeypadJsonCommandResult str) t) :=
    fun str t ht => Within.emitted rfl ht
  apply hclean
  unfold onKeypadJsonCommandReceived
  split_ifs with g1 g2 g3 g4 g5
  · exact hpub _ _ (Within.refl _ _)
  · exact hpub _ _ (Within.refl _ _)
  · exact hpub _ _ (Within.refl _ _)
  · exact hpub _ _ (Within.refl _ _)
  · exact hpub _ _ (Within.refl _ _)
  · split
    · exact hpub _ _ (Within.refl _ _)
    next j =>
      simp only []
      split
      · exact hpub _ _ (Within.refl _ _)
      next action hact =>
        have hloop := handlerLoop_within (P := fun e => e.isAdd = false)
          (keypadJsonRound W action (j.codeId % 65536)
            (decide (j.codeId % 65536 ≠ 0 ∧ j.codeId % 65536 ∈ s.fresh.keypadCodeIds))
            (j.name.getD "") j.codeStr (j.allowedWeekdays.getD "")) s.fresh
          (fun v t ht => keypadJsonRound_noAdd W _ _ _ _ _ _ v ht)
          (loopFuel s.fresh) .unset
          { code := (j.code.getD 12) % 4294967296
            enabled := (j.enabled.getD 2) % 256
            timeLimited := (j.timeLimited.getD 2) % 256
            allowedFrom := j.allowedFrom.getD ""
            allowedUntil := j.allowedUntil.getD ""
            allowedFromTime := j.allowedFromTime.getD ""
            allowedUntilTime := j.allowedUntilTime.getD "" }
          (s.fresh.set fun m => { m with retryCount := 0 }) (Within.refl _ _)
        split
        next result s1 heq =>
          rw [heq] at hloop
          have hk := updateKeypad_within hq W false hloop
          split_ifs
          · exact hpub _ _ hk
          · exact hk
        next x s1 hne heq =>
          rw [heq] at hloop
          exact hloop

/-! ## Ring detection and retry in `update` -/

theorem ringStep_noRingLocked {P : Event → Prop} (hb : ∀ e, e.noRingLocked = true → P e)
    (W : World) {a s : State} (hs : s.statusUpdated = false) (h : Within P a s) :
    Within P a (ringStep W s) := by
  have hq : ∀ e, e.quiet = true → P e := fun e he => hb e (by
    cases e <;> first | rfl | cases he)
  unfold ringStep
  simp only [hs, Bool.false_eq_true, false_and, if_false]
  repeat' (first
    | with_reducible exact h
    | with_reducible apply Within.ite
    | with_reducible apply Within.emitted
    | with_reducible apply updateGpioOutputs_within hq
    | exact hb _ rfl)

theorem updateKeyTurnerState_noRingLocked {P : Event → Prop}
    (hb : ∀ e, e.noRingLocked = true → P e) (W : World) {a s : State}
    (hs : s.statusUpdated = false) (h : Within P a s) :
    Within P a (updateKeyTurnerState W s) := by
  have hq : ∀ e, e.quiet = true → P e := fun e he => hb e (by
    cases e <;> first | rfl | cases he)
  have hstatus := retryLoop_frame (fun t => t.statusUpdated) W .requestOpenerState
    (fun io _ t => t.set fun m => { m with keyTurnerState := W.openerState io })
    (fun _ _ _ => rfl) (fun _ => rfl) (fun _ _ => rfl) (fun _ _ => rfl) (loopFuel s) .unset
    (s.set fun m => { m with retryCount := 0 })
  unfold updateKeyTurnerState
  simp only []
  repeat' (first
    | with_reducible exact h
    | with_reducible apply Within.ite
    | with_reducible apply Within.postpone
    | with_reducible apply Within.set
    | with_reducible apply Within.setPrefs
    | with_reducible apply Within.step
    | with_reducible apply Within.emitted
    | with_reducible apply retryLoop_within
    | (intro _ _ _; rfl)
    | with_reducible apply updateAuthData_within hq
    | with_reducible apply ringStep_noRingLocked hb
    | exact hstatus.trans hs
    | exact hb _ rfl)

theorem lockStateStep_noRingLocked {P : Event → Prop}
    (hb : ∀ e, e.noRingLocked = true → P e) (W : World) (ts : Int) (queryCommands : Nat)
    {a s : State} (h : Within P a s) : Within P a (lockStateStep W ts queryCommands s) := by
  unfold lockStateStep
  simp only []
  split_ifs
  · exact Within.emitted (hb _ rfl)
      (updateKeyTurnerState_noRingLocked hb W rfl (Within.set _ h))
  · exact h

theorem dispatchLockAction_noRingLocked {P : Event → Prop}
    (hb : ∀ e, e.noRingLocked = true → P e) (W : World) (ts : Int) {a s : State}
    (h : Within P a s) : Within P a (dispatchLockAction W ts s) := by
  unfold dispatchLockAction
  simp only []
  repeat' (first
    | with_reducible exact h
    | with_reducible apply Within.ite
    | with_reducible apply Within.postpone
    | with_reducible apply Within.set
    | with_reducible apply Within.step
    | with_reducible apply Within.emitted
    | exact hb _ rfl)

theorem updateBody_noRingLocked {P : Event → Prop} (hb : ∀ e, e.noRingLocked = true → P e)
    (W : World) (ts : Int) (queryCommands : Nat) {a s : State} (h : Within P a s) :
    Within P a (updateBody W ts queryCommands s) := by
  have hq : ∀ e, e.quiet = true → P e := fun e he => hb e (by
    cases e <;> first | rfl | cases he)
  unfold updateBody
  simp only []
  exact Within.set _ (clearAuthDataStep_within hq (dispatchLockAction_noRingLocked hb W ts
    (keypadStep_within hq W ts queryCommands (rssiStep_within hq W ts (hassStep_within hq W
    (followUpStep_within hq W ts (configStep_within hq W ts queryCommands
    (batteryStep_within hq W ts queryCommands (lockStateStep_noRingLocked hb W ts queryCommands
    (Within.emitted (hq _ rfl) h))))))))))

/-- No pass of `update` publishes the ring-while-locked event, whatever the wrapper
holds and whatever the outside world answers: the flag tested at line 376 is always
the `false` written at line 166. -/
theorem update_never_rings_locked (W : World) (s : State) :
    Event.publishRing true ∉ callsOf (update W) s := by
  have hb : ∀ e : Event, e.noRingLocked = true → e ≠ .publishRing true := by
    intro e he heq
    subst heq
    cases he
  have hpre : Within (fun e => e ≠ .publishRing true) s.fresh (pairingStep W s.fresh).1 :=
    pairingStep_within (fun _ h => by cases h) (fun _ h => by cases h) W (Within.refl _ _)
  have hclean : ∀ t : State, Within (fun e => e ≠ .publishRing true) s.fresh t →
      Event.publishRing true ∉ t.trace := by
    intro t ht hmem
    rcases ht _ hmem with h | h
    · exact absurd h (List.not_mem_nil _)
    · exact h rfl
  unfold callsOf update
  simp only []
  split_ifs
  · exact hclean _ hpre
  · exact hclean _ (Within.emitted (fun h => by cases h) hpre)
  · exact hclean _ (updateBody_noRingLocked hb W _ _ hpre)

/-- C3 (code defect): the pass starts paired with `_statusUpdated` set and a previous
snapshot Locked and Online, the state query succeeds and returns Locked and Online,
and `publishRing(true)` is not called: `update` clears `_statusUpdated` (line 166)
before `updateKeyTurnerState` tests it (line 376). -/
theorem update_ring_while_locked_not_published :
    ringPending.paired = true ∧ ringPending.statusUpdated = true ∧
      ringPending.lastKeyTurnerState.lockState = .Locked ∧
      Event.publishLockstateCommandResult "success" ∈ callsOf (update lockedOnline) ringPending ∧
      (update lockedOnline ringPending).keyTurnerState.lockState = .Locked ∧
      (update lockedOnline ringPending).keyTurnerState.nukiState =
        ringPending.lastKeyTurnerState.nukiState ∧
      Event.publishRing true ∉ callsOf (update lockedOnline) ringPending := by
  decide

/-- C7 (code defect): with `nrOfRetries = 1` a pending ActivateRTO whose dispatch
times out is attempted in each of three passes, more than `nrOfRetries + 1` times,
and is still pending afterwards: the lock-state refresh that runs before each
dispatch resets the shared `_retryCount` to 0 (line 346). -/
theorem pending_action_outlives_retry_budget :
    pendingOneRetry.nrOfRetries = 1 ∧
      lockActionsSent (callsOf (threePasses lockActionsFail) pendingOneRetry) =
        [.ActivateRTO, .ActivateRTO, .ActivateRTO] ∧
      retryMessages (callsOf (threePasses lockActionsFail) pendingOneRetry) = ["1", "1", "1"] ∧
      (threePasses lockActionsFail pendingOneRetry).nextLockAction = .ActivateRTO := by
  decide

/-! ## The config handler -/

theorem getMember_setMember_self (key value : String) (l : List (String × String)) :
    getMember key (setMember key value l) = some value := by
  induction l with
  | nil => simp [setMember, getMember]
  | cons p rest ih =>
    obtain ⟨k, v⟩ := p
    simp only [setMember]
    split_ifs with h
    · simp [getMember]
    · simp [getMember, h, ih]

theorem getMember_setMember_ne (key other value : String) (h : other ≠ key)
    (l : List (String × String)) :
    getMember other (setMember key value l) = getMember other l := by
  induction l with
  | nil => simp [setMember, getMember, Ne.symm h]
  | cons p rest ih =>
    obtain ⟨k, v⟩ := p
    simp only [setMember]
    split_ifs with hk
    · subst hk
      simp [getMember, Ne.symm h]
    · simp only [getMember, ih]

theorem sameConfig_refl (s : State) : SameConfig s s := ⟨rfl, rfl, rfl, rfl⟩

theorem sameConfig_trans {a b c : State} (h1 : SameConfig a b) (h2 : SameConfig b c) :
    SameConfig a c :=
  ⟨h2.1.trans h1.1, h2.2.1.trans h1.2.1, h2.2.2.1.trans h1.2.2.1, h2.2.2.2.trans h1.2.2.2⟩

theorem valueStep_key (valid unchanged : Bool) (cmd c : ConfigCommand)
    (h : valueStep valid unchanged cmd = .command c) : c = cmd := by
  unfold valueStep at h
  split_ifs at h
  cases h
  rfl

theorem basicKeyStep_key (W : World) (config : Config) (key jsonchar : String)
    (hk : key ∈ basicKeys) (cmd : ConfigCommand)
    (h : basicKeyStep W config key jsonchar = .command cmd) : cmd.key = key := by
  simp only [basicKeys, List.mem_cons, List.mem_singleton, List.not_mem_nil, or_false] at hk
  rcases hk with rfl | rfl | rfl | rfl | rfl | rfl | rfl | rfl | rfl | rfl | rfl | rfl | rfl | rfl
  · have h1 : (if jsonchar.length ≤ 32 then
        if config.name = jsonchar then KeyStep.verdict "unchanged"
        else .command (.setName jsonchar)
      else .verdict "valueTooLong") = .command cmd := h
    split_ifs at h1
    cases h1
    rfl
  all_goals
    have h1 : valueStep _ _ _ = KeyStep.command cmd := h
    rw [valueStep_key _ _ _ _ h1]
    rfl

theorem advancedKeyStep_key (config : AdvancedConfig) (key jsonchar : String)
    (hk : key ∈ advancedKeys) (cmd : ConfigCommand)
    (h : advancedKeyStep config key jsonchar = .command cmd) : cmd.key = key := by
  simp only [advancedKeys, List.mem_cons, List.mem_singleton, List.not_mem_nil, or_false] at hk
  rcases hk with rfl | rfl | rfl | rfl | rfl | rfl | rfl | rfl | rfl | rfl | rfl | rfl | rfl |
    rfl | rfl | rfl | rfl | rfl | rfl | rfl
  all_goals
    have h1 : valueStep _ _ _ = KeyStep.command cmd := h
    rw [valueStep_key _ _ _ _ h1]
    rfl

theorem keyRan_refl (key : String) (v : ConfigLocals) (s : State)
    (hv : v.cmdResult ≠ .Success) : KeyRan key v s v s :=
  ⟨sameConfig_refl s, rfl, rfl, fun _ _ => rfl, grows_refl s, fun _ he => Or.inl he,
    fun h => absurd h hv⟩

theorem configRound_spec (W : World) (step : State → KeyStep) (key : String)
    (hkey : ∀ t cmd, step t = .command cmd → cmd.key = key) (v : ConfigLocals) (s : State)
    (hv : v.cmdResult ≠ .Success) :
    KeyRan key v s (configRound W step key v s).1 (configRound W step key v s).2 ∧
      (configRound W step key v s).2.retryCount = s.retryCount := by
  unfold configRound
  cases hst : step s with
  | verdict str =>
    refine ⟨⟨sameConfig_refl s, rfl, rfl, ?_, grows_refl s, fun _ he => Or.inl he,
      fun h => absurd h hv⟩, rfl⟩
    intro other hne
    exact getMember_setMember_ne key other str hne _
  | command cmd =>
    have hk := hkey s cmd hst
    refine ⟨⟨⟨rfl, rfl, rfl, rfl⟩, rfl, rfl, fun _ _ => rfl,
      grows_emitted _ (grows_step (grows_refl s)), ?_, ?_⟩, rfl⟩
    · intro e he
      rw [emit_trace, List.mem_append, List.mem_singleton] at he
      rcases he with he | he
      · exact Or.inl he
      · exact Or.inr ⟨cmd, _, he, hk, fun h => h⟩
    · intro h
      refine ⟨cmd, ?_⟩
      rw [emit_trace, List.mem_append, List.mem_singleton]
      refine Or.inr ?_
      have h' : W.cmdResult s.io = .Success := h
      rw [h']
  | skip => exact ⟨keyRan_refl key v s hv, rfl⟩

/-- Two stretches of the processing of one key, the first of which did not end in
`Success`. -/
theorem keyRan_trans {key : String} {v w x : ConfigLocals} {a b c : State}
    (h1 : KeyRan key v a w b) (hw : w.cmdResult ≠ .Success) (h2 : KeyRan key w b x c) :
    KeyRan key v a x c := by
  obtain ⟨a1, a2, a3, a4, a5, a6, a7⟩ := h1
  obtain ⟨b1, b2, b3, b4, b5, b6, b7⟩ := h2
  refine ⟨sameConfig_trans a1 b1, b2.trans a2, b3.trans a3, fun o ho => (b4 o ho).trans (a4 o ho),
    fun e he => b5 e (a5 e he), ?_, b7⟩
  intro e he
  rcases b6 e he with h | h
  · rcases a6 e h with h | ⟨cmd, res, h, hk, hs⟩
    · exact Or.inl h
    · exact Or.inr ⟨cmd, res, h, hk, fun hr => absurd (hs hr) hw⟩
  · exact Or.inr h

theorem keyRan_set {key : String} {v w : ConfigLocals} {a b : State} (f : Vars → Vars)
    (hf : ∀ m, (f m).nukiConfig = m.nukiConfig ∧
      (f m).nukiAdvancedConfig = m.nukiAdvancedConfig ∧ (f m).nrOfRetries = m.nrOfRetries)
    (h : KeyRan key v a w b) : KeyRan key v a w (b.set f) := by
  obtain ⟨a1, a2, a3, a4, a5, a6, a7⟩ := h
  exact ⟨⟨a1.1, (hf _).1.trans a1.2.1, (hf _).2.1.trans a1.2.2.1, (hf _).2.2.trans a1.2.2.2⟩,
    a2, a3, a4, a5, a6, a7⟩

/-- What the command loop of one key does to the locals and to the wrapper, whatever
the branch of the key is. -/
theorem configLoop_spec (W : World) (step : State → KeyStep) (key : String)
    (hkey : ∀ t cmd, step t = .command cmd → cmd.key = key) :
    ∀ (fuel : Nat) (v : ConfigLocals) (s : State), v.cmdResult ≠ .Success →
      KeyRan key v s (configLoop W step key fuel v s).1 (configLoop W step key fuel v s).2 := by
  intro fuel
  induction fuel with
  | zero =>
    intro v s hv
    exact keyRan_refl key v s hv
  | succ n ih =>
    intro v s hv
    have hr := (configRound_spec W step key hkey v s hv).1
    simp only [configLoop]
    split_ifs with hguard hres
    · exact keyRan_trans (keyRan_set _ (fun _ => ⟨rfl, rfl, rfl⟩) hr) hres (ih _ _ hres)
    · exact hr
    · exact keyRan_refl key v s hv

theorem ranOn_refl (K : String → Prop) (v : ConfigLocals) (s : State) : RanOn K v s v s :=
  ⟨sameConfig_refl s, fun _ _ => rfl, grows_refl s, fun h => h, fun h => Or.inl h,
    fun _ he => Or.inl he⟩

theorem ranOn_trans {K : String → Prop} {v w x : ConfigLocals} {a b c : State}
    (h1 : RanOn K v a w b) (h2 : RanOn K w b x c) : RanOn K v a x c := by
  obtain ⟨a1, a2, a3, a4, a5, a6⟩ := h1
  obtain ⟨b1, b2, b3, b4, b5, b6⟩ := h2
  refine ⟨sameConfig_trans a1 b1, fun o ho => (b2 o ho).trans (a2 o ho), fun e he => b3 e (a3 e he),
    fun h => b4 (a4 h), ?_, ?_⟩
  · intro h
    rcases b5 h with h | h
    · rcases a5 h with h | ⟨cmd, h⟩
      · exact Or.inl h
      · exact Or.inr ⟨cmd, b3 _ h⟩
    · exact Or.inr h
  · intro e he
    rcases b6 e he with h | h
    · rcases a6 e h with h | ⟨cmd, res, h, hk, hs⟩
      · exact Or.inl h
      · exact Or.inr ⟨cmd, res, h, hk, fun hr => b4 (hs hr)⟩
    · exact Or.inr h

theorem ranOn_mono {K L : String → Prop} {v w : ConfigLocals} {a b : State}
    (hKL : ∀ key, K key → L key) (h : RanOn K v a w b) : RanOn L v a w b := by
  obtain ⟨a1, a2, a3, a4, a5, a6⟩ := h
  refine ⟨a1, fun o ho => a2 o (fun hk => ho (hKL o hk)), a3, a4, a5, ?_⟩
  intro e he
  rcases a6 e he with h | ⟨cmd, res, h, hk, hs⟩
  · exact Or.inl h
  · exact Or.inr ⟨cmd, res, h, hKL _ hk, hs⟩

/-- Setting only a member of the result object. -/
theorem ranOn_member (key value : String) (v : ConfigLocals) (s : State) :
    RanOn (fun k => k = key) v s { v with jsonResult := setMember key value v.jsonResult } s :=
  ⟨sameConfig_refl s, fun o ho => getMember_setMember_ne key o value ho _, grows_refl s,
    fun h => h, fun h => Or.inl h, fun _ he => Or.inl he⟩

theorem configVerdict_anyUpdated (markUpdated : ConfigLocals → ConfigLocals) (key : String)
    (hmark : ∀ v, (markUpdated v).anyUpdated = true ∧
      (markUpdated v).jsonResult = v.jsonResult ∧ (markUpdated v).cmdResult = v.cmdResult)
    (v : ConfigLocals) :
    (configVerdict markUpdated key v).anyUpdated =
      (decide (v.cmdResult = .Success) || v.anyUpdated) := by
  unfold configVerdict
  simp only []
  by_cases hs : v.cmdResult = .Success
  · rw [if_pos hs, decide_eq_true hs, Bool.true_or]
    split_ifs
    · exact (hmark v).1
    · exact (hmark v).1
  · rw [if_neg hs, decide_eq_false hs, Bool.false_or]
    split_ifs <;> rfl

theorem configVerdict_other (markUpdated : ConfigLocals → ConfigLocals) (key : String)
    (hmark : ∀ v, (markUpdated v).anyUpdated = true ∧
      (markUpdated v).jsonResult = v.jsonResult ∧ (markUpdated v).cmdResult = v.cmdResult)
    (v : ConfigLocals) (other : String) (hne : other ≠ key) :
    getMember other (configVerdict markUpdated key v).jsonResult =
      getMember other v.jsonResult := by
  unfold configVerdict
  simp only []
  by_cases hs : v.cmdResult = .Success
  · rw [if_pos hs]
    split_ifs
    · rw [getMember_setMember_ne key other _ hne, (hmark v).2.1]
    · rw [(hmark v).2.1]
  · rw [if_neg hs]
    split_ifs
    · rw [getMember_setMember_ne key other _ hne]
    · rfl

/-- One pass of a `for` loop over the keys, whatever the key holds. -/
theorem textKey_spec (W : World) (step : State → String → String → KeyStep)
    (markUpdated : ConfigLocals → ConfigLocals) (aclWord : Nat) (key : String)
    (value : Option String)
    (hkey : ∀ t jsonchar cmd, step t key jsonchar = .command cmd → cmd.key = key)
    (hmark : ∀ v, (markUpdated v).anyUpdated = true ∧
      (markUpdated v).jsonResult = v.jsonResult ∧ (markUpdated v).cmdResult = v.cmdResult)
    (v : ConfigLocals) (s : State) :
    RanOn (fun k => k = key) v s
      (textKey W step markUpdated aclWord key value v s).1
      (textKey W step markUpdated aclWord key value v s).2 := by
  unfold textKey
  cases value with
  | none => exact ranOn_refl _ v s
  | some jsonchar =>
    unfold configText
    simp only []
    split_ifs with hlen hacl
    · exact ranOn_member key _ v s
    · have hE : ({ v with cmdResult := CmdResult.Error } : ConfigLocals).cmdResult ≠ .Success := by
        intro h
        cases h
      obtain ⟨a1, a2, a3, a4, a5, a6, a7⟩ :=
        configLoop_spec W (fun t => step t key jsonchar) key (fun t cmd h => hkey t jsonchar cmd h)
          (loopFuel s) { v with cmdResult := .Error }
          (s.set fun m => { m with retryCount := 0 }) hE
      generalize (configLoop W (fun t => step t key jsonchar) key (loopFuel s)
        { v with cmdResult := .Error } (s.set fun m => { m with retryCount := 0 })) = out
        at a1 a2 a3 a4 a5 a6 a7
      obtain ⟨v1, s1⟩ := out
      simp only [] at a1 a2 a3 a4 a5 a6 a7 ⊢
      have hflag : v1.anyUpdated = v.anyUpdated := by
        unfold ConfigLocals.anyUpdated
        rw [a2, a3]
      have hany := configVerdict_anyUpdated markUpdated key hmark v1
      refine ⟨⟨a1.1, a1.2.1, a1.2.2.1, a1.2.2.2⟩, ?_, a5, ?_, ?_, ?_⟩
      · intro other hne
        rw [configVerdict_other markUpdated key hmark v1 other hne]
        exact a4 other hne
      · intro h
        rw [hany, hflag, h, Bool.or_true]
      · intro h
        rw [hany, Bool.or_eq_true, decide_eq_true_eq] at h
        rcases h with h | h
        · exact Or.inr (a7 h)
        · rw [hflag] at h
          exact Or.inl h
      · intro e he
        rcases a6 e he with h | ⟨cmd, res, h, hk, hs⟩
        · exact Or.inl h
        · refine Or.inr ⟨cmd, res, h, hk, ?_⟩
          intro hr
          rw [hany, decide_eq_true (hs hr), Bool.true_or]
    · exact ranOn_member key _ v s

/-- A `for` loop over the keys, whatever the keys hold. -/
theorem textKeys_spec (W : World) (step : State → String → String → KeyStep)
    (markUpdated : ConfigLocals → ConfigLocals) (acl : Nat → Nat) (json : ConfigTexts)
    (hmark : ∀ v, (markUpdated v).anyUpdated = true ∧
      (markUpdated v).jsonResult = v.jsonResult ∧ (markUpdated v).cmdResult = v.cmdResult) :
    ∀ (keys : List String) (i : Nat) (v : ConfigLocals) (s : State),
      (∀ key ∈ keys, ∀ t jsonchar cmd, step t key jsonchar = .command cmd → cmd.key = key) →
      RanOn (fun k => k ∈ keys) v s
        (textKeys W step markUpdated acl json keys i v s).1
        (textKeys W step markUpdated acl json keys i v s).2 := by
  intro keys
  induction keys with
  | nil =>
    intro i v s _
    exact ranOn_refl _ v s
  | cons key rest ih =>
    intro i v s hkey
    have h1 := textKey_spec W step markUpdated (acl i) key (json key)
      (hkey key (List.mem_cons_self _ _)) hmark v s
    have h2 := ih (i + 1) (textKey W step markUpdated (acl i) key (json key) v s).1
      (textKey W step markUpdated (acl i) key (json key) v s).2
      (fun k hk => hkey k (List.mem_cons_of_mem _ hk))
    simp only [textKeys]
    have h1' : RanOn (fun k => k ∈ key :: rest) v s _ _ :=
      ranOn_mono (K := fun k => k = key) (fun k hk => by rw [hk]; exact List.mem_cons_self _ _) h1
    have h2' : RanOn (fun k => k ∈ key :: rest) _ _ _ _ :=
      ranOn_mono (K := fun k => k ∈ rest) (fun k hk => List.mem_cons_of_mem _ hk) h2
    exact ranOn_trans h1' h2'

/-- A key loop whose branch is a verdict issues nothing and, once entered, leaves the
verdict as the member of the key. -/
theorem configLoop_verdict (W : World) (step : State → KeyStep) (key str : String)
    (s0 : State) (hstep : ∀ t, SameConfig s0 t → step t = .verdict str) :
    ∀ (fuel : Nat) (v : ConfigLocals) (s : State), SameConfig s0 s →
      v.cmdResult ≠ .Success →
      (configLoop W step key fuel v s).2.trace = s.trace ∧
      (configLoop W step key fuel v s).1.cmdResult = v.cmdResult ∧
      ((getMember key v.jsonResult = some str ∨
          (0 < fuel ∧ s.retryCount < s.nrOfRetries + 1)) →
        getMember key (configLoop W step key fuel v s).1.jsonResult = some str) := by
  intro fuel
  induction fuel with
  | zero =>
    intro v s _ _
    refine ⟨rfl, rfl, ?_⟩
    rintro (h | ⟨h, _⟩)
    · exact h
    · exact absurd h (lt_irrefl 0)
  | succ n ih =>
    intro v s hs hv
    have hround : configRound W step key v s =
        ({ v with jsonResult := setMember key str v.jsonResult }, s) := by
      unfold configRound
      rw [hstep s hs]
    simp only [configLoop, hround]
    split_ifs with hguard
    · obtain ⟨h1, h2, h3⟩ := ih { v with jsonResult := setMember key str v.jsonResult }
        (s.set fun m => { m with retryCount := s.retryCount + 1 })
        ⟨hs.1, hs.2.1, hs.2.2.1, hs.2.2.2⟩ hv
      exact ⟨h1, h2, fun _ => h3 (Or.inl (getMember_setMember_self key str _))⟩
    · refine ⟨rfl, rfl, ?_⟩
      rintro (h | ⟨_, h⟩)
      · exact h
      · exact absurd h hguard

/-- A key with a value, a set ACL word and a branch that is a verdict: the verdict is
the member of the key and nothing is called, when at least one round is made. -/
theorem textKey_verdict (W : World) (step : State → String → String → KeyStep)
    (markUpdated : ConfigLocals → ConfigLocals) (key jsonchar str : String)
    (v : ConfigLocals) (s : State) (hlen : jsonchar ≠ "")
    (hstep : ∀ t, SameConfig s t → step t key jsonchar = .verdict str)
    (hretries : 0 ≤ s.nrOfRetries) :
    (textKey W step markUpdated 1 key (some jsonchar) v s).2.trace = s.trace ∧
      getMember key (textKey W step markUpdated 1 key (some jsonchar) v s).1.jsonResult =
        some str := by
  have hE : ({ v with cmdResult := CmdResult.Error } : ConfigLocals).cmdResult ≠ .Success := by
    intro h
    cases h
  have hlen' : ¬ jsonchar.length = 0 := by
    intro h
    apply hlen
    have : jsonchar.data = [] := List.length_eq_zero.mp h
    exact String.ext this
  obtain ⟨h1, h2, h3⟩ := configLoop_verdict W (fun t => step t key jsonchar) key str s hstep
    (loopFuel s) { v with cmdResult := .Error } (s.set fun m => { m with retryCount := 0 })
    ⟨rfl, rfl, rfl, rfl⟩ hE
  have h4 := h3 (Or.inr ⟨by
      show 0 < (s.nrOfRetries + 1).toNat
      omega, by
      show (0 : Int) < s.nrOfRetries + 1
      omega⟩)
  unfold textKey configText
  simp only [hlen', if_false, if_true]
  generalize (configLoop W (fun t => step t key jsonchar) key (loopFuel s)
    { v with cmdResult := .Error } (s.set fun m => { m with retryCount := 0 })) = out
    at h1 h2 h4
  obtain ⟨v1, s1⟩ := out
  simp only [] at h1 h2 h4 ⊢
  refine ⟨h1, ?_⟩
  unfold configVerdict
  have hne : ¬ v1.cmdResult = .Success := by
    rw [h2]
    exact hE
  simp only [if_neg hne, h4, Option.isNone_some, Bool.false_eq_true, if_false]

/-- A key with a value whose ACL word is not 1: "accessDenied" is the member of the
key and nothing is called. -/
theorem textKey_denied (W : World) (step : State → String → String → KeyStep)
    (markUpdated : ConfigLocals → ConfigLocals) (aclWord : Nat) (key jsonchar : String)
    (v : ConfigLocals) (s : State) (hlen : jsonchar ≠ "") (hacl : aclWord ≠ 1) :
    (textKey W step markUpdated aclWord key (some jsonchar) v s).2.trace = s.trace ∧
      getMember key
        (textKey W step markUpdated aclWord key (some jsonchar) v s).1.jsonResult =
        some "accessDenied" := by
  have hlen' : ¬ jsonchar.length = 0 := by
    intro h
    apply hlen
    have : jsonchar.data = [] := List.length_eq_zero.mp h
    exact String.ext this
  unfold textKey configText
  simp only [hlen', if_false, hacl]
  exact ⟨trivial, getMember_setMember_self _ _ _⟩

theorem Event.isCommandFor_of_ne (key : String) (cmd : ConfigCommand) (res : CmdResult)
    (h : cmd.key ≠ key) : (Event.configCommand cmd res).isCommandFor key = false := by
  simp [Event.isCommandFor, h]

/-- The key at position `n` of a `for` loop, when its own pass calls nothing and
leaves `verdict` as its member: the loop leaves that member and issues no command for
the key. -/
theorem textKeys_verdict (W : World) (step : State → String → String → KeyStep)
    (markUpdated : ConfigLocals → ConfigLocals) (acl : Nat → Nat) (json : ConfigTexts)
    (hmark : ∀ v, (markUpdated v).anyUpdated = true ∧
      (markUpdated v).jsonResult = v.jsonResult ∧ (markUpdated v).cmdResult = v.cmdResult)
    (s0 : State) (k verdict : String) :
    ∀ (keys : List String) (i : Nat) (v : ConfigLocals) (s : State), keys.Nodup →
      (∀ key ∈ keys, ∀ t jsonchar cmd, step t key jsonchar = .command cmd → cmd.key = key) →
      SameConfig s0 s → ∀ n, keys[n]? = some k →
      (∀ x t, SameConfig s0 t →
        (textKey W step markUpdated (acl (i + n)) k (json k) x t).2.trace = t.trace ∧
        getMember k (textKey W step markUpdated (acl (i + n)) k (json k) x t).1.jsonResult =
          some verdict) →
      getMember k (textKeys W step markUpdated acl json keys i v s).1.jsonResult =
          some verdict ∧
        ∀ e ∈ (textKeys W step markUpdated acl json keys i v s).2.trace,
          e ∈ s.trace ∨ e.isCommandFor k = false := by
  intro keys
  induction keys with
  | nil =>
    intro i v s _ _ _ n hn
    simp at hn
  | cons key rest ih =>
    intro i v s hnodup hkey hs n hn hK
    have hnotin : key ∉ rest := (List.nodup_cons.mp hnodup).1
    have hrest : rest.Nodup := (List.nodup_cons.mp hnodup).2
    simp only [textKeys]
    cases n with
    | zero =>
      have hk : key = k := by simpa using hn
      subst hk
      rw [Nat.add_zero] at hK
      obtain ⟨h1, h2⟩ := hK v s hs
      obtain ⟨b1, b2, b3, b4, b5, b6⟩ := textKeys_spec W step markUpdated acl json hmark rest
        (i + 1) (textKey W step markUpdated (acl i) key (json key) v s).1
        (textKey W step markUpdated (acl i) key (json key) v s).2
        (fun k hk => hkey k (List.mem_cons_of_mem _ hk))
      refine ⟨(b2 key hnotin).trans h2, ?_⟩
      intro e he
      rcases b6 e he with h | ⟨cmd, res, h, hk, _⟩
      · rw [h1] at h
        exact Or.inl h
      · refine Or.inr ?_
        rw [h]
        apply Event.isCommandFor_of_ne
        intro heq
        rw [heq] at hk
        exact hnotin hk
    | succ m =>
      have hm : rest[m]? = some k := by simpa using hn
      have hkin : k ∈ rest := List.getElem?_mem hm
      have hne : key ≠ k := fun h => hnotin (h ▸ hkin)
      obtain ⟨a1, a2, a3, a4, a5, a6⟩ := textKey_spec W step markUpdated (acl i) key (json key)
        (hkey key (List.mem_cons_self _ _)) hmark v s
      have hK' : ∀ x t, SameConfig s0 t →
          (textKey W step markUpdated (acl (i + 1 + m)) k (json k) x t).2.trace = t.trace ∧
          getMember k (textKey W step markUpdated (acl (i + 1 + m)) k (json k) x t).1.jsonResult =
            some verdict := by
        have : i + 1 + m = i + (m + 1) := by omega
        rw [this]
        exact hK
      obtain ⟨c1, c2⟩ := ih (i + 1) (textKey W step markUpdated (acl i) key (json key) v s).1
        (textKey W step markUpdated (acl i) key (json key) v s).2 hrest
        (fun k hk => hkey k (List.mem_cons_of_mem _ hk)) (sameConfig_trans hs a1) m hm hK'
      refine ⟨c1, ?_⟩
      intro e he
      rcases c2 e he with h | h
      · rcases a6 e h with h | ⟨cmd, res, h, hk, _⟩
        · exact Or.inl h
        · refine Or.inr ?_
          rw [h]
          apply Event.isCommandFor_of_ne
          intro heq
          rw [heq] at hk
          exact hne hk.symm
      · exact Or.inr h

theorem markBasic_spec (v : ConfigLocals) :
    ({ v with basicUpdated := true } : ConfigLocals).anyUpdated = true ∧
      ({ v with basicUpdated := true } : ConfigLocals).jsonResult = v.jsonResult ∧
      ({ v with basicUpdated := true } : ConfigLocals).cmdResult = v.cmdResult :=
  ⟨rfl, rfl, rfl⟩

theorem markAdvanced_spec (v : ConfigLocals) :
    ({ v with advancedUpdated := true } : ConfigLocals).anyUpdated = true ∧
      ({ v with advancedUpdated := true } : ConfigLocals).jsonResult = v.jsonResult ∧
      ({ v with advancedUpdated := true } : ConfigLocals).cmdResult = v.cmdResult :=
  ⟨Bool.or_true _, rfl, rfl⟩

theorem basicKeys_nodup : basicKeys.Nodup := by decide

theorem advancedKeys_nodup : advancedKeys.Nodup := by decide

theorem basicKeys_not_advanced : ∀ k ∈ basicKeys, k ∉ advancedKeys := by decide

theorem general_not_key : "general" ∉ basicKeys ∧ "general" ∉ advancedKeys := by decide

/-- The two `for` loops of the handler, whatever the request holds. -/
theorem textRun_spec (W : World) (json : ConfigTexts) (s : State) :
    RanOn (fun k => k ∈ basicKeys ∨ k ∈ advancedKeys) {} s (textRun W json s).1
      (textRun W json s).2 := by
  have h1 := textKeys_spec W (fun t => basicKeyStep W t.nukiConfig)
    (fun v => { v with basicUpdated := true }) s.prefs.conf_opener_basic_acl json
    markBasic_spec basicKeys 0 {} s
    (fun key hk t jsonchar cmd h => basicKeyStep_key W t.nukiConfig key jsonchar hk cmd h)
  have h2 := textKeys_spec W (fun t => advancedKeyStep t.nukiAdvancedConfig)
    (fun v => { v with advancedUpdated := true })
    (textKeys W (fun t => basicKeyStep W t.nukiConfig)
      (fun v => { v with basicUpdated := true }) s.prefs.conf_opener_basic_acl json
      basicKeys 0 {} s).2.prefs.conf_opener_advanced_acl json
    markAdvanced_spec advancedKeys 0
    (textKeys W (fun t => basicKeyStep W t.nukiConfig)
      (fun v => { v with basicUpdated := true }) s.prefs.conf_opener_basic_acl json
      basicKeys 0 {} s).1
    (textKeys W (fun t => basicKeyStep W t.nukiConfig)
      (fun v => { v with basicUpdated := true }) s.prefs.conf_opener_basic_acl json
      basicKeys 0 {} s).2
    (fun key hk t jsonchar cmd h => advancedKeyStep_key t.nukiAdvancedConfig key jsonchar hk cmd h)
  exact ranOn_trans
    (ranOn_mono (K := fun k => k ∈ basicKeys) (fun k hk => Or.inl hk) h1)
    (ranOn_mono (K := fun k => k ∈ advancedKeys) (fun k hk => Or.inr hk) h2)

/-- A basic key whose own pass calls nothing and leaves `verdict`: the run leaves
that member and issues no command for the key. -/
theorem textRun_basic_verdict (W : World) (json : ConfigTexts) (s : State)
    (k verdict : String) (n : Nat) (hn : basicKeys[n]? = some k)
    (hK : ∀ x t, SameConfig s t →
      (textKey W (fun t => basicKeyStep W t.nukiConfig)
        (fun v => { v with basicUpdated := true }) (s.prefs.conf_opener_basic_acl n) k (json k)
        x t).2.trace = t.trace ∧
      getMember k (textKey W (fun t => basicKeyStep W t.nukiConfig)
        (fun v => { v with basicUpdated := true }) (s.prefs.conf_opener_basic_acl n) k (json k)
        x t).1.jsonResult = some verdict) :
    getMember k (textRun W json s).1.jsonResult = some verdict ∧
      ∀ e ∈ (textRun W json s).2.trace, e ∈ s.trace ∨ e.isCommandFor k = false := by
  have hkb : k ∈ basicKeys := List.getElem?_mem hn
  have hka : k ∉ advancedKeys := basicKeys_not_advanced k hkb
  obtain ⟨h1, h2⟩ := textKeys_verdict W (fun t => basicKeyStep W t.nukiConfig)
    (fun v => { v with basicUpdated := true }) s.prefs.conf_opener_basic_acl json
    markBasic_spec s k verdict basicKeys 0 {} s basicKeys_nodup
    (fun key hk t jsonchar cmd h => basicKeyStep_key W t.nukiConfig key jsonchar hk cmd h)
    (sameConfig_refl s) n hn (by rw [Nat.zero_add]; exact hK)
  obtain ⟨b1, b2, b3, b4, b5, b6⟩ := textKeys_spec W
    (fun t => advancedKeyStep t.nukiAdvancedConfig)
    (fun v => { v with advancedUpdated := true })
    (textKeys W (fun t => basicKeyStep W t.nukiConfig)
      (fun v => { v with basicUpdated := true }) s.prefs.conf_opener_basic_acl json
      basicKeys 0 {} s).2.prefs.conf_opener_advanced_acl json
    markAdvanced_spec advancedKeys 0
    (textKeys W (fun t => basicKeyStep W t.nukiConfig)
      (fun v => { v with basicUpdated := true }) s.prefs.conf_opener_basic_acl json
      basicKeys 0 {} s).1
    (textKeys W (fun t => basicKeyStep W t.nukiConfig)
      (fun v => { v with basicUpdated := true }) s.prefs.conf_opener_basic_acl json
      basicKeys 0 {} s).2
    (fun key hk t jsonchar cmd h => advancedKeyStep_key t.nukiAdvancedConfig key jsonchar hk cmd h)
  refine ⟨(b2 k hka).trans h1, ?_⟩
  intro e he
  rcases b6 e he with h | ⟨cmd, res, h, hk, _⟩
  · exact h2 e h
  · refine Or.inr ?_
    rw [h]
    apply Event.isCommandFor_of_ne
    intro heq
    rw [heq] at hk
    exact hka hk

/-- The same for an advanced key. -/
theorem textRun_advanced_verdict (W : World) (json : ConfigTexts) (s : State)
    (k verdict : String) (n : Nat) (hn : advancedKeys[n]? = some k)
    (hK : ∀ x t, SameConfig s t →
      (textKey W (fun t => advancedKeyStep t.nukiAdvancedConfig)
        (fun v => { v with advancedUpdated := true }) (s.prefs.conf_opener_advanced_acl n) k
        (json k) x t).2.trace = t.trace ∧
      getMember k (textKey W (fun t => advancedKeyStep t.nukiAdvancedConfig)
        (fun v => { v with advancedUpdated := true }) (s.prefs.conf_opener_advanced_acl n) k
        (json k) x t).1.jsonResult = some verdict) :
    getMember k (textRun W json s).1.jsonResult = some verdict ∧
      ∀ e ∈ (textRun W json s).2.trace, e ∈ s.trace ∨ e.isCommandFor k = false := by
  have hka : k ∈ advancedKeys := List.getElem?_mem hn
  have hkb : k ∉ basicKeys := fun h => basicKeys_not_advanced k h hka
  obtain ⟨a1, a2, a3, a4, a5, a6⟩ := textKeys_spec W (fun t => basicKeyStep W t.nukiConfig)
    (fun v => { v with basicUpdated := true }) s.prefs.conf_opener_basic_acl json
    markBasic_spec basicKeys 0 {} s
    (fun key hk t jsonchar cmd h => basicKeyStep_key W t.nukiConfig key jsonchar hk cmd h)
  obtain ⟨h1, h2⟩ := textKeys_verdict W (fun t => advancedKeyStep t.nukiAdvancedConfig)
    (fun v => { v with advancedUpdated := true })
    (textKeys W (fun t => basicKeyStep W t.nukiConfig)
      (fun v => { v with basicUpdated := true }) s.prefs.conf_opener_basic_acl json
      basicKeys 0 {} s).2.prefs.conf_opener_advanced_acl json
    markAdvanced_spec s k verdict advancedKeys 0
    (textKeys W (fun t => basicKeyStep W t.nukiConfig)
      (fun v => { v with basicUpdated := true }) s.prefs.conf_opener_basic_acl json
      basicKeys 0 {} s).1
    (textKeys W (fun t => basicKeyStep W t.nukiConfig)
      (fun v => { v with basicUpdated := true }) s.prefs.conf_opener_basic_acl json
      basicKeys 0 {} s).2 advancedKeys_nodup
    (fun key hk t jsonchar cmd h => advancedKeyStep_key t.nukiAdvancedConfig key jsonchar hk cmd h)
    a1 n hn (by rw [Nat.zero_add, a1.1]; exact hK)
  refine ⟨h1, ?_⟩
  intro e he
  rcases h2 e he with h | h
  · rcases a6 e h with h | ⟨cmd, res, h, hk, _⟩
    · exact Or.inl h
    · refine Or.inr ?_
      rw [h]
      apply Event.isCommandFor_of_ne
      intro heq
      rw [heq] at hk
      exact hkb hk
  · exact Or.inr h

theorem publishedConfig_append (l m : List Event) :
    publishedConfig (l ++ m) = publishedConfig l ++ publishedConfig m := by
  simp [publishedConfig, List.filterMap_append]

theorem publishedConfig_commands (l : List Event)
    (h : ∀ e ∈ l, ∃ cmd res, e = .configCommand cmd res) : publishedConfig l = [] := by
  induction l with
  | nil => rfl
  | cons e rest ih =>
    obtain ⟨cmd, res, he⟩ := h e (List.mem_cons_self _ _)
    subst he
    simp only [publishedConfig, List.filterMap_cons]
    exact ih (fun e he => h e (List.mem_cons_of_mem _ he))

/-- The calls of the handler for a request past the gates: the write commands of the
two loops, then the publication of the result object with its general verdict. -/
theorem textHandler_calls (W : World) (json : ConfigTexts) (s : State)
    (hg : configGates s) :
    callsOf (textHandler W (some json)) s =
      (textRun W json s.fresh).2.trace ++
        [.publishConfigCommandResult
          (setMember "general"
            (if (textRun W json s.fresh).1.anyUpdated = true then "success" else "noChange")
            (textRun W json s.fresh).1.jsonResult)] := by
  obtain ⟨g1, g2, g3⟩ := hg
  have g1' : s.fresh.configRead = true := g1
  have g2' : s.fresh.nukiConfigValid = true := g2
  have g3' : isPinValid s.fresh = true := g3
  unfold callsOf textHandler
  simp only [g1', g2', g3', Bool.not_true, Bool.false_eq_true, or_self, if_false]
  generalize textRun W json s.fresh = out
  obtain ⟨v, s1⟩ := out
  simp only [emit_trace, State.set_trace, State.step_trace, ConfigLocals.anyUpdated,
    Bool.or_eq_true]

/-- The result object of a run past the gates is published once. -/
theorem textHandler_published (W : World) (json : ConfigTexts) (s : State)
    (hg : configGates s) :
    publishedConfig (callsOf (textHandler W (some json)) s) =
      [setMember "general"
        (if (textRun W json s.fresh).1.anyUpdated = true then "success" else "noChange")
        (textRun W json s.fresh).1.jsonResult] := by
  rw [textHandler_calls W json s hg, publishedConfig_append]
  obtain ⟨_, _, _, _, _, a6⟩ := textRun_spec W json s.fresh
  rw [publishedConfig_commands]
  · rfl
  · intro e he
    rcases a6 e he with h | ⟨cmd, res, h, _, _⟩
    · exact absurd h (List.not_mem_nil _)
    · exact ⟨cmd, res, h⟩

/-- An update flag is set by a run exactly when one of its write commands returned
`Success`. -/
theorem textRun_anyUpdated (W : World) (json : ConfigTexts) (s : State) :
    (textRun W json s.fresh).1.anyUpdated =
      (textRun W json s.fresh).2.trace.any Event.isSuccessfulWrite := by
  obtain ⟨_, _, _, _, a5, a6⟩ := textRun_spec W json s.fresh
  rw [Bool.eq_iff_iff, List.any_eq_true]
  constructor
  · intro h
    rcases a5 h with h | ⟨cmd, h⟩
    · cases h
    · exact ⟨_, h, by simp [Event.isSuccessfulWrite]⟩
  · rintro ⟨e, he, hs⟩
    rcases a6 e he with h | ⟨cmd, res, h, _, hr⟩
    · exact absurd h (List.not_mem_nil _)
    · apply hr
      rw [h] at hs
      simpa [Event.isSuccessfulWrite] using hs

/-- A request that fails a gate: the handler publishes the one-member object and calls
nothing else. -/
theorem textHandler_gated (W : World) (json : Option ConfigTexts) (s : State)
    (h : ¬ configGates s ∨ json = none) :
    callsOf (textHandler W json) s =
      [.publishConfigCommandResult [("general",
        if s.configRead = false ∨ s.nukiConfigValid = false then "configNotReady"
        else if isPinValid s = false then "noValidPinSet" else "invalidJson")]] := by
  have e1 : s.fresh.configRead = s.configRead := rfl
  have e2 : s.fresh.nukiConfigValid = s.nukiConfigValid := rfl
  have e3 : isPinValid s.fresh = isPinValid s := rfl
  unfold callsOf textHandler
  rw [e1, e2, e3]
  cases h1 : s.configRead <;> cases h2 : s.nukiConfigValid <;> cases h3 : isPinValid s <;>
    first
    | rfl
    | (rcases h with h | h
       · exact absurd ⟨h1, h2, h3⟩ h
       · subst h
         rfl)

/-- The general verdict on a document of strings: every call of `textHandler`
publishes one result object, whose member "general" is "configNotReady" when the
config has not been read or the basic mirror is not valid, else "noValidPinSet" when
the PIN status is not 1, else "invalidJson" when the payload does not parse, else
"success" when one of the write commands returned `Success` and "noChange" when none
did; in the first three cases the object has no other member and nothing else is
called. -/
theorem texts_general_verdict (W : World) (json : Option ConfigTexts) (s : State) :
    ∃ r, publishedConfig (callsOf (textHandler W json) s) = [r] ∧
      getMember "general" r = some
        (if s.configRead = false ∨ s.nukiConfigValid = false then "configNotReady"
         else if isPinValid s = false then "noValidPinSet"
         else if json.isNone = true then "invalidJson"
         else if (callsOf (textHandler W json) s).any Event.isSuccessfulWrite = true
           then "success"
         else "noChange") ∧
      ((s.configRead = false ∨ s.nukiConfigValid = false ∨ isPinValid s = false ∨
          json.isNone = true) →
        r.length = 1 ∧
          callsOf (textHandler W json) s = [.publishConfigCommandResult r]) := by
  by_cases hg : configGates s
  · cases json with
    | none =>
      refine ⟨_, ?_, ?_, fun _ => ⟨?_, textHandler_gated W none s (Or.inr rfl)⟩⟩
      · rw [textHandler_gated W none s (Or.inr rfl)]
        rfl
      · obtain ⟨g1, g2, g3⟩ := hg
        simp [g1, g2, g3, getMember]
      · rfl
    | some j =>
      obtain ⟨g1, g2, g3⟩ := hg
      refine ⟨_, textHandler_published W j s ⟨g1, g2, g3⟩, ?_, ?_⟩
      · rw [getMember_setMember_self, textHandler_calls W j s ⟨g1, g2, g3⟩,
          textRun_anyUpdated]
        simp [g1, g2, g3, List.any_append, Event.isSuccessfulWrite]
      · intro h
        simp [g1, g2, g3] at h
  · refine ⟨_, ?_, ?_, fun _ => ⟨?_, textHandler_gated W json s (Or.inl hg)⟩⟩
    · rw [textHandler_gated W json s (Or.inl hg)]
      rfl
    · have : ¬ (s.configRead = true ∧ s.nukiConfigValid = true ∧ isPinValid s = true) := hg
      cases h1 : s.configRead <;> cases h2 : s.nukiConfigValid <;> cases h3 : isPinValid s <;>
        simp [h1, h2, h3, getMember] at this ⊢
    · rfl

theorem key_ne_general (k : String) (h : k ∈ basicKeys ∨ k ∈ advancedKeys) :
    k ≠ "general" := by
  rintro rfl
  rcases h with h | h
  · exact general_not_key.1 h
  · exact general_not_key.2 h

/-- From the run to the handler: a member of the run's result object is a member of
the published object, and a call of the handler is a call of the run or the
publication. -/
theorem textHandler_member (W : World) (json : ConfigTexts) (s : State)
    (hg : configGates s) (k verdict : String) (hk : k ∈ basicKeys ∨ k ∈ advancedKeys)
    (h : getMember k (textRun W json s.fresh).1.jsonResult = some verdict ∧
      ∀ e ∈ (textRun W json s.fresh).2.trace,
        e ∈ s.fresh.trace ∨ e.isCommandFor k = false) :
    (∃ r, publishedConfig (callsOf (textHandler W (some json)) s) = [r] ∧
        getMember k r = some verdict) ∧
      ∀ e ∈ callsOf (textHandler W (some json)) s, e.isCommandFor k = false := by
  obtain ⟨h1, h2⟩ := h
  refine ⟨⟨_, textHandler_published W json s hg, ?_⟩, ?_⟩
  · rw [getMember_setMember_ne "general" k _ (key_ne_general k hk)]
    exact h1
  · intro e he
    rw [textHandler_calls W json s hg, List.mem_append, List.mem_singleton] at he
    rcases he with he | he
    · rcases h2 e he with h | h
      · exact absurd h (List.not_mem_nil _)
      · exact h
    · rw [he]
      rfl

/-- Denied keys on a document of strings: past the readiness and PIN gates, every
basic key (index 0 to 13) and every advanced key (index 0 to 19) that carries a
non-empty value while its ACL word is not 1 gets the member "accessDenied" in the one
published result and no write command is issued for it; and when no write command
returns `Success` the member "general" of the published result is "noChange". -/
theorem texts_access_denied (W : World) (json : ConfigTexts) (s : State)
    (hg : configGates s) :
    (∀ n key value, basicKeys[n]? = some key → json key = some value → value ≠ "" →
      s.prefs.conf_opener_basic_acl n ≠ 1 →
      (∃ r, publishedConfig (callsOf (textHandler W (some json)) s) = [r] ∧
          getMember key r = some "accessDenied") ∧
        ∀ e ∈ callsOf (textHandler W (some json)) s, e.isCommandFor key = false) ∧
    (∀ n key value, advancedKeys[n]? = some key → json key = some value → value ≠ "" →
      s.prefs.conf_opener_advanced_acl n ≠ 1 →
      (∃ r, publishedConfig (callsOf (textHandler W (some json)) s) = [r] ∧
          getMember key r = some "accessDenied") ∧
        ∀ e ∈ callsOf (textHandler W (some json)) s, e.isCommandFor key = false) ∧
    ((callsOf (textHandler W (some json)) s).any Event.isSuccessfulWrite = false →
      ∃ r, publishedConfig (callsOf (textHandler W (some json)) s) = [r] ∧
        getMember "general" r = some "noChange") := by
  refine ⟨?_, ?_, ?_⟩
  · intro n key value hn hv hne hacl
    apply textHandler_member W json s hg key _ (Or.inl (List.getElem?_mem hn))
    apply textRun_basic_verdict W json s.fresh key _ n hn
    intro x t _
    rw [hv]
    exact textKey_denied W _ _ _ key value x t hne hacl
  · intro n key value hn hv hne hacl
    apply textHandler_member W json s hg key _ (Or.inr (List.getElem?_mem hn))
    apply textRun_advanced_verdict W json s.fresh key _ n hn
    intro x t _
    rw [hv]
    exact textKey_denied W _ _ _ key value x t hne hacl
  · intro hnone
    refine ⟨_, textHandler_published W json s hg, ?_⟩
    rw [getMember_setMember_self]
    rw [textHandler_calls W json s hg, List.any_append, Bool.or_eq_false_iff] at hnone
    rw [textRun_anyUpdated, hnone.1]
    rfl

theorem valueStep_unchanged (valid unchanged : Bool) (cmd : ConfigCommand)
    (h1 : valid = true) (h2 : unchanged = true) :
    valueStep valid unchanged cmd = .verdict "unchanged" := by
  subst h1 h2
  rfl

theorem valueStep_invalid (unchanged : Bool) (cmd : ConfigCommand) :
    valueStep false unchanged cmd = .verdict "invalidValue" := rfl

theorem intHeld_spec (lo hi mirror : Int) (value : String) (h : intHeld lo hi mirror value = true) :
    lo ≤ atoi value ∧ atoi value ≤ hi ∧ mirror = atoi value := by
  simpa [intHeld] using h

theorem wordHeld_spec {α : Type} [DecidableEq α] (sentinel mirror code : α)
    (h : wordHeld sentinel mirror code = true) : code ≠ sentinel ∧ mirror = code := by
  simpa [wordHeld] using h

/-- A basic key whose requested value is held by the mirror: the branch of the key is
the verdict "unchanged". -/
theorem basicKeyStep_unchanged (W : World) (config : Config) (advanced : AdvancedConfig)
    (key value : String) (hk : key ∈ basicKeys)
    (h : valueHeld W config advanced key value = true) :
    basicKeyStep W config key value = .verdict "unchanged" := by
  simp only [basicKeys, List.mem_cons, List.mem_singleton, List.not_mem_nil, or_false] at hk
  rcases hk with rfl | rfl | rfl | rfl | rfl | rfl | rfl | rfl | rfl | rfl | rfl | rfl | rfl | rfl
  · have h1 : decide (value.length ≤ 32 ∧ config.name = value) = true := h
    rw [decide_eq_true_eq] at h1
    show (if value.length ≤ 32 then
        if config.name = value then KeyStep.verdict "unchanged"
        else .command (.setName value)
      else .verdict "valueTooLong") = _
    rw [if_pos h1.1, if_pos h1.2]
  · have h1 : decide (W.atof value > 0 ∧ config.latitude = W.atof value) = true := h
    rw [decide_eq_true_eq] at h1
    show valueStep _ _ _ = _
    exact valueStep_unchanged _ _ _ (decide_eq_true h1.1) (decide_eq_true h1.2)
  · have h1 : decide (W.atof value > 0 ∧ config.longitude = W.atof value) = true := h
    rw [decide_eq_true_eq] at h1
    show valueStep _ _ _ = _
    exact valueStep_unchanged _ _ _ (decide_eq_true h1.1) (decide_eq_true h1.2)
  all_goals
    first
    | (have h1 := intHeld_spec _ _ _ _ h
       show valueStep _ _ _ = _
       apply valueStep_unchanged <;> rw [decide_eq_true_eq] <;>
         simp only [toUInt8, toUInt16, toInt16] <;> omega)
    | (have h1 := wordHeld_spec _ _ _ h
       show valueStep _ _ _ = _
       exact valueStep_unchanged _ _ _ (decide_eq_true h1.1) (decide_eq_true h1.2))

/-- The same for an advanced key. -/
theorem advancedKeyStep_unchanged (W : World) (config : Config) (advanced : AdvancedConfig)
    (key value : String) (hk : key ∈ advancedKeys)
    (h : valueHeld W config advanced key value = true) :
    advancedKeyStep advanced key value = .verdict "unchanged" := by
  simp only [advancedKeys, List.mem_cons, List.mem_singleton, List.not_mem_nil, or_false] at hk
  rcases hk with rfl | rfl | rfl | rfl | rfl | rfl | rfl | rfl | rfl | rfl | rfl | rfl | rfl |
    rfl | rfl | rfl | rfl | rfl | rfl | rfl
  all_goals
    first
    | (have h1 := intHeld_spec _ _ _ _ h
       show valueStep _ _ _ = _
       apply valueStep_unchanged <;> rw [decide_eq_true_eq] <;>
         simp only [toUInt8, toUInt16, toInt16] <;> omega)
    | (have h1 := wordHeld_spec _ _ _ h
       show valueStep _ _ _ = _
       exact valueStep_unchanged _ _ _ (decide_eq_true h1.1) (decide_eq_true h1.2))

/-- A basic key with a value, a set ACL word and a branch that is a verdict for the
mirror the wrapper holds: the verdict is its member of the published result and no
write command is issued for it. -/
theorem config_basic_verdict (W : World) (json : ConfigTexts) (s : State) (hg : configGates s)
    (hretries : 0 ≤ s.nrOfRetries) (n : Nat) (key value verdict : String)
    (hn : basicKeys[n]? = some key) (hv : json key = some value) (hne : value ≠ "")
    (hacl : s.prefs.conf_opener_basic_acl n = 1)
    (hstep : basicKeyStep W s.nukiConfig key value = .verdict verdict) :
    (∃ r, publishedConfig (callsOf (textHandler W (some json)) s) = [r] ∧
        getMember key r = some verdict) ∧
      ∀ e ∈ callsOf (textHandler W (some json)) s, e.isCommandFor key = false := by
  apply textHandler_member W json s hg key _ (Or.inl (List.getElem?_mem hn))
  apply textRun_basic_verdict W json s.fresh key _ n hn
  intro x t ht
  have hacl' : s.fresh.prefs.conf_opener_basic_acl n = 1 := hacl
  rw [hv, hacl']
  apply textKey_verdict W _ _ key value verdict x t hne
  · intro u hu
    have h1 : u.nukiConfig = s.nukiConfig := (sameConfig_trans ht hu).2.1
    show basicKeyStep W u.nukiConfig key value = _
    rw [h1]
    exact hstep
  · have h1 : t.nrOfRetries = s.nrOfRetries := ht.2.2.2
    rw [h1]
    exact hretries

/-- The same for an advanced key. -/
theorem config_advanced_verdict (W : World) (json : ConfigTexts) (s : State)
    (hg : configGates s) (hretries : 0 ≤ s.nrOfRetries) (n : Nat)
    (key value verdict : String) (hn : advancedKeys[n]? = some key)
    (hv : json key = some value) (hne : value ≠ "")
    (hacl : s.prefs.conf_opener_advanced_acl n = 1)
    (hstep : advancedKeyStep s.nukiAdvancedConfig key value = .verdict verdict) :
    (∃ r, publishedConfig (callsOf (textHandler W (some json)) s) = [r] ∧
        getMember key r = some verdict) ∧
      ∀ e ∈ callsOf (textHandler W (some json)) s, e.isCommandFor key = false := by
  apply textHandler_member W json s hg key _ (Or.inr (List.getElem?_mem hn))
  apply textRun_advanced_verdict W json s.fresh key _ n hn
  intro x t ht
  have hacl' : s.fresh.prefs.conf_opener_advanced_acl n = 1 := hacl
  rw [hv, hacl']
  apply textKey_verdict W _ _ key value verdict x t hne
  · intro u hu
    have h1 : u.nukiAdvancedConfig = s.nukiAdvancedConfig := (sameConfig_trans ht hu).2.2.1
    show advancedKeyStep u.nukiAdvancedConfig key value = _
    rw [h1]
    exact hstep
  · have h1 : t.nrOfRetries = s.nrOfRetries := ht.2.2.2
    rw [h1]
    exact hretries

/-- Unchanged keys on a document of strings: past the gates and with
`nrOfRetries >= 0`, every basic key and every advanced key that carries a non-empty
value, whose ACL word is 1 and whose requested value is valid and equal to the value
the config mirror holds, gets the member "unchanged" in the one published result, and
no write command is issued for it. -/
theorem texts_unchanged (W : World) (json : ConfigTexts) (s : State) (hg : configGates s)
    (hretries : 0 ≤ s.nrOfRetries) :
    (∀ n key value, basicKeys[n]? = some key → json key = some value → value ≠ "" →
      s.prefs.conf_opener_basic_acl n = 1 →
      valueHeld W s.nukiConfig s.nukiAdvancedConfig key value = true →
      (∃ r, publishedConfig (callsOf (textHandler W (some json)) s) = [r] ∧
          getMember key r = some "unchanged") ∧
        ∀ e ∈ callsOf (textHandler W (some json)) s, e.isCommandFor key = false) ∧
    (∀ n key value, advancedKeys[n]? = some key → json key = some value → value ≠ "" →
      s.prefs.conf_opener_advanced_acl n = 1 →
      valueHeld W s.nukiConfig s.nukiAdvancedConfig key value = true →
      (∃ r, publishedConfig (callsOf (textHandler W (some json)) s) = [r] ∧
          getMember key r = some "unchanged") ∧
        ∀ e ∈ callsOf (textHandler W (some json)) s, e.isCommandFor key = false) :=
  ⟨fun n key value hn hv hne hacl hheld =>
      config_basic_verdict W json s hg hretries n key value "unchanged" hn hv hne hacl
        (basicKeyStep_unchanged W s.nukiConfig s.nukiAdvancedConfig key value
          (List.getElem?_mem hn) hheld),
    fun n key value hn hv hne hacl hheld =>
      config_advanced_verdict W json s hg hretries n key value "unchanged" hn hv hne hacl
        (advancedKeyStep_unchanged W s.nukiConfig s.nukiAdvancedConfig key value
          (List.getElem?_mem hn) hheld)⟩

/-! ## Enumerated config keys -/

theorem firstMatch_sentinel {α : Type} (sentinel : α) (table : List (String × α))
    (str : String) (h : str ∉ words table) : firstMatch sentinel table str = sentinel := by
  induction table with
  | nil => rfl
  | cons p rest ih =>
    obtain ⟨word, value⟩ := p
    simp only [words, List.map_cons, List.mem_cons, not_or] at h
    simp only [firstMatch, if_neg h.1]
    exact ih h.2

theorem firstMatch_mem {α : Type} (sentinel : α) (table : List (String × α)) (str : String)
    (h : str ∈ words table) : (str, firstMatch sentinel table str) ∈ table := by
  induction table with
  | nil => simp [words] at h
  | cons p rest ih =>
    obtain ⟨word, value⟩ := p
    simp only [firstMatch]
    split_ifs with hw
    · subst hw
      exact List.mem_cons_self _ _
    · simp only [words, List.map_cons, List.mem_cons] at h
      rcases h with h | h
      · exact absurd h hw
      · exact List.mem_cons_of_mem _ (ih h)

theorem firstMatch_spec {α : Type} (sentinel : α) (table : List (String × α))
    (hvalues : ∀ p ∈ table, p.2 ≠ sentinel) (hnodup : (table.map Prod.snd).Nodup) :
    MapperSpec (firstMatch sentinel table) sentinel (words table) := by
  constructor
  · intro str
    constructor
    · intro h hmem
      exact hvalues _ (firstMatch_mem sentinel table str hmem) h
    · exact firstMatch_sentinel sentinel table str
  · intro a ha b hb h
    have h1 := firstMatch_mem sentinel table a ha
    have h2 := firstMatch_mem sentinel table b hb
    have := List.inj_on_of_nodup_map hnodup h1 h2 h
    exact congrArg Prod.fst this

theorem valueStep_sentinel {α : Type} [DecidableEq α] (code sentinel : α) (unchanged : Bool)
    (cmd : ConfigCommand) (h : code = sentinel) :
    valueStep (decide (code ≠ sentinel)) unchanged cmd = .verdict "invalidValue" := by
  subst h
  simp [valueStep]

/-- An enumerated basic key with a value outside its vocabulary: the branch of the key
is the verdict "invalidValue". -/
theorem basicKeyStep_invalid (W : World) (config : Config) (key value : String)
    (voc : List String) (hk : key ∈ basicKeys) (hvoc : vocabulary key = some voc)
    (hnot : value ∉ voc) : basicKeyStep W config key value = .verdict "invalidValue" := by
  simp only [basicKeys, List.mem_cons, List.mem_singleton, List.not_mem_nil, or_false] at hk
  rcases hk with rfl | rfl | rfl | rfl | rfl | rfl | rfl | rfl | rfl | rfl | rfl | rfl | rfl | rfl
  all_goals
    first
    | (have h0 : none = some voc := hvoc
       cases h0)
    | (have h0 : some (words _) = some voc := hvoc
       cases h0
       show valueStep _ _ _ = _
       exact valueStep_sentinel _ _ _ _ (firstMatch_sentinel _ _ _ hnot))

/-- The same for an advanced key. -/
theorem advancedKeyStep_invalid (config : AdvancedConfig) (key value : String)
    (voc : List String) (hk : key ∈ advancedKeys) (hvoc : vocabulary key = some voc)
    (hnot : value ∉ voc) : advancedKeyStep config key value = .verdict "invalidValue" := by
  simp only [advancedKeys, List.mem_cons, List.mem_singleton, List.not_mem_nil, or_false] at hk
  rcases hk with rfl | rfl | rfl | rfl | rfl | rfl | rfl | rfl | rfl | rfl | rfl | rfl | rfl |
    rfl | rfl | rfl | rfl | rfl | rfl | rfl
  all_goals
    first
    | (have h0 : none = some voc := hvoc
       cases h0)
    | (have h0 : some (words _) = some voc := hvoc
       cases h0
       show valueStep _ _ _ = _
       exact valueStep_sentinel _ _ _ _ (firstMatch_sentinel _ _ _ hnot))

/-- Enumerated keys on a document of strings: each of the eight string-to-code mappers
returns its sentinel (0xff or 99) exactly for the strings outside its vocabulary and
maps different words of the vocabulary to different codes; and past the gates, with
`nrOfRetries >= 0`, an enumerated key whose ACL word is 1 and whose non-empty value is
outside the vocabulary of the key gets the member "invalidValue" in the one published
result, and no write command is issued for it. -/
theorem texts_enumerations :
    MapperSpec advertisingModeToEnum .invalid (words advertisingModeTable) ∧
    MapperSpec timeZoneToEnum .invalid (words timeZoneTable) ∧
    MapperSpec fobActionToInt 99 (words fobActionTable) ∧
    MapperSpec operatingModeToInt 99 (words operatingModeTable) ∧
    MapperSpec doorbellSuppressionToInt 99 (words doorbellSuppressionTable) ∧
    MapperSpec soundToInt 99 (words soundTable) ∧
    MapperSpec buttonPressActionToEnum .invalid (words buttonPressActionTable) ∧
    MapperSpec batteryTypeToEnum .invalid (words batteryTypeTable) ∧
    ∀ (W : World) (json : ConfigTexts) (s : State), configGates s → 0 ≤ s.nrOfRetries →
      ∀ n key value voc, vocabulary key = some voc → json key = some value → value ≠ "" →
        value ∉ voc →
        (basicKeys[n]? = some key ∧ s.prefs.conf_opener_basic_acl n = 1 ∨
          advancedKeys[n]? = some key ∧ s.prefs.conf_opener_advanced_acl n = 1) →
        (∃ r, publishedConfig (callsOf (textHandler W (some json)) s) = [r] ∧
            getMember key r = some "invalidValue") ∧
          ∀ e ∈ callsOf (textHandler W (some json)) s,
            e.isCommandFor key = false := by
  refine ⟨firstMatch_spec _ _ (by decide) (by decide), firstMatch_spec _ _ (by decide) (by decide),
    firstMatch_spec _ _ (by decide) (by decide), firstMatch_spec _ _ (by decide) (by decide),
    firstMatch_spec _ _ (by decide) (by decide), firstMatch_spec _ _ (by decide) (by decide),
    firstMatch_spec _ _ (by decide) (by decide), firstMatch_spec _ _ (by decide) (by decide), ?_⟩
  intro W json s hg hretries n key value voc hvoc hv hne hnot hkey
  rcases hkey with ⟨hn, hacl⟩ | ⟨hn, hacl⟩
  · exact config_basic_verdict W json s hg hretries n key value "invalidValue" hn hv hne hacl
      (basicKeyStep_invalid W s.nukiConfig key value voc (List.getElem?_mem hn) hvoc hnot)
  · exact config_advanced_verdict W json s hg hretries n key value "invalidValue" hn hv hne hacl
      (advancedKeyStep_invalid s.nukiAdvancedConfig key value voc (List.getElem?_mem hn) hvoc
        hnot)

/-! ## Narrowed values and keypad updates -/

/-- The range test of `rtoTimeout` sees the value modulo 256: the key is rejected
exactly when that remainder is outside [5, 60]. -/
theorem rtoTimeout_invalid_iff (config : AdvancedConfig) (value : String) :
    advancedKeyStep config "rtoTimeout" value = .verdict "invalidValue" ↔
      ¬ (5 ≤ atoi value % 256 ∧ atoi value % 256 ≤ 60) := by
  show valueStep (decide (toUInt8 (atoi value) ≥ 5 ∧ toUInt8 (atoi value) ≤ 60))
    (decide (config.rtoTimeout = toUInt8 (atoi value)))
    (.setRtoTimeout (toUInt8 (atoi value))) = _ ↔ _
  have hiff : (toUInt8 (atoi value) ≥ 5 ∧ toUInt8 (atoi value) ≤ 60) ↔
      (5 ≤ atoi value % 256 ∧ atoi value % 256 ≤ 60) := by
    unfold toUInt8
    omega
  by_cases h : toUInt8 (atoi value) ≥ 5 ∧ toUInt8 (atoi value) ≤ 60
  · rw [decide_eq_true h]
    simp only [valueStep, if_true]
    constructor
    · intro h1
      split_ifs at h1
      exact absurd h1 (by decide)
    · intro h1
      exact absurd (hiff.mp h) h1
  · rw [decide_eq_false h]
    simp only [valueStep, Bool.false_eq_true, if_false, true_iff]
    exact fun h1 => h (hiff.mpr h1)

/-- C17 (code defect): the update request for the cached identifier 7 supplies the
code 100200, which contains the digit 0; the handler does not publish
"noValidCodeSet": it issues `updateKeypadEntry` with that code.  The test
`!code == 12` of line 1701 is never true, so the validity check of lines 1703-1710 is
never made. -/
theorem keypad_update_invalid_code_written :
    callsOf (onKeypadJsonCommandReceived keypadHoldsSeven (some updateInvalidCode))
        keypadReadySeven =
      [.retrieveKeypadEntries 10,
       .updateKeypadEntry { codeId := 7, name := "X", code := 100200, enabled := 1 },
       .retrieveKeypadEntries 10,
       .publishKeypadJsonCommandResult "success"] := by
  decide

/-- The code check never rejects an update: `checkNameCode` accepts every update
request, whatever code it supplies. -/
theorem checkNameCode_update (name codeStr : String) (v : KeypadVars) :
    checkNameCode "update" name codeStr v = .ok () := by
  unfold checkNameCode
  have h1 : ¬ (name.length < 1 ∧ "update" ≠ "update") := fun h => h.2 rfl
  have h2 : boolToNat (v.code == 0) ≠ 12 := by
    unfold boolToNat
    split_ifs <;> decide
  rw [if_neg h1, if_neg h2, if_neg (fun h => h rfl)]

/-- C18 (code defect): with timeLimited = 1 the well-formed allowedUntil
"2030-01-01 00:00:00" is rejected with "invalidAllowedUntil" and nothing is written,
while the same text sent as allowedFrom is accepted and written.  The length test of
line 1752, `allowedUntil.length() > 0 == 19`, compares a `bool` with 19. -/
theorem keypad_update_allowedUntil_rejected :
    callsOf (onKeypadJsonCommandReceived keypadHoldsSeven (some updateUntil))
        keypadReadySeven =
      [.publishKeypadJsonCommandResult "invalidAllowedUntil"] ∧
    callsOf (onKeypadJsonCommandReceived keypadHoldsSeven (some updateFrom))
        keypadReadySeven =
      [.retrieveKeypadEntries 10,
       .updateKeypadEntry
        { codeId := 7, name := "X", code := 234567, enabled := 1, timeLimited := 1,
          allowedFrom := { year := 2030, month := 1, day := 1 } },
       .retrieveKeypadEntries 10,
       .publishKeypadJsonCommandResult "success"] := by
  decide

/-! ## The config handler on every document -/

theorem configKey_textual (W : World) (step : State → String → String → KeyStep)
    (markUpdated : ConfigLocals → ConfigLocals) (aclWord : Nat) (key : String)
    (value : JsonMember) (v : ConfigLocals) (s : State) (h : value ≠ .other) :
    configKey W step markUpdated aclWord key value v s =
      .ok (textKey W step markUpdated aclWord key value.asText v s) := by
  cases value with
  | falsy => rfl
  | text str => rfl
  | other => exact absurd rfl h

/-- A loop over keys none of which holds a truthy member that is not a string
returns, with what the loop over the strings gives. -/
theorem configKeys_textual (W : World) (step : State → String → String → KeyStep)
    (markUpdated : ConfigLocals → ConfigLocals) (acl : Nat → Nat) (json : ConfigJson) :
    ∀ (keys : List String) (i : Nat) (v : ConfigLocals) (s : State),
      (∀ key ∈ keys, json key ≠ .other) →
      configKeys W step markUpdated acl json keys i v s =
        .ok (textKeys W step markUpdated acl json.texts keys i v s) := by
  intro keys
  induction keys with
  | nil => intro i v s _; rfl
  | cons key rest ih =>
    intro i v s h
    have h1 := configKey_textual W step markUpdated (acl i) key (json key) v s
      (h key (List.mem_cons_self _ _))
    simp only [configKeys, textKeys, h1]
    exact ih (i + 1) _ _ (fun k hk => h k (List.mem_cons_of_mem _ hk))

/-- A loop over keys one of which holds a truthy member that is not a string ends in
the fault, at such a key, after the passes of the keys before it. -/
theorem configKeys_fault (W : World) (step : State → String → String → KeyStep)
    (markUpdated : ConfigLocals → ConfigLocals) (acl : Nat → Nat) (json : ConfigJson)
    (hmark : ∀ v, (markUpdated v).anyUpdated = true ∧
      (markUpdated v).jsonResult = v.jsonResult ∧ (markUpdated v).cmdResult = v.cmdResult) :
    ∀ (keys : List String) (i : Nat) (v : ConfigLocals) (s : State),
      (∀ key ∈ keys, ∀ t jsonchar cmd, step t key jsonchar = .command cmd → cmd.key = key) →
      (∃ key ∈ keys, json key = .other) →
      ∃ fault w, configKeys W step markUpdated acl json keys i v s = .error fault ∧
        fault.key ∈ keys ∧ json fault.key = .other ∧
        RanOn (fun k => k ∈ keys) v s w fault.state := by
  intro keys
  induction keys with
  | nil =>
    intro i v s _ h
    obtain ⟨key, hk, _⟩ := h
    exact absurd hk (List.not_mem_nil _)
  | cons key rest ih =>
    intro i v s hkey h
    by_cases hk : json key = .other
    · refine ⟨{ key := key, state := s }, v, ?_, List.mem_cons_self _ _, hk, ranOn_refl _ v s⟩
      simp only [configKeys, hk, configKey]
    · have h1 := configKey_textual W step markUpdated (acl i) key (json key) v s hk
      have hrest : ∃ k ∈ rest, json k = .other := by
        obtain ⟨k, hmem, hother⟩ := h
        rcases List.mem_cons.mp hmem with heq | hmem
        · rw [heq] at hother
          exact absurd hother hk
        · exact ⟨k, hmem, hother⟩
      have hspec := textKey_spec W step markUpdated (acl i) key (json key).asText
        (hkey key (List.mem_cons_self _ _)) hmark v s
      obtain ⟨fault, w, e1, e2, e3, e4⟩ := ih (i + 1)
        (textKey W step markUpdated (acl i) key (json key).asText v s).1
        (textKey W step markUpdated (acl i) key (json key).asText v s).2
        (fun k hk => hkey k (List.mem_cons_of_mem _ hk)) hrest
      refine ⟨fault, w, ?_, List.mem_cons_of_mem _ e2, e3, ?_⟩
      · simp only [configKeys, h1]
        exact e1
      · exact ranOn_trans
          (ranOn_mono (K := fun k => k = key)
            (fun k hk => by rw [hk]; exact List.mem_cons_self _ _) hspec)
          (ranOn_mono (K := fun k => k ∈ rest) (fun k hk => List.mem_cons_of_mem _ hk) e4)

theorem textual_basic (json : ConfigJson) (h : json.textual) :
    ∀ key ∈ basicKeys, json key ≠ .other :=
  fun key hk => h key (List.mem_append_left _ hk)

theorem textual_advanced (json : ConfigJson) (h : json.textual) :
    ∀ key ∈ advancedKeys, json key ≠ .other :=
  fun key hk => h key (List.mem_append_right _ hk)

/-- The two loops on a document whose recognised members are falsy or strings. -/
theorem configRun_textual (W : World) (json : ConfigJson) (s : State) (h : json.textual) :
    configRun W json s = .ok (textRun W json.texts s) := by
  unfold configRun textRun
  rw [configKeys_textual W _ _ _ json basicKeys 0 {} s (textual_basic json h)]
  simp only []
  exact configKeys_textual W _ _ _ json advancedKeys 0 _ _ (textual_advanced json h)

/-- The two loops on a document with a recognised member that converts to `true` and
is not a string: the run ends in the fault at such a key; until then it has issued
write commands only. -/
theorem configRun_fault (W : World) (json : ConfigJson) (s : State) (h : ¬ json.textual) :
    ∃ fault w, configRun W json s = .error fault ∧ fault.key ∈ recognisedKeys ∧
      json fault.key = .other ∧
      RanOn (fun k => k ∈ basicKeys ∨ k ∈ advancedKeys) {} s w fault.state := by
  have hex : ∃ key ∈ recognisedKeys, json key = .other := by
    by_contra hno
    apply h
    intro key hk hother
    exact hno ⟨key, hk, hother⟩
  by_cases hb : ∃ key ∈ basicKeys, json key = .other
  · obtain ⟨fault, w, e1, e2, e3, e4⟩ := configKeys_fault W (fun t => basicKeyStep W t.nukiConfig)
      (fun v => { v with basicUpdated := true }) s.prefs.conf_opener_basic_acl json
      markBasic_spec basicKeys 0 {} s
      (fun key hk t jsonchar cmd h => basicKeyStep_key W t.nukiConfig key jsonchar hk cmd h) hb
    refine ⟨fault, w, ?_, List.mem_append_left _ e2, e3,
      ranOn_mono (K := fun k => k ∈ basicKeys) (fun k hk => Or.inl hk) e4⟩
    unfold configRun
    rw [e1]
  · have hbt : ∀ key ∈ basicKeys, json key ≠ .other := fun key hk hother =>
      hb ⟨key, hk, hother⟩
    have ha : ∃ key ∈ advancedKeys, json key = .other := by
      obtain ⟨key, hk, hother⟩ := hex
      rcases List.mem_append.mp hk with hk | hk
      · exact absurd hother (hbt key hk)
      · exact ⟨key, hk, hother⟩
    have h1 := textKeys_spec W (fun t => basicKeyStep W t.nukiConfig)
      (fun v => { v with basicUpdated := true }) s.prefs.conf_opener_basic_acl json.texts
      markBasic_spec basicKeys 0 {} s
      (fun key hk t jsonchar cmd h => basicKeyStep_key W t.nukiConfig key jsonchar hk cmd h)
    obtain ⟨fault, w, e1, e2, e3, e4⟩ := configKeys_fault W
      (fun t => advancedKeyStep t.nukiAdvancedConfig)
      (fun v => { v with advancedUpdated := true })
      (textKeys W (fun t => basicKeyStep W t.nukiConfig)
        (fun v => { v with basicUpdated := true }) s.prefs.conf_opener_basic_acl json.texts
        basicKeys 0 {} s).2.prefs.conf_opener_advanced_acl json
      markAdvanced_spec advancedKeys 0
      (textKeys W (fun t => basicKeyStep W t.nukiConfig)
        (fun v => { v with basicUpdated := true }) s.prefs.conf_opener_basic_acl json.texts
        basicKeys 0 {} s).1
      (textKeys W (fun t => basicKeyStep W t.nukiConfig)
        (fun v => { v with basicUpdated := true }) s.prefs.conf_opener_basic_acl json.texts
        basicKeys 0 {} s).2
      (fun key hk t jsonchar cmd h =>
        advancedKeyStep_key t.nukiAdvancedConfig key jsonchar hk cmd h) ha
    refine ⟨fault, w, ?_, List.mem_append_right _ e2, e3, ?_⟩
    · unfold configRun
      rw [configKeys_textual W _ _ _ json basicKeys 0 {} s hbt]
      exact e1
    · exact ranOn_trans
        (ranOn_mono (K := fun k => k ∈ basicKeys) (fun k hk => Or.inl hk) h1)
        (ranOn_mono (K := fun k => k ∈ advancedKeys) (fun k hk => Or.inr hk) e4)

/-- The handler returns, with the wrapper `textHandler` gives, when a gate fails, the
payload does not parse, or no recognised member converts to `true` without being a
string. -/
theorem onConfigUpdateReceived_textual (W : World) (json : Option ConfigJson) (s : State)
    (h : ∀ j, json = some j → configGates s → j.textual) :
    onConfigUpdateReceived W json s = .ok (textHandler W (json.map ConfigJson.texts) s) := by
  unfold onConfigUpdateReceived textHandler
  split_ifs with h1 h2
  · rfl
  · rfl
  · cases json with
    | none => rfl
    | some j =>
      have hg : configGates s := by
        unfold configGates
        cases hc : s.configRead <;> cases hv : s.nukiConfigValid <;> cases hp : isPinValid s <;>
          simp [hc, hv, hp] at h1 h2 ⊢
      simp only [Option.map_some']
      rw [configRun_textual W j s (h j rfl hg)]

/-- The handler ends in the fault, before it publishes anything, when the request is
past the gates and a recognised member converts to `true` without being a string. -/
theorem onConfigUpdateReceived_fault (W : World) (j : ConfigJson) (s : State)
    (hg : configGates s) (h : ¬ j.textual) :
    ∃ fault w, onConfigUpdateReceived W (some j) s = .error fault ∧
      fault.key ∈ recognisedKeys ∧ j fault.key = .other ∧
      RanOn (fun k => k ∈ basicKeys ∨ k ∈ advancedKeys) {} s w fault.state := by
  obtain ⟨fault, w, e1, e2, e3, e4⟩ := configRun_fault W j s h
  refine ⟨fault, w, ?_, e2, e3, e4⟩
  obtain ⟨g1, g2, g3⟩ := hg
  unfold onConfigUpdateReceived
  simp only [g1, g2, g3, Bool.not_true, Bool.false_eq_true, or_self, if_false]
  rw [e1]

theorem configCalls_textual (W : World) (json : Option ConfigJson) (s : State)
    (h : ∀ j, json = some j → configGates s → j.textual) :
    configCalls W json s = callsOf (textHandler W (json.map ConfigJson.texts)) s ∧
      configReturns W json s = true := by
  have h1 := onConfigUpdateReceived_textual W json s.fresh h
  have h2 := onConfigUpdateReceived_textual W json s h
  unfold configCalls configReturns callsOf
  rw [h1, h2]
  exact ⟨rfl, rfl⟩

/-- A call that ends in the fault: it does not return, what it has called are write
commands, and no result is published. -/
theorem configCalls_fault (W : World) (j : ConfigJson) (s : State) (hg : configGates s)
    (h : ¬ j.textual) :
    configReturns W (some j) s = false ∧
      (∀ e ∈ configCalls W (some j) s, ∃ cmd res, e = .configCommand cmd res) ∧
      publishedConfig (configCalls W (some j) s) = [] := by
  obtain ⟨fault, w, e1, -, -, -⟩ := onConfigUpdateReceived_fault W j s hg h
  obtain ⟨fault2, w2, f1, -, -, -, -, -, -, -, f6⟩ :=
    onConfigUpdateReceived_fault W j s.fresh hg h
  have hcalls : ∀ e ∈ configCalls W (some j) s, ∃ cmd res, e = .configCommand cmd res := by
    intro e he
    unfold configCalls at he
    rw [f1] at he
    rcases f6 e he with h0 | ⟨cmd, res, h1, -, -⟩
    · exact absurd h0 (List.not_mem_nil _)
    · exact ⟨cmd, res, h1⟩
  refine ⟨?_, hcalls, publishedConfig_commands _ hcalls⟩
  unfold configReturns
  rw [e1]

theorem texts_of_text (json : ConfigJson) (key value : String) (h : json key = .text value) :
    json.texts key = some value := by
  unfold ConfigJson.texts
  rw [h]
  rfl

theorem configCalls_some (W : World) (json : ConfigJson) (s : State) (h : json.textual) :
    configCalls W (some json) s = callsOf (textHandler W (some json.texts)) s :=
  (configCalls_textual W (some json) s (fun j hj _ => by cases hj; exact h)).1

/-- C11, as the code has it: `onConfigUpdateReceived` issues a write command only when
the config has been read, the basic config mirror is valid and the persisted PIN status
is 1; this holds of every payload, whether the call returns or ends in the fault. -/
theorem config_write_gates (W : World) (json : Option ConfigJson) (s : State) (e : Event)
    (he : e ∈ configCalls W json s) (hw : e.isConfigCommand = true) :
    s.configRead = true ∧ s.nukiConfigValid = true ∧ isPinValid s = true := by
  by_contra hg
  have hc := (configCalls_textual W json s (fun _ _ hgate => absurd hgate hg)).1
  rw [hc, textHandler_gated W _ s (Or.inl hg), List.mem_singleton] at he
  subst he
  cases hw

/-- C11 at a concrete input: the request name = Front is written by a wrapper with a
read config, a valid basic mirror and PIN status 1. -/
theorem config_write_gates_witness :
    Event.configCommand (.setName "Front") .Success ∈
        configCalls {} (some nameFront) configWritable ∧
      configWritable.configRead = true ∧ configWritable.nukiConfigValid = true ∧
      isPinValid configWritable = true :=
  ⟨by decide,
    config_write_gates {} (some nameFront) configWritable
      (.configCommand (.setName "Front") .Success) (by decide) rfl⟩

/-- C11 as stated fails: the wrapper holds an advanced mirror that is not valid and a
basic mirror whose `nukiId` (2) differs from the persisted opener identifier (1), and
the handler issues `setName`. -/
theorem config_write_without_advanced_mirror :
    ¬ (∀ e ∈ configCalls {} (some nameFront) configWritable,
        e.isConfigCommand = true →
          configWritable.nukiConfigValid = true ∧
          configWritable.nukiAdvancedConfigValid = true ∧
          isPinValid configWritable = true ∧
          configWritable.nukiConfig.nukiId = configWritable.prefs.nuki_id_opener) := by
  decide

/-- C13 (code defect): the request carries timeZoneOffset = 65536,
electricStrikeDuration = 66536, rtoTimeout = 261 and soundLevel = 256, each outside the
range of its key; no key gets "invalidValue": the handler writes 0, 1000, 5 and 0,
the values left after the conversion to `int16_t`, `uint16_t` and `uint8_t` (lines
1046, 1227, 1249, 1337), which is made before the range test, and returns. -/
theorem config_out_of_range_written :
    configCalls {} (some outOfRange) configRanged =
      [.configCommand (.setTimeZoneOffset 0) .Success,
       .configCommand (.setElectricStrikeDuration 1000) .Success,
       .configCommand (.setRtoTimeout 5) .Success,
       .configCommand (.setSoundLevel 0) .Success,
       .publishConfigCommandResult
        [("timeZoneOffset", "success"), ("electricStrikeDuration", "success"),
         ("rtoTimeout", "success"), ("soundLevel", "success"), ("general", "success")]] ∧
    configReturns {} (some outOfRange) configRanged = true := by
  decide

/-- C15 (code defect): a call of `onConfigUpdateReceived` that fails a gate, whose
payload does not parse, or whose recognised members are falsy or strings publishes one
result object, whose member "general" is "configNotReady" when the config has not been
read or the basic mirror is not valid, else "noValidPinSet" when the PIN status is not
1, else "invalidJson" when the payload does not parse, else "success" when one of the
write commands returned `Success` and "noChange" when none did; in the first three
cases the object has no other member and nothing else is called.  A call past the
gates whose payload holds, under a recognised key, a member that converts to `true`
and is not a string (a number, say) hands the null pointer to `strlen` (lines 967 and
1157): it does not return and publishes no result. -/
theorem config_general_verdict (W : World) (json : Option ConfigJson) (s : State) :
    ((∀ j, json = some j → configGates s → j.textual) →
      ∃ r, publishedConfig (configCalls W json s) = [r] ∧
        getMember "general" r = some
          (if s.configRead = false ∨ s.nukiConfigValid = false then "configNotReady"
           else if isPinValid s = false then "noValidPinSet"
           else if json.isNone = true then "invalidJson"
           else if (configCalls W json s).any Event.isSuccessfulWrite = true then "success"
           else "noChange") ∧
        ((s.configRead = false ∨ s.nukiConfigValid = false ∨ isPinValid s = false ∨
            json.isNone = true) →
          r.length = 1 ∧ configCalls W json s = [.publishConfigCommandResult r])) ∧
    (∀ j, json = some j → configGates s → ¬ j.textual →
      configReturns W json s = false ∧ publishedConfig (configCalls W json s) = []) := by
  constructor
  · intro h
    obtain ⟨hc, -⟩ := configCalls_textual W json s h
    obtain ⟨r, h1, h2, h3⟩ := texts_general_verdict W (json.map ConfigJson.texts) s
    have hnone : (json.map ConfigJson.texts).isNone = json.isNone := by
      cases json <;> rfl
    rw [hnone] at h2 h3
    rw [hc]
    exact ⟨r, h1, h2, h3⟩
  · intro j hj hg hnot
    subst hj
    obtain ⟨f1, -, f3⟩ := configCalls_fault W j s hg hnot
    exact ⟨f1, f3⟩

/-- C15 at concrete inputs: the request name = Front with the ACL word of `name` at 0
publishes one object with general = noChange; the request that adds the number
rtoTimeout = 20 does not return and publishes nothing. -/
theorem config_general_verdict_witness :
    (∃ r, publishedConfig (configCalls {} (some nameFront) configReady) = [r] ∧
      getMember "general" r = some "noChange") ∧
    configReturns {} (some rtoTimeoutNumber) configReady = false ∧
    publishedConfig (configCalls {} (some rtoTimeoutNumber) configReady) = [] :=
  have h := config_general_verdict {} (some nameFront) configReady
  have g := config_general_verdict {} (some rtoTimeoutNumber) configReady
  ⟨(h.1 (fun j hj _ => by cases hj; decide)).imp fun r hr => ⟨hr.1, hr.2.1.trans (by decide)⟩,
    g.2 rtoTimeoutNumber rfl (by decide) (by decide)⟩

/-- C12 (code defect): past the readiness and PIN gates, for a payload that parses and
whose recognised members are falsy or strings, every basic key (index 0 to 13) and
every advanced key (index 0 to 19) that carries a non-empty string while its ACL word
is not 1 gets the member "accessDenied" in the one published result and no write
command is issued for it; and when no write command returns `Success` the member
"general" of the published result is "noChange".  When a recognised key carries a
member that converts to `true` and is not a string, whatever its ACL word, the call
hands the null pointer to `strlen` (lines 967 and 1157, before the ACL test): it does
not return and no result is published, for that key or for any other. -/
theorem config_access_denied (W : World) (json : ConfigJson) (s : State)
    (hg : configGates s) :
    (json.textual →
      (∀ n key value, basicKeys[n]? = some key → json key = .text value → value ≠ "" →
        s.prefs.conf_opener_basic_acl n ≠ 1 →
        (∃ r, publishedConfig (configCalls W (some json) s) = [r] ∧
            getMember key r = some "accessDenied") ∧
          ∀ e ∈ configCalls W (some json) s, e.isCommandFor key = false) ∧
      (∀ n key value, advancedKeys[n]? = some key → json key = .text value → value ≠ "" →
        s.prefs.conf_opener_advanced_acl n ≠ 1 →
        (∃ r, publishedConfig (configCalls W (some json) s) = [r] ∧
            getMember key r = some "accessDenied") ∧
          ∀ e ∈ configCalls W (some json) s, e.isCommandFor key = false) ∧
      ((configCalls W (some json) s).any Event.isSuccessfulWrite = false →
        ∃ r, publishedConfig (configCalls W (some json) s) = [r] ∧
          getMember "general" r = some "noChange")) ∧
    (¬ json.textual →
      configReturns W (some json) s = false ∧
        publishedConfig (configCalls W (some json) s) = []) := by
  constructor
  · intro ht
    obtain ⟨h1, h2, h3⟩ := texts_access_denied W json.texts s hg
    rw [configCalls_some W json s ht]
    exact ⟨fun n key value hn hv => h1 n key value hn (texts_of_text json key value hv),
      fun n key value hn hv => h2 n key value hn (texts_of_text json key value hv), h3⟩
  · intro hnot
    obtain ⟨f1, -, f3⟩ := configCalls_fault W json s hg hnot
    exact ⟨f1, f3⟩

/-- C12 at concrete inputs: the request name = Front with the ACL word of `name` at 0
publishes the object with the members name = accessDenied and general = noChange; the
request that adds the number rtoTimeout = 20, with the ACL word of `rtoTimeout` at 0
as well, publishes nothing. -/
theorem config_access_denied_witness :
    configCalls {} (some nameFront) configReady =
        [.publishConfigCommandResult [("name", "accessDenied"), ("general", "noChange")]] ∧
      ((∃ r, publishedConfig (configCalls {} (some nameFront) configReady) = [r] ∧
          getMember "name" r = some "accessDenied") ∧
        ∀ e ∈ configCalls {} (some nameFront) configReady,
          e.isCommandFor "name" = false) ∧
      configReady.prefs.conf_opener_advanced_acl 7 = 0 ∧
      publishedConfig (configCalls {} (some rtoTimeoutNumber) configReady) = [] :=
  ⟨by decide,
    ((config_access_denied {} nameFront configReady (by decide)).1 (by decide)).1 0 "name"
      "Front" rfl rfl (by decide) (by decide),
    rfl,
    ((config_access_denied {} rtoTimeoutNumber configReady (by decide)).2 (by decide)).2⟩

/-- C14 (code defect): past the gates and with `nrOfRetries >= 0`, for a payload whose
recognised members are falsy or strings, every basic key and every advanced key that
carries a non-empty string, whose ACL word is 1 and whose requested value is valid and
equal to the value the config mirror holds, gets the member "unchanged" in the one
published result, and no write command is issued for it.  When a recognised key
carries a member that converts to `true` and is not a string (the number 20 for an
`rtoTimeout` of 20, say), the call hands the null pointer to `strlen` (lines 967 and
1157): it does not return and no result is published. -/
theorem config_unchanged (W : World) (json : ConfigJson) (s : State) (hg : configGates s)
    (hretries : 0 ≤ s.nrOfRetries) :
    (json.textual →
      (∀ n key value, basicKeys[n]? = some key → json key = .text value → value ≠ "" →
        s.prefs.conf_opener_basic_acl n = 1 →
        valueHeld W s.nukiConfig s.nukiAdvancedConfig key value = true →
        (∃ r, publishedConfig (configCalls W (some json) s) = [r] ∧
            getMember key r = some "unchanged") ∧
          ∀ e ∈ configCalls W (some json) s, e.isCommandFor key = false) ∧
      (∀ n key value, advancedKeys[n]? = some key → json key = .text value → value ≠ "" →
        s.prefs.conf_opener_advanced_acl n = 1 →
        valueHeld W s.nukiConfig s.nukiAdvancedConfig key value = true →
        (∃ r, publishedConfig (configCalls W (some json) s) = [r] ∧
            getMember key r = some "unchanged") ∧
          ∀ e ∈ configCalls W (some json) s, e.isCommandFor key = false)) ∧
    (¬ json.textual →
      configReturns W (some json) s = false ∧
        publishedConfig (configCalls W (some json) s) = []) := by
  constructor
  · intro ht
    obtain ⟨h1, h2⟩ := texts_unchanged W json.texts s hg hretries
    rw [configCalls_some W json s ht]
    exact ⟨fun n key value hn hv => h1 n key value hn (texts_of_text json key value hv),
      fun n key value hn hv => h2 n key value hn (texts_of_text json key value hv)⟩
  · intro hnot
    obtain ⟨f1, -, f3⟩ := configCalls_fault W json s hg hnot
    exact ⟨f1, f3⟩

/-- C14 at concrete inputs: the mirror holds the name Hall and the RTO timeout 20; the
request that asks for both again as strings gets "unchanged" for both without a write
command; the request that sends the timeout as the number 20 gets no result, after
the write of the name has been issued. -/
theorem config_unchanged_witness :
    configCalls {} (some sameValues) configOpen =
        [.publishConfigCommandResult
          [("name", "unchanged"), ("rtoTimeout", "unchanged"), ("general", "noChange")]] ∧
      ((∃ r, publishedConfig (configCalls {} (some sameValues) configOpen) = [r] ∧
          getMember "rtoTimeout" r = some "unchanged") ∧
        ∀ e ∈ configCalls {} (some sameValues) configOpen,
          e.isCommandFor "rtoTimeout" = false) ∧
      configCalls {} (some rtoTimeoutNumber) configOpen =
        [.configCommand (.setName "Front") .Success] ∧
      configReturns {} (some rtoTimeoutNumber) configOpen = false :=
  ⟨by decide,
    ((config_unchanged {} sameValues configOpen (by decide) (by decide)).1 (by decide)).2 7
      "rtoTimeout" "20" rfl rfl (by decide) rfl (by decide),
    by decide,
    ((config_unchanged {} rtoTimeoutNumber configOpen (by decide) (by decide)).2
      (by decide)).1⟩

/-- C16 (code defect): each of the eight string-to-code mappers returns its sentinel
(0xff or 99) exactly for the strings outside its vocabulary and maps different words
of the vocabulary to different codes; and past the gates, with `nrOfRetries >= 0`, for
a payload whose recognised members are falsy or strings, an enumerated key whose ACL
word is 1 and whose non-empty string is outside the vocabulary of the key gets the
member "invalidValue" in the one published result, and no write command is issued for
it.  When a recognised key carries a member that converts to `true` and is not a
string (a number for an enumerated key, say), the call hands the null pointer to
`strlen` (lines 967 and 1157): it does not return and no result is published. -/
theorem config_enumerations :
    MapperSpec advertisingModeToEnum .invalid (words advertisingModeTable) ∧
    MapperSpec timeZoneToEnum .invalid (words timeZoneTable) ∧
    MapperSpec fobActionToInt 99 (words fobActionTable) ∧
    MapperSpec operatingModeToInt 99 (words operatingModeTable) ∧
    MapperSpec doorbellSuppressionToInt 99 (words doorbellSuppressionTable) ∧
    MapperSpec soundToInt 99 (words soundTable) ∧
    MapperSpec buttonPressActionToEnum .invalid (words buttonPressActionTable) ∧
    MapperSpec batteryTypeToEnum .invalid (words batteryTypeTable) ∧
    (∀ (W : World) (json : ConfigJson) (s : State), configGates s → 0 ≤ s.nrOfRetries →
      json.textual →
      ∀ n key value voc, vocabulary key = some voc → json key = .text value → value ≠ "" →
        value ∉ voc →
        (basicKeys[n]? = some key ∧ s.prefs.conf_opener_basic_acl n = 1 ∨
          advancedKeys[n]? = some key ∧ s.prefs.conf_opener_advanced_acl n = 1) →
        (∃ r, publishedConfig (configCalls W (some json) s) = [r] ∧
            getMember key r = some "invalidValue") ∧
          ∀ e ∈ configCalls W (some json) s, e.isCommandFor key = false) ∧
    (∀ (W : World) (json : ConfigJson) (s : State), configGates s → ¬ json.textual →
      configReturns W (some json) s = false ∧
        publishedConfig (configCalls W (some json) s) = []) := by
  obtain ⟨m1, m2, m3, m4, m5, m6, m7, m8, h⟩ := texts_enumerations
  refine ⟨m1, m2, m3, m4, m5, m6, m7, m8, ?_, ?_⟩
  · intro W json s hg hretries ht n key value voc hvoc hv hne hnot hkey
    rw [configCalls_some W json s ht]
    exact h W json.texts s hg hretries n key value voc hvoc (texts_of_text json key value hv)
      hne hnot hkey
  · intro W json s hg hnot
    obtain ⟨f1, -, f3⟩ := configCalls_fault W json s hg hnot
    exact ⟨f1, f3⟩

/-- C16 at concrete inputs: the request fobAction1 = Dance, a word outside the
vocabulary of the fob actions, gets "invalidValue" and no write command; the request
with the number rtoTimeout = 20 gets no result. -/
theorem config_enumerations_witness :
    configCalls {} (some fobDance) configOpen =
        [.publishConfigCommandResult [("fobAction1", "invalidValue"), ("general", "noChange")]] ∧
      ((∃ r, publishedConfig (configCalls {} (some fobDance) configOpen) = [r] ∧
          getMember "fobAction1" r = some "invalidValue") ∧
        ∀ e ∈ configCalls {} (some fobDance) configOpen,
          e.isCommandFor "fobAction1" = false) ∧
      publishedConfig (configCalls {} (some rtoTimeoutNumber) configOpen) = [] :=
  ⟨by decide,
    config_enumerations.2.2.2.2.2.2.2.2.1 {} fobDance configOpen (by decide) (by decide)
      (by decide) 8 "fobAction1" "Dance" (words fobActionTable) rfl rfl (by decide)
      (by decide) (Or.inl ⟨rfl, rfl⟩),
    (config_enumerations.2.2.2.2.2.2.2.2.2 {} rtoTimeoutNumber configOpen (by decide)
      (by decide)).2⟩

/-! ## The merge of a keypad update -/

set_option maxHeartbeats 1000000 in
/-- The loop body of lines 1896-1940 on the entry with the requested identifier. -/
theorem mergeExisting_eq (codeId : Nat) (name wk : String) (v : KeypadVars)
    (w : KeypadWindows) (f : Bool) (entry : KeypadEntry) (h : codeId = entry.codeId) :
    mergeExisting codeId name wk (v, w, f) entry =
      (mergedVars name v entry, mergedWindows wk v w entry, true) := by
  have h0 : ¬ codeId ≠ entry.codeId := not_not.mpr h
  obtain ⟨c, en, tl, af, au, aft, aut, oldn⟩ := v
  obtain ⟨wa, wb, wc, wd, we⟩ := w
  unfold mergeExisting mergedVars mergedWindows
  split
  rename_i acc v0 w0 f0 heq
  cases heq
  rw [if_neg h0]
  by_cases h1 : name.length < 1 <;> simp only [h1, if_true, if_false] <;>
  by_cases h2 : c = 12 <;> simp only [h2, if_true, if_false] <;>
  by_cases h3 : en = 2 <;> simp only [h3, if_true, if_false] <;>
  by_cases h4 : tl = 2 <;> simp only [h4, if_true, if_false] <;>
  by_cases h5 : af.length < 1 <;> simp only [h5, if_true, if_false] <;>
  by_cases h6 : au.length < 1 <;> simp only [h6, if_true, if_false] <;>
  by_cases h7 : wk.length < 1 <;> simp only [h7, if_true, if_false] <;>
  by_cases h8 : aft.length < 1 <;> simp only [h8, if_true, if_false] <;>
  by_cases h9 : aut.length < 1 <;> simp only [h9, if_true, if_false]

/-- The loop body on an entry with another identifier (`continue`, line 1896). -/
theorem mergeExisting_skip (codeId : Nat) (name wk : String)
    (acc : KeypadVars × KeypadWindows × Bool) (entry : KeypadEntry)
    (h : codeId ≠ entry.codeId) : mergeExisting codeId name wk acc entry = acc := by
  obtain ⟨v, w, f⟩ := acc
  unfold mergeExisting
  split
  rename_i acc v0 w0 f0 heq
  cases heq
  rw [if_pos h]

theorem foldl_mergeExisting_skip (codeId : Nat) (name wk : String) :
    ∀ (entries : List KeypadEntry) (acc : KeypadVars × KeypadWindows × Bool),
      entries.filter (fun e => decide (e.codeId = codeId)) = [] →
      entries.foldl (mergeExisting codeId name wk) acc = acc
  | [], _, _ => rfl
  | e :: rest, acc, h => by
    by_cases he : e.codeId = codeId
    · rw [List.filter_cons_of_pos (by simpa using he)] at h
      cases h
    · rw [List.filter_cons_of_neg (by simpa using he)] at h
      rw [List.foldl_cons, mergeExisting_skip codeId name wk acc e (fun h1 => he h1.symm)]
      exact foldl_mergeExisting_skip codeId name wk rest acc h

/-- The `for` loop of lines 1896-1940 over a list that holds the requested identifier
once. -/
theorem foldl_mergeExisting (codeId : Nat) (name wk : String) (v : KeypadVars)
    (w : KeypadWindows) (entry : KeypadEntry) :
    ∀ (entries : List KeypadEntry),
      entries.filter (fun e => decide (e.codeId = codeId)) = [entry] →
      entries.foldl (mergeExisting codeId name wk) (v, w, false) =
        (mergedVars name v entry, mergedWindows wk v w entry, true)
  | [], h => by cases h
  | e :: rest, h => by
    by_cases he : e.codeId = codeId
    · rw [List.filter_cons_of_pos (by simpa using he)] at h
      have h1 : e = entry := by injection h
      have h2 : rest.filter (fun e => decide (e.codeId = codeId)) = [] := by injection h
      subst h1
      rw [List.foldl_cons, mergeExisting_eq codeId name wk v w false e he.symm]
      exact foldl_mergeExisting_skip codeId name wk rest _ h2
    · rw [List.filter_cons_of_neg (by simpa using he)] at h
      rw [List.foldl_cons, mergeExisting_skip codeId name wk _ e (fun h1 => he h1.symm)]
      exact foldl_mergeExisting codeId name wk v w entry rest h

/-- The update branch when the re-fetch succeeds and the list holds the requested
identifier once: the fetch and one write. -/
theorem keypadJsonUpdate_found (W : World) (codeId : Nat) (name wk : String)
    (v : KeypadVars) (w : KeypadWindows) (s : State) (entry : KeypadEntry)
    (hid : codeId ≠ 0) (hfetch : W.cmdResult s.io = .Success)
    (hentry : (W.keypadEntries (s.io + 1)).filter (fun e => decide (e.codeId = codeId)) =
      [entry]) :
    (keypadJsonUpdate W codeId true name wk v w s).2.trace =
      s.trace ++ [.retrieveKeypadEntries (s.prefs.keypad_max_entries.getD W.MAX_KEYPAD),
        .updateKeypadEntry (updatedKeypadEntry codeId name (mergedVars name v entry)
          (mergedWindows wk v w entry))] := by
  have hf := foldl_mergeExisting codeId name wk v w entry _ hentry
  unfold keypadJsonUpdate
  rw [if_neg hid]
  simp only [Bool.not_true, Bool.false_eq_true, if_false, hfetch, if_true]
  have hio : (emit (.retrieveKeypadEntries (s.prefs.keypad_max_entries.getD W.MAX_KEYPAD))
      s.step).io = s.io + 1 := rfl
  rw [hio, hf]
  simp only [Bool.not_true, Bool.false_eq_true, if_false]
  simp only [emit, State.step, List.append_assoc, List.singleton_append]

/-- C19, as the code has it: when the re-fetch of an update succeeds and the list
holds the requested identifier once, the handler fetches, writes one entry and calls
nothing else in the update branch.  In the written entry the name, code, enabled flag
and time-limited flag the request did not send are those of the fetched entry.  A
window field the request did not send (allowedFrom, allowedUntil, allowedWeekdays,
allowedFromTime, allowedUntilTime) is that of the fetched entry, in the width of the
written field, when the written entry is enabled and time-limited, and zero
otherwise (lines 1974-2012). -/
theorem keypad_update_unsent_fields (W : World) (codeId : Nat)
    (name allowedWeekdays : String) (v : KeypadVars) (w : KeypadWindows) (s : State)
    (entry : KeypadEntry) (hid : codeId ≠ 0) (hfetch : W.cmdResult s.io = .Success)
    (hentry : (W.keypadEntries (s.io + 1)).filter (fun e => decide (e.codeId = codeId)) =
      [entry]) :
    ∃ u : UpdatedKeypadEntry,
      (keypadJsonUpdate W codeId true name allowedWeekdays v w s).2.trace =
        s.trace ++ [.retrieveKeypadEntries (s.prefs.keypad_max_entries.getD W.MAX_KEYPAD),
          .updateKeypadEntry u] ∧
      u.codeId = codeId ∧
      (name.length = 0 → u.name = nameBuffer entry.name) ∧
      (v.code = 12 → u.code = entry.code) ∧
      (v.enabled = 2 → u.enabled = entry.enabled) ∧
      (v.timeLimited = 2 → u.timeLimited = entry.timeLimited) ∧
      (v.allowedFrom.length = 0 → u.allowedFrom =
        if u.enabled = 1 ∧ u.timeLimited = 1 then storeDateTime entry.allowedFrom else {}) ∧
      (v.allowedUntil.length = 0 → u.allowedUntil =
        if u.enabled = 1 ∧ u.timeLimited = 1 then storeDateTime entry.allowedUntil else {}) ∧
      (allowedWeekdays.length = 0 → u.allowedWeekdays =
        if u.enabled = 1 ∧ u.timeLimited = 1 then entry.allowedWeekdays else 0) ∧
      (v.allowedFromTime.length = 0 → u.allowedFromTime =
        if u.enabled = 1 ∧ u.timeLimited = 1 then storeTimeOfDay entry.allowedFromTime
        else {}) ∧
      (v.allowedUntilTime.length = 0 → u.allowedUntilTime =
        if u.enabled = 1 ∧ u.timeLimited = 1 then storeTimeOfDay entry.allowedUntilTime
        else {}) := by
  have hold : ("old" : String).length > 0 := by decide
  refine ⟨_, keypadJsonUpdate_found W codeId name allowedWeekdays v w s entry hid hfetch hentry,
    rfl, ?_, ?_, ?_, ?_, ?_, ?_, ?_, ?_, ?_⟩
  · intro h
    have h1 : name.length < 1 := by omega
    simp only [updatedKeypadEntry, mergedVars, h, h1, if_true, beq_self_eq_true, boolToNat]
    rfl
  · intro h
    simp only [updatedKeypadEntry, mergedVars, h, if_true]
  · intro h
    simp only [updatedKeypadEntry, mergedVars, h, if_true]
  · intro h
    simp only [updatedKeypadEntry, mergedVars, h, if_true]
  · intro h
    have h1 : v.allowedFrom.length < 1 := by omega
    simp only [updatedKeypadEntry, mergedVars, mergedWindows, h1, if_true]
    simp only [hold, and_true]
  · intro h
    have h1 : v.allowedUntil.length < 1 := by omega
    simp only [updatedKeypadEntry, mergedVars, mergedWindows, h1, if_true]
    simp only [hold, and_true]
  · intro h
    have h1 : allowedWeekdays.length < 1 := by omega
    simp only [updatedKeypadEntry, mergedVars, mergedWindows, h1, if_true]
  · intro h
    have h1 : v.allowedFromTime.length < 1 := by omega
    simp only [updatedKeypadEntry, mergedVars, mergedWindows, h1, if_true]
    simp only [hold, and_true]
  · intro h
    have h1 : v.allowedUntilTime.length < 1 := by omega
    simp only [updatedKeypadEntry, mergedVars, mergedWindows, h1, if_true]
    simp only [hold, and_true]

/-- A delete whose identifier fails the existence test of line 1668: the first round
of the loop publishes "noExistingCodeIdSet" and returns. -/
theorem onKeypadJsonCommandReceived_delete_absent (W : World) (j : KeypadJson) (s : State)
    (hg : jsonKeypadGates s) (hr : 0 ≤ s.nrOfRetries) (ha : j.action = some "delete")
    (hid : ¬ (j.codeId % 65536 ≠ 0 ∧ j.codeId % 65536 ∈ s.keypadCodeIds)) :
    onKeypadJsonCommandReceived W (some j) s =
      emit (.publishKeypadJsonCommandResult "noExistingCodeIdSet")
        (s.set fun m => { m with retryCount := 0 }) := by
  obtain ⟨hpin, hctl, hkp, hen⟩ := hg
  obtain ⟨k, hk⟩ : ∃ k, loopFuel s = k + 1 := by
    unfold loopFuel
    exact ⟨(s.nrOfRetries + 1).toNat - 1, by omega⟩
  have hlt : (s.set fun m => { m with retryCount := 0 }).retryCount <
      (s.set fun m => { m with retryCount := 0 }).nrOfRetries + 1 := by
    show (0 : Int) < s.nrOfRetries + 1
    omega
  unfold onKeypadJsonCommandReceived
  simp only [hpin, hctl, hkp, hen, Bool.not_true, Bool.false_eq_true, if_false, ha, hk,
    handlerLoop, hlt, if_true, keypadJsonRound, decide_eq_false hid]

theorem mem_truncateTo {α : Type} (max : Int) (l : List α) (x : α)
    (h : x ∈ truncateTo max l) : x ∈ l := by
  unfold truncateTo at h
  split_ifs at h
  · exact List.mem_of_mem_take h
  · exact h

theorem mem_sortBy {α : Type} (key : α → Nat) (l : List α) (x : α) (h : x ∈ sortBy key l) :
    x ∈ l :=
  (List.perm_insertionSort (fun a b => key a ≤ key b) l).mem_iff.mp h

theorem sameGates_refl (a : State) : SameGates a a := ⟨rfl, rfl, rfl, rfl, rfl⟩

theorem sameGates_step {a b : State} (h : SameGates a b) : SameGates a b.step := h

theorem sameGates_emitted {a b : State} (e : Event) (h : SameGates a b) :
    SameGates a (emit e b) := h

theorem sameGates_postpone {a b : State} (W : World) (h : SameGates a b) :
    SameGates a (postponeBleWatchdog W b) := h

theorem sameGates_ite {a x y : State} {c : Prop} [Decidable c] (hx : SameGates a x)
    (hy : SameGates a y) : SameGates a (if c then x else y) := by
  split_ifs
  · exact hx
  · exact hy

theorem sameGates_set {a b : State} (f : Vars → Vars)
    (hf : ∀ m, (f m).hasKeypad = m.hasKeypad ∧ (f m).keypadEnabled = m.keypadEnabled ∧
      (f m).nrOfRetries = m.nrOfRetries)
    (h : SameGates a b) : SameGates a (b.set f) :=
  ⟨h.1, h.2.1, (hf _).1.trans h.2.2.1, (hf _).2.1.trans h.2.2.2.1,
    (hf _).2.2.trans h.2.2.2.2⟩

theorem sameGates_setPrefs {a b : State} (f : Preferences → Preferences)
    (hf : ∀ p, (f p).opener_pin_status = p.opener_pin_status ∧
      (f p).keypad_control_enabled = p.keypad_control_enabled)
    (h : SameGates a b) : SameGates a (b.setPrefs f) :=
  ⟨(hf _).1.trans h.1, (hf _).2.trans h.2.1, h.2.2.1, h.2.2.2.1, h.2.2.2.2⟩

/-- The second phase of the keypad refresh leaves the gates of the keypad handlers and
the retry limit alone. -/
theorem updateKeypad_sameGates (W : World) {a s : State} (h : SameGates a s) :
    SameGates a (updateKeypad W true s) := by
  unfold updateKeypad
  simp only [Bool.not_true, Bool.false_eq_true, if_false]
  repeat' (first
    | with_reducible exact h
    | with_reducible apply sameGates_ite
    | with_reducible apply sameGates_postpone
    | with_reducible apply sameGates_set
    | with_reducible apply sameGates_setPrefs
    | with_reducible apply sameGates_step
    | with_reducible apply sameGates_emitted
    | (intro _; exact ⟨rfl, rfl, rfl⟩)
    | (intro _; exact ⟨rfl, rfl⟩))

theorem jsonKeypadGates_of_sameGates {a b : State} (h : SameGates a b)
    (hg : jsonKeypadGates a) : jsonKeypadGates b := by
  obtain ⟨hpin, hctl, hkp, hen⟩ := hg
  refine ⟨?_, h.2.1.trans hctl, h.2.2.1.trans hkp, h.2.2.2.1.trans hen⟩
  unfold isPinValid at hpin ⊢
  rw [h.1]
  exact hpin

/-- Every identifier cached by `updateKeypad(true)` is the identifier of a fetched
entry. -/
theorem updateKeypad_cached (W : World) (s : State)
    (hinfo : s.prefs.keypad_info_enabled = true) :
    ∀ id ∈ (updateKeypad W true s).keypadCodeIds, ∃ e ∈ W.keypadEntries s.io, e.codeId = id := by
  have hids : (updateKeypad W true s).keypadCodeIds =
      (truncateTo (s.prefs.keypad_max_entries.getD W.MAX_KEYPAD)
        (sortBy KeypadEntry.codeId (W.keypadEntries s.io))).map KeypadEntry.codeId := by
    unfold updateKeypad
    simp only [hinfo, Bool.not_true, Bool.false_eq_true, if_false]
    rfl
  intro id h
  rw [hids] at h
  obtain ⟨e, he, rfl⟩ := List.mem_map.mp h
  exact ⟨e, mem_sortBy _ _ _ (mem_truncateTo _ _ _ he), rfl⟩

/-- C20, as the code has it: with all gates passed and a retry limit that is not
negative, a delete whose codeId is 0 or not in the cached id-set publishes
"noExistingCodeIdSet" and calls nothing else; and once `updateKeypad(true)`, the
second phase of the keypad refresh, has rebuilt the cached id-set from a fetched list
that does not hold the codeId, a delete of that codeId publishes
"noExistingCodeIdSet" and calls nothing else, whatever the transport would answer. -/
theorem keypad_delete_absent (W W1 : World) (j : KeypadJson) (s : State)
    (hg : jsonKeypadGates s) (hr : 0 ≤ s.nrOfRetries) (ha : j.action = some "delete") :
    (¬ (j.codeId % 65536 ≠ 0 ∧ j.codeId % 65536 ∈ s.keypadCodeIds) →
      callsOf (onKeypadJsonCommandReceived W (some j)) s =
        [.publishKeypadJsonCommandResult "noExistingCodeIdSet"]) ∧
    (s.prefs.keypad_info_enabled = true →
      (∀ e ∈ W.keypadEntries s.io, e.codeId ≠ j.codeId % 65536) →
      callsOf (onKeypadJsonCommandReceived W1 (some j)) (updateKeypad W true s) =
        [.publishKeypadJsonCommandResult "noExistingCodeIdSet"]) := by
  constructor
  · intro hid
    unfold callsOf
    rw [onKeypadJsonCommandReceived_delete_absent W j s.fresh hg hr ha hid]
    rfl
  · intro hinfo hnone
    have hsame := updateKeypad_sameGates W (sameGates_refl s)
    have hcache := updateKeypad_cached W s hinfo
    have hid : ¬ (j.codeId % 65536 ≠ 0 ∧
        j.codeId % 65536 ∈ (updateKeypad W true s).fresh.keypadCodeIds) := by
      rintro ⟨_, hmem⟩
      obtain ⟨e, he, hce⟩ := hcache _ hmem
      exact hnone e he hce
    unfold callsOf
    rw [onKeypadJsonCommandReceived_delete_absent W1 j (updateKeypad W true s).fresh
      (jsonKeypadGates_of_sameGates hsame hg) (hsame.2.2.2.2.symm ▸ hr) ha hid]
    rfl

/-- C20 at a concrete input: with an empty cache and, after the refresh, an empty
fetched list, the delete of codeId 7 publishes "noExistingCodeIdSet" and calls nothing
else. -/
theorem keypad_delete_absent_witness :
    jsonKeypadGates keypadReady ∧ 0 ≤ keypadReady.nrOfRetries ∧
      deleteSeven.action = some "delete" ∧
      callsOf (onKeypadJsonCommandReceived keypadEmpty (some deleteSeven)) keypadReady =
        [.publishKeypadJsonCommandResult "noExistingCodeIdSet"] ∧
      callsOf (onKeypadJsonCommandReceived keypadEmpty (some deleteSeven))
          (updateKeypad keypadEmpty true keypadReady) =
        [.publishKeypadJsonCommandResult "noExistingCodeIdSet"] :=
  have h := keypad_delete_absent keypadEmpty keypadEmpty deleteSeven keypadReady
    ⟨rfl, rfl, rfl, rfl⟩ (by decide) rfl
  ⟨⟨rfl, rfl, rfl, rfl⟩, by decide, rfl, h.1 (by decide), h.2 rfl (by decide)⟩

/-- C20 as stated fails: the handler does not rebuild the cached id-set, it only
starts the refresh (`updateKeypad(false)`, line 2032).  After the delete of the cached
codeId 7 has succeeded, the delete of codeId 7 in the next handler call is issued to
the transport again and "success" is published, although the keypad list is empty. -/
theorem keypad_delete_repeated_before_refresh :
    callsOf (onKeypadJsonCommandReceived keypadEmpty (some deleteSeven)) keypadReadySeven =
      [.deleteKeypadEntry 7, .retrieveKeypadEntries 10,
        .publishKeypadJsonCommandResult "success"] ∧
    callsOf (onKeypadJsonCommandReceived keypadEmpty (some deleteSeven))
        (onKeypadJsonCommandReceived keypadEmpty (some deleteSeven) keypadReadySeven) =
      [.deleteKeypadEntry 7, .retrieveKeypadEntries 10,
        .publishKeypadJsonCommandResult "success"] := by
  decide

/-- The second delete after the refresh has run: the delete of the cached codeId 7
succeeds, `updateKeypad(true)` rebuilds the cache from the empty list, and the next
delete of codeId 7 publishes "noExistingCodeIdSet" and calls nothing else. -/
theorem keypad_delete_repeated_after_refresh :
    callsOf (onKeypadJsonCommandReceived keypadEmpty (some deleteSeven))
        (updateKeypad keypadEmpty true
          (onKeypadJsonCommandReceived keypadEmpty (some deleteSeven) keypadReadySeven)) =
      [.publishKeypadJsonCommandResult "noExistingCodeIdSet"] := by
  decide

/-- C19 at a concrete input: the request that renames the enabled, time-limited entry
7 writes its code, flags and window as fetched. -/
theorem keypad_update_unsent_fields_witness :
    (7 : Nat) ≠ 0 ∧ keypadHoldsLimited.cmdResult keypadReadySeven.io = .Success ∧
      (keypadHoldsLimited.keypadEntries (keypadReadySeven.io + 1)).filter
        (fun e => decide (e.codeId = 7)) = [limitedSeven] ∧
      ∃ u : UpdatedKeypadEntry,
        (keypadJsonUpdate keypadHoldsLimited 7 true "X" "" {} {} keypadReadySeven).2.trace =
          keypadReadySeven.trace ++
            [.retrieveKeypadEntries
                (keypadReadySeven.prefs.keypad_max_entries.getD keypadHoldsLimited.MAX_KEYPAD),
              .updateKeypadEntry u] ∧
        u.codeId = 7 ∧
        u.code = limitedSeven.code ∧ u.enabled = limitedSeven.enabled ∧
        u.timeLimited = limitedSeven.timeLimited ∧
        u.allowedFrom = limitedSeven.allowedFrom ∧
        u.allowedUntil = limitedSeven.allowedUntil ∧
        u.allowedWeekdays = limitedSeven.allowedWeekdays ∧
        u.allowedFromTime = limitedSeven.allowedFromTime ∧
        u.allowedUntilTime = limitedSeven.allowedUntilTime := by
  refine ⟨by decide, rfl, rfl, ?_⟩
  obtain ⟨u, htrace, hid, _, hcode, hen, htl, hfrom, huntil, hwd, hft, hut⟩ :=
    keypad_update_unsent_fields keypadHoldsLimited 7 "X" "" {} {} keypadReadySeven
      limitedSeven (by decide) rfl rfl
  have hen1 := hen rfl
  have htl1 := htl rfl
  have hw : u.enabled = 1 ∧ u.timeLimited = 1 := ⟨hen1, htl1⟩
  refine ⟨u, htrace, hid, hcode rfl, hen1, htl1, ?_, ?_, ?_, ?_, ?_⟩
  · rw [hfrom rfl, if_pos hw]; rfl
  · rw [huntil rfl, if_pos hw]; rfl
  · rw [hwd rfl, if_pos hw]
  · rw [hft rfl, if_pos hw]; rfl
  · rw [hut rfl, if_pos hw]; rfl

/-- C19 as stated fails: the request that renames the disabled entry 7 writes the
entry with its window cleared, although the fetched entry has a window from
2030-01-01 to 2030-12-31, on every weekday, from 08:00 to 18:00. -/
theorem keypad_update_clears_window_of_disabled_entry :
    callsOf (onKeypadJsonCommandReceived keypadHoldsDisabled (some renameSeven))
        keypadReadySeven =
      [.retrieveKeypadEntries 10,
        .updateKeypadEntry
          { codeId := 7, name := "X", code := 234567, enabled := 0, timeLimited := 1
            allowedFrom := {}, allowedUntil := {}, allowedWeekdays := 0
            allowedFromTime := {}, allowedUntilTime := {} },
        .retrieveKeypadEntries 10, .publishKeypadJsonCommandResult "success"] ∧
    disabledSeven.allowedFrom ≠ {} ∧ disabledSeven.allowedUntil ≠ {} ∧
    disabledSeven.allowedWeekdays ≠ 0 ∧ disabledSeven.allowedFromTime ≠ {} ∧
    disabledSeven.allowedUntilTime ≠ {} := by
  decide

/-! ## One result per handler call -/

theorem silent_refl {α : Type} (f : Event → Option α) (a : State) : Silent f a a := rfl

theorem silent_trans {α : Type} {f : Event → Option α} {a b c : State} (h1 : Silent f a b)
    (h2 : Silent f b c) : Silent f a c :=
  Eq.trans h2 h1

theorem silent_set {α : Type} {f : Event → Option α} {a b : State} (g : Vars → Vars)
    (h : Silent f a b) : Silent f a (b.set g) := h

theorem silent_setPrefs {α : Type} {f : Event → Option α} {a b : State}
    (g : Preferences → Preferences) (h : Silent f a b) : Silent f a (b.setPrefs g) := h

theorem silent_step {α : Type} {f : Event → Option α} {a b : State} (h : Silent f a b) :
    Silent f a b.step := h

theorem silent_postpone {α : Type} {f : Event → Option α} {a b : State} (W : World)
    (h : Silent f a b) : Silent f a (postponeBleWatchdog W b) := h

theorem silent_emitted {α : Type} {f : Event → Option α} {a b : State} {e : Event}
    (he : f e = none) (h : Silent f a b) : Silent f a (emit e b) := by
  unfold Silent at h ⊢
  rw [emit_trace, List.filterMap_append, h]
  simp [List.filterMap, he]

theorem silent_ite {α : Type} {f : Event → Option α} {a x y : State} {c : Prop}
    [Decidable c] (hx : Silent f a x) (hy : Silent f a y) :
    Silent f a (if c then x else y) := by
  split_ifs
  · exact hx
  · exact hy

theorem retryLoop_silent {α : Type} {f : Event → Option α} (W : World) (cmd : Event)
    (store : Nat → CmdResult → State → State)
    (hstore : ∀ io r t, (store io r t).trace = t.trace) (hcmd : f cmd = none) (a : State) :
    ∀ (fuel : Nat) (result : CmdResult) (s : State), Silent f a s →
      Silent f a (retryLoop W cmd store fuel result s).2 := by
  intro fuel
  induction fuel with
  | zero => intro result s h; exact h
  | succ n ih =>
    intro result s h
    have hs : Silent f a (store s.io (W.cmdResult s.io) (emit cmd s.step)) := by
      unfold Silent
      rw [hstore]
      exact silent_emitted hcmd (silent_step h)
    simp only [retryLoop]
    split_ifs with h1 h2
    · exact ih _ _ (silent_set _ hs)
    · exact hs
    · exact h

theorem updateKeypad_silent {α : Type} {f : Event → Option α}
    (hq : ∀ e, e.quiet = true → f e = none) (W : World) (retrieved : Bool)
    {a s : State} (h : Silent f a s) : Silent f a (updateKeypad W retrieved s) := by
  unfold updateKeypad
  simp only []
  repeat' (first
    | with_reducible exact h
    | with_reducible apply silent_ite
    | with_reducible apply silent_postpone
    | with_reducible apply silent_set
    | with_reducible apply silent_setPrefs
    | with_reducible apply silent_step
    | with_reducible apply silent_emitted
    | with_reducible apply retryLoop_silent
    | (intro _ _ _; rfl)
    | exact hq _ rfl)

/-- A handler loop entered with enough fuel, on a transport that returns enumerators
of `Nuki::CmdResult`: it either returns from a round after one message, or ends with a
result other than the initial -1 and no message. -/
theorem handlerLoop_published {σ α : Type} {f : Event → Option α} {W : World}
    {round : σ → State → Option (CmdResult × σ) × State} (hround : RoundPublishes f W round)
    (hW : ∀ io, W.cmdResult io ≠ .unset) :
    ∀ (fuel : Nat) (result : CmdResult) (v : σ) (s : State),
      fuel = (s.nrOfRetries + 1 - s.retryCount).toNat →
      (result ≠ .unset ∨ s.retryCount < s.nrOfRetries + 1) →
      ((handlerLoop round fuel result v s).1 = .returned ∧
          ∃ x, (handlerLoop round fuel result v s).2.trace.filterMap f =
            s.trace.filterMap f ++ [x]) ∨
        (∃ r, (handlerLoop round fuel result v s).1 = .finished r ∧ r ≠ .unset ∧
          Silent f s (handlerLoop round fuel result v s).2) := by
  intro fuel
  induction fuel with
  | zero =>
    intro result v s hfuel hres
    have hguard : ¬ s.retryCount < s.nrOfRetries + 1 := by omega
    simp only [handlerLoop, hguard, if_false]
    exact Or.inr ⟨result, rfl, hres.resolve_right hguard, rfl⟩
  | succ n ih =>
    intro result v s hfuel hres
    have hguard : s.retryCount < s.nrOfRetries + 1 := by omega
    obtain ⟨hnone, hsome⟩ := hround v s
    simp only [handlerLoop, hguard, if_true]
    split
    next s1 heq => exact Or.inl ⟨rfl, hnone s1 heq⟩
    next r v1 s1 heq =>
      obtain ⟨hsil, ⟨io, hio⟩, hrc, hnr⟩ := hsome r v1 s1 heq
      have hr : r ≠ .unset := hio ▸ hW io
      split_ifs with hne
      · have hfuel1 : n = ((s1.set fun m => { m with retryCount := s1.retryCount + 1 }).nrOfRetries
            + 1 - (s1.set fun m => { m with retryCount := s1.retryCount + 1 }).retryCount).toNat :=
                by
          show n = (s1.nrOfRetries + 1 - (s1.retryCount + 1)).toNat
          rw [hrc, hnr]
          omega
        rcases ih r v1 _ hfuel1 (Or.inl hr) with ⟨h1, x, h2⟩ | ⟨r1, h1, h2, h3⟩
        · refine Or.inl ⟨h1, x, ?_⟩
          rw [h2]
          exact congrArg (· ++ [x]) hsil
        · exact Or.inr ⟨r1, h1, h2, silent_trans (silent_set _ hsil) h3⟩
      · exact Or.inr ⟨r, rfl, hr, hsil⟩

theorem keypadJsonUpdate_silent (W : World) (codeId : Nat) (idExists : Bool)
    (name allowedWeekdays : String) (v : KeypadVars) (w : KeypadWindows) (s : State) :
    Silent keypadJsonResult s (keypadJsonUpdate W codeId idExists name allowedWeekdays v w s).2 ∧
      (keypadJsonUpdate W codeId idExists name allowedWeekdays v w s).2.retryCount =
        s.retryCount ∧
      (keypadJsonUpdate W codeId idExists name allowedWeekdays v w s).2.nrOfRetries =
        s.nrOfRetries ∧
      ∀ r v1, (keypadJsonUpdate W codeId idExists name allowedWeekdays v w s).1 = .ok (r, v1) →
        ∃ io, r = W.cmdResult io := by
  have h := silent_refl keypadJsonResult s
  unfold keypadJsonUpdate
  simp only []
  split_ifs with h1 h2 h3 h4
  · exact ⟨h, rfl, rfl, fun r v1 hr => by cases hr⟩
  · exact ⟨h, rfl, rfl, fun r v1 hr => by cases hr⟩
  · exact ⟨silent_step (silent_emitted rfl (silent_step h)), rfl, rfl,
      fun r v1 hr => by cases hr⟩
  · refine ⟨silent_emitted rfl (silent_step (silent_step (silent_emitted rfl (silent_step h)))),
      rfl, rfl, fun r v1 hr => ?_⟩
    injection hr with hr
    injection hr with hr1 hr2
    exact ⟨_, hr1.symm⟩
  · exact ⟨silent_emitted rfl (silent_step h), rfl, rfl, fun r v1 hr => by cases hr⟩

theorem keypadJsonRound_publishes (W : World) (action : String) (codeId : Nat)
    (idExists : Bool) (name codeStr allowedWeekdays : String) :
    RoundPublishes keypadJsonResult W
      (keypadJsonRound W action codeId idExists name codeStr allowedWeekdays) := by
  intro v s
  have hfail : ∀ (str : String) (t : State), Silent keypadJsonResult s t →
      ∀ u, ((none : Option (CmdResult × KeypadVars)),
        emit (.publishKeypadJsonCommandResult str) t) = (none, u) →
      ∃ x, u.trace.filterMap keypadJsonResult = s.trace.filterMap keypadJsonResult ++ [x] := by
    intro str t ht u hu
    injection hu with _ hu
    subst hu
    refine ⟨str, ?_⟩
    rw [emit_trace, List.filterMap_append, ht]
    rfl
  have hu := keypadJsonUpdate_silent W codeId idExists name allowedWeekdays v
  unfold keypadJsonRound
  simp only []
  split_ifs with hdel hid haddupd hadd
  · refine ⟨fun t ht => (by cases ht), fun r v1 t ht => ?_⟩
    injection ht with h1 h2
    injection h1 with h1
    injection h1 with h1 h3
    subst h2
    exact ⟨silent_emitted rfl (silent_step (silent_refl _ s)), ⟨_, h1.symm⟩, rfl, rfl⟩
  · exact ⟨hfail _ _ (silent_refl _ s), fun r v1 t ht => by cases ht⟩
  · split
    · exact ⟨hfail _ _ (silent_refl _ s), fun r v1 t ht => by cases ht⟩
    · split
      · exact ⟨hfail _ _ (silent_refl _ s), fun r v1 t ht => by cases ht⟩
      · refine ⟨fun t ht => (by cases ht), fun r v1 t ht => ?_⟩
        injection ht with h1 h2
        injection h1 with h1
        injection h1 with h1 h3
        subst h2
        exact ⟨silent_emitted rfl (silent_step (silent_refl _ s)), ⟨_, h1.symm⟩, rfl, rfl⟩
  · split
    · exact ⟨hfail _ _ (silent_refl _ s), fun r v1 t ht => by cases ht⟩
    · split
      · exact ⟨hfail _ _ (silent_refl _ s), fun r v1 t ht => by cases ht⟩
      · rename_i w hw
        obtain ⟨u1, u2, u3, u4⟩ := hu w s
        split
        next str s1 heq =>
          rw [heq] at u1 u2 u3
          exact ⟨hfail _ _ u1, fun r v1 t ht => by cases ht⟩
        next r0 v0 s1 heq =>
          rw [heq] at u1 u2 u3 u4
          refine ⟨fun t ht => (by cases ht), fun r v1 t ht => ?_⟩
          injection ht with h1 h2
          injection h1 with h1
          injection h1 with h1 h3
          subst h2
          subst h1
          exact ⟨u1, u4 _ _ rfl, u2, u3⟩
  · exact ⟨hfail _ _ (silent_refl _ s), fun r v1 t ht => by cases ht⟩

theorem loopFuel_eq (s : State) (g : Vars → Vars)
    (h1 : (s.set g).nrOfRetries = s.nrOfRetries) (h2 : (s.set g).retryCount = 0) :
    loopFuel s = ((s.set g).nrOfRetries + 1 - (s.set g).retryCount).toNat := by
  rw [h1, h2]
  unfold loopFuel
  congr 1
  omega

/-- Every call of the JSON keypad handler publishes one result on its channel. -/
theorem onKeypadJsonCommandReceived_published (W : World) (json : Option KeypadJson)
    (s : State) (hr : 0 ≤ s.nrOfRetries) (hW : ∀ io, W.cmdResult io ≠ .unset) :
    ∃ x, (onKeypadJsonCommandReceived W json s).trace.filterMap keypadJsonResult =
      s.trace.filterMap keypadJsonResult ++ [x] := by
  have hpub : ∀ (str : String) (t : State), Silent keypadJsonResult s t →
      ∃ x, (emit (.publishKeypadJsonCommandResult str) t).trace.filterMap keypadJsonResult =
        s.trace.filterMap keypadJsonResult ++ [x] := by
    intro str t ht
    refine ⟨str, ?_⟩
    rw [emit_trace, List.filterMap_append, ht]
    rfl
  have h0 := silent_refl keypadJsonResult s
  unfold onKeypadJsonCommandReceived
  split_ifs with h1 h2 h3 h4 h5
  · exact hpub _ _ h0
  · exact hpub _ _ h0
  · exact hpub _ _ h0
  · exact hpub _ _ h0
  · exact hpub _ _ h0
  · cases json with
    | none => exact hpub _ _ h0
    | some j =>
      simp only []
      cases haction : j.action with
      | none => exact hpub _ _ h0
      | some action =>
        simp only []
        have hloop := handlerLoop_published
          (keypadJsonRound_publishes W action (j.codeId % 65536)
            (decide (j.codeId % 65536 ≠ 0 ∧ j.codeId % 65536 ∈ s.keypadCodeIds))
            (j.name.getD "") j.codeStr (j.allowedWeekdays.getD "")) hW (loopFuel s) .unset
          { code := (j.code.getD 12) % 4294967296
            enabled := (j.enabled.getD 2) % 256
            timeLimited := (j.timeLimited.getD 2) % 256
            allowedFrom := j.allowedFrom.getD ""
            allowedUntil := j.allowedUntil.getD ""
            allowedFromTime := j.allowedFromTime.getD ""
            allowedUntilTime := j.allowedUntilTime.getD "" }
          (s.set fun m => { m with retryCount := 0 })
          (loopFuel_eq s _ rfl rfl) (Or.inr (by show (0 : Int) < s.nrOfRetries + 1; omega))
        split
        next result s1 heq =>
          rw [heq] at hloop
          rcases hloop with ⟨h6, _⟩ | ⟨r, h6, h7, h8⟩
          · cases h6
          · injection h6 with h6
            subst h6
            rw [if_pos h7]
            exact hpub _ _ (updateKeypad_silent (fun e he => by cases e <;> first | rfl | cases he)
              W false h8)
        next x s1 hne heq =>
          rw [heq] at hloop
          rcases hloop with ⟨h6, h7⟩ | ⟨r, h6, h7, h8⟩
          · exact h7
          · exact absurd h6 (hne r)

theorem timeControlUpdate_silent (W : World) (entryId : Nat) (idExists : Bool)
    (weekdays lockAction : String) (v : TimeControlVars) (w : TimeControlWindow) (s : State) :
    Silent timeControlResult s (timeControlUpdate W entryId idExists weekdays lockAction v w s).2 ∧
      (timeControlUpdate W entryId idExists weekdays lockAction v w s).2.retryCount =
        s.retryCount ∧
      (timeControlUpdate W entryId idExists weekdays lockAction v w s).2.nrOfRetries =
        s.nrOfRetries ∧
      ∀ r v1, (timeControlUpdate W entryId idExists weekdays lockAction v w s).1 = .ok (r, v1) →
        ∃ io, r = W.cmdResult io := by
  have h := silent_refl timeControlResult s
  unfold timeControlUpdate
  simp only []
  split_ifs with h1 h2 h3
  · exact ⟨h, rfl, rfl, fun r v1 hr => by cases hr⟩
  · exact ⟨silent_step (silent_emitted rfl (silent_step h)), rfl, rfl,
      fun r v1 hr => by cases hr⟩
  · refine ⟨silent_emitted rfl (silent_step (silent_step (silent_emitted rfl (silent_step h)))),
      rfl, rfl, fun r v1 hr => ?_⟩
    injection hr with hr
    injection hr with hr1 hr2
    exact ⟨_, hr1.symm⟩
  · exact ⟨silent_emitted rfl (silent_step h), rfl, rfl, fun r v1 hr => by cases hr⟩

theorem timeControlRound_publishes (W : World) (action : String) (entryId : Nat)
    (idExists : Bool) (weekdays lockAction : String) :
    RoundPublishes timeControlResult W
      (timeControlRound W action entryId idExists weekdays lockAction) := by
  intro v s
  have hfail : ∀ (str : String) (t : State), Silent timeControlResult s t →
      ∀ u, ((none : Option (CmdResult × TimeControlVars)),
        emit (.publishTimeControlCommandResult str) t) = (none, u) →
      ∃ x, u.trace.filterMap timeControlResult =
        s.trace.filterMap timeControlResult ++ [x] := by
    intro str t ht u hu
    injection hu with _ hu
    subst hu
    refine ⟨str, ?_⟩
    rw [emit_trace, List.filterMap_append, ht]
    rfl
  have hu := timeControlUpdate_silent W entryId idExists weekdays lockAction v
  unfold timeControlRound
  simp only []
  split_ifs with hdel hid haddupd hadd
  · refine ⟨fun t ht => (by cases ht), fun r v1 t ht => ?_⟩
    injection ht with h1 h2
    injection h1 with h1
    injection h1 with h1 h3
    subst h2
    exact ⟨silent_emitted rfl (silent_step (silent_refl _ s)), ⟨_, h1.symm⟩, rfl, rfl⟩
  · exact ⟨hfail _ _ (silent_refl _ s), fun r v1 t ht => by cases ht⟩
  · split
    · exact ⟨hfail _ _ (silent_refl _ s), fun r v1 t ht => by cases ht⟩
    · refine ⟨fun t ht => (by cases ht), fun r v1 t ht => ?_⟩
      injection ht with h1 h2
      injection h1 with h1
      injection h1 with h1 h3
      subst h2
      exact ⟨silent_emitted rfl (silent_step (silent_refl _ s)), ⟨_, h1.symm⟩, rfl, rfl⟩
  · split
    · exact ⟨hfail _ _ (silent_refl _ s), fun r v1 t ht => by cases ht⟩
    · rename_i timeAr htime
      obtain ⟨u1, u2, u3, u4⟩ :=
        hu { weekdaysInt := weekdaysToInt weekdays, timeAr := timeAr } s
      split
      next str s1 heq =>
        rw [heq] at u1 u2 u3
        exact ⟨hfail _ _ u1, fun r v1 t ht => by cases ht⟩
      next r0 v0 s1 heq =>
        rw [heq] at u1 u2 u3 u4
        refine ⟨fun t ht => (by cases ht), fun r v1 t ht => ?_⟩
        injection ht with h1 h2
        injection h1 with h1
        injection h1 with h1 h3
        subst h2
        subst h1
        exact ⟨u1, u4 _ _ rfl, u2, u3⟩
  · exact ⟨hfail _ _ (silent_refl _ s), fun r v1 t ht => by cases ht⟩

/-- Every call of the time-control handler publishes one result on its channel. -/
theorem onTimeControlCommandReceived_published (W : World) (json : Option TimeControlJson)
    (s : State) (hr : 0 ≤ s.nrOfRetries) (hW : ∀ io, W.cmdResult io ≠ .unset) :
    ∃ x, (onTimeControlCommandReceived W json s).trace.filterMap timeControlResult =
      s.trace.filterMap timeControlResult ++ [x] := by
  have hpub : ∀ (str : String) (t : State), Silent timeControlResult s t →
      ∃ x, (emit (.publishTimeControlCommandResult str) t).trace.filterMap timeControlResult =
        s.trace.filterMap timeControlResult ++ [x] := by
    intro str t ht
    refine ⟨str, ?_⟩
    rw [emit_trace, List.filterMap_append, ht]
    rfl
  have h0 := silent_refl timeControlResult s
  unfold onTimeControlCommandReceived
  split_ifs with h1 h2 h3
  · exact hpub _ _ h0
  · exact hpub _ _ h0
  · exact hpub _ _ h0
  · cases json with
    | none => exact hpub _ _ h0
    | some j =>
      simp only []
      by_cases h4 : (j.lockAction.getD "").length > 0 ∧
          lockActionToEnum (j.lockAction.getD "") = .noAction
      · rw [if_pos h4]
        exact hpub _ _ h0
      · rw [if_neg h4]
        cases haction : j.action with
          | none => exact hpub _ _ h0
          | some action =>
            simp only []
            have hloop := handlerLoop_published
              (timeControlRound_publishes W action (j.entryId % 256)
                (decide (j.entryId % 256 ≠ 0 ∧ j.entryId % 256 ∈ s.timeControlIds))
                (j.weekdays.getD "") (j.lockAction.getD "")) hW (loopFuel s) .unset
              { enabled := (j.enabled.getD 2) % 256
                time := j.time.getD ""
                timeControlLockAction :=
                  if (j.lockAction.getD "").length > 0 then lockActionToEnum (j.lockAction.getD "")
                  else W.uninitLockAction s.io }
              (s.set fun m => { m with retryCount := 0 })
              (loopFuel_eq s _ rfl rfl) (Or.inr (by show (0 : Int) < s.nrOfRetries + 1; omega))
            split
            next result s1 heq =>
              rw [heq] at hloop
              rcases hloop with ⟨h6, _⟩ | ⟨r, h6, h7, h8⟩
              · cases h6
              · injection h6 with h6
                subst h6
                rw [if_pos h7]
                exact hpub _ _ h8
            next x s1 hne heq =>
              rw [heq] at hloop
              rcases hloop with ⟨h6, h7⟩ | ⟨r, h6, h7, h8⟩
              · exact h7
              · exact absurd h6 (hne r)

/-- C22 (code defect): with `nrOfRetries >= 0`, on a transport that returns
enumerators of `Nuki::CmdResult` (never the initial value -1 of the handlers), every
call of `onKeypadJsonCommandReceived` and of `onTimeControlCommandReceived` publishes
exactly one message on the result channel of that handler, whatever the payload and
whichever path the call takes; so does every call of `onConfigUpdateReceived` that
fails a gate, whose payload does not parse, or whose recognised members are falsy or
strings.  A call of `onConfigUpdateReceived` past the gates whose payload holds, under
a recognised key, a member that converts to `true` and is not a string hands the null
pointer to `strlen` (lines 967 and 1157): it does not return and publishes no
message. -/
theorem handlers_publish_one_result (W : World) (s : State) (hr : 0 ≤ s.nrOfRetries)
    (hW : ∀ io, W.cmdResult io ≠ .unset) :
    (∀ json, (∀ j, json = some j → configGates s → j.textual) →
      (publishedConfig (configCalls W json s)).length = 1) ∧
    (∀ j, configGates s → ¬ j.textual →
      configReturns W (some j) s = false ∧
        publishedConfig (configCalls W (some j) s) = []) ∧
    (∀ json,
      (publishedKeypadJson (callsOf (onKeypadJsonCommandReceived W json) s)).length = 1) ∧
    (∀ json,
      (publishedTimeControl (callsOf (onTimeControlCommandReceived W json) s)).length = 1) := by
  refine ⟨fun json ht => ?_, fun j hg hnot => ?_, fun json => ?_, fun json => ?_⟩
  · rw [(configCalls_textual W json s ht).1]
    by_cases hg : configGates s
    · cases json with
      | none =>
        show (publishedConfig (callsOf (textHandler W none) s)).length = 1
        rw [textHandler_gated W none s (Or.inr rfl)]
        rfl
      | some j =>
        show (publishedConfig (callsOf (textHandler W (some j.texts)) s)).length = 1
        rw [textHandler_published W j.texts s hg]
        rfl
    · rw [textHandler_gated W _ s (Or.inl hg)]; rfl
  · obtain ⟨f1, -, f3⟩ := configCalls_fault W j s hg hnot
    exact ⟨f1, f3⟩
  · obtain ⟨x, hx⟩ := onKeypadJsonCommandReceived_published W json s.fresh hr hW
    unfold publishedKeypadJson callsOf
    rw [hx]
    rfl
  · obtain ⟨x, hx⟩ := onTimeControlCommandReceived_published W json s.fresh hr hW
    unfold publishedTimeControl callsOf
    rw [hx]
    rfl

/-- C22 at concrete inputs: on a transport whose commands all succeed, the wrapper
with the cached keypad identifier 7 publishes one result for a config request, one
for a keypad delete and one for a time-control update; the wrapper past the config
gates publishes none for the config request with the number rtoTimeout = 20. -/
theorem handlers_publish_one_result_witness :
    0 ≤ keypadReadySeven.nrOfRetries ∧
      (∀ io, ({} : World).cmdResult io ≠ .unset) ∧
      (publishedConfig (configCalls {} (some nameFront) keypadReadySeven)).length = 1 ∧
      (publishedKeypadJson (callsOf (onKeypadJsonCommandReceived {} (some deleteSeven))
        keypadReadySeven)).length = 1 ∧
      (publishedTimeControl (callsOf (onTimeControlCommandReceived {} (some disableThree))
        keypadReadySeven)).length = 1 ∧
      publishedConfig (configCalls {} (some rtoTimeoutNumber) configReady) = [] :=
  have h := handlers_publish_one_result {} keypadReadySeven (by decide)
    (fun _ h => CmdResult.noConfusion h)
  have g := handlers_publish_one_result {} configReady (by decide)
    (fun _ h => CmdResult.noConfusion h)
  ⟨by decide, fun _ h => CmdResult.noConfusion h,
    h.1 (some nameFront) (fun j hj _ => by cases hj; decide), h.2.2.1 _, h.2.2.2 _,
    (g.2.1 rtoTimeoutNumber (by decide) (by decide)).2⟩

/-- C21 (code defect): with one retry, the first write attempt failing and every other
command succeeding, the time-control update that omits `time` is not retried: the
second round of the loop finds the marker "old" that the first round stored in
`time` (line 2203), fails the length test of line 2139 and publishes "invalidTime".
The keypad update that omits the window fields of a time-limited entry ends in the
same way with "invalidAllowedFrom" (marker of line 1909, test of line 1728).  On a
transport whose commands all succeed both requests are written and publish
"success". -/
theorem update_not_retried_after_failed_write :
    callsOf (onTimeControlCommandReceived firstWriteFails (some disableThree))
        timeControlReady =
      [.retrieveTimeControlEntries,
       .updateTimeControlEntry
        { entryId := 3, enabled := 0, weekdays := 64, timeHour := 8, timeMin := 30
          lockAction := .ActivateRTO },
       .publishTimeControlCommandResult "invalidTime"] ∧
    publishedKeypadJson (callsOf (onKeypadJsonCommandReceived firstWriteFails
        (some renameSeven)) keypadReadySeven) = ["invalidAllowedFrom"] ∧
    publishedTimeControl (callsOf (onTimeControlCommandReceived writesSucceed
        (some disableThree)) timeControlReady) = ["success"] ∧
    publishedKeypadJson (callsOf (onKeypadJsonCommandReceived writesSucceed
        (some renameSeven)) keypadReadySeven) = ["success"] := by
  decide

/-- C23 (code defect): the constructor registers the legacy keypad callback exactly
when `disable_non_json` is true (line 35), and with `disable_non_json` true the legacy
handler returns at once (line 1459); with the default preferences the callback is
not registered. -/
theorem legacy_keypad_callback_registered_when_disabled (preferences : Preferences) :
    (Event.setKeypadCommandReceivedCallback ∈ (NukiOpenerWrapper preferences).trace ↔
      preferences.disable_non_json = true) ∧
    (∀ (W : World) (fuel : Nat) (command : String) (id : Nat) (name code : String)
        (enabled : Int) (s : State), s.prefs.disable_non_json = true →
      onKeypadCommandReceived W fuel command id name code enabled s = s) ∧
    (NukiOpenerWrapper {}).trace =
      [.setLockActionReceivedCallback, .setConfigUpdateReceivedCallback,
        .setKeypadJsonCommandReceivedCallback, .addCallback] := by
  refine ⟨?_, ?_, rfl⟩
  · unfold NukiOpenerWrapper
    cases h : preferences.disable_non_json <;> simp
  · intro W fuel command id name code enabled s h
    unfold onKeypadCommandReceived
    rw [if_pos h]

/-! ## One run of the dispatch block -/

/-- The calls of a dispatch block that is due: the lock action, its result, and one
retry message. -/
theorem dispatchLockAction_calls (W : World) (ts : Int) (s : State)
    (hp : s.nextLockAction ≠ .noAction) (hd : ts > s.nextRetryTs) :
    callsOf (dispatchLockAction W ts) s =
      [.lockAction s.nextLockAction,
        .publishCommandResult (cmdResultToString (W.cmdResult s.io)),
        .publishRetry
          (if W.cmdResult s.io = .Success then "--"
           else if s.retryCount < s.nrOfRetries then toString (s.retryCount + 1)
           else "failed")] := by
  have hc : s.fresh.nextLockAction ≠ .noAction ∧ ts > s.fresh.nextRetryTs := ⟨hp, hd⟩
  unfold callsOf dispatchLockAction
  rw [if_pos hc]
  simp only [postponeBleWatchdog_trace]
  by_cases h1 : W.cmdResult s.io = .Success
  · have h1f : W.cmdResult s.fresh.io = .Success := h1
    simp only [h1, h1f, if_true]
    split_ifs <;> rfl
  · have h1f : ¬ W.cmdResult s.fresh.io = .Success := h1
    by_cases h2 : s.retryCount < s.nrOfRetries
    · have h2f : (emit (.publishCommandResult (cmdResultToString (W.cmdResult s.fresh.io)))
          (emit (.lockAction s.fresh.nextLockAction) s.fresh.step)).retryCount <
          (emit (.publishCommandResult (cmdResultToString (W.cmdResult s.fresh.io)))
            (emit (.lockAction s.fresh.nextLockAction) s.fresh.step)).nrOfRetries := h2
      simp only [h1, h1f, h2, h2f, if_true, if_false]
      rfl
    · have h2f : ¬ (emit (.publishCommandResult (cmdResultToString (W.cmdResult s.fresh.io)))
          (emit (.lockAction s.fresh.nextLockAction) s.fresh.step)).retryCount <
          (emit (.publishCommandResult (cmdResultToString (W.cmdResult s.fresh.io)))
            (emit (.lockAction s.fresh.nextLockAction) s.fresh.step)).nrOfRetries := h2
      simp only [h1, h1f, h2, h2f, if_true, if_false]
      rfl

/-- C25: in a run of the dispatch block of `update` at the clock value `ts` in which
the pending lock action is due and the transport returns `Success`, the pending slot is
cleared, the retry counter is 0, the calls are the lock action, its result and the
retry state "--", and `nextLockStateUpdateTs` is `ts + 10000` when the lock-state
interval exceeds 10 (seconds) and as before otherwise. -/
theorem dispatch_success (W : World) (ts : Int) (s : State)
    (hp : s.nextLockAction ≠ .noAction) (hd : ts > s.nextRetryTs)
    (hs : W.cmdResult s.io = .Success) :
    (dispatchLockAction W ts s).nextLockAction = .noAction ∧
    (dispatchLockAction W ts s).retryCount = 0 ∧
    callsOf (dispatchLockAction W ts) s =
      [.lockAction s.nextLockAction, .publishCommandResult "success", .publishRetry "--"] ∧
    (dispatchLockAction W ts s).nextLockStateUpdateTs =
      if s.intervalLockstate > 10 then ts + 10000 else s.nextLockStateUpdateTs := by
  refine ⟨?_, ?_, ?_, ?_⟩
  · unfold dispatchLockAction
    rw [if_pos ⟨hp, hd⟩]
    simp only [hs, if_true]
    split_ifs <;> rfl
  · unfold dispatchLockAction
    rw [if_pos ⟨hp, hd⟩]
    simp only [hs, if_true]
    split_ifs <;> rfl
  · rw [dispatchLockAction_calls W ts s hp hd]
    have hs1 : W.cmdResult s.fresh.io = .Success := hs
    simp only [hs, if_true]
    rfl
  · unfold dispatchLockAction
    rw [if_pos ⟨hp, hd⟩]
    simp only [hs, if_true]
    split_ifs with h1 h2 h2
    · rfl
    · exact absurd h1 h2
    · exact absurd h2 h1
    · rfl

/-- C25 at a concrete input: the pending ActivateRTO of a wrapper with a lock-state
interval of 1800 s succeeds in the pass at 5001 ms; the slot is cleared and the next
lock-state refresh is scheduled at 15001 ms. -/
theorem dispatch_success_witness :
    pendingOneRetry.nextLockAction ≠ .noAction ∧ (5001 : Int) > pendingOneRetry.nextRetryTs ∧
      clockAt5001.cmdResult pendingOneRetry.io = .Success ∧
      (dispatchLockAction clockAt5001 5001 pendingOneRetry).nextLockAction = .noAction ∧
      (dispatchLockAction clockAt5001 5001 pendingOneRetry).retryCount = 0 ∧
      callsOf (dispatchLockAction clockAt5001 5001) pendingOneRetry =
        [.lockAction .ActivateRTO, .publishCommandResult "success", .publishRetry "--"] ∧
      (dispatchLockAction clockAt5001 5001 pendingOneRetry).nextLockStateUpdateTs = 15001 :=
  have h := dispatch_success clockAt5001 5001 pendingOneRetry (by decide) (by decide) rfl
  ⟨by decide, by decide, rfl, h.1, h.2.1, h.2.2.1, h.2.2.2⟩

/-! ## The weekday bitmask -/

theorem occursIn_iff (sub : List Char) : ∀ l : List Char, occursIn sub l = true ↔ sub <:+: l
  | [] => by
    simp [occursIn, List.isEmpty_iff]
  | c :: cs => by
    rw [occursIn, Bool.or_eq_true, occursIn_iff sub cs, List.infix_cons_iff,
      List.isPrefixOf_iff_prefix]

theorem weekdayMask_unfold (weekdays : String) : weekdayMask weekdays =
    (if occurs "mon" weekdays then 64 else 0) + ((if occurs "tue" weekdays then 32 else 0) +
    ((if occurs "wed" weekdays then 16 else 0) + ((if occurs "thu" weekdays then 8 else 0) +
    ((if occurs "fri" weekdays then 4 else 0) + ((if occurs "sat" weekdays then 2 else 0) +
    ((if occurs "sun" weekdays then 1 else 0) + 0)))))) := rfl

theorem weekdaysToInt_eq (weekdays : String) : weekdaysToInt weekdays = weekdayMask weekdays := by
  have h : ∀ (token : String) (n : Nat),
      (if occursIn token.data weekdays.data = true then n else 0) =
        (if occurs token weekdays then n else 0) := by
    intro token n
    by_cases hc : occurs token weekdays
    · rw [if_pos hc, if_pos ((occursIn_iff _ _).2 hc)]
    · rw [if_neg hc, if_neg (fun hn => hc ((occursIn_iff _ _).1 hn))]
  unfold weekdaysToInt
  rw [h "mon" 64, h "tue" 32, h "wed" 16, h "thu" 8, h "fri" 4, h "sat" 2, h "sun" 1,
    weekdayMask_unfold]
  omega

theorem weekdayMask_le (weekdays : String) : weekdayMask weekdays ≤ 127 := by
  have hb : ∀ (c : Prop) [Decidable c] (n : Nat), (if c then n else 0) ≤ n := by
    intro c _ n
    split_ifs <;> omega
  have h1 := hb (occurs "mon" weekdays) 64
  have h2 := hb (occurs "tue" weekdays) 32
  have h3 := hb (occurs "wed" weekdays) 16
  have h4 := hb (occurs "thu" weekdays) 8
  have h5 := hb (occurs "fri" weekdays) 4
  have h6 := hb (occurs "sat" weekdays) 2
  have h7 := hb (occurs "sun" weekdays) 1
  rw [weekdayMask_unfold]
  omega

theorem weekdayMask_congr (weekdays other : String)
    (h : ∀ p ∈ weekdayWeights, occurs p.1 other ↔ occurs p.1 weekdays) :
    weekdayMask other = weekdayMask weekdays := by
  unfold weekdayMask
  congr 1
  apply List.map_congr_left
  intro p hp
  rw [if_congr (h p hp) rfl rfl]

theorem parseStage_ok {m : Nat} {k : KeypadWindows → Except String KeypadWindows}
    (hk : ∀ x w, k x = .ok w → w.allowedWeekdaysInt = m)
    (c1 c2 c3 : Prop) [Decidable c1] [Decidable c2] [Decidable c3] (e1 e2 : String)
    (y w0 w : KeypadWindows)
    (h : (if c1 then
        if c2 then if c3 then (Except.error e1 >>= k) else (pure y >>= k)
        else (Except.error e2 >>= k)
      else (pure w0 >>= k)) = .ok w) : w.allowedWeekdaysInt = m := by
  split_ifs at h
  · cases h
  · exact hk _ _ h
  · cases h
  · exact hk _ _ h

theorem parseWindows_weekdays (W : World) (io : Nat) (allowedWeekdays : String)
    (v : KeypadVars) (w : KeypadWindows) (h1 : v.timeLimited = 1)
    (h : parseWindows W io allowedWeekdays v = .ok w) :
    w.allowedWeekdaysInt = weekdaysToInt allowedWeekdays := by
  unfold parseWindows at h
  rw [if_pos h1] at h
  refine parseStage_ok (fun x1 y1 g1 => ?_) _ _ _ _ _ _ _ w h
  refine parseStage_ok (fun x2 y2 g2 => ?_) _ _ _ _ _ _ _ y1 g1
  refine parseStage_ok (fun x3 y3 g3 => ?_) _ _ _ _ _ _ _ y2 g2
  refine parseStage_ok (fun x4 y4 g4 => ?_) _ _ _ _ _ _ _ y3 g3
  cases g4
  rfl

/-- The calls of the time-control loop that carry a weekday bitmask computed from the
request: an add, and an update whose request has a non-empty `weekdays`. -/
theorem timeControlUpdate_mask (W : World) (entryId : Nat) (idExists : Bool)
    (weekdays lockAction : String) (v : TimeControlVars) (timeAr : TimeOfDay) {a s : State}
    (h : Within (fun e => ∀ entry, e = .addTimeControlEntry entry →
      entry.weekdays = weekdaysToInt weekdays) a s) :
    Within (fun e => ∀ entry, e = .addTimeControlEntry entry →
      entry.weekdays = weekdaysToInt weekdays) a
      (timeControlUpdate W entryId idExists weekdays lockAction v
        { weekdaysInt := weekdaysToInt weekdays, timeAr := timeAr } s).2 := by
  unfold timeControlUpdate
  simp only []
  split_ifs with h1 h2 h3
  · exact h
  · exact (Within.emitted (fun entry he => by cases he) h.step).step
  · exact Within.emitted (fun entry he => by cases he)
      (Within.emitted (fun entry he => by cases he) h.step).step.step
  · exact Within.emitted (fun entry he => by cases he) h.step

theorem timeControlRound_mask (W : World) (action : String) (entryId : Nat)
    (idExists : Bool) (weekdays lockAction : String) (v : TimeControlVars) {a s : State}
    (h : Within (fun e => ∀ entry, e = .addTimeControlEntry entry →
      entry.weekdays = weekdaysToInt weekdays) a s) :
    Within (fun e => ∀ entry, e = .addTimeControlEntry entry →
      entry.weekdays = weekdaysToInt weekdays) a
      (timeControlRound W action entryId idExists weekdays lockAction v s).2 := by
  have hpub : ∀ (str : String) (t : State),
      Within (fun e => ∀ entry, e = .addTimeControlEntry entry →
        entry.weekdays = weekdaysToInt weekdays) a t →
      Within (fun e => ∀ entry, e = .addTimeControlEntry entry →
        entry.weekdays = weekdaysToInt weekdays) a
        (emit (.publishTimeControlCommandResult str) t) :=
    fun str t ht => Within.emitted (fun entry he => by cases he) ht
  unfold timeControlRound
  simp only []
  split_ifs with hdel hid haddupd hadd
  · exact Within.emitted (fun entry he => by cases he) h.step
  · exact hpub _ _ h
  · split
    · exact hpub _ _ h
    · refine Within.emitted (fun entry he => ?_) h.step
      cases he
      rfl
  · split
    · exact hpub _ _ h
    · rename_i timeAr htime
      have hu := timeControlUpdate_mask W entryId idExists weekdays lockAction v timeAr h
      split
      next str s1 heq =>
        rw [heq] at hu
        exact hpub _ _ hu
      next r0 v0 s1 heq =>
        rw [heq] at hu
        exact hu
  · exact hpub _ _ h

theorem onTimeControlCommandReceived_mask (W : World) (j : TimeControlJson) (s : State) :
    Within (fun e => ∀ entry, e = .addTimeControlEntry entry →
      entry.weekdays = weekdaysToInt (j.weekdays.getD "")) s
      (onTimeControlCommandReceived W (some j) s) := by
  have hpub : ∀ (str : String) (t : State),
      Within (fun e => ∀ entry, e = .addTimeControlEntry entry →
        entry.weekdays = weekdaysToInt (j.weekdays.getD "")) s t →
      Within (fun e => ∀ entry, e = .addTimeControlEntry entry →
        entry.weekdays = weekdaysToInt (j.weekdays.getD "")) s
        (emit (.publishTimeControlCommandResult str) t) :=
    fun str t ht => Within.emitted (fun entry he => by cases he) ht
  have h0 := Within.refl (fun e => ∀ entry, e = .addTimeControlEntry entry →
        entry.weekdays = weekdaysToInt (j.weekdays.getD "")) s
  unfold onTimeControlCommandReceived
  split_ifs with h1 h2 h3
  · exact hpub _ _ h0
  · exact hpub _ _ h0
  · exact hpub _ _ h0
  · simp only []
    by_cases h4 : (j.lockAction.getD "").length > 0 ∧
        lockActionToEnum (j.lockAction.getD "") = .noAction
    · rw [if_pos h4]
      exact hpub _ _ h0
    · rw [if_neg h4]
      cases haction : j.action with
      | none => exact hpub _ _ h0
      | some action =>
        simp only []
        have hloop := handlerLoop_within
          (P := fun e => ∀ entry, e = .addTimeControlEntry entry →
            entry.weekdays = weekdaysToInt (j.weekdays.getD ""))
          (timeControlRound W action (j.entryId % 256)
            (decide (j.entryId % 256 ≠ 0 ∧ j.entryId % 256 ∈ s.timeControlIds))
            (j.weekdays.getD "") (j.lockAction.getD "")) s
          (fun v t ht => timeControlRound_mask W _ _ _ _ _ v ht)
          (loopFuel s) .unset
          { enabled := (j.enabled.getD 2) % 256
            time := j.time.getD ""
            timeControlLockAction :=
              if (j.lockAction.getD "").length > 0 then lockActionToEnum (j.lockAction.getD "")
              else W.uninitLockAction s.io }
          (s.set fun m => { m with retryCount := 0 }) h0
        split
        next result s1 heq =>
          rw [heq] at hloop
          apply Within.set
          apply Within.step
          split_ifs
          · exact hpub _ _ hloop
          · exact hloop
        next x s1 hne heq =>
          rw [heq] at hloop
          exact hloop

/-- C28: the weekday bitmask the handlers compute from a weekday string is the sum of
the weights mon = 64, tue = 32, wed = 16, thu = 8, fri = 4, sat = 2, sun = 1 over the
tokens that occur in the string; it is at most 127; two strings in which the same
tokens occur (in any order, any number of times) give the same bitmask.  It is the
bitmask the keypad JSON handler computes when `timeLimited` is 1, and the bitmask
carried by every entry the time-control handler adds. -/
theorem weekday_bitmask (weekdays : String) :
    weekdaysToInt weekdays = weekdayMask weekdays ∧
    weekdayMask weekdays ≤ 127 ∧
    (∀ other : String, (∀ p ∈ weekdayWeights, occurs p.1 other ↔ occurs p.1 weekdays) →
      weekdaysToInt other = weekdaysToInt weekdays) ∧
    (∀ (W : World) (io : Nat) (v : KeypadVars) (w : KeypadWindows), v.timeLimited = 1 →
      parseWindows W io weekdays v = .ok w → w.allowedWeekdaysInt = weekdayMask weekdays) ∧
    (∀ (W : World) (j : TimeControlJson) (s : State) (entry : NewTimeControlEntry),
      j.weekdays = some weekdays →
      Event.addTimeControlEntry entry ∈ callsOf (onTimeControlCommandReceived W (some j)) s →
      entry.weekdays = weekdayMask weekdays) := by
  refine ⟨weekdaysToInt_eq weekdays, weekdayMask_le weekdays, fun other h => ?_,
    fun W io v w h1 h => ?_, fun W j s entry hj he => ?_⟩
  · rw [weekdaysToInt_eq, weekdaysToInt_eq, weekdayMask_congr weekdays other h]
  · rw [← weekdaysToInt_eq]
    exact parseWindows_weekdays W io weekdays v w h1 h
  · rcases onTimeControlCommandReceived_mask W j s.fresh _ he with h | h
    · exact absurd h (List.not_mem_nil _)
    · rw [← weekdaysToInt_eq, h entry rfl, hj]
      rfl

theorem weekday_bitmask_witness :
    weekdayMask "sun,mon,mon" = 65 ∧ weekdaysToInt "mon sun" = weekdaysToInt "sun,mon,mon" :=
  ⟨(weekday_bitmask "sun,mon,mon").1.symm.trans (by decide),
    (weekday_bitmask "sun,mon,mon").2.2.1 "mon sun" (by decide)⟩

/-! ## The authorisation log -/

theorem truncateTo_eq_take {α : Type} (m : Int) (h0 : 0 ≤ m) (h1 : m < 2147483648)
    (l : List α) : truncateTo m l = l.take m.toNat := by
  have hm : toSizeT m = m.toNat := by
    unfold toSizeT
    rw [Int.emod_eq_of_lt h0 (by omega)]
  unfold truncateTo
  rw [hm]
  split_ifs with h
  · rfl
  · rw [List.take_of_length_le (by omega)]

theorem sortBy_sorted {α : Type} (key : α → Nat) (l : List α) :
    (sortBy key l).Sorted (fun a b => key a ≤ key b) := by
  haveI : IsTotal α (fun a b => key a ≤ key b) := ⟨fun a b => Nat.le_total (key a) (key b)⟩
  haveI : IsTrans α (fun a b => key a ≤ key b) := ⟨fun a b c => Nat.le_trans⟩
  exact List.sorted_insertionSort _ l

theorem sortBy_perm {α : Type} (key : α → Nat) (l : List α) : (sortBy key l).Perm l :=
  List.perm_insertionSort _ l

/-- C29: with PIN status 1 and `authlogMaxEntries = m`, `0 ≤ m` (an `int`), phase 2
(`updateAuthData(true)`) makes no call when the list it would publish is empty, and
otherwise the one call `publishAuthorizationInfo(list, false)`, where the list has at
most `m` entries, is sorted by ascending index and is a permutation of the first `m`
entries handed over by the transport; every `publishAuthorizationInfo` of phase 1
(`updateAuthData(false)`) carries the flag true and a non-empty list. -/
theorem auth_log_publication (W : World) (s : State) (m : Int)
    (hpin : isPinValid s = true) (hm : s.prefs.authlog_max_entries = some m)
    (h0 : 0 ≤ m) (h1 : m < 2147483648) :
    (∃ published : List LogEntry,
      callsOf (updateAuthData W true) s =
        (if published = [] then [] else [.publishAuthorizationInfo published false]) ∧
      published.length ≤ m.toNat ∧
      published.Sorted (fun a b => a.index ≤ b.index) ∧
      published.Perm ((W.logEntries s.io).take m.toNat)) ∧
    (∀ (log : List LogEntry) (flag : Bool),
      Event.publishAuthorizationInfo log flag ∈ callsOf (updateAuthData W false) s →
        flag = true ∧ log ≠ []) := by
  have hpin1 : isPinValid s.fresh = true := hpin
  have hm1 : s.fresh.prefs.authlog_max_entries = some m := hm
  constructor
  · refine ⟨sortBy LogEntry.index ((W.logEntries s.io).take m.toNat), ?_, ?_,
      sortBy_sorted _ _, sortBy_perm _ _⟩
    · unfold callsOf updateAuthData
      simp only [hpin1, Bool.not_true, Bool.false_eq_true, if_false]
      have hp : (s.fresh.step).prefs.authlog_max_entries = some m := hm
      rw [hp, Option.getD_some, truncateTo_eq_take m h0 h1]
      have hio : s.fresh.io = s.io := rfl
      rw [hio]
      by_cases hl : (sortBy LogEntry.index ((W.logEntries s.io).take m.toNat)).length > 0
      · rw [if_pos hl, if_neg (by
          intro hn
          rw [hn] at hl
          exact Nat.lt_irrefl _ hl)]
        rfl
      · rw [if_neg hl, if_pos (List.length_eq_zero.mp (by omega))]
        rfl
    · rw [(sortBy_perm _ _).length_eq, List.length_take]
      exact Nat.min_le_left _ _
  · intro log flag he
    have hloop := retryLoop_within
      (P := fun e => ∀ l f, e = .publishAuthorizationInfo l f → f = true ∧ l ≠ []) W
      (.retrieveLogEntries (s.fresh.prefs.authlog_max_entries.getD W.MAX_AUTHLOG))
      (fun _ _ t => t) (fun _ _ _ => rfl) (fun l f h => by cases h) s.fresh
      (loopFuel s.fresh) .unset (s.fresh.set fun m => { m with retryCount := 0 })
      (Within.refl _ _)
    have hall : Within (fun e => ∀ l f, e = .publishAuthorizationInfo l f → f = true ∧ l ≠ [])
        s.fresh (updateAuthData W false s.fresh) := by
      unfold updateAuthData
      simp only [hpin1, Bool.not_true, Bool.not_false, Bool.false_eq_true, if_false, if_true]
      generalize retryLoop W
        (.retrieveLogEntries (s.fresh.prefs.authlog_max_entries.getD W.MAX_AUTHLOG))
        (fun _ _ t => t) (loopFuel s.fresh) .unset
        (s.fresh.set fun m => { m with retryCount := 0 }) = p at hloop
      obtain ⟨result, t⟩ := p
      simp only []
      split_ifs with c1 c2
      · refine Within.postpone W (Within.emitted (fun l f h => ?_) (Within.set _ hloop.step).step)
        cases h
        refine ⟨rfl, fun hn => ?_⟩
        rw [hn] at c2
        exact Nat.lt_irrefl _ c2
      · exact Within.postpone W (Within.set _ hloop.step).step
      · exact Within.postpone W hloop
    rcases hall _ he with h | h
    · exact absurd h (List.not_mem_nil _)
    · exact h log flag rfl

theorem auth_log_publication_witness :
    (∃ published : List LogEntry,
      callsOf (updateAuthData logOfThree true) logLimitedToTwo =
        (if published = [] then [] else [.publishAuthorizationInfo published false]) ∧
      published.length ≤ (2 : Int).toNat ∧
      published.Sorted (fun a b => a.index ≤ b.index) ∧
      published.Perm ((logOfThree.logEntries logLimitedToTwo.io).take (2 : Int).toNat)) ∧
    (∀ (log : List LogEntry) (flag : Bool),
      Event.publishAuthorizationInfo log flag ∈
        callsOf (updateAuthData logOfThree false) logLimitedToTwo →
        flag = true ∧ log ≠ []) :=
  auth_log_publication logOfThree logLimitedToTwo 2 rfl rfl (by decide) (by decide)

/-- The scenario of the witness: of the three transport entries with indices 9, 4, 6
the first two are published, in ascending order. -/
theorem auth_log_of_three :
    callsOf (updateAuthData logOfThree true) logLimitedToTwo =
      [.publishAuthorizationInfo [{ index := 4, authId := 2 }, { index := 9, authId := 1 }]
        false] := by
  decide

/-! ## The PIN status -/

theorem pinKept_refl (a : State) : PinKept a a := ⟨rfl, rfl, rfl, rfl⟩

theorem pinKept_trans {a b c : State} (h1 : PinKept a b) (h2 : PinKept b c) : PinKept a c :=
  ⟨h2.1.trans h1.1, h2.2.1.trans h1.2.1, h2.2.2.1.trans h1.2.2.1,
    silent_trans h1.2.2.2 h2.2.2.2⟩

theorem pinKept_step {a b : State} (h : PinKept a b) : PinKept a b.step := h

theorem pinKept_postpone {a b : State} (W : World) (h : PinKept a b) :
    PinKept a (postponeBleWatchdog W b) := h

theorem pinKept_ite {a x y : State} {c : Prop} [Decidable c] (hx : PinKept a x)
    (hy : PinKept a y) : PinKept a (if c then x else y) := by
  split_ifs
  · exact hx
  · exact hy

theorem pinKept_set {a b : State} (f : Vars → Vars)
    (hf : ∀ m, (f m).nrOfRetries = m.nrOfRetries) (h : PinKept a b) : PinKept a (b.set f) :=
  ⟨h.1, h.2.1, (hf _).trans h.2.2.1, h.2.2.2⟩

theorem pinKept_setPrefs {a b : State} (f : Preferences → Preferences)
    (hf : ∀ p, (f p).opener_pin_status = p.opener_pin_status) (h : PinKept a b) :
    PinKept a (b.setPrefs f) :=
  ⟨(hf _).trans h.1, h.2.1, h.2.2.1, h.2.2.2⟩

theorem pinKept_emitted {a b : State} {e : Event} (he : pinStatusWrite e = none)
    (h : PinKept a b) : PinKept a (emit e b) :=
  ⟨h.1, h.2.1, h.2.2.1, silent_emitted he h.2.2.2⟩

theorem retryLoop_pinKept (W : World) (cmd : Event) (store : Nat → CmdResult → State → State)
    (hstore : ∀ io r t, PinKept t (store io r t)) (hcmd : pinStatusWrite cmd = none)
    (a : State) :
    ∀ (fuel : Nat) (result : CmdResult) (s : State), PinKept a s →
      PinKept a (retryLoop W cmd store fuel result s).2 := by
  intro fuel
  induction fuel with
  | zero => intro result s h; exact h
  | succ n ih =>
    intro result s h
    have hs : PinKept a (store s.io (W.cmdResult s.io) (emit cmd s.step)) :=
      pinKept_trans (pinKept_emitted hcmd (pinKept_step h)) (hstore _ _ _)
    simp only [retryLoop]
    split_ifs with h1 h2
    · exact ih _ _ (pinKept_set _ (fun _ => rfl) hs)
    · exact hs
    · exact h

theorem readConfig_pinKept (W : World) {a s : State} (h : PinKept a s) :
    PinKept a (readConfig W s) := by
  unfold readConfig
  simp only []
  repeat' (first
    | with_reducible exact h
    | with_reducible apply pinKept_ite
    | with_reducible apply pinKept_postpone
    | with_reducible apply pinKept_set
    | with_reducible apply pinKept_setPrefs
    | with_reducible apply pinKept_step
    | with_reducible apply pinKept_emitted
    | with_reducible apply retryLoop_pinKept
    | (intro _ _ _; exact ⟨rfl, rfl, rfl, rfl⟩)
    | (intro _; rfl)
    | rfl)

theorem readAdvancedConfig_pinKept (W : World) {a s : State} (h : PinKept a s) :
    PinKept a (readAdvancedConfig W s) := by
  unfold readAdvancedConfig
  simp only []
  repeat' (first
    | with_reducible exact h
    | with_reducible apply pinKept_ite
    | with_reducible apply pinKept_postpone
    | with_reducible apply pinKept_set
    | with_reducible apply pinKept_setPrefs
    | with_reducible apply pinKept_step
    | with_reducible apply pinKept_emitted
    | with_reducible apply retryLoop_pinKept
    | (intro _ _ _; exact ⟨rfl, rfl, rfl, rfl⟩)
    | (intro _; rfl)
    | rfl)

theorem storeNukiId_pinKept {a s : State} (h : PinKept a s) : PinKept a (storeNukiId s) := by
  unfold storeNukiId
  repeat' (first
    | with_reducible exact h
    | with_reducible apply pinKept_ite
    | with_reducible apply pinKept_postpone
    | with_reducible apply pinKept_set
    | with_reducible apply pinKept_setPrefs
    | with_reducible apply pinKept_step
    | with_reducible apply pinKept_emitted
    | with_reducible apply retryLoop_pinKept
    | (intro _ _ _; exact ⟨rfl, rfl, rfl, rfl⟩)
    | (intro _; rfl)
    | rfl)

theorem updateTimeControl_pinKept (W : World) (retrieved : Bool) {a s : State}
    (h : PinKept a s) : PinKept a (updateTimeControl W retrieved s) := by
  unfold updateTimeControl
  simp only []
  repeat' (first
    | with_reducible exact h
    | with_reducible apply pinKept_ite
    | with_reducible apply pinKept_postpone
    | with_reducible apply pinKept_set
    | with_reducible apply pinKept_setPrefs
    | with_reducible apply pinKept_step
    | with_reducible apply pinKept_emitted
    | with_reducible apply retryLoop_pinKept
    | (intro _ _ _; exact ⟨rfl, rfl, rfl, rfl⟩)
    | (intro _; rfl)
    | rfl)

theorem matchedConfigEntry_pinKept (W : World) {a s : State} (h : PinKept a s) :
    PinKept a (matchedConfigEntry W s) := by
  unfold matchedConfigEntry
  simp only []
  repeat' (first
    | with_reducible exact h
    | with_reducible apply pinKept_ite
    | with_reducible apply updateTimeControl_pinKept
    | with_reducible apply pinKept_postpone
    | with_reducible apply pinKept_set
    | with_reducible apply pinKept_setPrefs
    | with_reducible apply pinKept_step
    | with_reducible apply pinKept_emitted
    | (intro _; rfl)
    | rfl)

theorem advancedConfigStep_pinKept (expectedConfig : Bool) {a s : State} (h : PinKept a s) :
    PinKept a (advancedConfigStep s expectedConfig).1 := by
  unfold advancedConfigStep
  split_ifs
  · exact pinKept_set _ (fun _ => rfl) (pinKept_emitted rfl h)
  · exact pinKept_set _ (fun _ => rfl) h
  · exact pinKept_set _ (fun _ => rfl) h

theorem configFetched_pinKept (W : World) (s : State) : PinKept s (configFetched W s) :=
  pinKept_set _ (fun _ => rfl)
    (readAdvancedConfig_pinKept W (readConfig_pinKept W (pinKept_refl s)))

theorem pinCheckEntry_pinKept (W : World) (s : State) : PinKept s (pinCheckEntry W s) :=
  matchedConfigEntry_pinKept W (storeNukiId_pinKept (configFetched_pinKept W s))

theorem updateConfig_pinKept (W : World) (s : State) :
    PinKept (basicConfigStep W (configFetched W s)).1 (updateConfig W s) := by
  have h := advancedConfigStep_pinKept (basicConfigStep W (configFetched W s)).2
    (pinKept_refl (basicConfigStep W (configFetched W s)).1)
  unfold updateConfig
  simp only []
  split_ifs
  · exact pinKept_set _ (fun _ => rfl) (pinKept_step h)
  · exact h

theorem verifyPinStatus_verdict (W : World) (t : State) :
    (verifyPinStatus W t).prefs.opener_pin_status.getD 4 = pinVerdict W t t.io ∧
    (verifyPinStatus W t).trace.filterMap pinStatusWrite =
      t.trace.filterMap pinStatusWrite ++
        (if t.prefs.opener_pin_status.getD 4 = pinVerdict W t t.io then []
          else [pinVerdict W t t.io]) := by
  have hset : ∀ (v : Int) (u : State), PinKept t u →
      ((if t.prefs.opener_pin_status.getD 4 ≠ v then
          emit (.putInt "opener_pin_status" v)
            (u.setPrefs fun p => { p with opener_pin_status := some v })
        else u).prefs.opener_pin_status.getD 4 = v ∧
      (if t.prefs.opener_pin_status.getD 4 ≠ v then
          emit (.putInt "opener_pin_status" v)
            (u.setPrefs fun p => { p with opener_pin_status := some v })
        else u).trace.filterMap pinStatusWrite =
        t.trace.filterMap pinStatusWrite ++
          (if t.prefs.opener_pin_status.getD 4 = v then [] else [v])) := by
    intro v u hu
    by_cases hv : t.prefs.opener_pin_status.getD 4 = v
    · rw [if_neg (not_not.mpr hv), if_pos hv, List.append_nil]
      exact ⟨by rw [hu.1]; exact hv, hu.2.2.2⟩
    · rw [if_pos hv, if_neg hv]
      refine ⟨rfl, ?_⟩
      rw [emit_trace, List.filterMap_append]
      have ht : (u.setPrefs fun p => { p with opener_pin_status := some v }).trace = u.trace :=
        rfl
      rw [ht, hu.2.2.2]
      rfl
  unfold verifyPinStatus pinVerdict
  simp only []
  by_cases hpin : isPinSet t = true
  · have hres := retryLoop_result W .verifySecurityPin (fun _ _ u => u)
      (fun _ _ _ => rfl) (fun _ _ _ => rfl) (fun _ _ _ => rfl) (loopFuel t) .unset
      (t.set fun m => { m with retryCount := 0 }) (fun h => CmdResult.noConfusion h)
      (by
        show (t.nrOfRetries + 1).toNat = (t.nrOfRetries + 1 - 0).toNat
        rw [Int.sub_zero])
    have hk := retryLoop_pinKept W .verifySecurityPin (fun _ _ u => u)
      (fun _ _ u => pinKept_refl u) rfl t (loopFuel t) .unset
      (t.set fun m => { m with retryCount := 0 })
      (pinKept_set _ (fun _ => rfl) (pinKept_refl t))
    have hio : (t.set fun m => { m with retryCount := 0 }).io = t.io := rfl
    rw [hio] at hres
    simp only [hpin, Bool.not_true, Bool.false_eq_true, if_false, if_true]
    generalize retryLoop W .verifySecurityPin (fun _ _ u => u) (loopFuel t) .unset
      (t.set fun m => { m with retryCount := 0 }) = p at hres hk
    obtain ⟨result, s1⟩ := p
    simp only []
    by_cases hr : result = .Success
    · rw [if_neg (not_not.mpr hr), if_pos (hres.mp hr)]
      exact hset 1 s1 hk
    · rw [if_pos hr, if_neg (fun h => hr (hres.mpr h))]
      exact hset 2 s1 hk
  · have hpin0 : isPinSet t = false := by simpa using hpin
    simp only [hpin0, Bool.not_false, Bool.false_eq_true, if_false, if_true]
    exact hset 0 t (pinKept_refl t)

theorem pinVerdict_congr (W : World) {a b : State} (h : PinKept a b) (io : Nat) :
    pinVerdict W b io = pinVerdict W a io := by
  have h1 : isPinSet b = isPinSet a := by
    unfold isPinSet
    rw [h.2.1]
  have h2 : loopFuel b = loopFuel a := by
    unfold loopFuel
    rw [h.2.2.1]
  unfold pinVerdict
  rw [h1, h2]

theorem pinVerdict_range (W : World) (s : State) (io : Nat) :
    pinVerdict W s io = 0 ∨ pinVerdict W s io = 1 ∨ pinVerdict W s io = 2 := by
  unfold pinVerdict
  split_ifs
  · exact Or.inl rfl
  · exact Or.inr (Or.inl rfl)
  · exact Or.inr (Or.inr rfl)

theorem updateConfig_pin (W : World) (s : State) :
    (configMatches W s →
      (updateConfig W s).prefs.opener_pin_status.getD 4 =
        pinVerdict W s (pinCheckEntry W s).io ∧
      (updateConfig W s).trace.filterMap pinStatusWrite =
        s.trace.filterMap pinStatusWrite ++
          (if s.prefs.opener_pin_status.getD 4 = pinVerdict W s (pinCheckEntry W s).io then []
            else [pinVerdict W s (pinCheckEntry W s).io])) ∧
    (¬ configMatches W s → PinKept s (updateConfig W s)) := by
  have htail := updateConfig_pinKept W s
  have hentry := pinCheckEntry_pinKept W s
  have hfetch := configFetched_pinKept W s
  constructor
  · intro hm
    have hb : (basicConfigStep W (configFetched W s)).1 =
        verifyPinStatus W (pinCheckEntry W s) := by
      unfold basicConfigStep
      rw [if_pos hm.1]
      simp only []
      rw [if_pos hm.2]
      rfl
    rw [hb] at htail
    obtain ⟨v1, v2⟩ := verifyPinStatus_verdict W (pinCheckEntry W s)
    rw [pinVerdict_congr W hentry, hentry.1, hentry.2.2.2] at v2
    rw [pinVerdict_congr W hentry] at v1
    refine ⟨?_, ?_⟩
    · rw [htail.1]
      exact v1
    · rw [htail.2.2.2]
      exact v2
  · intro hm
    refine pinKept_trans ?_ htail
    unfold basicConfigStep
    by_cases h1 : (configFetched W s).nukiConfigValid = true
    · rw [if_pos h1]
      simp only []
      rw [if_neg (fun h2 => hm ⟨h1, h2⟩)]
      exact pinKept_set _ (fun _ => rfl) (storeNukiId_pinKept hfetch)
    · rw [if_neg h1]
      exact pinKept_set _ (fun _ => rfl) hfetch

/-- C30: in a call of `updateConfig` whose basic config fetch succeeded and whose
`nukiId` is the persisted opener identifier (as line 457 reads it), the persisted PIN
status afterwards is 0 when no security PIN is stored, 1 when one of the at most
`nrOfRetries + 1` calls of `verifySecurityPin` succeeds and 2 otherwise, and the status
is written once when it differs from the status before the call and not at all when
it is the same; in every other call the persisted PIN status is what it was and is
not written; whatever `updateConfig` writes to the PIN status is 0, 1 or 2, never 4. -/
theorem pin_status_after_updateConfig (W : World) (s : State) :
    (configMatches W s →
      (updateConfig W s).prefs.opener_pin_status.getD 4 =
        pinVerdict W s (pinCheckEntry W s).io ∧
      (updateConfig W s).trace.filterMap pinStatusWrite =
        s.trace.filterMap pinStatusWrite ++
          (if s.prefs.opener_pin_status.getD 4 = pinVerdict W s (pinCheckEntry W s).io then []
            else [pinVerdict W s (pinCheckEntry W s).io])) ∧
    (¬ configMatches W s →
      (updateConfig W s).prefs.opener_pin_status = s.prefs.opener_pin_status ∧
      (updateConfig W s).trace.filterMap pinStatusWrite = s.trace.filterMap pinStatusWrite) ∧
    (∀ v ∈ (callsOf (updateConfig W) s).filterMap pinStatusWrite, v = 0 ∨ v = 1 ∨ v = 2) := by
  refine ⟨(updateConfig_pin W s).1, fun hm => ?_, fun v hv => ?_⟩
  · exact ⟨((updateConfig_pin W s).2 hm).1, ((updateConfig_pin W s).2 hm).2.2.2⟩
  · unfold callsOf at hv
    by_cases hm : configMatches W s.fresh
    · rw [((updateConfig_pin W s.fresh).1 hm).2] at hv
      have h0 : s.fresh.trace.filterMap pinStatusWrite = [] := rfl
      rw [h0, List.nil_append] at hv
      split_ifs at hv
      · exact absurd hv (List.not_mem_nil _)
      · rw [List.mem_singleton] at hv
        rw [hv]
        exact pinVerdict_range W _ _
    · rw [((updateConfig_pin W s.fresh).2 hm).2.2.2] at hv
      exact absurd hv (List.not_mem_nil _)

theorem pin_status_after_updateConfig_witness :
    configMatches configOfSeventySeven pinNeverChecked ∧
    pinVerdict configOfSeventySeven pinNeverChecked
      (pinCheckEntry configOfSeventySeven pinNeverChecked).io = 1 ∧
    (updateConfig configOfSeventySeven pinNeverChecked).prefs.opener_pin_status.getD 4 = 1 ∧
    (updateConfig configOfSeventySeven pinNeverChecked).trace.filterMap pinStatusWrite = [1] :=
  have hm : configMatches configOfSeventySeven pinNeverChecked := by decide
  have hv : pinVerdict configOfSeventySeven pinNeverChecked
      (pinCheckEntry configOfSeventySeven pinNeverChecked).io = 1 := by decide
  ⟨hm, hv,
    (((pin_status_after_updateConfig configOfSeventySeven pinNeverChecked).1 hm).1).trans hv,
    (((pin_status_after_updateConfig configOfSeventySeven pinNeverChecked).1 hm).2).trans
      (by rw [hv]; rfl)⟩

/-! ## Start-up -/

theorem clampNrOfRetries_frame {α : Type} (f : State → α)
    (hf : ∀ t : State, f (emit (.putInt "command_nr_of_retries" 3)
      ((t.set fun m => { m with nrOfRetries := 3 }).setPrefs
        fun p => { p with command_nr_of_retries := some 3 })) = f t) (s : State) :
    f (clampNrOfRetries s) = f s := by
  unfold clampNrOfRetries
  split_ifs
  · exact hf s
  · rfl

theorem clampRetryDelay_frame {α : Type} (f : State → α)
    (hf : ∀ t : State, f (emit (.putInt "command_retry_delay" 100)
      ((t.set fun m => { m with retryDelay := 100 }).setPrefs
        fun p => { p with command_retry_delay := 100 })) = f t) (s : State) :
    f (clampRetryDelay s) = f s := by
  unfold clampRetryDelay
  split_ifs
  · exact hf s
  · rfl

theorem defaultIntervalLockstate_frame {α : Type} (f : State → α)
    (hf : ∀ t : State, f (emit (.putInt "query_interval_lockstate" (60 * 30))
      ((t.set fun m => { m with intervalLockstate := 60 * 30 }).setPrefs
        fun p => { p with query_interval_lockstate := 60 * 30 })) = f t) (s : State) :
    f (defaultIntervalLockstate s) = f s := by
  unfold defaultIntervalLockstate
  split_ifs
  · exact hf s
  · rfl

theorem defaultIntervalConfig_frame {α : Type} (f : State → α)
    (hf : ∀ t : State, f (emit (.putInt "query_interval_configuration" (60 * 60))
      ((t.set fun m => { m with intervalConfig := 60 * 60 }).setPrefs
        fun p => { p with query_interval_configuration := 60 * 60 })) = f t) (s : State) :
    f (defaultIntervalConfig s) = f s := by
  unfold defaultIntervalConfig
  split_ifs
  · exact hf s
  · rfl

theorem defaultIntervalBattery_frame {α : Type} (f : State → α)
    (hf : ∀ t : State, f (emit (.putInt "query_interval_battery" (60 * 30))
      ((t.set fun m => { m with intervalBattery := 60 * 30 }).setPrefs
        fun p => { p with query_interval_battery := 60 * 30 })) = f t) (s : State) :
    f (defaultIntervalBattery s) = f s := by
  unfold defaultIntervalBattery
  split_ifs
  · exact hf s
  · rfl

theorem defaultIntervalKeypad_frame {α : Type} (f : State → α)
    (hf : ∀ t : State, f (emit (.putInt "query_interval_keypad" (60 * 30))
      ((t.set fun m => { m with intervalKeypad := 60 * 30 }).setPrefs
        fun p => { p with query_interval_keypad := 60 * 30 })) = f t) (s : State) :
    f (defaultIntervalKeypad s) = f s := by
  unfold defaultIntervalKeypad
  split_ifs
  · exact hf s
  · rfl

theorem clampRestartBeaconTimeout_frame {α : Type} (f : State → α)
    (hf : ∀ t : State, f (emit (.putInt "restart_ble_beacon_lost" (-1))
      ((t.set fun m => { m with restartBeaconTimeout := -1 }).setPrefs
        fun p => { p with restart_ble_beacon_lost := -1 })) = f t) (s : State) :
    f (clampRestartBeaconTimeout s) = f s := by
  unfold clampRestartBeaconTimeout
  split_ifs
  · exact hf s
  · rfl

theorem startUp_tail {α : Type} (f : State → α)
    (hf : ∀ t : State, f (t.set fun m => { m with clearAuthData := true }) = f t) (s : State) :
    f (startUp s) =
      f (clampRestartBeaconTimeout (defaultIntervalKeypad (defaultIntervalBattery
        (defaultIntervalConfig (defaultIntervalLockstate (clampRetryDelay (clampNrOfRetries
          (readPreferences s)))))))) := by
  unfold startUp
  simp only []
  split_ifs
  · exact hf _
  · rfl

theorem clampNrOfRetries_effect (s : State) :
    (clampNrOfRetries s).nrOfRetries = (if s.nrOfRetries < 0 ∨ s.nrOfRetries = 200 then 3 else
        s.nrOfRetries) ∧
    (clampNrOfRetries s).prefs.command_nr_of_retries = (if s.nrOfRetries < 0 ∨ s.nrOfRetries = 200
        then some 3 else s.prefs.command_nr_of_retries) ∧
    (clampNrOfRetries s).trace.filterMap (writtenTo "command_nr_of_retries") =
      s.trace.filterMap (writtenTo "command_nr_of_retries") ++ (if s.nrOfRetries < 0 ∨
          s.nrOfRetries = 200 then [3] else []) := by
  unfold clampNrOfRetries
  split_ifs with h
  · refine ⟨rfl, rfl, ?_⟩
    rw [emit_trace, List.filterMap_append]
    rfl
  · exact ⟨rfl, rfl, (List.append_nil _).symm⟩

theorem clampRetryDelay_effect (s : State) :
    (clampRetryDelay s).retryDelay = (if s.retryDelay ≤ 100 then 100 else s.retryDelay) ∧
    (clampRetryDelay s).prefs.command_retry_delay = (if s.retryDelay ≤ 100 then 100 else
        s.prefs.command_retry_delay) ∧
    (clampRetryDelay s).trace.filterMap (writtenTo "command_retry_delay") =
      s.trace.filterMap (writtenTo "command_retry_delay") ++ (if s.retryDelay ≤ 100 then [100] else
          []) := by
  unfold clampRetryDelay
  split_ifs with h
  · refine ⟨rfl, rfl, ?_⟩
    rw [emit_trace, List.filterMap_append]
    rfl
  · exact ⟨rfl, rfl, (List.append_nil _).symm⟩

theorem defaultIntervalLockstate_effect (s : State) :
    (defaultIntervalLockstate s).intervalLockstate = (if s.intervalLockstate = 0 then 60 * 30 else
        s.intervalLockstate) ∧
    (defaultIntervalLockstate s).prefs.query_interval_lockstate = (if s.intervalLockstate = 0 then
        60 * 30 else s.prefs.query_interval_lockstate) ∧
    (defaultIntervalLockstate s).trace.filterMap (writtenTo "query_interval_lockstate") =
      s.trace.filterMap (writtenTo "query_interval_lockstate") ++ (if s.intervalLockstate = 0 then
          [60 * 30] else []) := by
  unfold defaultIntervalLockstate
  split_ifs with h
  · refine ⟨rfl, rfl, ?_⟩
    rw [emit_trace, List.filterMap_append]
    rfl
  · exact ⟨rfl, rfl, (List.append_nil _).symm⟩

theorem defaultIntervalConfig_effect (s : State) :
    (defaultIntervalConfig s).intervalConfig = (if s.intervalConfig = 0 then 60 * 60 else
        s.intervalConfig) ∧
    (defaultIntervalConfig s).prefs.query_interval_configuration = (if s.intervalConfig = 0 then 60
        * 60 else s.prefs.query_interval_configuration) ∧
    (defaultIntervalConfig s).trace.filterMap (writtenTo "query_interval_configuration") =
      s.trace.filterMap (writtenTo "query_interval_configuration") ++ (if s.intervalConfig = 0 then
          [60 * 60] else []) := by
  unfold defaultIntervalConfig
  split_ifs with h
  · refine ⟨rfl, rfl, ?_⟩
    rw [emit_trace, List.filterMap_append]
    rfl
  · exact ⟨rfl, rfl, (List.append_nil _).symm⟩

theorem defaultIntervalBattery_effect (s : State) :
    (defaultIntervalBattery s).intervalBattery = (if s.intervalBattery = 0 then 60 * 30 else
        s.intervalBattery) ∧
    (defaultIntervalBattery s).prefs.query_interval_battery = (if s.intervalBattery = 0 then 60 *
        30 else s.prefs.query_interval_battery) ∧
    (defaultIntervalBattery s).trace.filterMap (writtenTo "query_interval_battery") =
      s.trace.filterMap (writtenTo "query_interval_battery") ++ (if s.intervalBattery = 0 then [60
          * 30] else []) := by
  unfold defaultIntervalBattery
  split_ifs with h
  · refine ⟨rfl, rfl, ?_⟩
    rw [emit_trace, List.filterMap_append]
    rfl
  · exact ⟨rfl, rfl, (List.append_nil _).symm⟩

theorem defaultIntervalKeypad_effect (s : State) :
    (defaultIntervalKeypad s).intervalKeypad = (if s.intervalKeypad = 0 then 60 * 30 else
        s.intervalKeypad) ∧
    (defaultIntervalKeypad s).prefs.query_interval_keypad = (if s.intervalKeypad = 0 then 60 * 30
        else s.prefs.query_interval_keypad) ∧
    (defaultIntervalKeypad s).trace.filterMap (writtenTo "query_interval_keypad") =
      s.trace.filterMap (writtenTo "query_interval_keypad") ++ (if s.intervalKeypad = 0 then [60 *
          30] else []) := by
  unfold defaultIntervalKeypad
  split_ifs with h
  · refine ⟨rfl, rfl, ?_⟩
    rw [emit_trace, List.filterMap_append]
    rfl
  · exact ⟨rfl, rfl, (List.append_nil _).symm⟩

theorem clampRestartBeaconTimeout_effect (s : State) :
    (clampRestartBeaconTimeout s).restartBeaconTimeout = (if s.restartBeaconTimeout < 10 then -1
        else s.restartBeaconTimeout) ∧
    (clampRestartBeaconTimeout s).prefs.restart_ble_beacon_lost = (if s.restartBeaconTimeout < 10
        then -1 else s.prefs.restart_ble_beacon_lost) ∧
    (clampRestartBeaconTimeout s).trace.filterMap (writtenTo "restart_ble_beacon_lost") =
      s.trace.filterMap (writtenTo "restart_ble_beacon_lost") ++ (if s.restartBeaconTimeout < 10
          then [-1] else []) := by
  unfold clampRestartBeaconTimeout
  split_ifs with h
  · refine ⟨rfl, rfl, ?_⟩
    rw [emit_trace, List.filterMap_append]
    rfl
  · exact ⟨rfl, rfl, (List.append_nil _).symm⟩

theorem startUp_nrOfRetries (s : State) :
    (startUp s).nrOfRetries = (if s.prefs.command_nr_of_retries.getD 200 < 0 ∨
        s.prefs.command_nr_of_retries.getD 200 = 200 then 3 else s.prefs.command_nr_of_retries.getD
        200) ∧
    (startUp s).prefs.command_nr_of_retries = (if s.prefs.command_nr_of_retries.getD 200 < 0 ∨
        s.prefs.command_nr_of_retries.getD 200 = 200 then some 3 else
        s.prefs.command_nr_of_retries) ∧
    (startUp s).trace.filterMap (writtenTo "command_nr_of_retries") =
      s.trace.filterMap (writtenTo "command_nr_of_retries") ++ (if
          s.prefs.command_nr_of_retries.getD 200 < 0 ∨ s.prefs.command_nr_of_retries.getD 200 = 200
          then [3] else []) := by
  have h1 : (readPreferences s).nrOfRetries = s.prefs.command_nr_of_retries.getD 200 :=
    rfl
  have h2 : (readPreferences s).prefs.command_nr_of_retries = s.prefs.command_nr_of_retries :=
    rfl
  have h3 : (readPreferences s).trace.filterMap (writtenTo "command_nr_of_retries") =
      s.trace.filterMap (writtenTo "command_nr_of_retries") :=
    rfl
  have he := clampNrOfRetries_effect (readPreferences s)
  rw [h1, h2, h3] at he
  exact ⟨(startUp_tail (fun t : State => t.nrOfRetries) (fun _ => rfl) s).trans
      ((clampRestartBeaconTimeout_frame (fun t : State => t.nrOfRetries) (fun _ => rfl) _).trans
      ((defaultIntervalKeypad_frame (fun t : State => t.nrOfRetries) (fun _ => rfl) _).trans
      ((defaultIntervalBattery_frame (fun t : State => t.nrOfRetries) (fun _ => rfl) _).trans
      ((defaultIntervalConfig_frame (fun t : State => t.nrOfRetries) (fun _ => rfl) _).trans
      ((defaultIntervalLockstate_frame (fun t : State => t.nrOfRetries) (fun _ => rfl) _).trans
      ((clampRetryDelay_frame (fun t : State => t.nrOfRetries) (fun _ => rfl) _).trans
      (he.1))))))),
    (startUp_tail (fun t : State => t.prefs.command_nr_of_retries) (fun _ => rfl) s).trans
      ((clampRestartBeaconTimeout_frame (fun t : State => t.prefs.command_nr_of_retries) (fun _ =>
          rfl) _).trans
      ((defaultIntervalKeypad_frame (fun t : State => t.prefs.command_nr_of_retries) (fun _ => rfl)
          _).trans
      ((defaultIntervalBattery_frame (fun t : State => t.prefs.command_nr_of_retries) (fun _ =>
          rfl) _).trans
      ((defaultIntervalConfig_frame (fun t : State => t.prefs.command_nr_of_retries) (fun _ => rfl)
          _).trans
      ((defaultIntervalLockstate_frame (fun t : State => t.prefs.command_nr_of_retries) (fun _ =>
          rfl) _).trans
      ((clampRetryDelay_frame (fun t : State => t.prefs.command_nr_of_retries) (fun _ => rfl)
          _).trans
      (he.2.1))))))),
    (startUp_tail (fun t : State => t.trace.filterMap (writtenTo "command_nr_of_retries")) (fun _
        => rfl) s).trans
      ((clampRestartBeaconTimeout_frame (fun t : State => t.trace.filterMap (writtenTo
          "command_nr_of_retries")) (fun t => silent_emitted (f := writtenTo
          "command_nr_of_retries") (a := t) rfl rfl) _).trans
      ((defaultIntervalKeypad_frame (fun t : State => t.trace.filterMap (writtenTo
          "command_nr_of_retries")) (fun t => silent_emitted (f := writtenTo
          "command_nr_of_retries") (a := t) rfl rfl) _).trans
      ((defaultIntervalBattery_frame (fun t : State => t.trace.filterMap (writtenTo
          "command_nr_of_retries")) (fun t => silent_emitted (f := writtenTo
          "command_nr_of_retries") (a := t) rfl rfl) _).trans
      ((defaultIntervalConfig_frame (fun t : State => t.trace.filterMap (writtenTo
          "command_nr_of_retries")) (fun t => silent_emitted (f := writtenTo
          "command_nr_of_retries") (a := t) rfl rfl) _).trans
      ((defaultIntervalLockstate_frame (fun t : State => t.trace.filterMap (writtenTo
          "command_nr_of_retries")) (fun t => silent_emitted (f := writtenTo
          "command_nr_of_retries") (a := t) rfl rfl) _).trans
      ((clampRetryDelay_frame (fun t : State => t.trace.filterMap (writtenTo
          "command_nr_of_retries")) (fun t => silent_emitted (f := writtenTo
          "command_nr_of_retries") (a := t) rfl rfl) _).trans
      (he.2.2)))))))⟩

theorem startUp_retryDelay (s : State) :
    (startUp s).retryDelay = (if s.prefs.command_retry_delay ≤ 100 then 100 else
        s.prefs.command_retry_delay) ∧
    (startUp s).prefs.command_retry_delay = (if s.prefs.command_retry_delay ≤ 100 then 100 else
        s.prefs.command_retry_delay) ∧
    (startUp s).trace.filterMap (writtenTo "command_retry_delay") =
      s.trace.filterMap (writtenTo "command_retry_delay") ++ (if s.prefs.command_retry_delay ≤ 100
          then [100] else []) := by
  have h1 : (clampNrOfRetries (readPreferences s)).retryDelay = s.prefs.command_retry_delay :=
    (clampNrOfRetries_frame (fun t : State => t.retryDelay) (fun _ => rfl) _).trans
      (rfl)
  have h2 : (clampNrOfRetries (readPreferences s)).prefs.command_retry_delay =
      s.prefs.command_retry_delay :=
    (clampNrOfRetries_frame (fun t : State => t.prefs.command_retry_delay) (fun _ => rfl) _).trans
      (rfl)
  have h3 : (clampNrOfRetries (readPreferences s)).trace.filterMap (writtenTo
      "command_retry_delay") = s.trace.filterMap (writtenTo "command_retry_delay") :=
    (clampNrOfRetries_frame (fun t : State => t.trace.filterMap (writtenTo "command_retry_delay"))
        (fun t => silent_emitted (f := writtenTo "command_retry_delay") (a := t) rfl rfl) _).trans
      (rfl)
  have he := clampRetryDelay_effect (clampNrOfRetries (readPreferences s))
  rw [h1, h2, h3] at he
  exact ⟨(startUp_tail (fun t : State => t.retryDelay) (fun _ => rfl) s).trans
      ((clampRestartBeaconTimeout_frame (fun t : State => t.retryDelay) (fun _ => rfl) _).trans
      ((defaultIntervalKeypad_frame (fun t : State => t.retryDelay) (fun _ => rfl) _).trans
      ((defaultIntervalBattery_frame (fun t : State => t.retryDelay) (fun _ => rfl) _).trans
      ((defaultIntervalConfig_frame (fun t : State => t.retryDelay) (fun _ => rfl) _).trans
      ((defaultIntervalLockstate_frame (fun t : State => t.retryDelay) (fun _ => rfl) _).trans
      (he.1)))))),
    (startUp_tail (fun t : State => t.prefs.command_retry_delay) (fun _ => rfl) s).trans
      ((clampRestartBeaconTimeout_frame (fun t : State => t.prefs.command_retry_delay) (fun _ =>
          rfl) _).trans
      ((defaultIntervalKeypad_frame (fun t : State => t.prefs.command_retry_delay) (fun _ => rfl)
          _).trans
      ((defaultIntervalBattery_frame (fun t : State => t.prefs.command_retry_delay) (fun _ => rfl)
          _).trans
      ((defaultIntervalConfig_frame (fun t : State => t.prefs.command_retry_delay) (fun _ => rfl)
          _).trans
      ((defaultIntervalLockstate_frame (fun t : State => t.prefs.command_retry_delay) (fun _ =>
          rfl) _).trans
      (he.2.1)))))),
    (startUp_tail (fun t : State => t.trace.filterMap (writtenTo "command_retry_delay")) (fun _ =>
        rfl) s).trans
      ((clampRestartBeaconTimeout_frame (fun t : State => t.trace.filterMap (writtenTo
          "command_retry_delay")) (fun t => silent_emitted (f := writtenTo "command_retry_delay")
          (a := t) rfl rfl) _).trans
      ((defaultIntervalKeypad_frame (fun t : State => t.trace.filterMap (writtenTo
          "command_retry_delay")) (fun t => silent_emitted (f := writtenTo "command_retry_delay")
          (a := t) rfl rfl) _).trans
      ((defaultIntervalBattery_frame (fun t : State => t.trace.filterMap (writtenTo
          "command_retry_delay")) (fun t => silent_emitted (f := writtenTo "command_retry_delay")
          (a := t) rfl rfl) _).trans
      ((defaultIntervalConfig_frame (fun t : State => t.trace.filterMap (writtenTo
          "command_retry_delay")) (fun t => silent_emitted (f := writtenTo "command_retry_delay")
          (a := t) rfl rfl) _).trans
      ((defaultIntervalLockstate_frame (fun t : State => t.trace.filterMap (writtenTo
          "command_retry_delay")) (fun t => silent_emitted (f := writtenTo "command_retry_delay")
          (a := t) rfl rfl) _).trans
      (he.2.2))))))⟩

theorem startUp_intervalLockstate (s : State) :
    (startUp s).intervalLockstate = (if s.prefs.query_interval_lockstate = 0 then 60 * 30 else
        s.prefs.query_interval_lockstate) ∧
    (startUp s).prefs.query_interval_lockstate = (if s.prefs.query_interval_lockstate = 0 then 60 *
        30 else s.prefs.query_interval_lockstate) ∧
    (startUp s).trace.filterMap (writtenTo "query_interval_lockstate") =
      s.trace.filterMap (writtenTo "query_interval_lockstate") ++ (if
          s.prefs.query_interval_lockstate = 0 then [60 * 30] else []) := by
  have h1 : (clampRetryDelay (clampNrOfRetries (readPreferences s))).intervalLockstate =
      s.prefs.query_interval_lockstate :=
    (clampRetryDelay_frame (fun t : State => t.intervalLockstate) (fun _ => rfl) _).trans
      ((clampNrOfRetries_frame (fun t : State => t.intervalLockstate) (fun _ => rfl) _).trans
      (rfl))
  have h2 : (clampRetryDelay (clampNrOfRetries (readPreferences s))).prefs.query_interval_lockstate
      = s.prefs.query_interval_lockstate :=
    (clampRetryDelay_frame (fun t : State => t.prefs.query_interval_lockstate) (fun _ => rfl)
        _).trans
      ((clampNrOfRetries_frame (fun t : State => t.prefs.query_interval_lockstate) (fun _ => rfl)
          _).trans
      (rfl))
  have h3 : (clampRetryDelay (clampNrOfRetries (readPreferences s))).trace.filterMap (writtenTo
      "query_interval_lockstate") = s.trace.filterMap (writtenTo "query_interval_lockstate") :=
    (clampRetryDelay_frame (fun t : State => t.trace.filterMap (writtenTo
        "query_interval_lockstate")) (fun t => silent_emitted (f := writtenTo
        "query_interval_lockstate") (a := t) rfl rfl) _).trans
      ((clampNrOfRetries_frame (fun t : State => t.trace.filterMap (writtenTo
          "query_interval_lockstate")) (fun t => silent_emitted (f := writtenTo
          "query_interval_lockstate") (a := t) rfl rfl) _).trans
      (rfl))
  have he := defaultIntervalLockstate_effect (clampRetryDelay (clampNrOfRetries (readPreferences
      s)))
  rw [h1, h2, h3] at he
  exact ⟨(startUp_tail (fun t : State => t.intervalLockstate) (fun _ => rfl) s).trans
      ((clampRestartBeaconTimeout_frame (fun t : State => t.intervalLockstate) (fun _ => rfl)
          _).trans
      ((defaultIntervalKeypad_frame (fun t : State => t.intervalLockstate) (fun _ => rfl) _).trans
      ((defaultIntervalBattery_frame (fun t : State => t.intervalLockstate) (fun _ => rfl) _).trans
      ((defaultIntervalConfig_frame (fun t : State => t.intervalLockstate) (fun _ => rfl) _).trans
      (he.1))))),
    (startUp_tail (fun t : State => t.prefs.query_interval_lockstate) (fun _ => rfl) s).trans
      ((clampRestartBeaconTimeout_frame (fun t : State => t.prefs.query_interval_lockstate) (fun _
          => rfl) _).trans
      ((defaultIntervalKeypad_frame (fun t : State => t.prefs.query_interval_lockstate) (fun _ =>
          rfl) _).trans
      ((defaultIntervalBattery_frame (fun t : State => t.prefs.query_interval_lockstate) (fun _ =>
          rfl) _).trans
      ((defaultIntervalConfig_frame (fun t : State => t.prefs.query_interval_lockstate) (fun _ =>
          rfl) _).trans
      (he.2.1))))),
    (startUp_tail (fun t : State => t.trace.filterMap (writtenTo "query_interval_lockstate")) (fun
        _ => rfl) s).trans
      ((clampRestartBeaconTimeout_frame (fun t : State => t.trace.filterMap (writtenTo
          "query_interval_lockstate")) (fun t => silent_emitted (f := writtenTo
          "query_interval_lockstate") (a := t) rfl rfl) _).trans
      ((defaultIntervalKeypad_frame (fun t : State => t.trace.filterMap (writtenTo
          "query_interval_lockstate")) (fun t => silent_emitted (f := writtenTo
          "query_interval_lockstate") (a := t) rfl rfl) _).trans
      ((defaultIntervalBattery_frame (fun t : State => t.trace.filterMap (writtenTo
          "query_interval_lockstate")) (fun t => silent_emitted (f := writtenTo
          "query_interval_lockstate") (a := t) rfl rfl) _).trans
      ((defaultIntervalConfig_frame (fun t : State => t.trace.filterMap (writtenTo
          "query_interval_lockstate")) (fun t => silent_emitted (f := writtenTo
          "query_interval_lockstate") (a := t) rfl rfl) _).trans
      (he.2.2)))))⟩

theorem startUp_intervalConfig (s : State) :
    (startUp s).intervalConfig = (if s.prefs.query_interval_configuration = 0 then 60 * 60 else
        s.prefs.query_interval_configuration) ∧
    (startUp s).prefs.query_interval_configuration = (if s.prefs.query_interval_configuration = 0
        then 60 * 60 else s.prefs.query_interval_configuration) ∧
    (startUp s).trace.filterMap (writtenTo "query_interval_configuration") =
      s.trace.filterMap (writtenTo "query_interval_configuration") ++ (if
          s.prefs.query_interval_configuration = 0 then [60 * 60] else []) := by
  have h1 : (defaultIntervalLockstate (clampRetryDelay (clampNrOfRetries (readPreferences
      s)))).intervalConfig = s.prefs.query_interval_configuration :=
    (defaultIntervalLockstate_frame (fun t : State => t.intervalConfig) (fun _ => rfl) _).trans
      ((clampRetryDelay_frame (fun t : State => t.intervalConfig) (fun _ => rfl) _).trans
      ((clampNrOfRetries_frame (fun t : State => t.intervalConfig) (fun _ => rfl) _).trans
      (rfl)))
  have h2 : (defaultIntervalLockstate (clampRetryDelay (clampNrOfRetries (readPreferences
      s)))).prefs.query_interval_configuration = s.prefs.query_interval_configuration :=
    (defaultIntervalLockstate_frame (fun t : State => t.prefs.query_interval_configuration) (fun _
        => rfl) _).trans
      ((clampRetryDelay_frame (fun t : State => t.prefs.query_interval_configuration) (fun _ =>
          rfl) _).trans
      ((clampNrOfRetries_frame (fun t : State => t.prefs.query_interval_configuration) (fun _ =>
          rfl) _).trans
      (rfl)))
  have h3 : (defaultIntervalLockstate (clampRetryDelay (clampNrOfRetries (readPreferences
      s)))).trace.filterMap (writtenTo "query_interval_configuration") = s.trace.filterMap
      (writtenTo "query_interval_configuration") :=
    (defaultIntervalLockstate_frame (fun t : State => t.trace.filterMap (writtenTo
        "query_interval_configuration")) (fun t => silent_emitted (f := writtenTo
        "query_interval_configuration") (a := t) rfl rfl) _).trans
      ((clampRetryDelay_frame (fun t : State => t.trace.filterMap (writtenTo
          "query_interval_configuration")) (fun t => silent_emitted (f := writtenTo
          "query_interval_configuration") (a := t) rfl rfl) _).trans
      ((clampNrOfRetries_frame (fun t : State => t.trace.filterMap (writtenTo
          "query_interval_configuration")) (fun t => silent_emitted (f := writtenTo
          "query_interval_configuration") (a := t) rfl rfl) _).trans
      (rfl)))
  have he := defaultIntervalConfig_effect (defaultIntervalLockstate (clampRetryDelay
      (clampNrOfRetries (readPreferences s))))
  rw [h1, h2, h3] at he
  exact ⟨(startUp_tail (fun t : State => t.intervalConfig) (fun _ => rfl) s).trans
      ((clampRestartBeaconTimeout_frame (fun t : State => t.intervalConfig) (fun _ => rfl) _).trans
      ((defaultIntervalKeypad_frame (fun t : State => t.intervalConfig) (fun _ => rfl) _).trans
      ((defaultIntervalBattery_frame (fun t : State => t.intervalConfig) (fun _ => rfl) _).trans
      (he.1)))),
    (startUp_tail (fun t : State => t.prefs.query_interval_configuration) (fun _ => rfl) s).trans
      ((clampRestartBeaconTimeout_frame (fun t : State => t.prefs.query_interval_configuration)
          (fun _ => rfl) _).trans
      ((defaultIntervalKeypad_frame (fun t : State => t.prefs.query_interval_configuration) (fun _
          => rfl) _).trans
      ((defaultIntervalBattery_frame (fun t : State => t.prefs.query_interval_configuration) (fun _
          => rfl) _).trans
      (he.2.1)))),
    (startUp_tail (fun t : State => t.trace.filterMap (writtenTo "query_interval_configuration"))
        (fun _ => rfl) s).trans
      ((clampRestartBeaconTimeout_frame (fun t : State => t.trace.filterMap (writtenTo
          "query_interval_configuration")) (fun t => silent_emitted (f := writtenTo
          "query_interval_configuration") (a := t) rfl rfl) _).trans
      ((defaultIntervalKeypad_frame (fun t : State => t.trace.filterMap (writtenTo
          "query_interval_configuration")) (fun t => silent_emitted (f := writtenTo
          "query_interval_configuration") (a := t) rfl rfl) _).trans
      ((defaultIntervalBattery_frame (fun t : State => t.trace.filterMap (writtenTo
          "query_interval_configuration")) (fun t => silent_emitted (f := writtenTo
          "query_interval_configuration") (a := t) rfl rfl) _).trans
      (he.2.2))))⟩

theorem startUp_intervalBattery (s : State) :
    (startUp s).intervalBattery = (if s.prefs.query_interval_battery = 0 then 60 * 30 else
        s.prefs.query_interval_battery) ∧
    (startUp s).prefs.query_interval_battery = (if s.prefs.query_interval_battery = 0 then 60 * 30
        else s.prefs.query_interval_battery) ∧
    (startUp s).trace.filterMap (writtenTo "query_interval_battery") =
      s.trace.filterMap (writtenTo "query_interval_battery") ++ (if s.prefs.query_interval_battery
          = 0 then [60 * 30] else []) := by
  have h1 : (defaultIntervalConfig (defaultIntervalLockstate (clampRetryDelay (clampNrOfRetries
      (readPreferences s))))).intervalBattery = s.prefs.query_interval_battery :=
    (defaultIntervalConfig_frame (fun t : State => t.intervalBattery) (fun _ => rfl) _).trans
      ((defaultIntervalLockstate_frame (fun t : State => t.intervalBattery) (fun _ => rfl) _).trans
      ((clampRetryDelay_frame (fun t : State => t.intervalBattery) (fun _ => rfl) _).trans
      ((clampNrOfRetries_frame (fun t : State => t.intervalBattery) (fun _ => rfl) _).trans
      (rfl))))
  have h2 : (defaultIntervalConfig (defaultIntervalLockstate (clampRetryDelay (clampNrOfRetries
      (readPreferences s))))).prefs.query_interval_battery = s.prefs.query_interval_battery :=
    (defaultIntervalConfig_frame (fun t : State => t.prefs.query_interval_battery) (fun _ => rfl)
        _).trans
      ((defaultIntervalLockstate_frame (fun t : State => t.prefs.query_interval_battery) (fun _ =>
          rfl) _).trans
      ((clampRetryDelay_frame (fun t : State => t.prefs.query_interval_battery) (fun _ => rfl)
          _).trans
      ((clampNrOfRetries_frame (fun t : State => t.prefs.query_interval_battery) (fun _ => rfl)
          _).trans
      (rfl))))
  have h3 : (defaultIntervalConfig (defaultIntervalLockstate (clampRetryDelay (clampNrOfRetries
      (readPreferences s))))).trace.filterMap (writtenTo "query_interval_battery") =
      s.trace.filterMap (writtenTo "query_interval_battery") :=
    (defaultIntervalConfig_frame (fun t : State => t.trace.filterMap (writtenTo
        "query_interval_battery")) (fun t => silent_emitted (f := writtenTo
        "query_interval_battery") (a := t) rfl rfl) _).trans
      ((defaultIntervalLockstate_frame (fun t : State => t.trace.filterMap (writtenTo
          "query_interval_battery")) (fun t => silent_emitted (f := writtenTo
          "query_interval_battery") (a := t) rfl rfl) _).trans
      ((clampRetryDelay_frame (fun t : State => t.trace.filterMap (writtenTo
          "query_interval_battery")) (fun t => silent_emitted (f := writtenTo
          "query_interval_battery") (a := t) rfl rfl) _).trans
      ((clampNrOfRetries_frame (fun t : State => t.trace.filterMap (writtenTo
          "query_interval_battery")) (fun t => silent_emitted (f := writtenTo
          "query_interval_battery") (a := t) rfl rfl) _).trans
      (rfl))))
  have he := defaultIntervalBattery_effect (defaultIntervalConfig (defaultIntervalLockstate
      (clampRetryDelay (clampNrOfRetries (readPreferences s)))))
  rw [h1, h2, h3] at he
  exact ⟨(startUp_tail (fun t : State => t.intervalBattery) (fun _ => rfl) s).trans
      ((clampRestartBeaconTimeout_frame (fun t : State => t.intervalBattery) (fun _ => rfl) _).trans
      ((defaultIntervalKeypad_frame (fun t : State => t.intervalBattery) (fun _ => rfl) _).trans
      (he.1))),
    (startUp_tail (fun t : State => t.prefs.query_interval_battery) (fun _ => rfl) s).trans
      ((clampRestartBeaconTimeout_frame (fun t : State => t.prefs.query_interval_battery) (fun _ =>
          rfl) _).trans
      ((defaultIntervalKeypad_frame (fun t : State => t.prefs.query_interval_battery) (fun _ =>
          rfl) _).trans
      (he.2.1))),
    (startUp_tail (fun t : State => t.trace.filterMap (writtenTo "query_interval_battery")) (fun _
        => rfl) s).trans
      ((clampRestartBeaconTimeout_frame (fun t : State => t.trace.filterMap (writtenTo
          "query_interval_battery")) (fun t => silent_emitted (f := writtenTo
          "query_interval_battery") (a := t) rfl rfl) _).trans
      ((defaultIntervalKeypad_frame (fun t : State => t.trace.filterMap (writtenTo
          "query_interval_battery")) (fun t => silent_emitted (f := writtenTo
          "query_interval_battery") (a := t) rfl rfl) _).trans
      (he.2.2)))⟩

theorem startUp_intervalKeypad (s : State) :
    (startUp s).intervalKeypad = (if s.prefs.query_interval_keypad = 0 then 60 * 30 else
        s.prefs.query_interval_keypad) ∧
    (startUp s).prefs.query_interval_keypad = (if s.prefs.query_interval_keypad = 0 then 60 * 30
        else s.prefs.query_interval_keypad) ∧
    (startUp s).trace.filterMap (writtenTo "query_interval_keypad") =
      s.trace.filterMap (writtenTo "query_interval_keypad") ++ (if s.prefs.query_interval_keypad =
          0 then [60 * 30] else []) := by
  have h1 : (defaultIntervalBattery (defaultIntervalConfig (defaultIntervalLockstate
      (clampRetryDelay (clampNrOfRetries (readPreferences s)))))).intervalKeypad =
      s.prefs.query_interval_keypad :=
    (defaultIntervalBattery_frame (fun t : State => t.intervalKeypad) (fun _ => rfl) _).trans
      ((defaultIntervalConfig_frame (fun t : State => t.intervalKeypad) (fun _ => rfl) _).trans
      ((defaultIntervalLockstate_frame (fun t : State => t.intervalKeypad) (fun _ => rfl) _).trans
      ((clampRetryDelay_frame (fun t : State => t.intervalKeypad) (fun _ => rfl) _).trans
      ((clampNrOfRetries_frame (fun t : State => t.intervalKeypad) (fun _ => rfl) _).trans
      (rfl)))))
  have h2 : (defaultIntervalBattery (defaultIntervalConfig (defaultIntervalLockstate
      (clampRetryDelay (clampNrOfRetries (readPreferences s)))))).prefs.query_interval_keypad =
      s.prefs.query_interval_keypad :=
    (defaultIntervalBattery_frame (fun t : State => t.prefs.query_interval_keypad) (fun _ => rfl)
        _).trans
      ((defaultIntervalConfig_frame (fun t : State => t.prefs.query_interval_keypad) (fun _ => rfl)
          _).trans
      ((defaultIntervalLockstate_frame (fun t : State => t.prefs.query_interval_keypad) (fun _ =>
          rfl) _).trans
      ((clampRetryDelay_frame (fun t : State => t.prefs.query_interval_keypad) (fun _ => rfl)
          _).trans
      ((clampNrOfRetries_frame (fun t : State => t.prefs.query_interval_keypad) (fun _ => rfl)
          _).trans
      (rfl)))))
  have h3 : (defaultIntervalBattery (defaultIntervalConfig (defaultIntervalLockstate
      (clampRetryDelay (clampNrOfRetries (readPreferences s)))))).trace.filterMap (writtenTo
      "query_interval_keypad") = s.trace.filterMap (writtenTo "query_interval_keypad") :=
    (defaultIntervalBattery_frame (fun t : State => t.trace.filterMap (writtenTo
        "query_interval_keypad")) (fun t => silent_emitted (f := writtenTo "query_interval_keypad")
        (a := t) rfl rfl) _).trans
      ((defaultIntervalConfig_frame (fun t : State => t.trace.filterMap (writtenTo
          "query_interval_keypad")) (fun t => silent_emitted (f := writtenTo
          "query_interval_keypad") (a := t) rfl rfl) _).trans
      ((defaultIntervalLockstate_frame (fun t : State => t.trace.filterMap (writtenTo
          "query_interval_keypad")) (fun t => silent_emitted (f := writtenTo
          "query_interval_keypad") (a := t) rfl rfl) _).trans
      ((clampRetryDelay_frame (fun t : State => t.trace.filterMap (writtenTo
          "query_interval_keypad")) (fun t => silent_emitted (f := writtenTo
          "query_interval_keypad") (a := t) rfl rfl) _).trans
      ((clampNrOfRetries_frame (fun t : State => t.trace.filterMap (writtenTo
          "query_interval_keypad")) (fun t => silent_emitted (f := writtenTo
          "query_interval_keypad") (a := t) rfl rfl) _).trans
      (rfl)))))
  have he := defaultIntervalKeypad_effect (defaultIntervalBattery (defaultIntervalConfig
      (defaultIntervalLockstate (clampRetryDelay (clampNrOfRetries (readPreferences s))))))
  rw [h1, h2, h3] at he
  exact ⟨(startUp_tail (fun t : State => t.intervalKeypad) (fun _ => rfl) s).trans
      ((clampRestartBeaconTimeout_frame (fun t : State => t.intervalKeypad) (fun _ => rfl) _).trans
      (he.1)),
    (startUp_tail (fun t : State => t.prefs.query_interval_keypad) (fun _ => rfl) s).trans
      ((clampRestartBeaconTimeout_frame (fun t : State => t.prefs.query_interval_keypad) (fun _ =>
          rfl) _).trans
      (he.2.1)),
    (startUp_tail (fun t : State => t.trace.filterMap (writtenTo "query_interval_keypad")) (fun _
        => rfl) s).trans
      ((clampRestartBeaconTimeout_frame (fun t : State => t.trace.filterMap (writtenTo
          "query_interval_keypad")) (fun t => silent_emitted (f := writtenTo
          "query_interval_keypad") (a := t) rfl rfl) _).trans
      (he.2.2))⟩

theorem startUp_restartBeaconTimeout (s : State) :
    (startUp s).restartBeaconTimeout = (if s.prefs.restart_ble_beacon_lost < 10 then -1 else
        s.prefs.restart_ble_beacon_lost) ∧
    (startUp s).prefs.restart_ble_beacon_lost = (if s.prefs.restart_ble_beacon_lost < 10 then -1
        else s.prefs.restart_ble_beacon_lost) ∧
    (startUp s).trace.filterMap (writtenTo "restart_ble_beacon_lost") =
      s.trace.filterMap (writtenTo "restart_ble_beacon_lost") ++ (if
          s.prefs.restart_ble_beacon_lost < 10 then [-1] else []) := by
  have h1 : (defaultIntervalKeypad (defaultIntervalBattery (defaultIntervalConfig
      (defaultIntervalLockstate (clampRetryDelay (clampNrOfRetries (readPreferences
      s))))))).restartBeaconTimeout = s.prefs.restart_ble_beacon_lost :=
    (defaultIntervalKeypad_frame (fun t : State => t.restartBeaconTimeout) (fun _ => rfl) _).trans
      ((defaultIntervalBattery_frame (fun t : State => t.restartBeaconTimeout) (fun _ => rfl)
          _).trans
      ((defaultIntervalConfig_frame (fun t : State => t.restartBeaconTimeout) (fun _ => rfl)
          _).trans
      ((defaultIntervalLockstate_frame (fun t : State => t.restartBeaconTimeout) (fun _ => rfl)
          _).trans
      ((clampRetryDelay_frame (fun t : State => t.restartBeaconTimeout) (fun _ => rfl) _).trans
      ((clampNrOfRetries_frame (fun t : State => t.restartBeaconTimeout) (fun _ => rfl) _).trans
      (rfl))))))
  have h2 : (defaultIntervalKeypad (defaultIntervalBattery (defaultIntervalConfig
      (defaultIntervalLockstate (clampRetryDelay (clampNrOfRetries (readPreferences
      s))))))).prefs.restart_ble_beacon_lost = s.prefs.restart_ble_beacon_lost :=
    (defaultIntervalKeypad_frame (fun t : State => t.prefs.restart_ble_beacon_lost) (fun _ => rfl)
        _).trans
      ((defaultIntervalBattery_frame (fun t : State => t.prefs.restart_ble_beacon_lost) (fun _ =>
          rfl) _).trans
      ((defaultIntervalConfig_frame (fun t : State => t.prefs.restart_ble_beacon_lost) (fun _ =>
          rfl) _).trans
      ((defaultIntervalLockstate_frame (fun t : State => t.prefs.restart_ble_beacon_lost) (fun _ =>
          rfl) _).trans
      ((clampRetryDelay_frame (fun t : State => t.prefs.restart_ble_beacon_lost) (fun _ => rfl)
          _).trans
      ((clampNrOfRetries_frame (fun t : State => t.prefs.restart_ble_beacon_lost) (fun _ => rfl)
          _).trans
      (rfl))))))
  have h3 : (defaultIntervalKeypad (defaultIntervalBattery (defaultIntervalConfig
      (defaultIntervalLockstate (clampRetryDelay (clampNrOfRetries (readPreferences
      s))))))).trace.filterMap (writtenTo "restart_ble_beacon_lost") = s.trace.filterMap (writtenTo
      "restart_ble_beacon_lost") :=
    (defaultIntervalKeypad_frame (fun t : State => t.trace.filterMap (writtenTo
        "restart_ble_beacon_lost")) (fun t => silent_emitted (f := writtenTo
        "restart_ble_beacon_lost") (a := t) rfl rfl) _).trans
      ((defaultIntervalBattery_frame (fun t : State => t.trace.filterMap (writtenTo
          "restart_ble_beacon_lost")) (fun t => silent_emitted (f := writtenTo
          "restart_ble_beacon_lost") (a := t) rfl rfl) _).trans
      ((defaultIntervalConfig_frame (fun t : State => t.trace.filterMap (writtenTo
          "restart_ble_beacon_lost")) (fun t => silent_emitted (f := writtenTo
          "restart_ble_beacon_lost") (a := t) rfl rfl) _).trans
      ((defaultIntervalLockstate_frame (fun t : State => t.trace.filterMap (writtenTo
          "restart_ble_beacon_lost")) (fun t => silent_emitted (f := writtenTo
          "restart_ble_beacon_lost") (a := t) rfl rfl) _).trans
      ((clampRetryDelay_frame (fun t : State => t.trace.filterMap (writtenTo
          "restart_ble_beacon_lost")) (fun t => silent_emitted (f := writtenTo
          "restart_ble_beacon_lost") (a := t) rfl rfl) _).trans
      ((clampNrOfRetries_frame (fun t : State => t.trace.filterMap (writtenTo
          "restart_ble_beacon_lost")) (fun t => silent_emitted (f := writtenTo
          "restart_ble_beacon_lost") (a := t) rfl rfl) _).trans
      (rfl))))))
  have he := clampRestartBeaconTimeout_effect (defaultIntervalKeypad (defaultIntervalBattery
      (defaultIntervalConfig (defaultIntervalLockstate (clampRetryDelay (clampNrOfRetries
      (readPreferences s)))))))
  rw [h1, h2, h3] at he
  exact ⟨(startUp_tail (fun t : State => t.restartBeaconTimeout) (fun _ => rfl) s).trans
      (he.1),
    (startUp_tail (fun t : State => t.prefs.restart_ble_beacon_lost) (fun _ => rfl) s).trans
      (he.2.1),
    (startUp_tail (fun t : State => t.trace.filterMap (writtenTo "restart_ble_beacon_lost")) (fun _
        => rfl) s).trans
      (he.2.2)⟩

/-- C26, as the code has it: after the start-up function the retry limit is 3, and 3
has been written back to the store, when the persisted value is negative, 200 or
absent; every other persisted value, those above 200 included, is the retry limit
and nothing is written.  The retry limit is then not negative and not 200. -/
theorem startup_retry_limit (s : State) (persisted : Option Int)
    (hp : s.prefs.command_nr_of_retries = persisted) :
    ((persisted.getD 200 < 0 ∨ persisted.getD 200 = 200) →
      (startUp s).nrOfRetries = 3 ∧ (startUp s).prefs.command_nr_of_retries = some 3 ∧
      (callsOf startUp s).filterMap (writtenTo "command_nr_of_retries") = [3]) ∧
    (¬ (persisted.getD 200 < 0 ∨ persisted.getD 200 = 200) →
      (startUp s).nrOfRetries = persisted.getD 200 ∧
      (startUp s).prefs.command_nr_of_retries = persisted ∧
      (callsOf startUp s).filterMap (writtenTo "command_nr_of_retries") = []) ∧
    0 ≤ (startUp s).nrOfRetries ∧ (startUp s).nrOfRetries ≠ 200 := by
  obtain ⟨h1, h2, -⟩ := startUp_nrOfRetries s
  have h3 : (callsOf startUp s).filterMap (writtenTo "command_nr_of_retries") =
      (if s.prefs.command_nr_of_retries.getD 200 < 0 ∨
          s.prefs.command_nr_of_retries.getD 200 = 200 then [3] else []) :=
    (startUp_nrOfRetries s.fresh).2.2
  rw [hp] at h1 h2 h3
  refine ⟨fun h => ?_, fun h => ?_, ?_, ?_⟩
  · rw [if_pos h] at h1 h2 h3
    exact ⟨h1, h2, h3⟩
  · rw [if_neg h] at h1 h2 h3
    exact ⟨h1, h2, h3⟩
  · rw [h1]
    split_ifs with h
    · decide
    · omega
  · rw [h1]
    split_ifs with h
    · decide
    · omega

theorem startup_retry_limit_witness :
    (startUp retriesNotPersisted).nrOfRetries = 3 ∧
    (startUp retriesNotPersisted).prefs.command_nr_of_retries = some 3 ∧
    (callsOf startUp retriesNotPersisted).filterMap (writtenTo "command_nr_of_retries") = [3] :=
  (startup_retry_limit retriesNotPersisted none rfl).1 (Or.inr rfl)

/-- A persisted retry limit of 250 stays the retry limit: it is above 199. -/
theorem startup_keeps_retry_limit_250 :
    (startUp retriesPersistedAs250).nrOfRetries = 250 ∧
    (callsOf startUp retriesPersistedAs250).filterMap (writtenTo "command_nr_of_retries") = [] := by
  decide

/-- C27: after the start-up function each of the four query intervals is its default
(lock state 1800, config 3600, battery 1800, keypad 1800) when it was persisted as 0,
and the default has been written back to the store; it is the persisted value when
that is not 0, and nothing is written; the retry delay is at least 100 and the beacon
timeout is -1 or at least 10. -/
theorem startup_intervals (s : State) :
    ((startUp s).intervalLockstate =
        (if s.prefs.query_interval_lockstate = 0 then 1800
          else s.prefs.query_interval_lockstate) ∧
      (startUp s).prefs.query_interval_lockstate = (startUp s).intervalLockstate ∧
      (callsOf startUp s).filterMap (writtenTo "query_interval_lockstate") =
        (if s.prefs.query_interval_lockstate = 0 then [1800] else [])) ∧
    ((startUp s).intervalConfig =
        (if s.prefs.query_interval_configuration = 0 then 3600
          else s.prefs.query_interval_configuration) ∧
      (startUp s).prefs.query_interval_configuration = (startUp s).intervalConfig ∧
      (callsOf startUp s).filterMap (writtenTo "query_interval_configuration") =
        (if s.prefs.query_interval_configuration = 0 then [3600] else [])) ∧
    ((startUp s).intervalBattery =
        (if s.prefs.query_interval_battery = 0 then 1800
          else s.prefs.query_interval_battery) ∧
      (startUp s).prefs.query_interval_battery = (startUp s).intervalBattery ∧
      (callsOf startUp s).filterMap (writtenTo "query_interval_battery") =
        (if s.prefs.query_interval_battery = 0 then [1800] else [])) ∧
    ((startUp s).intervalKeypad =
        (if s.prefs.query_interval_keypad = 0 then 1800
          else s.prefs.query_interval_keypad) ∧
      (startUp s).prefs.query_interval_keypad = (startUp s).intervalKeypad ∧
      (callsOf startUp s).filterMap (writtenTo "query_interval_keypad") =
        (if s.prefs.query_interval_keypad = 0 then [1800] else [])) ∧
    100 ≤ (startUp s).retryDelay ∧
    ((startUp s).restartBeaconTimeout = -1 ∨ 10 ≤ (startUp s).restartBeaconTimeout) := by
  refine ⟨⟨(startUp_intervalLockstate s).1, ?_, (startUp_intervalLockstate s.fresh).2.2⟩,
    ⟨(startUp_intervalConfig s).1, ?_, (startUp_intervalConfig s.fresh).2.2⟩,
    ⟨(startUp_intervalBattery s).1, ?_, (startUp_intervalBattery s.fresh).2.2⟩,
    ⟨(startUp_intervalKeypad s).1, ?_, (startUp_intervalKeypad s.fresh).2.2⟩, ?_, ?_⟩
  · rw [(startUp_intervalLockstate s).1, (startUp_intervalLockstate s).2.1]
  · rw [(startUp_intervalConfig s).1, (startUp_intervalConfig s).2.1]
  · rw [(startUp_intervalBattery s).1, (startUp_intervalBattery s).2.1]
  · rw [(startUp_intervalKeypad s).1, (startUp_intervalKeypad s).2.1]
  · rw [(startUp_retryDelay s).1]
    split_ifs with h
    · decide
    · omega
  · rw [(startUp_restartBeaconTimeout s).1]
    split_ifs with h
    · exact Or.inl rfl
    · exact Or.inr (by omega)

/-! ## The output pins -/

theorem gpioWrites_eq (cur : OpenerState) (pins : List PinEntry) :
    gpioWrites cur pins = expectedPinWrites cur pins := by
  induction pins with
  | nil => rfl
  | cons p ps ih =>
    unfold expectedPinWrites at ih ⊢
    rw [gpioWrites, List.filterMap_cons]
    cases hr : p.role <;> simp only [pinLevel, Option.map_some', Option.map_none', ih]

/-- C39: `updateGpioOutputs` makes, for the entries of the pin configuration in list
order, one write per entry whose role is OutputHighRtoActive, OutputHighCmActive or
OutputHighRtoOrCmActive, HIGH exactly when the lock state is RTOactive, the Nuki state
is ContinuousMode, or one of the two holds, and LOW otherwise; it makes no write for
an entry of any other role, no other call, and changes no variable of the wrapper. -/
theorem gpio_outputs (W : World) (s : State) :
    callsOf (updateGpioOutputs W) s =
      expectedPinWrites s.keyTurnerState W.pinConfiguration ∧
    (updateGpioOutputs W s).toVars = s.toVars := by
  refine ⟨?_, rfl⟩
  rw [← gpioWrites_eq]
  rfl

/-- The writes for a list with one entry of each role, in continuous mode. -/
theorem gpio_outputs_in_continuous_mode :
    callsOf (updateGpioOutputs fourPins) continuousMode =
      [.setPinOutput 4 false, .setPinOutput 6 true, .setPinOutput 7 true] := by
  decide

/-! ## The entry identifier of a time-control request -/

/-- C40: the time-control handler uses the low 8 bits of the requested `entryId`: the
request that carries `256 + k` leaves the wrapper in the same state, with the same
calls recorded (id-set lookup, BLE commands, published result), as the request that
carries `k` and is otherwise the same. -/
theorem time_control_entry_id_low_byte (W : World) (j : TimeControlJson) (k : Nat)
    (s : State) :
    onTimeControlCommandReceived W (some { j with entryId := 256 + k }) s =
      onTimeControlCommandReceived W (some { j with entryId := k }) s := by
  unfold onTimeControlCommandReceived
  simp only [Nat.add_mod_left]

/-- The two instances named in C40: a delete of entryId 256 is answered like a request
without entryId, and a delete of entryId 257 removes entry 1. -/
theorem time_control_entry_id_256_and_257 :
    callsOf (onTimeControlCommandReceived {} (some (deleteEntry 256))) timeControlReadyOne =
      [.publishTimeControlCommandResult "noExistingEntryIdSet"] ∧
    callsOf (onTimeControlCommandReceived {} (some (deleteEntry 0))) timeControlReadyOne =
      [.publishTimeControlCommandResult "noExistingEntryIdSet"] ∧
    callsOf (onTimeControlCommandReceived {} (some (deleteEntry 257))) timeControlReadyOne =
      [.removeTimeControlEntry 1, .publishTimeControlCommandResult "success"] := by
  decide

/-! ## Cached identifiers -/

theorem updateKeypad_published (W : World) (s : State) (m : Int)
    (hinfo : s.prefs.keypad_info_enabled = true)
    (hm : s.prefs.keypad_max_entries.getD W.MAX_KEYPAD = m) (h0 : 0 ≤ m)
    (h1 : m < 2147483648) :
    (updateKeypad W true s).trace =
      s.trace ++
        ((if ((sortBy KeypadEntry.codeId (W.keypadEntries s.io)).take m.toNat).length >
            s.maxKeypadCodeCount then
          [.putUInt "opener_max_keypad_code_count"
            ((sortBy KeypadEntry.codeId (W.keypadEntries s.io)).take m.toNat).length]
          else []) ++
        [.publishKeypad ((sortBy KeypadEntry.codeId (W.keypadEntries s.io)).take m.toNat)
          (max s.maxKeypadCodeCount
            ((sortBy KeypadEntry.codeId (W.keypadEntries s.io)).take m.toNat).length)]) ∧
    (updateKeypad W true s).keypadCodeIds =
      ((sortBy KeypadEntry.codeId (W.keypadEntries s.io)).take m.toNat).map KeypadEntry.codeId ∧
    (updateKeypad W true s).maxKeypadCodeCount =
      max s.maxKeypadCodeCount
        ((sortBy KeypadEntry.codeId (W.keypadEntries s.io)).take m.toNat).length ∧
    (updateKeypad W true s).prefs.opener_max_keypad_code_count =
      (if ((sortBy KeypadEntry.codeId (W.keypadEntries s.io)).take m.toNat).length >
          s.maxKeypadCodeCount then
        ((sortBy KeypadEntry.codeId (W.keypadEntries s.io)).take m.toNat).length
      else s.prefs.opener_max_keypad_code_count) := by
  have hm1 : s.step.prefs.keypad_max_entries.getD W.MAX_KEYPAD = m := hm
  unfold updateKeypad
  simp only [hinfo, Bool.not_true, Bool.false_eq_true, if_false]
  rw [hm1, truncateTo_eq_take m h0 h1]
  generalize (sortBy KeypadEntry.codeId (W.keypadEntries s.io)).take m.toNat = published
  by_cases hg : published.length > s.maxKeypadCodeCount
  · have hg1 : published.length > s.step.maxKeypadCodeCount := hg
    rw [if_pos hg1, if_pos hg, if_pos hg]
    refine ⟨?_, rfl, ?_, rfl⟩
    · simp only [postponeBleWatchdog_trace, State.set_trace, emit_trace, State.setPrefs_trace,
        State.step_trace, List.append_assoc]
      rw [Nat.max_eq_right (Nat.le_of_lt hg)]
      rfl
    · show published.length = _
      rw [Nat.max_eq_right (Nat.le_of_lt hg)]
  · have hg1 : ¬ published.length > s.step.maxKeypadCodeCount := hg
    rw [if_neg hg1, if_neg hg, if_neg hg]
    refine ⟨?_, rfl, ?_, rfl⟩
    · simp only [postponeBleWatchdog_trace, State.set_trace, emit_trace,
        State.step_trace, List.nil_append]
      rw [Nat.max_eq_left (by omega)]
      rfl
    · show s.maxKeypadCodeCount = _
      rw [Nat.max_eq_left (by omega)]

theorem updateTimeControl_published (W : World) (s : State) (m : Int)
    (hinfo : s.prefs.timecontrol_info_enabled = true)
    (hm : s.prefs.timecontrol_max_entries.getD W.MAX_TIMECONTROL = m) (h0 : 0 ≤ m)
    (h1 : m < 2147483648) :
    (updateTimeControl W true s).trace =
      s.trace ++
        ((if ((sortBy TimeControlEntry.entryId (W.timeControlEntries s.io)).take m.toNat).length >
            s.maxTimeControlEntryCount then
          [.putUInt "opener_max_timecontrol_entry_count"
            ((sortBy TimeControlEntry.entryId (W.timeControlEntries s.io)).take m.toNat).length]
          else []) ++
        [.publishTimeControl ((sortBy TimeControlEntry.entryId (W.timeControlEntries s.io)).take
            m.toNat)
          (max s.maxTimeControlEntryCount
            ((sortBy TimeControlEntry.entryId (W.timeControlEntries s.io)).take m.toNat).length)]) ∧
    (updateTimeControl W true s).timeControlIds =
      ((sortBy TimeControlEntry.entryId (W.timeControlEntries s.io)).take m.toNat).map
          TimeControlEntry.entryId ∧
    (updateTimeControl W true s).maxTimeControlEntryCount =
      max s.maxTimeControlEntryCount
        ((sortBy TimeControlEntry.entryId (W.timeControlEntries s.io)).take m.toNat).length ∧
    (updateTimeControl W true s).prefs.opener_max_timecontrol_entry_count =
      (if ((sortBy TimeControlEntry.entryId (W.timeControlEntries s.io)).take m.toNat).length >
          s.maxTimeControlEntryCount then
        ((sortBy TimeControlEntry.entryId (W.timeControlEntries s.io)).take m.toNat).length
      else s.prefs.opener_max_timecontrol_entry_count) := by
  have hm1 : s.step.prefs.timecontrol_max_entries.getD W.MAX_TIMECONTROL = m := hm
  unfold updateTimeControl
  simp only [hinfo, Bool.not_true, Bool.false_eq_true, if_false]
  rw [hm1, truncateTo_eq_take m h0 h1]
  generalize (sortBy TimeControlEntry.entryId (W.timeControlEntries s.io)).take m.toNat = published
  by_cases hg : published.length > s.maxTimeControlEntryCount
  · have hg1 : published.length > s.step.maxTimeControlEntryCount := hg
    rw [if_pos hg1, if_pos hg, if_pos hg]
    refine ⟨?_, rfl, ?_, rfl⟩
    · simp only [postponeBleWatchdog_trace, State.set_trace, emit_trace, State.setPrefs_trace,
        State.step_trace, List.append_assoc]
      rw [Nat.max_eq_right (Nat.le_of_lt hg)]
      rfl
    · show published.length = _
      rw [Nat.max_eq_right (Nat.le_of_lt hg)]
  · have hg1 : ¬ published.length > s.step.maxTimeControlEntryCount := hg
    rw [if_neg hg1, if_neg hg, if_neg hg]
    refine ⟨?_, rfl, ?_, rfl⟩
    · simp only [postponeBleWatchdog_trace, State.set_trace, emit_trace,
        State.step_trace, List.nil_append]
      rw [Nat.max_eq_left (by omega)]
      rfl
    · show s.maxTimeControlEntryCount = _
      rw [Nat.max_eq_left (by omega)]

/-- C38: after `updateKeypad(true)` with keypad info enabled and a configured maximum
`m`, `0 ≤ m` (an `int`), the list published is the transport's list sorted by
ascending `codeId` and cut to its first `m` entries; the cached `keypadCodeIds` are
the `codeId`s of the published entries, in that order; `maxKeypadCodeCount` is the
larger of its previous value and the number of published entries, and is written to
the store exactly when it grows.  `updateTimeControl(true)` does the same with
`entryId`, `timeControlIds` and `maxTimeControlEntryCount`. -/
theorem cached_ids_after_refresh (W : World) (s : State) (m : Int) (h0 : 0 ≤ m)
    (h1 : m < 2147483648) :
    (s.prefs.keypad_info_enabled = true →
      s.prefs.keypad_max_entries.getD W.MAX_KEYPAD = m →
      callsOf (updateKeypad W true) s =
        (if ((sortBy KeypadEntry.codeId (W.keypadEntries s.io)).take m.toNat).length >
            s.maxKeypadCodeCount then
          [.putUInt "opener_max_keypad_code_count"
            ((sortBy KeypadEntry.codeId (W.keypadEntries s.io)).take m.toNat).length]
          else []) ++
        [.publishKeypad ((sortBy KeypadEntry.codeId (W.keypadEntries s.io)).take m.toNat)
          (max s.maxKeypadCodeCount
            ((sortBy KeypadEntry.codeId (W.keypadEntries s.io)).take m.toNat).length)] ∧
      (updateKeypad W true s).keypadCodeIds =
        ((sortBy KeypadEntry.codeId (W.keypadEntries s.io)).take m.toNat).map
          KeypadEntry.codeId ∧
      (updateKeypad W true s).maxKeypadCodeCount =
        max s.maxKeypadCodeCount
          ((sortBy KeypadEntry.codeId (W.keypadEntries s.io)).take m.toNat).length ∧
      (updateKeypad W true s).prefs.opener_max_keypad_code_count =
        (if ((sortBy KeypadEntry.codeId (W.keypadEntries s.io)).take m.toNat).length >
            s.maxKeypadCodeCount then
          ((sortBy KeypadEntry.codeId (W.keypadEntries s.io)).take m.toNat).length
        else s.prefs.opener_max_keypad_code_count)) ∧
    (s.prefs.timecontrol_info_enabled = true →
      s.prefs.timecontrol_max_entries.getD W.MAX_TIMECONTROL = m →
      callsOf (updateTimeControl W true) s =
        (if ((sortBy TimeControlEntry.entryId (W.timeControlEntries s.io)).take
            m.toNat).length > s.maxTimeControlEntryCount then
          [.putUInt "opener_max_timecontrol_entry_count"
            ((sortBy TimeControlEntry.entryId (W.timeControlEntries s.io)).take
              m.toNat).length]
          else []) ++
        [.publishTimeControl
          ((sortBy TimeControlEntry.entryId (W.timeControlEntries s.io)).take m.toNat)
          (max s.maxTimeControlEntryCount
            ((sortBy TimeControlEntry.entryId (W.timeControlEntries s.io)).take
              m.toNat).length)] ∧
      (updateTimeControl W true s).timeControlIds =
        ((sortBy TimeControlEntry.entryId (W.timeControlEntries s.io)).take m.toNat).map
          TimeControlEntry.entryId ∧
      (updateTimeControl W true s).maxTimeControlEntryCount =
        max s.maxTimeControlEntryCount
          ((sortBy TimeControlEntry.entryId (W.timeControlEntries s.io)).take
            m.toNat).length ∧
      (updateTimeControl W true s).prefs.opener_max_timecontrol_entry_count =
        (if ((sortBy TimeControlEntry.entryId (W.timeControlEntries s.io)).take
            m.toNat).length > s.maxTimeControlEntryCount then
          ((sortBy TimeControlEntry.entryId (W.timeControlEntries s.io)).take m.toNat).length
        else s.prefs.opener_max_timecontrol_entry_count)) ∧
    (sortBy KeypadEntry.codeId (W.keypadEntries s.io)).Sorted
      (fun a b => a.codeId ≤ b.codeId) ∧
    (sortBy KeypadEntry.codeId (W.keypadEntries s.io)).Perm (W.keypadEntries s.io) ∧
    (sortBy TimeControlEntry.entryId (W.timeControlEntries s.io)).Sorted
      (fun a b => a.entryId ≤ b.entryId) ∧
    (sortBy TimeControlEntry.entryId (W.timeControlEntries s.io)).Perm
      (W.timeControlEntries s.io) := by
  refine ⟨fun hinfo hm => ?_, fun hinfo hm => ?_, sortBy_sorted _ _, sortBy_perm _ _,
    sortBy_sorted _ _, sortBy_perm _ _⟩
  · obtain ⟨-, k2, k3, k4⟩ := updateKeypad_published W s m hinfo hm h0 h1
    obtain ⟨k1, -, -, -⟩ := updateKeypad_published W s.fresh m hinfo hm h0 h1
    refine ⟨?_, k2, k3, k4⟩
    unfold callsOf
    rw [k1]
    rfl
  · obtain ⟨-, k2, k3, k4⟩ := updateTimeControl_published W s m hinfo hm h0 h1
    obtain ⟨k1, -, -, -⟩ := updateTimeControl_published W s.fresh m hinfo hm h0 h1
    refine ⟨?_, k2, k3, k4⟩
    unfold callsOf
    rw [k1]
    rfl

theorem cached_ids_after_refresh_witness :
    callsOf (updateKeypad listsOutOfOrder true) listsLimited =
      [.putUInt "opener_max_keypad_code_count" 2,
        .publishKeypad [{ codeId := 4 }, { codeId := 6 }] 2] ∧
    (updateKeypad listsOutOfOrder true listsLimited).keypadCodeIds = [4, 6] ∧
    (updateKeypad listsOutOfOrder true listsLimited).maxKeypadCodeCount = 2 :=
  have h := (cached_ids_after_refresh listsOutOfOrder listsLimited 2 (by decide)
    (by decide)).1 rfl rfl
  ⟨h.1.trans (by decide), h.2.1.trans (by decide), h.2.2.1.trans (by decide)⟩

/-- The time-control half of the scenario: both entries are published in ascending
order, the largest count seen stays 5 and nothing is written to the store. -/
theorem time_control_ids_after_refresh :
    callsOf (updateTimeControl listsOutOfOrder true) listsLimited =
      [.publishTimeControl [{ entryId := 1 }, { entryId := 3 }] 5] ∧
    (updateTimeControl listsOutOfOrder true listsLimited).timeControlIds = [1, 3] ∧
    (updateTimeControl listsOutOfOrder true listsLimited).maxTimeControlEntryCount = 5 := by
  decide

/-! ## Attempts of a command loop -/

theorem firstResults_zero (W : World) (io : Nat) : firstResults W io 0 = [] := rfl

theorem firstResults_succ (W : World) (io n : Nat) :
    firstResults W io (n + 1) = W.cmdResult io :: firstResults W (io + 1) n := by
  unfold firstResults
  rw [List.range_succ_eq_map, List.map_cons, List.map_map]
  congr 1
  apply List.map_congr_left
  intro i _
  show W.cmdResult (io + (i + 1)) = W.cmdResult (io + 1 + i)
  congr 1
  omega

theorem firstResults_length (W : World) (io n : Nat) : (firstResults W io n).length = n := by
  unfold firstResults
  rw [List.length_map, List.length_range]

theorem mem_firstResults (W : World) (io n : Nat) (r : CmdResult) :
    r ∈ firstResults W io n ↔ ∃ k, k < n ∧ W.cmdResult (io + k) = r := by
  unfold firstResults
  simp [List.mem_map, List.mem_range]

theorem attemptsMade_nil : attemptsMade [] = 0 := rfl

theorem attemptsMade_cons_success (rest : List CmdResult) :
    attemptsMade (.Success :: rest) = 1 := by
  unfold attemptsMade
  simp [List.indexOf_cons_self]

theorem attemptsMade_cons_failure (r : CmdResult) (rest : List CmdResult) (h : r ≠ .Success) :
    attemptsMade (r :: rest) = attemptsMade rest + 1 := by
  unfold attemptsMade
  have h1 : (CmdResult.Success ∈ r :: rest) ↔ CmdResult.Success ∈ rest := by
    rw [List.mem_cons]
    constructor
    · rintro (h2 | h2)
      · exact absurd h2.symm h
      · exact h2
    · exact Or.inr
  by_cases hm : CmdResult.Success ∈ rest
  · rw [if_pos hm, if_pos (h1.mpr hm), List.indexOf_cons_ne _ h]
  · rw [if_neg hm, if_neg (fun h2 => hm (h1.mp h2))]
    rfl

theorem attemptsMade_le (results : List CmdResult) : attemptsMade results ≤ results.length := by
  unfold attemptsMade
  split_ifs with h
  · exact List.indexOf_lt_length.mpr h
  · exact Nat.le_refl _

theorem attemptsMade_pos (results : List CmdResult) (h : results ≠ []) :
    0 < attemptsMade results := by
  unfold attemptsMade
  split_ifs
  · omega
  · exact List.length_pos.mpr h

theorem retryLoop_attempts (W : World) (cmd : Event)
    (store : Nat → CmdResult → State → State)
    (hio : ∀ io r t, (store io r t).io = t.io)
    (hrc : ∀ io r t, (store io r t).retryCount = t.retryCount)
    (hnr : ∀ io r t, (store io r t).nrOfRetries = t.nrOfRetries)
    (htr : ∀ io r t, (store io r t).trace = t.trace) :
    ∀ (fuel : Nat) (result : CmdResult) (s : State),
      fuel = (s.nrOfRetries + 1 - s.retryCount).toNat →
      (retryLoop W cmd store fuel result s).2.trace =
        s.trace ++ List.replicate (attemptsMade (firstResults W s.io fuel)) cmd ∧
      (retryLoop W cmd store fuel result s).2.io =
        s.io + attemptsMade (firstResults W s.io fuel) ∧
      (retryLoop W cmd store fuel result s).2.nrOfRetries = s.nrOfRetries ∧
      loopEnded (retryLoop W cmd store fuel result s) := by
  intro fuel
  induction fuel with
  | zero =>
    intro result s hfuel
    refine ⟨?_, ?_, rfl, Or.inr ?_⟩
    · simp [retryLoop, firstResults_zero, attemptsMade_nil]
    · simp [retryLoop, firstResults_zero, attemptsMade_nil]
    · show ¬ s.retryCount < s.nrOfRetries + 1
      omega
  | succ n ih =>
    intro result s hfuel
    have hguard : s.retryCount < s.nrOfRetries + 1 := by omega
    rw [firstResults_succ]
    simp only [retryLoop, hguard, if_true]
    split_ifs with h2
    · have hs1 : ((store s.io (W.cmdResult s.io) (emit cmd s.step)).set fun m =>
          { m with retryCount :=
            (store s.io (W.cmdResult s.io) (emit cmd s.step)).retryCount + 1 }).io =
          s.io + 1 := by
        show (store s.io (W.cmdResult s.io) (emit cmd s.step)).io = s.io + 1
        rw [hio]
        rfl
      have hs2 : ((store s.io (W.cmdResult s.io) (emit cmd s.step)).set fun m =>
          { m with retryCount :=
            (store s.io (W.cmdResult s.io) (emit cmd s.step)).retryCount + 1 }).trace =
          s.trace ++ [cmd] := by
        show (store s.io (W.cmdResult s.io) (emit cmd s.step)).trace = s.trace ++ [cmd]
        rw [htr]
        rfl
      have hs3 : ((store s.io (W.cmdResult s.io) (emit cmd s.step)).set fun m =>
          { m with retryCount :=
            (store s.io (W.cmdResult s.io) (emit cmd s.step)).retryCount + 1 }).nrOfRetries =
          s.nrOfRetries := by
        show (store s.io (W.cmdResult s.io) (emit cmd s.step)).nrOfRetries = s.nrOfRetries
        rw [hnr]
        rfl
      have hs4 : ((store s.io (W.cmdResult s.io) (emit cmd s.step)).set fun m =>
          { m with retryCount :=
            (store s.io (W.cmdResult s.io) (emit cmd s.step)).retryCount + 1 }).retryCount =
          s.retryCount + 1 := by
        show (store s.io (W.cmdResult s.io) (emit cmd s.step)).retryCount + 1 =
          s.retryCount + 1
        rw [hrc]
        rfl
      obtain ⟨i1, i2, i3, i4⟩ := ih (W.cmdResult s.io) _ (by rw [hs3, hs4]; omega)
      rw [hs1] at i1 i2
      rw [hs2] at i1
      rw [hs3] at i3
      rw [attemptsMade_cons_failure _ _ h2]
      refine ⟨?_, ?_, i3, i4⟩
      · rw [i1, List.replicate_succ, List.append_assoc]
        rfl
      · rw [i2]
        omega
    · have h3 : W.cmdResult s.io = .Success := by
        simpa using h2
      rw [h3, attemptsMade_cons_success]
      refine ⟨?_, ?_, ?_, Or.inl rfl⟩
      · show (store s.io .Success (emit cmd s.step)).trace = _
        rw [htr]
        rfl
      · show (store s.io .Success (emit cmd s.step)).io = _
        rw [hio]
        rfl
      · show (store s.io .Success (emit cmd s.step)).nrOfRetries = _
        rw [hnr]
        rfl

theorem retryLoop_fuel (W : World) (cmd : Event) (store : Nat → CmdResult → State → State)
    (hrc : ∀ io r t, (store io r t).retryCount = t.retryCount)
    (hnr : ∀ io r t, (store io r t).nrOfRetries = t.nrOfRetries) :
    ∀ (fuel : Nat) (result : CmdResult) (s : State),
      fuel = (s.nrOfRetries + 1 - s.retryCount).toNat → ∀ extra : Nat,
      retryLoop W cmd store (fuel + extra) result s = retryLoop W cmd store fuel result s := by
  intro fuel
  induction fuel with
  | zero =>
    intro result s hfuel extra
    have hguard : ¬ s.retryCount < s.nrOfRetries + 1 := by omega
    cases extra with
    | zero => rfl
    | succ e =>
      rw [Nat.zero_add]
      simp only [retryLoop, hguard, if_false]
  | succ n ih =>
    intro result s hfuel extra
    have hguard : s.retryCount < s.nrOfRetries + 1 := by omega
    rw [Nat.add_right_comm]
    simp only [retryLoop, hguard, if_true]
    split_ifs with h2
    · apply ih
      show n = ((store s.io (W.cmdResult s.io) (emit cmd s.step)).nrOfRetries + 1 -
        ((store s.io (W.cmdResult s.io) (emit cmd s.step)).retryCount + 1)).toNat
      rw [hnr, hrc]
      show n = (s.nrOfRetries + 1 - (s.retryCount + 1)).toNat
      omega
    · rfl

theorem requestsOf_append (cmd : Event) (l1 l2 : List Event) :
    requestsOf cmd (l1 ++ l2) = requestsOf cmd l1 ++ requestsOf cmd l2 :=
  List.filterMap_append _ _ _

theorem requestsOf_replicate (cmd : Event) (k : Nat) :
    requestsOf cmd (List.replicate k cmd) = List.replicate k cmd := by
  induction k with
  | zero => rfl
  | succ n ih =>
    rw [List.replicate_succ]
    show requestsOf cmd ([cmd] ++ List.replicate n cmd) = _
    rw [requestsOf_append, ih]
    simp [requestsOf, sameAs]

/-- The loop of a refresh function, entered with `_retryCount = 0`: what it records,
how many interactions it uses, that it ends by its own test, and that more fuel
changes nothing. -/
theorem refreshLoop_spec (W : World) (cmd : Event) (store : Nat → CmdResult → State → State)
    (hio : ∀ io r t, (store io r t).io = t.io)
    (hrc : ∀ io r t, (store io r t).retryCount = t.retryCount)
    (hnr : ∀ io r t, (store io r t).nrOfRetries = t.nrOfRetries)
    (htr : ∀ io r t, (store io r t).trace = t.trace) (s : State) :
    (retryLoop W cmd store (loopFuel s) .unset
        (s.set fun m => { m with retryCount := 0 })).2.trace =
      s.trace ++ List.replicate (attemptsMade (firstResults W s.io (loopFuel s))) cmd ∧
    (retryLoop W cmd store (loopFuel s) .unset
        (s.set fun m => { m with retryCount := 0 })).2.io =
      s.io + attemptsMade (firstResults W s.io (loopFuel s)) ∧
    (retryLoop W cmd store (loopFuel s) .unset
        (s.set fun m => { m with retryCount := 0 })).2.nrOfRetries = s.nrOfRetries ∧
    loopEnded (retryLoop W cmd store (loopFuel s) .unset
        (s.set fun m => { m with retryCount := 0 })) ∧
    ((retryLoop W cmd store (loopFuel s) .unset
        (s.set fun m => { m with retryCount := 0 })).1 = .Success ↔
      .Success ∈ firstResults W s.io (loopFuel s)) ∧
    ∀ extra : Nat,
      retryLoop W cmd store (loopFuel s + extra) .unset
          (s.set fun m => { m with retryCount := 0 }) =
        retryLoop W cmd store (loopFuel s) .unset
          (s.set fun m => { m with retryCount := 0 }) := by
  have hfuel : loopFuel s = ((s.set fun m => { m with retryCount := 0 }).nrOfRetries + 1 -
      (s.set fun m => { m with retryCount := 0 }).retryCount).toNat := by
    show (s.nrOfRetries + 1).toNat = (s.nrOfRetries + 1 - 0).toNat
    rw [Int.sub_zero]
  obtain ⟨a1, a2, a3, a4⟩ := retryLoop_attempts W cmd store hio hrc hnr htr (loopFuel s) .unset
    (s.set fun m => { m with retryCount := 0 }) hfuel
  refine ⟨a1, a2, a3, a4, ?_, retryLoop_fuel W cmd store hrc hnr (loopFuel s) .unset _ hfuel⟩
  rw [retryLoop_result W cmd store hio hrc hnr (loopFuel s) .unset _
    (fun h => CmdResult.noConfusion h) hfuel, mem_firstResults]
  rfl

/-! ## What the refresh functions leave off a channel -/

theorem silent_gpio {α : Type} {f : Event → Option α} {a b : State} (W : World)
    (hf : ∀ pin high, f (.setPinOutput pin high) = none) (h : Silent f a b) :
    Silent f a (updateGpioOutputs W b) := by
  have hw : ∀ pins : List PinEntry, (gpioWrites b.keyTurnerState pins).filterMap f = [] := by
    intro pins
    induction pins with
    | nil => rfl
    | cons p ps ih =>
      rw [gpioWrites]
      cases p.role <;> simp only [List.filterMap_cons, hf, ih]
  unfold Silent at h ⊢
  show (b.trace ++ gpioWrites b.keyTurnerState W.pinConfiguration).filterMap f = _
  rw [List.filterMap_append, hw, List.append_nil, h]

theorem updateAuthData_silentOn {α : Type} {f : Event → Option α}
    (h1 : ∀ count, f (.retrieveLogEntries count) = none)
    (h2 : ∀ log flag, f (.publishAuthorizationInfo log flag) = none)
    (W : World) (retrieved : Bool) {a s : State} (h : Silent f a s) :
    Silent f a (updateAuthData W retrieved s) := by
  unfold updateAuthData
  simp only []
  repeat' (first
    | with_reducible exact h
    | with_reducible apply silent_ite
    | with_reducible apply silent_postpone
    | with_reducible apply silent_set
    | with_reducible apply silent_setPrefs
    | with_reducible apply silent_step
    | with_reducible apply silent_emitted
    | with_reducible apply retryLoop_silent
    | (intro _ _ _; rfl)
    | exact h1 _
    | exact h2 _ _)

theorem ringStep_silentOn {α : Type} {f : Event → Option α}
    (h1 : ∀ locked, f (.publishRing locked) = none)
    (h2 : ∀ cur prev, f (.publishKeyTurnerState cur prev) = none)
    (h3 : ∀ pin high, f (.setPinOutput pin high) = none)
    (W : World) {a s : State} (h : Silent f a s) : Silent f a (ringStep W s) := by
  unfold ringStep
  simp only []
  repeat' (first
    | with_reducible exact h
    | with_reducible apply silent_ite
    | with_reducible apply silent_gpio
    | with_reducible apply silent_emitted
    | exact h1 _
    | exact h2 _ _
    | exact h3)

/-! ## The requests of the eight refresh loops -/

theorem updateKeyTurnerState_requests (W : World) (s : State) :
    requestsOf .requestOpenerState (updateKeyTurnerState W s).trace =
      requestsOf .requestOpenerState s.trace ++
        List.replicate (attemptsMade (firstResults W s.io (loopFuel s))) .requestOpenerState := by
  obtain ⟨a1, -⟩ := refreshLoop_spec W .requestOpenerState
    (fun io _ t => t.set fun m => { m with keyTurnerState := W.openerState io })
    (fun _ _ _ => rfl) (fun _ _ _ => rfl) (fun _ _ _ => rfl) (fun _ _ _ => rfl) s
  have hs : Silent (sameAs .requestOpenerState)
      (retryLoop W .requestOpenerState
        (fun io _ t => t.set fun m => { m with keyTurnerState := W.openerState io })
        (loopFuel s) .unset (s.set fun m => { m with retryCount := 0 })).2
      (updateKeyTurnerState W s) := by
    have h := silent_refl (sameAs .requestOpenerState)
      (retryLoop W .requestOpenerState
        (fun io _ t => t.set fun m => { m with keyTurnerState := W.openerState io })
        (loopFuel s) .unset (s.set fun m => { m with retryCount := 0 })).2
    unfold updateKeyTurnerState
    simp only []
    repeat' (first
      | with_reducible exact h
      | with_reducible apply silent_ite
      | with_reducible apply silent_postpone
      | with_reducible apply updateAuthData_silentOn
      | with_reducible apply ringStep_silentOn
      | with_reducible apply silent_set
      | with_reducible apply silent_step
      | with_reducible apply silent_emitted
      | (intro _; rfl)
      | (intro _ _; rfl)
      | rfl)
  unfold requestsOf
  rw [hs, a1, List.filterMap_append]
  exact congrArg _ (requestsOf_replicate _ _)

theorem updateBatteryState_requests (W : World) (s : State) :
    requestsOf (.requestBatteryReport)
        (updateBatteryState W s).trace =
      requestsOf (.requestBatteryReport) s.trace ++
        List.replicate (attemptsMade (firstResults W s.io (loopFuel s)))
          (.requestBatteryReport) := by
  obtain ⟨a1, -⟩ := refreshLoop_spec W (.requestBatteryReport)
    (fun io _ t => (t.set fun m => { m with batteryReport := W.batteryReport io }))
    (fun _ _ _ => rfl) (fun _ _ _ => rfl) (fun _ _ _ => rfl) (fun _ _ _ => rfl) s
  have hs : Silent (sameAs (.requestBatteryReport))
      (retryLoop W (.requestBatteryReport)
        (fun io _ t => (t.set fun m => { m with batteryReport := W.batteryReport io }))
        (loopFuel s) .unset (s.set fun m => { m with retryCount := 0 })).2
      (updateBatteryState W s) := by
    have h := silent_refl (sameAs (.requestBatteryReport))
      (retryLoop W (.requestBatteryReport)
        (fun io _ t => (t.set fun m => { m with batteryReport := W.batteryReport io }))
        (loopFuel s) .unset (s.set fun m => { m with retryCount := 0 })).2
    unfold updateBatteryState
    simp only [Bool.not_true, Bool.not_false, Bool.false_eq_true, if_false, if_true]
    repeat' (first
      | with_reducible exact h
      | with_reducible apply silent_ite
      | with_reducible apply silent_postpone
      | with_reducible apply silent_set
      | with_reducible apply silent_setPrefs
      | with_reducible apply silent_step
      | with_reducible apply silent_emitted
      | (intro _; rfl)
      | (intro _ _; rfl)
      | rfl)
  unfold requestsOf
  rw [hs, a1, List.filterMap_append]
  exact congrArg _ (requestsOf_replicate _ _)

theorem readConfig_requests (W : World) (s : State) :
    requestsOf (.requestConfig)
        (readConfig W s).trace =
      requestsOf (.requestConfig) s.trace ++
        List.replicate (attemptsMade (firstResults W s.io (loopFuel s)))
          (.requestConfig) := by
  obtain ⟨a1, -⟩ := refreshLoop_spec W (.requestConfig)
    (fun io r t => (t.set fun m =>
      { m with nukiConfig := W.config io, nukiConfigValid := decide (r = .Success) }))
    (fun _ _ _ => rfl) (fun _ _ _ => rfl) (fun _ _ _ => rfl) (fun _ _ _ => rfl) s
  have hs : Silent (sameAs (.requestConfig))
      (retryLoop W (.requestConfig)
        (fun io r t => (t.set fun m =>
      { m with nukiConfig := W.config io, nukiConfigValid := decide (r = .Success) }))
        (loopFuel s) .unset (s.set fun m => { m with retryCount := 0 })).2
      (readConfig W s) := by
    have h := silent_refl (sameAs (.requestConfig))
      (retryLoop W (.requestConfig)
        (fun io r t => (t.set fun m =>
      { m with nukiConfig := W.config io, nukiConfigValid := decide (r = .Success) }))
        (loopFuel s) .unset (s.set fun m => { m with retryCount := 0 })).2
    unfold readConfig
    simp only [Bool.not_true, Bool.not_false, Bool.false_eq_true, if_false, if_true]
    repeat' (first
      | with_reducible exact h
      | with_reducible apply silent_ite
      | with_reducible apply silent_postpone
      | with_reducible apply silent_set
      | with_reducible apply silent_setPrefs
      | with_reducible apply silent_step
      | with_reducible apply silent_emitted
      | (intro _; rfl)
      | (intro _ _; rfl)
      | rfl)
  unfold requestsOf
  rw [hs, a1, List.filterMap_append]
  exact congrArg _ (requestsOf_replicate _ _)

theorem readAdvancedConfig_requests (W : World) (s : State) :
    requestsOf (.requestAdvancedConfig)
        (readAdvancedConfig W s).trace =
      requestsOf (.requestAdvancedConfig) s.trace ++
        List.replicate (attemptsMade (firstResults W s.io (loopFuel s)))
          (.requestAdvancedConfig) := by
  obtain ⟨a1, -⟩ := refreshLoop_spec W (.requestAdvancedConfig)
    (fun io r t => t.set fun m => { m with
      nukiAdvancedConfig := W.advancedConfig io
      nukiAdvancedConfigValid := decide (r = .Success) })
    (fun _ _ _ => rfl) (fun _ _ _ => rfl) (fun _ _ _ => rfl) (fun _ _ _ => rfl) s
  have hs : Silent (sameAs (.requestAdvancedConfig))
      (retryLoop W (.requestAdvancedConfig)
        (fun io r t => t.set fun m => { m with
      nukiAdvancedConfig := W.advancedConfig io
      nukiAdvancedConfigValid := decide (r = .Success) })
        (loopFuel s) .unset (s.set fun m => { m with retryCount := 0 })).2
      (readAdvancedConfig W s) := by
    have h := silent_refl (sameAs (.requestAdvancedConfig))
      (retryLoop W (.requestAdvancedConfig)
        (fun io r t => t.set fun m => { m with
      nukiAdvancedConfig := W.advancedConfig io
      nukiAdvancedConfigValid := decide (r = .Success) })
        (loopFuel s) .unset (s.set fun m => { m with retryCount := 0 })).2
    unfold readAdvancedConfig
    simp only [Bool.not_true, Bool.not_false, Bool.false_eq_true, if_false, if_true]
    repeat' (first
      | with_reducible exact h
      | with_reducible apply silent_ite
      | with_reducible apply silent_postpone
      | with_reducible apply silent_set
      | with_reducible apply silent_setPrefs
      | with_reducible apply silent_step
      | with_reducible apply silent_emitted
      | (intro _; rfl)
      | (intro _ _; rfl)
      | rfl)
  unfold requestsOf
  rw [hs, a1, List.filterMap_append]
  exact congrArg _ (requestsOf_replicate _ _)

theorem verifyPinStatus_requests (W : World) (s : State) (hg : isPinSet s = true) :
    requestsOf (.verifySecurityPin)
        (verifyPinStatus W s).trace =
      requestsOf (.verifySecurityPin) s.trace ++
        List.replicate (attemptsMade (firstResults W s.io (loopFuel s)))
          (.verifySecurityPin) := by
  obtain ⟨a1, -⟩ := refreshLoop_spec W (.verifySecurityPin)
    (fun _ _ t => t)
    (fun _ _ _ => rfl) (fun _ _ _ => rfl) (fun _ _ _ => rfl) (fun _ _ _ => rfl) s
  have hs : Silent (sameAs (.verifySecurityPin))
      (retryLoop W (.verifySecurityPin)
        (fun _ _ t => t)
        (loopFuel s) .unset (s.set fun m => { m with retryCount := 0 })).2
      (verifyPinStatus W s) := by
    have h := silent_refl (sameAs (.verifySecurityPin))
      (retryLoop W (.verifySecurityPin)
        (fun _ _ t => t)
        (loopFuel s) .unset (s.set fun m => { m with retryCount := 0 })).2
    unfold verifyPinStatus
    simp only [hg, Bool.not_true, Bool.not_false, Bool.false_eq_true, if_false, if_true]
    repeat' (first
      | with_reducible exact h
      | with_reducible apply silent_ite
      | with_reducible apply silent_postpone
      | with_reducible apply silent_set
      | with_reducible apply silent_setPrefs
      | with_reducible apply silent_step
      | with_reducible apply silent_emitted
      | (intro _; rfl)
      | (intro _ _; rfl)
      | rfl)
  unfold requestsOf
  rw [hs, a1, List.filterMap_append]
  exact congrArg _ (requestsOf_replicate _ _)

theorem updateAuthData_requests (W : World) (s : State) (hg : isPinValid s = true) :
    requestsOf (.retrieveLogEntries (s.prefs.authlog_max_entries.getD W.MAX_AUTHLOG))
        (updateAuthData W false s).trace =
      requestsOf (.retrieveLogEntries (s.prefs.authlog_max_entries.getD W.MAX_AUTHLOG)) s.trace ++
        List.replicate (attemptsMade (firstResults W s.io (loopFuel s)))
          (.retrieveLogEntries (s.prefs.authlog_max_entries.getD W.MAX_AUTHLOG)) := by
  obtain ⟨a1, -⟩ := refreshLoop_spec W (.retrieveLogEntries (s.prefs.authlog_max_entries.getD
      W.MAX_AUTHLOG))
    (fun _ _ t => t)
    (fun _ _ _ => rfl) (fun _ _ _ => rfl) (fun _ _ _ => rfl) (fun _ _ _ => rfl) s
  have hs : Silent (sameAs (.retrieveLogEntries (s.prefs.authlog_max_entries.getD W.MAX_AUTHLOG)))
      (retryLoop W (.retrieveLogEntries (s.prefs.authlog_max_entries.getD W.MAX_AUTHLOG))
        (fun _ _ t => t)
        (loopFuel s) .unset (s.set fun m => { m with retryCount := 0 })).2
      (updateAuthData W false s) := by
    have h := silent_refl (sameAs (.retrieveLogEntries (s.prefs.authlog_max_entries.getD
        W.MAX_AUTHLOG)))
      (retryLoop W (.retrieveLogEntries (s.prefs.authlog_max_entries.getD W.MAX_AUTHLOG))
        (fun _ _ t => t)
        (loopFuel s) .unset (s.set fun m => { m with retryCount := 0 })).2
    unfold updateAuthData
    simp only [hg, Bool.not_true, Bool.not_false, Bool.false_eq_true, if_false, if_true]
    repeat' (first
      | with_reducible exact h
      | with_reducible apply silent_ite
      | with_reducible apply silent_postpone
      | with_reducible apply silent_set
      | with_reducible apply silent_setPrefs
      | with_reducible apply silent_step
      | with_reducible apply silent_emitted
      | (intro _; rfl)
      | (intro _ _; rfl)
      | rfl)
  unfold requestsOf
  rw [hs, a1, List.filterMap_append]
  exact congrArg _ (requestsOf_replicate _ _)

theorem updateKeypad_requests (W : World) (s : State) (hg : s.prefs.keypad_info_enabled = true) :
    requestsOf (.retrieveKeypadEntries (s.prefs.keypad_max_entries.getD W.MAX_KEYPAD))
        (updateKeypad W false s).trace =
      requestsOf (.retrieveKeypadEntries (s.prefs.keypad_max_entries.getD W.MAX_KEYPAD)) s.trace ++
        List.replicate (attemptsMade (firstResults W s.io (loopFuel s)))
          (.retrieveKeypadEntries (s.prefs.keypad_max_entries.getD W.MAX_KEYPAD)) := by
  obtain ⟨a1, -⟩ := refreshLoop_spec W (.retrieveKeypadEntries (s.prefs.keypad_max_entries.getD
      W.MAX_KEYPAD))
    (fun _ _ t => t)
    (fun _ _ _ => rfl) (fun _ _ _ => rfl) (fun _ _ _ => rfl) (fun _ _ _ => rfl) s
  have hs : Silent (sameAs (.retrieveKeypadEntries (s.prefs.keypad_max_entries.getD W.MAX_KEYPAD)))
      (retryLoop W (.retrieveKeypadEntries (s.prefs.keypad_max_entries.getD W.MAX_KEYPAD))
        (fun _ _ t => t)
        (loopFuel s) .unset (s.set fun m => { m with retryCount := 0 })).2
      (updateKeypad W false s) := by
    have h := silent_refl (sameAs (.retrieveKeypadEntries (s.prefs.keypad_max_entries.getD
        W.MAX_KEYPAD)))
      (retryLoop W (.retrieveKeypadEntries (s.prefs.keypad_max_entries.getD W.MAX_KEYPAD))
        (fun _ _ t => t)
        (loopFuel s) .unset (s.set fun m => { m with retryCount := 0 })).2
    unfold updateKeypad
    simp only [hg, Bool.not_true, Bool.not_false, Bool.false_eq_true, if_false, if_true]
    repeat' (first
      | with_reducible exact h
      | with_reducible apply silent_ite
      | with_reducible apply silent_postpone
      | with_reducible apply silent_set
      | with_reducible apply silent_setPrefs
      | with_reducible apply silent_step
      | with_reducible apply silent_emitted
      | (intro _; rfl)
      | (intro _ _; rfl)
      | rfl)
  unfold requestsOf
  rw [hs, a1, List.filterMap_append]
  exact congrArg _ (requestsOf_replicate _ _)

theorem updateTimeControl_requests (W : World) (s : State) (hg : s.prefs.timecontrol_info_enabled =
    true) :
    requestsOf (.retrieveTimeControlEntries)
        (updateTimeControl W false s).trace =
      requestsOf (.retrieveTimeControlEntries) s.trace ++
        List.replicate (attemptsMade (firstResults W s.io (loopFuel s)))
          (.retrieveTimeControlEntries) := by
  obtain ⟨a1, -⟩ := refreshLoop_spec W (.retrieveTimeControlEntries)
    (fun _ _ t => t)
    (fun _ _ _ => rfl) (fun _ _ _ => rfl) (fun _ _ _ => rfl) (fun _ _ _ => rfl) s
  have hs : Silent (sameAs (.retrieveTimeControlEntries))
      (retryLoop W (.retrieveTimeControlEntries)
        (fun _ _ t => t)
        (loopFuel s) .unset (s.set fun m => { m with retryCount := 0 })).2
      (updateTimeControl W false s) := by
    have h := silent_refl (sameAs (.retrieveTimeControlEntries))
      (retryLoop W (.retrieveTimeControlEntries)
        (fun _ _ t => t)
        (loopFuel s) .unset (s.set fun m => { m with retryCount := 0 })).2
    unfold updateTimeControl
    simp only [hg, Bool.not_true, Bool.not_false, Bool.false_eq_true, if_false, if_true]
    repeat' (first
      | with_reducible exact h
      | with_reducible apply silent_ite
      | with_reducible apply silent_postpone
      | with_reducible apply silent_set
      | with_reducible apply silent_setPrefs
      | with_reducible apply silent_step
      | with_reducible apply silent_emitted
      | (intro _; rfl)
      | (intro _ _; rfl)
      | rfl)
  unfold requestsOf
  rw [hs, a1, List.filterMap_append]
  exact congrArg _ (requestsOf_replicate _ _)

theorem loopFuel_of_nat (s : State) (n : Nat) (hn : s.nrOfRetries = (n : Int)) :
    loopFuel s = n + 1 := by
  unfold loopFuel
  rw [hn]
  omega

theorem updateBatteryState_trace (W : World) (s : State) :
    (updateBatteryState W s).trace =
      s.trace ++
        List.replicate (attemptsMade (firstResults W s.io (loopFuel s))) .requestBatteryReport ++
        (if .Success ∈ firstResults W s.io (loopFuel s) then
          [.publishBatteryReport (updateBatteryState W s).batteryReport]
        else []) := by
  obtain ⟨a1, -, -, -, a5, -⟩ := refreshLoop_spec W .requestBatteryReport
    (fun io _ t => (t.set fun m => { m with batteryReport := W.batteryReport io }))
    (fun _ _ _ => rfl) (fun _ _ _ => rfl) (fun _ _ _ => rfl) (fun _ _ _ => rfl) s
  unfold updateBatteryState
  simp only []
  generalize retryLoop W .requestBatteryReport
    (fun io _ t => (t.set fun m => { m with batteryReport := W.batteryReport io }))
    (loopFuel s) .unset (s.set fun m => { m with retryCount := 0 }) = p at a1 a5
  by_cases hr : p.1 = .Success
  · rw [if_pos hr, if_pos (a5.mp hr)]
    rw [postponeBleWatchdog_trace, emit_trace, a1]
    rfl
  · rw [if_neg hr, if_neg (fun h => hr (a5.mpr h)), List.append_nil]
    rw [postponeBleWatchdog_trace, a1]

/-- C34: with `nrOfRetries = n ≥ 0`, the command loop of a refresh function ends by its
own test (more fuel changes nothing), and it ends on `Success` exactly when one of
the first `n + 1` results is `Success`.  Each of the eight refresh functions issues
its request `k` times, `k` the position of the first `Success` among the first
`n + 1` results and `n + 1` when there is none; `1 ≤ k ≤ n + 1`.
`updateBatteryState` calls `publishBatteryReport` exactly when one of these attempts
succeeded. -/
theorem refresh_loop_attempts (W : World) (s : State) (n : Nat)
    (hn : s.nrOfRetries = (n : Int)) :
    (∀ (cmd : Event) (store : Nat → CmdResult → State → State),
      (∀ io r t, (store io r t).io = t.io) →
      (∀ io r t, (store io r t).retryCount = t.retryCount) →
      (∀ io r t, (store io r t).nrOfRetries = t.nrOfRetries) →
      (∀ io r t, (store io r t).trace = t.trace) →
      loopEnded (retryLoop W cmd store (loopFuel s) .unset
        (s.set fun m => { m with retryCount := 0 })) ∧
      (∀ extra : Nat,
        retryLoop W cmd store (loopFuel s + extra) .unset
            (s.set fun m => { m with retryCount := 0 }) =
          retryLoop W cmd store (loopFuel s) .unset
            (s.set fun m => { m with retryCount := 0 })) ∧
      ((retryLoop W cmd store (loopFuel s) .unset
          (s.set fun m => { m with retryCount := 0 })).1 = .Success ↔
        .Success ∈ firstResults W s.io (n + 1))) ∧
    requestsOf .requestOpenerState (callsOf (updateKeyTurnerState W) s) =
      List.replicate (attemptsMade (firstResults W s.io (n + 1))) .requestOpenerState ∧
    requestsOf .requestBatteryReport (callsOf (updateBatteryState W) s) =
      List.replicate (attemptsMade (firstResults W s.io (n + 1))) .requestBatteryReport ∧
    requestsOf .requestConfig (callsOf (readConfig W) s) =
      List.replicate (attemptsMade (firstResults W s.io (n + 1))) .requestConfig ∧
    requestsOf .requestAdvancedConfig (callsOf (readAdvancedConfig W) s) =
      List.replicate (attemptsMade (firstResults W s.io (n + 1))) .requestAdvancedConfig ∧
    (isPinSet s = true →
      requestsOf .verifySecurityPin (callsOf (verifyPinStatus W) s) =
        List.replicate (attemptsMade (firstResults W s.io (n + 1))) .verifySecurityPin) ∧
    (isPinValid s = true →
      requestsOf (.retrieveLogEntries (s.prefs.authlog_max_entries.getD W.MAX_AUTHLOG))
          (callsOf (updateAuthData W false) s) =
        List.replicate (attemptsMade (firstResults W s.io (n + 1)))
          (.retrieveLogEntries (s.prefs.authlog_max_entries.getD W.MAX_AUTHLOG))) ∧
    (s.prefs.keypad_info_enabled = true →
      requestsOf (.retrieveKeypadEntries (s.prefs.keypad_max_entries.getD W.MAX_KEYPAD))
          (callsOf (updateKeypad W false) s) =
        List.replicate (attemptsMade (firstResults W s.io (n + 1)))
          (.retrieveKeypadEntries (s.prefs.keypad_max_entries.getD W.MAX_KEYPAD))) ∧
    (s.prefs.timecontrol_info_enabled = true →
      requestsOf .retrieveTimeControlEntries (callsOf (updateTimeControl W false) s) =
        List.replicate (attemptsMade (firstResults W s.io (n + 1)))
          .retrieveTimeControlEntries) ∧
    ((∃ report, Event.publishBatteryReport report ∈ callsOf (updateBatteryState W) s) ↔
      .Success ∈ firstResults W s.io (n + 1)) ∧
    1 ≤ attemptsMade (firstResults W s.io (n + 1)) ∧
    attemptsMade (firstResults W s.io (n + 1)) ≤ n + 1 := by
  have hfuel : loopFuel s.fresh = n + 1 := loopFuel_of_nat s.fresh n hn
  have hfuel0 : loopFuel s = n + 1 := loopFuel_of_nat s n hn
  refine ⟨fun cmd store hio hrc hnr htr => ?_, ?_, ?_, ?_, ?_, fun hg => ?_, fun hg => ?_,
    fun hg => ?_, fun hg => ?_, ?_, ?_, ?_⟩
  · obtain ⟨-, -, -, a4, a5, a6⟩ := refreshLoop_spec W cmd store hio hrc hnr htr s
    exact ⟨a4, a6, a5.trans (by rw [hfuel0])⟩
  · have h := updateKeyTurnerState_requests W s.fresh
    rw [hfuel] at h
    exact h
  · have h := updateBatteryState_requests W s.fresh
    rw [hfuel] at h
    exact h
  · have h := readConfig_requests W s.fresh
    rw [hfuel] at h
    exact h
  · have h := readAdvancedConfig_requests W s.fresh
    rw [hfuel] at h
    exact h
  · have h := verifyPinStatus_requests W s.fresh hg
    rw [hfuel] at h
    exact h
  · have h := updateAuthData_requests W s.fresh hg
    rw [hfuel] at h
    exact h
  · have h := updateKeypad_requests W s.fresh hg
    rw [hfuel] at h
    exact h
  · have h := updateTimeControl_requests W s.fresh hg
    rw [hfuel] at h
    exact h
  · have h := updateBatteryState_trace W s.fresh
    rw [hfuel] at h
    unfold callsOf
    rw [h]
    have hio : s.fresh.io = s.io := rfl
    have ht : s.fresh.trace = [] := rfl
    rw [hio, ht, List.nil_append]
    by_cases hs : CmdResult.Success ∈ firstResults W s.io (n + 1)
    · rw [if_pos hs]
      exact ⟨fun _ => hs, fun _ => ⟨_, List.mem_append_right _ (List.mem_singleton_self _)⟩⟩
    · rw [if_neg hs, List.append_nil]
      refine ⟨fun h1 => ?_, fun h1 => absurd h1 hs⟩
      obtain ⟨report, hr⟩ := h1
      have := List.eq_of_mem_replicate hr
      cases this
  · exact attemptsMade_pos _ (by
      intro h
      have := congrArg List.length h
      rw [firstResults_length] at this
      cases this)
  · have := attemptsMade_le (firstResults W s.io (n + 1))
    rw [firstResults_length] at this
    exact this

/-- C34 at a concrete input: with three retries on a transport whose first two
commands time out, the battery refresh issues three requests and publishes the
report. -/
theorem refresh_loop_attempts_witness :
    requestsOf .requestBatteryReport (callsOf (updateBatteryState thirdTimeLucky) threeRetries) =
      [.requestBatteryReport, .requestBatteryReport, .requestBatteryReport] ∧
    ∃ report, Event.publishBatteryReport report ∈
      callsOf (updateBatteryState thirdTimeLucky) threeRetries :=
  have h := refresh_loop_attempts thirdTimeLucky threeRetries 3 rfl
  ⟨h.2.2.1.trans (by decide), h.2.2.2.2.2.2.2.2.2.1.mpr (by decide)⟩

/-! ## State delta and pin writes of the lock-state refresh -/

theorem gpioWrites_filterMap_none {α : Type} (f : Event → Option α)
    (hf : ∀ pin high, f (.setPinOutput pin high) = none) (cur : OpenerState)
    (pins : List PinEntry) : (gpioWrites cur pins).filterMap f = [] := by
  induction pins with
  | nil => rfl
  | cons p ps ih =>
    rw [gpioWrites]
    cases p.role <;> simp only [List.filterMap_cons, hf, ih]

theorem gpioWrites_pinWrite (cur : OpenerState) (pins : List PinEntry) :
    (gpioWrites cur pins).filterMap pinWrite = gpioWrites cur pins := by
  induction pins with
  | nil => rfl
  | cons p ps ih =>
    rw [gpioWrites]
    cases p.role <;> simp only [List.filterMap_cons, pinWrite, ih]

theorem ringStep_filterMap {α : Type} (f : Event → Option α)
    (hring : ∀ locked, f (.publishRing locked) = none) (W : World) (t : State) :
    (ringStep W t).trace.filterMap f =
      t.trace.filterMap f ++
        (if t.statusUpdated = true ∧ t.keyTurnerState.lockState = .Locked ∧
            t.lastKeyTurnerState.lockState = .Locked ∧
            t.lastKeyTurnerState.nukiState = t.keyTurnerState.nukiState then []
         else (Event.publishKeyTurnerState t.keyTurnerState t.lastKeyTurnerState ::
            gpioWrites t.keyTurnerState W.pinConfiguration).filterMap f) := by
  unfold ringStep
  simp only []
  by_cases h1 : t.statusUpdated = true ∧ t.keyTurnerState.lockState = .Locked ∧
      t.lastKeyTurnerState.lockState = .Locked ∧
      t.lastKeyTurnerState.nukiState = t.keyTurnerState.nukiState
  · rw [if_pos h1, if_pos h1, emit_trace, List.filterMap_append, List.append_nil]
    simp only [List.filterMap_cons, List.filterMap_nil, hring, List.append_nil]
  · rw [if_neg h1, if_neg h1]
    by_cases h2 : t.keyTurnerState.lockState ≠ t.lastKeyTurnerState.lockState ∧
        t.keyTurnerState.lockState = .Open ∧ t.keyTurnerState.trigger = .Manual
    · rw [if_pos h2]
      show ((t.trace ++ [Event.publishRing false]) ++
        [Event.publishKeyTurnerState t.keyTurnerState t.lastKeyTurnerState] ++
        gpioWrites t.keyTurnerState W.pinConfiguration).filterMap f = _
      simp only [List.filterMap_append, List.filterMap_cons, List.filterMap_nil, hring,
        List.append_nil, List.append_assoc]
      cases f (Event.publishKeyTurnerState t.keyTurnerState t.lastKeyTurnerState) <;> rfl
    · rw [if_neg h2]
      show (t.trace ++
        [Event.publishKeyTurnerState t.keyTurnerState t.lastKeyTurnerState] ++
        gpioWrites t.keyTurnerState W.pinConfiguration).filterMap f = _
      simp only [List.filterMap_append, List.filterMap_cons, List.filterMap_nil,
        List.append_nil, List.append_assoc]
      cases f (Event.publishKeyTurnerState t.keyTurnerState t.lastKeyTurnerState) <;> rfl

/-- What a channel `f` that carries no request, no result, no ring event and no
authorisation log sees of a lock-state refresh whose query succeeds. -/
theorem updateKeyTurnerState_filterMap {α : Type} (f : Event → Option α)
    (h0 : f .requestOpenerState = none)
    (h1 : ∀ str, f (.publishLockstateCommandResult str) = none)
    (h2 : ∀ locked, f (.publishRing locked) = none)
    (h3 : ∀ count, f (.retrieveLogEntries count) = none)
    (h4 : ∀ log flag, f (.publishAuthorizationInfo log flag) = none)
    (W : World) (s : State) (hq : querySucceeds W s) :
    (updateKeyTurnerState W s).trace.filterMap f =
      s.trace.filterMap f ++
        (if s.statusUpdated = true ∧
            (updateKeyTurnerState W s).keyTurnerState.lockState = .Locked ∧
            s.lastKeyTurnerState.lockState = .Locked ∧
            s.lastKeyTurnerState.nukiState =
              (updateKeyTurnerState W s).keyTurnerState.nukiState then []
         else (Event.publishKeyTurnerState (updateKeyTurnerState W s).keyTurnerState
              s.lastKeyTurnerState ::
            gpioWrites (updateKeyTurnerState W s).keyTurnerState
              W.pinConfiguration).filterMap f) := by
  have hstatus := retryLoop_frame (fun t => t.statusUpdated) W .requestOpenerState
    (fun io _ t => t.set fun m => { m with keyTurnerState := W.openerState io })
    (fun _ _ _ => rfl) (fun _ => rfl) (fun _ _ => rfl) (fun _ _ => rfl) (loopFuel s) .unset
    (s.set fun m => { m with retryCount := 0 })
  have hlast := retryLoop_frame (fun t => t.lastKeyTurnerState) W .requestOpenerState
    (fun io _ t => t.set fun m => { m with keyTurnerState := W.openerState io })
    (fun _ _ _ => rfl) (fun _ => rfl) (fun _ _ => rfl) (fun _ _ => rfl) (loopFuel s) .unset
    (s.set fun m => { m with retryCount := 0 })
  have hres := retryLoop_result W .requestOpenerState
    (fun io _ t => t.set fun m => { m with keyTurnerState := W.openerState io })
    (fun _ _ _ => rfl) (fun _ _ _ => rfl) (fun _ _ _ => rfl) (loopFuel s) .unset
    (s.set fun m => { m with retryCount := 0 }) (by decide)
    (by show (s.nrOfRetries + 1).toNat = (s.nrOfRetries + 1 - 0).toNat; rw [Int.sub_zero])
  have hloop := retryLoop_silent (f := f) W .requestOpenerState
    (fun io _ t => t.set fun m => { m with keyTurnerState := W.openerState io })
    (fun _ _ _ => rfl) h0 s (loopFuel s) .unset
    (s.set fun m => { m with retryCount := 0 }) (silent_refl f s)
  change _ ↔ querySucceeds W s at hres
  simp only [] at hstatus hlast
  change _ = s.statusUpdated at hstatus
  change _ = s.lastKeyTurnerState at hlast
  have hcur : (updateKeyTurnerState W s).keyTurnerState =
      (retryLoop W .requestOpenerState
        (fun io _ t => t.set fun m => { m with keyTurnerState := W.openerState io })
        (loopFuel s) .unset (s.set fun m => { m with retryCount := 0 })).2.keyTurnerState := by
    unfold updateKeyTurnerState
    simp only []
    rw [if_neg (not_not.mpr (hres.mpr hq))]
    show (if _ then _ else _ : State).keyTurnerState = _
    rw [authDataStep_keyTurnerState]
    show (ringStep W _).toVars.keyTurnerState = _
    rw [ringStep_toVars]
    rfl
  rw [hcur]
  unfold updateKeyTurnerState
  simp only []
  generalize (retryLoop W .requestOpenerState
      (fun io _ t => t.set fun m => { m with keyTurnerState := W.openerState io })
      (loopFuel s) .unset (s.set fun m => { m with retryCount := 0 })) = L
    at hstatus hlast hres hloop ⊢
  obtain ⟨result, s1⟩ := L
  simp only [] at hstatus hlast hres hloop ⊢
  have hr : result = .Success := hres.mpr hq
  rw [if_neg (not_not.mpr hr)]
  have hauth : Silent f
      (ringStep W ((emit (.publishLockstateCommandResult (cmdResultToString result)) s1).set
        fun m => { m with retryLockstateCount := 0 }))
      (postponeBleWatchdog W
        (if (ringStep W ((emit (.publishLockstateCommandResult (cmdResultToString result))
              s1).set fun m => { m with retryLockstateCount := 0 })).publishAuthData = true then
          updateAuthData W false
            (ringStep W ((emit (.publishLockstateCommandResult (cmdResultToString result))
              s1).set fun m => { m with retryLockstateCount := 0 }))
        else ringStep W ((emit (.publishLockstateCommandResult (cmdResultToString result))
              s1).set fun m => { m with retryLockstateCount := 0 }))) :=
    silent_postpone W (silent_ite (updateAuthData_silentOn h3 h4 W false (silent_refl _ _))
      (silent_refl _ _))
  rw [hauth, ringStep_filterMap f h2]
  have hbase : ((emit (.publishLockstateCommandResult (cmdResultToString result)) s1).set
      fun m => { m with retryLockstateCount := 0 }).trace.filterMap f = s.trace.filterMap f :=
    silent_set _ (silent_emitted (h1 _) hloop)
  rw [hbase]
  show _ ++ (if s1.statusUpdated = true ∧ s1.keyTurnerState.lockState = .Locked ∧
      s1.lastKeyTurnerState.lockState = .Locked ∧
      s1.lastKeyTurnerState.nukiState = s1.keyTurnerState.nukiState then []
    else (Event.publishKeyTurnerState s1.keyTurnerState s1.lastKeyTurnerState ::
      gpioWrites s1.keyTurnerState W.pinConfiguration).filterMap f) = _
  rw [hstatus, hlast]

/-- C33, as the code has it: in a call of `updateKeyTurnerState` whose state query
succeeds, the state delta `publishKeyTurnerState(cur, prev)` is published once and
`updateGpioOutputs` makes its writes exactly when the ring-while-locked event is not
fired (`statusUpdated` with both lock states Locked and the Nuki state unchanged);
when it is fired, no delta is published and no pin is written.  The ring-while-open
event does not change this: it is followed by the delta and the pin writes. -/
theorem state_delta_unless_ring_locked (W : World) (s : State) (hq : querySucceeds W s) :
    (callsOf (updateKeyTurnerState W) s).filterMap keyTurnerDelta =
      (if s.statusUpdated = true ∧
          (updateKeyTurnerState W s.fresh).keyTurnerState.lockState = .Locked ∧
          s.lastKeyTurnerState.lockState = .Locked ∧
          s.lastKeyTurnerState.nukiState =
            (updateKeyTurnerState W s.fresh).keyTurnerState.nukiState then []
       else [((updateKeyTurnerState W s.fresh).keyTurnerState, s.lastKeyTurnerState)]) ∧
    (callsOf (updateKeyTurnerState W) s).filterMap pinWrite =
      (if s.statusUpdated = true ∧
          (updateKeyTurnerState W s.fresh).keyTurnerState.lockState = .Locked ∧
          s.lastKeyTurnerState.lockState = .Locked ∧
          s.lastKeyTurnerState.nukiState =
            (updateKeyTurnerState W s.fresh).keyTurnerState.nukiState then []
       else expectedPinWrites (updateKeyTurnerState W s.fresh).keyTurnerState
          W.pinConfiguration) := by
  have hd : (callsOf (updateKeyTurnerState W) s).filterMap keyTurnerDelta =
      [] ++ (if s.statusUpdated = true ∧
          (updateKeyTurnerState W s.fresh).keyTurnerState.lockState = .Locked ∧
          s.lastKeyTurnerState.lockState = .Locked ∧
          s.lastKeyTurnerState.nukiState =
            (updateKeyTurnerState W s.fresh).keyTurnerState.nukiState then []
       else (Event.publishKeyTurnerState (updateKeyTurnerState W s.fresh).keyTurnerState
            s.lastKeyTurnerState ::
          gpioWrites (updateKeyTurnerState W s.fresh).keyTurnerState
            W.pinConfiguration).filterMap keyTurnerDelta) :=
    updateKeyTurnerState_filterMap keyTurnerDelta rfl (fun _ => rfl) (fun _ => rfl)
      (fun _ => rfl) (fun _ _ => rfl) W s.fresh hq
  have hp : (callsOf (updateKeyTurnerState W) s).filterMap pinWrite =
      [] ++ (if s.statusUpdated = true ∧
          (updateKeyTurnerState W s.fresh).keyTurnerState.lockState = .Locked ∧
          s.lastKeyTurnerState.lockState = .Locked ∧
          s.lastKeyTurnerState.nukiState =
            (updateKeyTurnerState W s.fresh).keyTurnerState.nukiState then []
       else (Event.publishKeyTurnerState (updateKeyTurnerState W s.fresh).keyTurnerState
            s.lastKeyTurnerState ::
          gpioWrites (updateKeyTurnerState W s.fresh).keyTurnerState
            W.pinConfiguration).filterMap pinWrite) :=
    updateKeyTurnerState_filterMap pinWrite rfl (fun _ => rfl) (fun _ => rfl)
      (fun _ => rfl) (fun _ _ => rfl) W s.fresh hq
  rw [hd, hp, List.nil_append, List.nil_append]
  by_cases hc : s.statusUpdated = true ∧
          (updateKeyTurnerState W s.fresh).keyTurnerState.lockState = .Locked ∧
          s.lastKeyTurnerState.lockState = .Locked ∧
          s.lastKeyTurnerState.nukiState =
            (updateKeyTurnerState W s.fresh).keyTurnerState.nukiState
  · rw [if_pos hc, if_pos hc, if_pos hc, if_pos hc]
    exact ⟨rfl, rfl⟩
  · rw [if_neg hc, if_neg hc, if_neg hc, if_neg hc]
    constructor
    · rw [List.filterMap_cons, gpioWrites_filterMap_none keyTurnerDelta (fun _ _ => rfl)]
      rfl
    · rw [List.filterMap_cons, gpioWrites_pinWrite, gpioWrites_eq]
      rfl

theorem state_delta_unless_ring_locked_witness :
    (callsOf (updateKeyTurnerState lockedOnline) ringPending).filterMap keyTurnerDelta = [] ∧
    (callsOf (updateKeyTurnerState lockedOnline) ringPending).filterMap pinWrite = [] :=
  have h := state_delta_unless_ring_locked lockedOnline ringPending ⟨0, by decide, rfl⟩
  ⟨h.1.trans (by decide), h.2.trans (by decide)⟩

/-- C33 as stated fails: the opener, Locked before, reports Open with a manual
trigger; the call fires the ring-while-open event and publishes the state delta and
writes the pin. -/
theorem state_delta_published_with_ring_open :
    (callsOf (updateKeyTurnerState openedByHand) wasLocked).filterMap ringEvent = [false] ∧
    (callsOf (updateKeyTurnerState openedByHand) wasLocked).filterMap keyTurnerDelta =
      [({ lockState := .Open, trigger := .Manual }, { lockState := .Locked })] ∧
    (callsOf (updateKeyTurnerState openedByHand) wasLocked).filterMap pinWrite =
      [.setPinOutput 4 false] := by
  decide

/-! ## What the refresh functions leave of the schedule -/

theorem keeps_refl {α : Type} (view : Vars → α) (a : State) : Keeps view a a := rfl

theorem keeps_trans {α : Type} {view : Vars → α} {a b c : State} (h1 : Keeps view a b)
    (h2 : Keeps view b c) : Keeps view a c :=
  Eq.trans h2 h1

theorem keeps_step {α : Type} {view : Vars → α} {a b : State} (h : Keeps view a b) :
    Keeps view a b.step := h

theorem keeps_emitted {α : Type} {view : Vars → α} {a b : State} (e : Event)
    (h : Keeps view a b) : Keeps view a (emit e b) := h

theorem keeps_setPrefs {α : Type} {view : Vars → α} {a b : State}
    (g : Preferences → Preferences) (h : Keeps view a b) : Keeps view a (b.setPrefs g) := h

theorem keeps_gpio {α : Type} {view : Vars → α} {a b : State} (W : World)
    (h : Keeps view a b) : Keeps view a (updateGpioOutputs W b) := h

theorem keeps_ite {α : Type} {view : Vars → α} {a x y : State} {c : Prop} [Decidable c]
    (hx : Keeps view a x) (hy : Keeps view a y) : Keeps view a (if c then x else y) := by
  split_ifs
  · exact hx
  · exact hy

theorem keeps_set {α : Type} {view : Vars → α} {a b : State} (g : Vars → Vars)
    (hg : ∀ m, view (g m) = view m) (h : Keeps view a b) : Keeps view a (b.set g) :=
  (hg _).trans h

theorem keeps_postpone {α : Type} {view : Vars → α} {a b : State} (W : World)
    (hg : ∀ (m : Vars) (v : Int), view { m with disableBleWatchdogTs := v } = view m)
    (h : Keeps view a b) : Keeps view a (postponeBleWatchdog W b) :=
  (hg _ _).trans h

theorem retryLoop_keeps {α : Type} {view : Vars → α} (W : World) (cmd : Event)
    (store : Nat → CmdResult → State → State)
    (hstore : ∀ io r t, Keeps view t (store io r t))
    (hrc : ∀ (m : Vars) (v : Int), view { m with retryCount := v } = view m) (a : State) :
    ∀ (fuel : Nat) (result : CmdResult) (s : State), Keeps view a s →
      Keeps view a (retryLoop W cmd store fuel result s).2 := by
  intro fuel
  induction fuel with
  | zero => intro result s h; exact h
  | succ n ih =>
    intro result s h
    have hs : Keeps view a (store s.io (W.cmdResult s.io) (emit cmd s.step)) :=
      keeps_trans (keeps_emitted cmd (keeps_step h)) (hstore _ _ _)
    simp only [retryLoop]
    split_ifs with h1 h2
    · exact ih _ _ (keeps_set _ (fun m => hrc m _) hs)
    · exact hs
    · exact h

theorem updateAuthData_lock (W : World) (retrieved : Bool) {a s : State} (h : Keeps lockSchedule a
    s) :
    Keeps lockSchedule a (updateAuthData W retrieved s) := by
  unfold updateAuthData
  simp only []
  repeat' (first
    | with_reducible exact h
    | with_reducible apply keeps_ite
    | with_reducible apply keeps_postpone
    | with_reducible apply keeps_gpio
    | with_reducible apply keeps_set
    | with_reducible apply keeps_setPrefs
    | with_reducible apply keeps_step
    | with_reducible apply keeps_emitted
    | with_reducible apply retryLoop_keeps
    | (intro _ _ _; rfl)
    | (intro _ _; rfl)
    | (intro _; rfl))

theorem updateKeypad_lock (W : World) (retrieved : Bool) {a s : State} (h : Keeps lockSchedule a s)
    :
    Keeps lockSchedule a (updateKeypad W retrieved s) := by
  unfold updateKeypad
  simp only []
  repeat' (first
    | with_reducible exact h
    | with_reducible apply keeps_ite
    | with_reducible apply keeps_postpone
    | with_reducible apply keeps_gpio
    | with_reducible apply keeps_set
    | with_reducible apply keeps_setPrefs
    | with_reducible apply keeps_step
    | with_reducible apply keeps_emitted
    | with_reducible apply retryLoop_keeps
    | (intro _ _ _; rfl)
    | (intro _ _; rfl)
    | (intro _; rfl))

theorem updateTimeControl_lock (W : World) (retrieved : Bool) {a s : State} (h : Keeps lockSchedule
    a s) :
    Keeps lockSchedule a (updateTimeControl W retrieved s) := by
  unfold updateTimeControl
  simp only []
  repeat' (first
    | with_reducible exact h
    | with_reducible apply keeps_ite
    | with_reducible apply keeps_postpone
    | with_reducible apply keeps_gpio
    | with_reducible apply keeps_set
    | with_reducible apply keeps_setPrefs
    | with_reducible apply keeps_step
    | with_reducible apply keeps_emitted
    | with_reducible apply retryLoop_keeps
    | (intro _ _ _; rfl)
    | (intro _ _; rfl)
    | (intro _; rfl))

theorem updateBatteryState_lock (W : World) {a s : State} (h : Keeps lockSchedule a s) :
    Keeps lockSchedule a (updateBatteryState W s) := by
  unfold updateBatteryState
  simp only []
  repeat' (first
    | with_reducible exact h
    | with_reducible apply keeps_ite
    | with_reducible apply keeps_postpone
    | with_reducible apply keeps_gpio
    | with_reducible apply keeps_set
    | with_reducible apply keeps_setPrefs
    | with_reducible apply keeps_step
    | with_reducible apply keeps_emitted
    | with_reducible apply retryLoop_keeps
    | (intro _ _ _; rfl)
    | (intro _ _; rfl)
    | (intro _; rfl))

theorem readConfig_lock (W : World) {a s : State} (h : Keeps lockSchedule a s) :
    Keeps lockSchedule a (readConfig W s) := by
  unfold readConfig
  simp only []
  repeat' (first
    | with_reducible exact h
    | with_reducible apply keeps_ite
    | with_reducible apply keeps_postpone
    | with_reducible apply keeps_gpio
    | with_reducible apply keeps_set
    | with_reducible apply keeps_setPrefs
    | with_reducible apply keeps_step
    | with_reducible apply keeps_emitted
    | with_reducible apply retryLoop_keeps
    | (intro _ _ _; rfl)
    | (intro _ _; rfl)
    | (intro _; rfl))

theorem readAdvancedConfig_lock (W : World) {a s : State} (h : Keeps lockSchedule a s) :
    Keeps lockSchedule a (readAdvancedConfig W s) := by
  unfold readAdvancedConfig
  simp only []
  repeat' (first
    | with_reducible exact h
    | with_reducible apply keeps_ite
    | with_reducible apply keeps_postpone
    | with_reducible apply keeps_gpio
    | with_reducible apply keeps_set
    | with_reducible apply keeps_setPrefs
    | with_reducible apply keeps_step
    | with_reducible apply keeps_emitted
    | with_reducible apply retryLoop_keeps
    | (intro _ _ _; rfl)
    | (intro _ _; rfl)
    | (intro _; rfl))

theorem storeNukiId_lock {a s : State} (h : Keeps lockSchedule a s) :
    Keeps lockSchedule a (storeNukiId s) := by
  unfold storeNukiId
  repeat' (first
    | with_reducible exact h
    | with_reducible apply keeps_ite
    | with_reducible apply keeps_postpone
    | with_reducible apply keeps_gpio
    | with_reducible apply keeps_set
    | with_reducible apply keeps_setPrefs
    | with_reducible apply keeps_step
    | with_reducible apply keeps_emitted
    | with_reducible apply retryLoop_keeps
    | (intro _ _ _; rfl)
    | (intro _ _; rfl)
    | (intro _; rfl))

theorem verifyPinStatus_lock (W : World) {a s : State} (h : Keeps lockSchedule a s) :
    Keeps lockSchedule a (verifyPinStatus W s) := by
  unfold verifyPinStatus
  simp only []
  repeat' (first
    | with_reducible exact h
    | with_reducible apply keeps_ite
    | with_reducible apply keeps_postpone
    | with_reducible apply keeps_gpio
    | with_reducible apply keeps_set
    | with_reducible apply keeps_setPrefs
    | with_reducible apply keeps_step
    | with_reducible apply keeps_emitted
    | with_reducible apply retryLoop_keeps
    | (intro _ _ _; rfl)
    | (intro _ _; rfl)
    | (intro _; rfl))

theorem matchedConfigStep_lock (W : World) {a s : State} (h : Keeps lockSchedule a s) :
    Keeps lockSchedule a (matchedConfigStep W s) := by
  unfold matchedConfigStep
  simp only []
  repeat' (first
    | with_reducible exact h
    | with_reducible apply keeps_ite
    | with_reducible apply keeps_postpone
    | with_reducible apply keeps_gpio
    | with_reducible apply keeps_set
    | with_reducible apply keeps_setPrefs
    | with_reducible apply keeps_step
    | with_reducible apply keeps_emitted
    | with_reducible apply retryLoop_keeps
    | with_reducible apply verifyPinStatus_lock
    | with_reducible apply updateTimeControl_lock
    | (intro _ _ _; rfl)
    | (intro _ _; rfl)
    | (intro _; rfl))

theorem setupHASS_lock {a s : State} (h : Keeps lockSchedule a s) :
    Keeps lockSchedule a (setupHASS s) := by
  unfold setupHASS
  repeat' (first
    | with_reducible exact h
    | with_reducible apply keeps_ite
    | with_reducible apply keeps_postpone
    | with_reducible apply keeps_gpio
    | with_reducible apply keeps_set
    | with_reducible apply keeps_setPrefs
    | with_reducible apply keeps_step
    | with_reducible apply keeps_emitted
    | with_reducible apply retryLoop_keeps
    | (intro _ _ _; rfl)
    | (intro _ _; rfl)
    | (intro _; rfl))

theorem ringStep_lock (W : World) {a s : State} (h : Keeps lockSchedule a s) :
    Keeps lockSchedule a (ringStep W s) := by
  unfold ringStep
  simp only []
  repeat' (first
    | with_reducible exact h
    | with_reducible apply keeps_ite
    | with_reducible apply keeps_postpone
    | with_reducible apply keeps_gpio
    | with_reducible apply keeps_set
    | with_reducible apply keeps_setPrefs
    | with_reducible apply keeps_step
    | with_reducible apply keeps_emitted
    | with_reducible apply retryLoop_keeps
    | (intro _ _ _; rfl)
    | (intro _ _; rfl)
    | (intro _; rfl))

theorem hassStep_lock (W : World) {a s : State} (h : Keeps lockSchedule a s) :
    Keeps lockSchedule a (hassStep W s) := by
  unfold hassStep
  repeat' (first
    | with_reducible exact h
    | with_reducible apply keeps_ite
    | with_reducible apply keeps_postpone
    | with_reducible apply keeps_gpio
    | with_reducible apply keeps_set
    | with_reducible apply keeps_setPrefs
    | with_reducible apply keeps_step
    | with_reducible apply keeps_emitted
    | with_reducible apply retryLoop_keeps
    | with_reducible apply setupHASS_lock
    | (intro _ _ _; rfl)
    | (intro _ _; rfl)
    | (intro _; rfl))

theorem rssiStep_lock (W : World) (ts : Int) {a s : State} (h : Keeps lockSchedule a s) :
    Keeps lockSchedule a (rssiStep W ts s) := by
  unfold rssiStep
  simp only []
  repeat' (first
    | with_reducible exact h
    | with_reducible apply keeps_ite
    | with_reducible apply keeps_postpone
    | with_reducible apply keeps_gpio
    | with_reducible apply keeps_set
    | with_reducible apply keeps_setPrefs
    | with_reducible apply keeps_step
    | with_reducible apply keeps_emitted
    | with_reducible apply retryLoop_keeps
    | (intro _ _ _; rfl)
    | (intro _ _; rfl)
    | (intro _; rfl))

theorem clearAuthDataStep_lock {a s : State} (h : Keeps lockSchedule a s) :
    Keeps lockSchedule a (clearAuthDataStep s) := by
  unfold clearAuthDataStep
  repeat' (first
    | with_reducible exact h
    | with_reducible apply keeps_ite
    | with_reducible apply keeps_postpone
    | with_reducible apply keeps_gpio
    | with_reducible apply keeps_set
    | with_reducible apply keeps_setPrefs
    | with_reducible apply keeps_step
    | with_reducible apply keeps_emitted
    | with_reducible apply retryLoop_keeps
    | (intro _ _ _; rfl)
    | (intro _ _; rfl)
    | (intro _; rfl))

theorem followUpStep_lock (W : World) (ts : Int) {a s : State} (h : Keeps lockSchedule a s) :
    Keeps lockSchedule a (followUpStep W ts s) := by
  unfold followUpStep
  simp only []
  repeat' (first
    | with_reducible exact h
    | with_reducible apply keeps_ite
    | with_reducible apply keeps_postpone
    | with_reducible apply keeps_gpio
    | with_reducible apply keeps_set
    | with_reducible apply keeps_setPrefs
    | with_reducible apply keeps_step
    | with_reducible apply keeps_emitted
    | with_reducible apply retryLoop_keeps
    | with_reducible apply updateAuthData_lock
    | with_reducible apply updateKeypad_lock
    | with_reducible apply updateTimeControl_lock
    | (intro _ _ _; rfl)
    | (intro _ _; rfl)
    | (intro _; rfl))

theorem keypadStep_lock (W : World) (ts : Int) (queryCommands : Nat) {a s : State} (h : Keeps
    lockSchedule a s) :
    Keeps lockSchedule a (keypadStep W ts queryCommands s) := by
  unfold keypadStep
  repeat' (first
    | with_reducible exact h
    | with_reducible apply keeps_ite
    | with_reducible apply keeps_postpone
    | with_reducible apply keeps_gpio
    | with_reducible apply keeps_set
    | with_reducible apply keeps_setPrefs
    | with_reducible apply keeps_step
    | with_reducible apply keeps_emitted
    | with_reducible apply retryLoop_keeps
    | with_reducible apply updateKeypad_lock
    | (intro _ _ _; rfl)
    | (intro _ _; rfl)
    | (intro _; rfl))

theorem basicConfigStep_lock (W : World) {a s : State} (h : Keeps lockSchedule a s) :
    Keeps lockSchedule a (basicConfigStep W s).1 := by
  unfold basicConfigStep
  simp only []
  split_ifs
  · exact matchedConfigStep_lock W (storeNukiId_lock h)
  · exact keeps_set _ (fun _ => rfl) (storeNukiId_lock h)
  · exact keeps_set _ (fun _ => rfl) h

theorem advancedConfigStep_lock (expectedConfig : Bool) {a s : State}
    (h : Keeps lockSchedule a s) :
    Keeps lockSchedule a (advancedConfigStep s expectedConfig).1 := by
  unfold advancedConfigStep
  split_ifs
  · exact keeps_set _ (fun _ => rfl) (keeps_emitted _ h)
  · exact keeps_set _ (fun _ => rfl) h
  · exact keeps_set _ (fun _ => rfl) h

theorem updateConfig_lock (W : World) {a s : State} (h : Keeps lockSchedule a s) :
    Keeps lockSchedule a (updateConfig W s) := by
  have h1 : Keeps lockSchedule a
      ((readAdvancedConfig W (readConfig W s)).set fun m => { m with configRead := true }) :=
    keeps_set _ (fun _ => rfl) (readAdvancedConfig_lock W (readConfig_lock W h))
  have h2 := advancedConfigStep_lock
    (basicConfigStep W
      ((readAdvancedConfig W (readConfig W s)).set fun m => { m with configRead := true })).2
    (basicConfigStep_lock W h1)
  unfold updateConfig
  simp only []
  split_ifs
  · exact keeps_set _ (fun _ => rfl) (keeps_step h2)
  · exact h2

theorem configStep_lock (W : World) (ts : Int) (queryCommands : Nat) {a s : State}
    (h : Keeps lockSchedule a s) : Keeps lockSchedule a (configStep W ts queryCommands s) := by
  unfold configStep
  simp only []
  repeat' (first
    | with_reducible exact h
    | with_reducible apply keeps_ite
    | with_reducible apply setupHASS_lock
    | with_reducible apply updateConfig_lock
    | with_reducible apply keeps_set
    | (intro _; rfl))

/-! ## Outcome of a lock-state refresh -/

theorem querySucceeds_iff_mem (W : World) (s : State) :
    querySucceeds W s ↔ CmdResult.Success ∈ firstResults W s.io (loopFuel s) :=
  (mem_firstResults W s.io (loopFuel s) .Success).symm

theorem retryLoop_lock (W : World) (cmd : Event) (store : Nat → CmdResult → State → State)
    (hstore : ∀ io r t, Keeps lockSchedule t (store io r t)) (a : State) :
    ∀ (fuel : Nat) (result : CmdResult) (s : State), Keeps lockSchedule a s →
      Keeps lockSchedule a (retryLoop W cmd store fuel result s).2 :=
  retryLoop_keeps W cmd store hstore (fun _ _ => rfl) a

theorem updateKeyTurnerState_succeeded (W : World) (s : State) (hq : querySucceeds W s) :
    lockSchedule (updateKeyTurnerState W s).toVars =
      { lockSchedule s.toVars with retryLockstateCount := 0 } := by
  obtain ⟨-, -, -, -, a5, -⟩ := refreshLoop_spec W .requestOpenerState
    (fun io _ t => t.set fun m => { m with keyTurnerState := W.openerState io })
    (fun _ _ _ => rfl) (fun _ _ _ => rfl) (fun _ _ _ => rfl) (fun _ _ _ => rfl) s
  have hk := retryLoop_lock W .requestOpenerState
    (fun io _ t => t.set fun m => { m with keyTurnerState := W.openerState io })
    (fun _ _ _ => rfl) s (loopFuel s) .unset
    (s.set fun m => { m with retryCount := 0 }) (keeps_set _ (fun _ => rfl) (keeps_refl _ s))
  unfold updateKeyTurnerState
  simp only []
  generalize (retryLoop W .requestOpenerState
      (fun io _ t => t.set fun m => { m with keyTurnerState := W.openerState io })
      (loopFuel s) .unset (s.set fun m => { m with retryCount := 0 })) = L at a5 hk ⊢
  obtain ⟨result, s1⟩ := L
  simp only [] at a5 hk ⊢
  have hr : result = .Success := a5.mpr ((querySucceeds_iff_mem W s).mp hq)
  rw [if_neg (not_not.mpr hr)]
  have htail : Keeps lockSchedule
      ((emit (.publishLockstateCommandResult (cmdResultToString result)) s1).set
        fun m => { m with retryLockstateCount := 0 })
      (postponeBleWatchdog W
        (if (ringStep W ((emit (.publishLockstateCommandResult (cmdResultToString result))
              s1).set fun m => { m with retryLockstateCount := 0 })).publishAuthData = true then
          updateAuthData W false
            (ringStep W ((emit (.publishLockstateCommandResult (cmdResultToString result))
              s1).set fun m => { m with retryLockstateCount := 0 }))
        else ringStep W ((emit (.publishLockstateCommandResult (cmdResultToString result))
              s1).set fun m => { m with retryLockstateCount := 0 }))) :=
    keeps_postpone W (fun _ _ => rfl)
      (keeps_ite (updateAuthData_lock W false (ringStep_lock W (keeps_refl _ _)))
        (ringStep_lock W (keeps_refl _ _)))
  rw [htail]
  show ({ lockSchedule s1.toVars with retryLockstateCount := 0 } : LockSchedule) = _
  rw [hk]

theorem updateKeyTurnerState_failed (W : World) (s : State) (hq : ¬ querySucceeds W s) :
    ∃ result : CmdResult, result ≠ .Success ∧
      (updateKeyTurnerState W s).trace =
        s.trace ++ List.replicate (loopFuel s) .requestOpenerState ++
          [.publishLockstateCommandResult (cmdResultToString result)] ∧
      lockSchedule (updateKeyTurnerState W s).toVars =
        { lockSchedule s.toVars with
          retryLockstateCount := s.retryLockstateCount + 1
          nextLockStateUpdateTs :=
            if s.retryLockstateCount + 1 < s.nrOfRetries + 1 then
              W.millis (s.io + loopFuel s + 1) + s.retryDelay
            else s.nextLockStateUpdateTs } := by
  obtain ⟨a1, a2, -, -, a5, -⟩ := refreshLoop_spec W .requestOpenerState
    (fun io _ t => t.set fun m => { m with keyTurnerState := W.openerState io })
    (fun _ _ _ => rfl) (fun _ _ _ => rfl) (fun _ _ _ => rfl) (fun _ _ _ => rfl) s
  have hk := retryLoop_lock W .requestOpenerState
    (fun io _ t => t.set fun m => { m with keyTurnerState := W.openerState io })
    (fun _ _ _ => rfl) s (loopFuel s) .unset
    (s.set fun m => { m with retryCount := 0 }) (keeps_set _ (fun _ => rfl) (keeps_refl _ s))
  have hnone : CmdResult.Success ∉ firstResults W s.io (loopFuel s) :=
    fun h => hq ((querySucceeds_iff_mem W s).mpr h)
  have hcount : attemptsMade (firstResults W s.io (loopFuel s)) = loopFuel s := by
    unfold attemptsMade
    rw [if_neg hnone, firstResults_length]
  rw [hcount] at a1 a2
  unfold updateKeyTurnerState
  simp only []
  generalize (retryLoop W .requestOpenerState
      (fun io _ t => t.set fun m => { m with keyTurnerState := W.openerState io })
      (loopFuel s) .unset (s.set fun m => { m with retryCount := 0 })) = L at a1 a2 a5 hk ⊢
  obtain ⟨result, s1⟩ := L
  simp only [] at a1 a2 a5 hk ⊢
  have hr : result ≠ .Success := fun h => hnone (a5.mp h)
  refine ⟨result, hr, ?_⟩
  rw [if_pos hr]
  have h1 : s1.retryLockstateCount = s.retryLockstateCount :=
    congrArg LockSchedule.retryLockstateCount hk
  have h2 : s1.nrOfRetries = s.nrOfRetries := congrArg LockSchedule.nrOfRetries hk
  have h3 : s1.retryDelay = s.retryDelay := congrArg LockSchedule.retryDelay hk
  have h4 : s1.nextLockStateUpdateTs = s.nextLockStateUpdateTs :=
    congrArg LockSchedule.nextLockStateUpdateTs hk
  by_cases hc : s.retryLockstateCount + 1 < s.nrOfRetries + 1
  · have hc1 : (postponeBleWatchdog W
        ((emit (.publishLockstateCommandResult (cmdResultToString result)) s1).set fun m =>
          { m with retryLockstateCount :=
            (emit (.publishLockstateCommandResult (cmdResultToString result))
              s1).retryLockstateCount + 1 })).retryLockstateCount <
        (postponeBleWatchdog W
        ((emit (.publishLockstateCommandResult (cmdResultToString result)) s1).set fun m =>
          { m with retryLockstateCount :=
            (emit (.publishLockstateCommandResult (cmdResultToString result))
              s1).retryLockstateCount + 1 })).nrOfRetries + 1 := by
      show s1.retryLockstateCount + 1 < s1.nrOfRetries + 1
      rw [h1, h2]
      exact hc
    rw [if_pos hc1, if_pos hc]
    refine ⟨?_, ?_⟩
    · show s1.trace ++ _ = _
      rw [a1]
    · show ({ lockSchedule s1.toVars with
          retryLockstateCount := s1.retryLockstateCount + 1
          nextLockStateUpdateTs := W.millis (s1.io + 1) + s1.retryDelay } : LockSchedule) = _
      rw [hk, h1, h3, a2]
  · have hc1 : ¬ (postponeBleWatchdog W
        ((emit (.publishLockstateCommandResult (cmdResultToString result)) s1).set fun m =>
          { m with retryLockstateCount :=
            (emit (.publishLockstateCommandResult (cmdResultToString result))
              s1).retryLockstateCount + 1 })).retryLockstateCount <
        (postponeBleWatchdog W
        ((emit (.publishLockstateCommandResult (cmdResultToString result)) s1).set fun m =>
          { m with retryLockstateCount :=
            (emit (.publishLockstateCommandResult (cmdResultToString result))
              s1).retryLockstateCount + 1 })).nrOfRetries + 1 := by
      show ¬ s1.retryLockstateCount + 1 < s1.nrOfRetries + 1
      rw [h1, h2]
      exact hc
    rw [if_neg hc1, if_neg hc]
    refine ⟨?_, ?_⟩
    · show s1.trace ++ _ = _
      rw [a1]
    · show ({ lockSchedule s1.toVars with
          retryLockstateCount := s1.retryLockstateCount + 1
          nextLockStateUpdateTs := s1.nextLockStateUpdateTs } : LockSchedule) = _
      rw [hk, h1, h4]

theorem lockStateStep_skipped (W : World) (ts : Int) (queryCommands : Nat) (s : State)
    (hdue : ¬ lockStateDue W ts queryCommands s) : lockStateStep W ts queryCommands s = s := by
  unfold lockStateDue at hdue
  unfold lockStateStep
  rw [if_neg hdue]

theorem lockStateStep_succeeded (W : World) (ts : Int) (queryCommands : Nat) (s : State)
    (hdue : lockStateDue W ts queryCommands s) (hq : querySucceeds W s) :
    lockSchedule (lockStateStep W ts queryCommands s).toVars =
      { lockSchedule s.toVars with
        statusUpdated := false
        retryLockstateCount := 0
        nextLockStateUpdateTs := ts + wrapInt32 (s.intervalLockstate * 1000) } := by
  have h := updateKeyTurnerState_succeeded W
    (s.set fun m => { m with
      statusUpdated := false
      nextLockStateUpdateTs := ts + wrapInt32 (s.intervalLockstate * 1000) }) hq
  unfold lockStateDue at hdue
  unfold lockStateStep
  rw [if_pos hdue]
  exact h

theorem lockStateStep_failed (W : World) (ts : Int) (queryCommands : Nat) (s : State)
    (hdue : lockStateDue W ts queryCommands s) (hq : ¬ querySucceeds W s) :
    ∃ result : CmdResult, result ≠ .Success ∧
      (lockStateStep W ts queryCommands s).trace =
        s.trace ++ List.replicate (loopFuel s) .requestOpenerState ++
          [.publishLockstateCommandResult (cmdResultToString result),
            .publishStatusUpdated false] ∧
      lockSchedule (lockStateStep W ts queryCommands s).toVars =
        { lockSchedule s.toVars with
          statusUpdated := false
          retryLockstateCount := s.retryLockstateCount + 1
          nextLockStateUpdateTs :=
            if s.retryLockstateCount + 1 < s.nrOfRetries + 1 then
              W.millis (s.io + loopFuel s + 1) + s.retryDelay
            else ts + wrapInt32 (s.intervalLockstate * 1000) } := by
  obtain ⟨result, hr, h1, h2⟩ := updateKeyTurnerState_failed W
    (s.set fun m => { m with
      statusUpdated := false
      nextLockStateUpdateTs := ts + wrapInt32 (s.intervalLockstate * 1000) }) hq
  have hst : (updateKeyTurnerState W
      (s.set fun m => { m with
        statusUpdated := false
        nextLockStateUpdateTs := ts + wrapInt32 (s.intervalLockstate * 1000) })).statusUpdated =
      false := congrArg LockSchedule.statusUpdated h2
  unfold lockStateDue at hdue
  refine ⟨result, hr, ?_, ?_⟩
  · unfold lockStateStep
    rw [if_pos hdue]
    simp only []
    rw [emit_trace, h1, hst, List.append_assoc]
    rfl
  · unfold lockStateStep
    rw [if_pos hdue]
    exact h2

/-- C35: in a run of lock-state blocks that are due and whose state query fails,
entered with `retryLockstateCount = 0` and `nrOfRetries = n`, with whatever happens
between the blocks leaving the counter, the retry limit, the retry delay and the
interval alone: round `k` (counted from 1) leaves the counter at `k`; its calls are
the `n + 1` requests, the result string of a failure on the lock-state result channel
and the status flag, so no state delta and no ring event; it leaves the lock-state
refresh scheduled at the clock value read after the failure plus `retryDelay` when
`k < n + 1`, and at `ts + intervalLockstate * 1000` as set by the block when
`k ≥ n + 1`.  A block whose query succeeds leaves the counter at 0. -/
theorem lockstate_retry_schedule (W : World) (between : Nat → State → State)
    (ts : Nat → Int) (queryCommands : Nat → Nat) (s : State) (n rounds : Nat)
    (hn : s.nrOfRetries = (n : Int)) (h0 : s.retryLockstateCount = 0)
    (hkeep : KeepsLockstateCount between)
    (hfail : RefreshesFail W between ts queryCommands s rounds) :
    (∀ k, k < rounds →
      (lockStateRun W between ts queryCommands (k + 1) s).retryLockstateCount = (k : Int) + 1 ∧
      (∃ result : CmdResult, result ≠ .Success ∧
        callsOf (lockStateStep W (ts k) (queryCommands k))
            (between k (lockStateRun W between ts queryCommands k s)) =
          List.replicate (n + 1) .requestOpenerState ++
            [.publishLockstateCommandResult (cmdResultToString result),
              .publishStatusUpdated false]) ∧
      (lockStateRun W between ts queryCommands (k + 1) s).nextLockStateUpdateTs =
        (if k + 1 < n + 1 then
          W.millis ((between k (lockStateRun W between ts queryCommands k s)).io + n + 2) +
            s.retryDelay
        else ts k + wrapInt32 (s.intervalLockstate * 1000))) ∧
    (∀ (t : State) (now : Int) (bits : Nat), lockStateDue W now bits t → querySucceeds W t →
      (lockStateStep W now bits t).retryLockstateCount = 0) := by
  have hinv : ∀ k, k ≤ rounds →
      (lockStateRun W between ts queryCommands k s).retryLockstateCount = (k : Int) ∧
      (lockStateRun W between ts queryCommands k s).nrOfRetries = (n : Int) ∧
      (lockStateRun W between ts queryCommands k s).retryDelay = s.retryDelay ∧
      (lockStateRun W between ts queryCommands k s).intervalLockstate =
        s.intervalLockstate := by
    intro k
    induction k with
    | zero => intro _; exact ⟨h0, hn, rfl, rfl⟩
    | succ j ih =>
      intro hj
      obtain ⟨i1, i2, i3, i4⟩ := ih (by omega)
      obtain ⟨k1, k2, k3, k4⟩ := hkeep j (lockStateRun W between ts queryCommands j s)
      obtain ⟨hdue, hq⟩ := hfail j (by omega)
      obtain ⟨result, -, -, hs⟩ := lockStateStep_failed W (ts j) (queryCommands j) _ hdue hq
      refine ⟨?_, ?_, ?_, ?_⟩
      · have := congrArg LockSchedule.retryLockstateCount hs
        simp only [lockStateRun]
        refine this.trans ?_
        show (between j _).retryLockstateCount + 1 = _
        rw [k1, i1]
        push_cast
        rfl
      · have := congrArg LockSchedule.nrOfRetries hs
        simp only [lockStateRun]
        refine this.trans ?_
        show (between j _).nrOfRetries = _
        rw [k2, i2]
      · have := congrArg LockSchedule.retryDelay hs
        simp only [lockStateRun]
        refine this.trans ?_
        show (between j _).retryDelay = _
        rw [k3, i3]
      · have := congrArg LockSchedule.intervalLockstate hs
        simp only [lockStateRun]
        refine this.trans ?_
        show (between j _).intervalLockstate = _
        rw [k4, i4]
  refine ⟨fun k hk => ?_, fun t now bits hdue hq => ?_⟩
  · obtain ⟨i1, i2, i3, i4⟩ := hinv k (by omega)
    obtain ⟨j1, -, -, -⟩ := hinv (k + 1) (by omega)
    obtain ⟨k1, k2, k3, k4⟩ := hkeep k (lockStateRun W between ts queryCommands k s)
    obtain ⟨hdue, hq⟩ := hfail k hk
    have hfuel : loopFuel (between k (lockStateRun W between ts queryCommands k s)) = n + 1 :=
      loopFuel_of_nat _ n (by rw [k2, i2])
    refine ⟨by rw [j1]; push_cast; rfl, ?_, ?_⟩
    · obtain ⟨result, hr, htr, -⟩ := lockStateStep_failed W (ts k) (queryCommands k)
        (between k (lockStateRun W between ts queryCommands k s)).fresh hdue hq
      refine ⟨result, hr, ?_⟩
      unfold callsOf
      rw [htr]
      have hf : loopFuel (between k (lockStateRun W between ts queryCommands k s)).fresh =
          n + 1 := hfuel
      rw [hf]
      rfl
    · obtain ⟨result, -, -, hs⟩ := lockStateStep_failed W (ts k) (queryCommands k) _ hdue hq
      have := congrArg LockSchedule.nextLockStateUpdateTs hs
      simp only [lockStateRun]
      refine this.trans ?_
      show (if (between k _).retryLockstateCount + 1 < (between k _).nrOfRetries + 1 then
          W.millis ((between k _).io + loopFuel (between k _) + 1) + (between k _).retryDelay
        else ts k + wrapInt32 ((between k _).intervalLockstate * 1000)) = _
      rw [k1, k2, k3, k4, i1, i2, i3, i4, hfuel]
      by_cases hc : k + 1 < n + 1
      · rw [if_pos (by omega), if_pos hc]
        have he : ∀ a : Nat, a + (n + 1) + 1 = a + n + 2 := fun a => by omega
        rw [he]
      · rw [if_neg (by omega), if_neg hc]
  · exact congrArg LockSchedule.retryLockstateCount
      (lockStateStep_succeeded W now bits t hdue hq)

/-- C35 on a transport where every command times out, with one retry, a retry delay
of 100 ms and an interval of 1800 s, the lock-state bit requested on every round: the
first failed refresh leaves the counter at 1 and the refresh scheduled 100 ms after the
clock value 3000 read after the failure; the second leaves the counter at 2 and the
schedule at the interval, and so does the third with counter 3. -/
theorem lockstate_retry_schedule_witness :
    (lockStateRun deadLink (fun _ t => t) (fun _ => 0) (fun _ => 1) 1
      refreshDue).retryLockstateCount = 1 ∧
    (lockStateRun deadLink (fun _ t => t) (fun _ => 0) (fun _ => 1) 1
      refreshDue).nextLockStateUpdateTs = 3100 ∧
    (lockStateRun deadLink (fun _ t => t) (fun _ => 0) (fun _ => 1) 2
      refreshDue).retryLockstateCount = 2 ∧
    (lockStateRun deadLink (fun _ t => t) (fun _ => 0) (fun _ => 1) 2
      refreshDue).nextLockStateUpdateTs = 1800000 ∧
    (lockStateRun deadLink (fun _ t => t) (fun _ => 0) (fun _ => 1) 3
      refreshDue).retryLockstateCount = 3 ∧
    (lockStateRun deadLink (fun _ t => t) (fun _ => 0) (fun _ => 1) 3
      refreshDue).nextLockStateUpdateTs = 1800000 :=
  have h := (lockstate_retry_schedule deadLink (fun _ t => t) (fun _ => 0) (fun _ => 1)
    refreshDue 1 3 rfl rfl (fun _ _ => ⟨rfl, rfl, rfl, rfl⟩)
    (fun _ _ => ⟨Or.inr (Or.inr (Or.inr
      (show queryBit 1 deadLink.QUERY_COMMAND_LOCKSTATE = true by decide))),
      fun ⟨_, _, h⟩ => CmdResult.noConfusion h⟩)).1
  ⟨(h 0 (by decide)).1, (h 0 (by decide)).2.2.trans (by decide),
    (h 1 (by decide)).1, (h 1 (by decide)).2.2.trans (by decide),
    (h 2 (by decide)).1, (h 2 (by decide)).2.2.trans (by decide)⟩

theorem update_paired (W : World) (s : State) (hp : s.paired = true)
    (hw : watchdogTrips s.afterReads (W.millis (s.io + 1)) (W.getLastReceivedBeaconTs s.io) =
      false) :
    update W s = updateBody W (W.millis (s.io + 1)) (W.queryCommands (s.io + 2)) s.afterReads := by
  have h1 : pairingStep W s = (s, true) := by
    unfold pairingStep
    rw [hp]
    rfl
  unfold update
  rw [h1]
  simp only [Bool.not_true, Bool.false_eq_true, if_false]
  unfold State.afterReads at hw
  rw [hw]
  rfl

theorem batteryStep_schedule (W : World) (ts : Int) (queryCommands : Nat) (s : State) :
    lockSchedule (batteryStep W ts queryCommands s).toVars =
      { lockSchedule s.toVars with
        nextBatteryReportTs :=
          if batteryDue W ts queryCommands s then ts + wrapInt32 (s.intervalBattery * 1000)
          else s.nextBatteryReportTs } := by
  by_cases h : batteryDue W ts queryCommands s
  · rw [if_pos h]
    unfold batteryDue at h
    unfold batteryStep
    rw [if_pos h]
    exact updateBatteryState_lock W (keeps_refl lockSchedule _)
  · rw [if_neg h]
    unfold batteryDue at h
    unfold batteryStep
    rw [if_neg h]
    rfl

theorem dispatchLockAction_schedule (W : World) (ts : Int) (s : State) :
    lockSchedule (dispatchLockAction W ts s).toVars =
      { lockSchedule s.toVars with
        nextLockStateUpdateTs :=
          if (s.nextLockAction ≠ .noAction ∧ ts > s.nextRetryTs) ∧
              W.cmdResult s.io = .Success ∧ s.intervalLockstate > 10 then ts + 10 * 1000
          else s.nextLockStateUpdateTs } := by
  unfold dispatchLockAction
  by_cases h1 : s.nextLockAction ≠ .noAction ∧ ts > s.nextRetryTs
  · rw [if_pos h1]
    by_cases h2 : W.cmdResult s.io = .Success
    · by_cases h3 : s.intervalLockstate > 10
      · rw [if_pos ⟨h1, h2, h3⟩]
        simp only []
        rw [if_pos h2]
        split_ifs with h4
        · rfl
        · exact absurd h3 h4
      · rw [if_neg (fun h => h3 h.2.2)]
        simp only []
        rw [if_pos h2]
        split_ifs with h4
        · exact absurd h4 h3
        · rfl
    · rw [if_neg (fun h => h2 h.2.1)]
      simp only []
      rw [if_neg h2]
      split_ifs <;> rfl
  · rw [if_neg h1, if_neg (fun h => h1 h.1)]
    rfl

theorem lockStateStep_battery (W : World) (ts : Int) (queryCommands : Nat) (s : State) :
    (lockStateStep W ts queryCommands s).nextBatteryReportTs = s.nextBatteryReportTs ∧
      (lockStateStep W ts queryCommands s).intervalBattery = s.intervalBattery := by
  by_cases hdue : lockStateDue W ts queryCommands s
  · by_cases hq : querySucceeds W s
    · have h := lockStateStep_succeeded W ts queryCommands s hdue hq
      exact ⟨congrArg LockSchedule.nextBatteryReportTs h,
        congrArg LockSchedule.intervalBattery h⟩
    · obtain ⟨_, -, -, h⟩ := lockStateStep_failed W ts queryCommands s hdue hq
      exact ⟨congrArg LockSchedule.nextBatteryReportTs h,
        congrArg LockSchedule.intervalBattery h⟩
  · rw [lockStateStep_skipped W ts queryCommands s hdue]
    exact ⟨rfl, rfl⟩

theorem beforeDispatch_schedule (W : World) (ts : Int) (queryCommands : Nat) (s : State) :
    lockSchedule (beforeDispatch W ts queryCommands s).toVars =
      lockSchedule (batteryStep W ts queryCommands
        (lockStateStep W ts queryCommands (emit .updateConnectionState s))).toVars :=
  keypadStep_lock W ts queryCommands (rssiStep_lock W ts (hassStep_lock W
    (followUpStep_lock W ts (configStep_lock W ts queryCommands
      (keeps_refl lockSchedule _)))))

theorem updateBody_schedule (W : World) (ts : Int) (queryCommands : Nat) (s : State) :
    lockSchedule (updateBody W ts queryCommands s).toVars =
      lockSchedule (dispatchLockAction W ts (beforeDispatch W ts queryCommands s)).toVars :=
  keeps_set _ (fun _ => rfl) (clearAuthDataStep_lock (keeps_refl lockSchedule _))

theorem updateBody_nextLockStateUpdateTs (W : World) (ts : Int) (queryCommands : Nat)
    (s : State) (hdue : lockStateDue W ts queryCommands s) (hq : querySucceeds W s)
    (hno : ¬ lockActionSucceeds W ts queryCommands s) :
    (updateBody W ts queryCommands s).nextLockStateUpdateTs =
      ts + wrapInt32 (s.intervalLockstate * 1000) := by
  have h1 := congrArg LockSchedule.nextLockStateUpdateTs
    (updateBody_schedule W ts queryCommands s)
  have h2 := congrArg LockSchedule.nextLockStateUpdateTs
    (dispatchLockAction_schedule W ts (beforeDispatch W ts queryCommands s))
  have h3 := congrArg LockSchedule.nextLockStateUpdateTs
    (beforeDispatch_schedule W ts queryCommands s)
  have h4 := congrArg LockSchedule.nextLockStateUpdateTs
    (batteryStep_schedule W ts queryCommands
      (lockStateStep W ts queryCommands (emit .updateConnectionState s)))
  have h5 := congrArg LockSchedule.nextLockStateUpdateTs
    (lockStateStep_succeeded W ts queryCommands (emit .updateConnectionState s) hdue hq)
  have hc : ¬ (((beforeDispatch W ts queryCommands s).nextLockAction ≠ .noAction ∧
      ts > (beforeDispatch W ts queryCommands s).nextRetryTs) ∧
      W.cmdResult (beforeDispatch W ts queryCommands s).io = .Success ∧
      (beforeDispatch W ts queryCommands s).intervalLockstate > 10) :=
    fun h => hno ⟨h.1.1, h.1.2, h.2.1⟩
  simp only [] at h2
  rw [if_neg hc] at h2
  exact h1.trans (h2.trans (h3.trans (h4.trans h5)))

theorem updateBody_nextBatteryReportTs (W : World) (ts : Int) (queryCommands : Nat)
    (s : State) (hdue : batteryDue W ts queryCommands s) :
    (updateBody W ts queryCommands s).nextBatteryReportTs =
      ts + wrapInt32 (s.intervalBattery * 1000) := by
  have h1 := congrArg LockSchedule.nextBatteryReportTs
    (updateBody_schedule W ts queryCommands s)
  have h2 := congrArg LockSchedule.nextBatteryReportTs
    (dispatchLockAction_schedule W ts (beforeDispatch W ts queryCommands s))
  have h3 := congrArg LockSchedule.nextBatteryReportTs
    (beforeDispatch_schedule W ts queryCommands s)
  have h4 := congrArg LockSchedule.nextBatteryReportTs
    (batteryStep_schedule W ts queryCommands
      (lockStateStep W ts queryCommands (emit .updateConnectionState s)))
  obtain ⟨k1, k2⟩ := lockStateStep_battery W ts queryCommands (emit .updateConnectionState s)
  have hd : batteryDue W ts queryCommands
      (lockStateStep W ts queryCommands (emit .updateConnectionState s)) := by
    unfold batteryDue at hdue ⊢
    rw [k1]
    exact hdue
  simp only [] at h4
  rw [if_pos hd, k2] at h4
  exact h1.trans (h2.trans (h3.trans h4))

/-- C32: in a pass of `update` of a paired wrapper that reads the clock value `now` and
gets past the watchdog: when the lock-state block is due, its state query succeeds on
one of the attempts, no pending lock action is dispatched with success and the product
`intervalLockstate * 1000` fits an `int`, the pass ends with `nextLockStateUpdateTs =
now + intervalLockstate * 1000`; when the battery block is due and
`intervalBattery * 1000` fits an `int`, the pass ends with `nextBatteryReportTs =
now + intervalBattery * 1000`. -/
theorem next_refresh_after_pass (W : World) (s : State) (hp : s.paired = true)
    (hw : watchdogTrips s.afterReads (W.millis (s.io + 1)) (W.getLastReceivedBeaconTs s.io) =
      false) :
    (lockStateDue W (W.millis (s.io + 1)) (W.queryCommands (s.io + 2)) s.afterReads →
      querySucceeds W s.afterReads →
      ¬ lockActionSucceeds W (W.millis (s.io + 1)) (W.queryCommands (s.io + 2)) s.afterReads →
      -2147483648 ≤ s.intervalLockstate * 1000 → s.intervalLockstate * 1000 ≤ 2147483647 →
      (update W s).nextLockStateUpdateTs = W.millis (s.io + 1) + s.intervalLockstate * 1000) ∧
    (batteryDue W (W.millis (s.io + 1)) (W.queryCommands (s.io + 2)) s.afterReads →
      -2147483648 ≤ s.intervalBattery * 1000 → s.intervalBattery * 1000 ≤ 2147483647 →
      (update W s).nextBatteryReportTs = W.millis (s.io + 1) + s.intervalBattery * 1000) := by
  rw [update_paired W s hp hw]
  refine ⟨fun hdue hq hno f1 f2 => ?_, fun hdue f1 f2 => ?_⟩
  · rw [updateBody_nextLockStateUpdateTs W _ _ _ hdue hq hno]
    show _ + wrapInt32 (s.intervalLockstate * 1000) = _
    rw [wrapInt32_of_fits _ f1 f2]
  · rw [updateBody_nextBatteryReportTs W _ _ _ hdue]
    show _ + wrapInt32 (s.intervalBattery * 1000) = _
    rw [wrapInt32_of_fits _ f1 f2]

/-- C32 on an opener that answers, with the default interval of 1800 s and the clock at
101000 ms: the pass ends with the lock-state refresh and the battery refresh scheduled
at 101000 + 1800000 ms. -/
theorem next_refresh_after_pass_witness :
    (update lockedOnline bothDue).nextLockStateUpdateTs = 1901000 ∧
    (update lockedOnline bothDue).nextBatteryReportTs = 1901000 :=
  have h := next_refresh_after_pass lockedOnline bothDue rfl (by decide)
  ⟨(h.1 (by decide) ⟨0, by decide, rfl⟩ (by decide) (by decide) (by decide)).trans
      (by decide),
    (h.2 (by decide) (by decide) (by decide)).trans (by decide)⟩

/-! ## The calls of the config refresh only grow -/

theorem updateTimeControl_retry (W : World) (retrieved : Bool) {a s : State} (h : Keeps configRetry
    a s) :
    Keeps configRetry a (updateTimeControl W retrieved s) := by
  unfold updateTimeControl
  simp only []
  repeat' (first
    | with_reducible exact h
    | with_reducible apply keeps_ite
    | with_reducible apply keeps_postpone
    | with_reducible apply keeps_gpio
    | with_reducible apply keeps_set
    | with_reducible apply keeps_setPrefs
    | with_reducible apply keeps_step
    | with_reducible apply keeps_emitted
    | with_reducible apply retryLoop_keeps
    | (intro _ _ _; rfl)
    | (intro _ _; rfl)
    | (intro _; rfl))

theorem updateTimeControl_idWrite (W : World) (retrieved : Bool) {a s : State} (h : Silent idWrite
    a s) :
    Silent idWrite a (updateTimeControl W retrieved s) := by
  unfold updateTimeControl
  simp only []
  repeat' (first
    | with_reducible exact h
    | with_reducible apply silent_ite
    | with_reducible apply silent_postpone
    | with_reducible apply silent_set
    | with_reducible apply silent_setPrefs
    | with_reducible apply silent_step
    | with_reducible apply silent_emitted
    | with_reducible apply retryLoop_silent
    | (intro _ _ _; rfl)
    | rfl)

theorem readConfig_retry (W : World) {a s : State} (h : Keeps configRetry a s) :
    Keeps configRetry a (readConfig W s) := by
  unfold readConfig
  simp only []
  repeat' (first
    | with_reducible exact h
    | with_reducible apply keeps_ite
    | with_reducible apply keeps_postpone
    | with_reducible apply keeps_gpio
    | with_reducible apply keeps_set
    | with_reducible apply keeps_setPrefs
    | with_reducible apply keeps_step
    | with_reducible apply keeps_emitted
    | with_reducible apply retryLoop_keeps
    | (intro _ _ _; rfl)
    | (intro _ _; rfl)
    | (intro _; rfl))

theorem readConfig_idWrite (W : World) {a s : State} (h : Silent idWrite a s) :
    Silent idWrite a (readConfig W s) := by
  unfold readConfig
  simp only []
  repeat' (first
    | with_reducible exact h
    | with_reducible apply silent_ite
    | with_reducible apply silent_postpone
    | with_reducible apply silent_set
    | with_reducible apply silent_setPrefs
    | with_reducible apply silent_step
    | with_reducible apply silent_emitted
    | with_reducible apply retryLoop_silent
    | (intro _ _ _; rfl)
    | rfl)

theorem readAdvancedConfig_retry (W : World) {a s : State} (h : Keeps configRetry a s) :
    Keeps configRetry a (readAdvancedConfig W s) := by
  unfold readAdvancedConfig
  simp only []
  repeat' (first
    | with_reducible exact h
    | with_reducible apply keeps_ite
    | with_reducible apply keeps_postpone
    | with_reducible apply keeps_gpio
    | with_reducible apply keeps_set
    | with_reducible apply keeps_setPrefs
    | with_reducible apply keeps_step
    | with_reducible apply keeps_emitted
    | with_reducible apply retryLoop_keeps
    | (intro _ _ _; rfl)
    | (intro _ _; rfl)
    | (intro _; rfl))

theorem readAdvancedConfig_idWrite (W : World) {a s : State} (h : Silent idWrite a s) :
    Silent idWrite a (readAdvancedConfig W s) := by
  unfold readAdvancedConfig
  simp only []
  repeat' (first
    | with_reducible exact h
    | with_reducible apply silent_ite
    | with_reducible apply silent_postpone
    | with_reducible apply silent_set
    | with_reducible apply silent_setPrefs
    | with_reducible apply silent_step
    | with_reducible apply silent_emitted
    | with_reducible apply retryLoop_silent
    | (intro _ _ _; rfl)
    | rfl)

theorem verifyPinStatus_retry (W : World) {a s : State} (h : Keeps configRetry a s) :
    Keeps configRetry a (verifyPinStatus W s) := by
  unfold verifyPinStatus
  simp only []
  repeat' (first
    | with_reducible exact h
    | with_reducible apply keeps_ite
    | with_reducible apply keeps_postpone
    | with_reducible apply keeps_gpio
    | with_reducible apply keeps_set
    | with_reducible apply keeps_setPrefs
    | with_reducible apply keeps_step
    | with_reducible apply keeps_emitted
    | with_reducible apply retryLoop_keeps
    | (intro _ _ _; rfl)
    | (intro _ _; rfl)
    | (intro _; rfl))

theorem verifyPinStatus_idWrite (W : World) {a s : State} (h : Silent idWrite a s) :
    Silent idWrite a (verifyPinStatus W s) := by
  unfold verifyPinStatus
  simp only []
  repeat' (first
    | with_reducible exact h
    | with_reducible apply silent_ite
    | with_reducible apply silent_postpone
    | with_reducible apply silent_set
    | with_reducible apply silent_setPrefs
    | with_reducible apply silent_step
    | with_reducible apply silent_emitted
    | with_reducible apply retryLoop_silent
    | (intro _ _ _; rfl)
    | rfl)

theorem updateConfig_unfold (W : World) (s : State) :
    updateConfig W s =
      if (!configExpected W s) = true ∧ (configCycleEnd W s).retryConfigCount < 11 then
        (configCycleEnd W s).step.set fun m => { m with
          nextConfigUpdateTs := W.millis (configCycleEnd W s).io + 60000 }
      else configCycleEnd W s := rfl

theorem configFetched_retry (W : World) (s : State) :
    configRetry (configFetched W s).toVars = configRetry s.toVars :=
  keeps_set _ (fun _ => rfl)
    (readAdvancedConfig_retry W (readConfig_retry W (keeps_refl configRetry s)))

theorem storeNukiId_retry (s : State) :
    configRetry (storeNukiId s).toVars = configRetry s.toVars := by
  unfold storeNukiId
  split_ifs <;> rfl

theorem matchedConfigStep_retry (W : World) (s : State) :
    configRetry (matchedConfigStep W s).toVars = (0, s.nextConfigUpdateTs) := by
  unfold matchedConfigStep
  simp only []
  refine (verifyPinStatus_retry W
    (keeps_ite (updateTimeControl_retry W false (keeps_refl _ _)) (keeps_refl _ _))).trans ?_
  split_ifs <;> rfl

theorem basicConfigStep_retry (W : World) (t : State) :
    configRetry (basicConfigStep W t).1.toVars =
      (if t.nukiConfigValid = true ∧
          (storeNukiId t).prefs.nuki_id_opener = (storeNukiId t).nukiConfig.nukiId then 0
        else t.retryConfigCount + 1, t.nextConfigUpdateTs) ∧
    ((basicConfigStep W t).2 = true ↔
      t.nukiConfigValid = true ∧
        (storeNukiId t).prefs.nuki_id_opener = (storeNukiId t).nukiConfig.nukiId) := by
  have hs := storeNukiId_retry t
  unfold basicConfigStep
  by_cases h1 : t.nukiConfigValid = true
  · rw [if_pos h1]
    simp only []
    by_cases h2 : (storeNukiId t).prefs.nuki_id_opener = (storeNukiId t).nukiConfig.nukiId
    · rw [if_pos h2, if_pos ⟨h1, h2⟩]
      refine ⟨?_, iff_of_true rfl ⟨h1, h2⟩⟩
      rw [matchedConfigStep_retry]
      exact congrArg (fun p : Int × Int => ((0 : Int), p.2)) hs
    · rw [if_neg h2, if_neg (fun h => h2 h.2)]
      refine ⟨?_, iff_of_false Bool.false_ne_true (fun h => h2 h.2)⟩
      exact congrArg (fun p : Int × Int => (p.1 + 1, p.2)) hs
  · rw [if_neg h1, if_neg (fun h => h1 h.1)]
    exact ⟨rfl, iff_of_false Bool.false_ne_true (fun h => h1 h.1)⟩

theorem advancedConfigStep_retry (u : State) (flag : Bool) :
    configRetry (advancedConfigStep u flag).1.toVars =
      (if u.nukiAdvancedConfigValid = true ∧
          u.prefs.nuki_id_opener = u.nukiConfig.nukiId then 0
        else u.retryConfigCount + 1, u.nextConfigUpdateTs) ∧
    ((advancedConfigStep u flag).2 = true ↔
      flag = true ∧ u.nukiAdvancedConfigValid = true ∧
        u.prefs.nuki_id_opener = u.nukiConfig.nukiId) := by
  unfold advancedConfigStep
  by_cases h1 : u.nukiAdvancedConfigValid = true ∧ u.prefs.nuki_id_opener = u.nukiConfig.nukiId
  · rw [if_pos h1, if_pos h1]
    simp only []
    refine ⟨?_, ⟨fun h => ⟨h, h1⟩, fun h => h.1⟩⟩
    split_ifs <;> rfl
  · rw [if_neg h1, if_neg h1]
    exact ⟨rfl, iff_of_false Bool.false_ne_true (fun h => h1 h.2)⟩

theorem configCycleEnd_retry (W : World) (s : State) :
    configRetry (configCycleEnd W s).toVars =
      (countAfterCycle (basicFails W s) (advancedFails W s) s.retryConfigCount,
        s.nextConfigUpdateTs) ∧
    (configExpected W s = true ↔ ¬ basicFails W s ∧ ¬ advancedFails W s) := by
  obtain ⟨b1, b2⟩ := basicConfigStep_retry W (configFetched W s)
  obtain ⟨a1, a2⟩ := advancedConfigStep_retry (basicConfigStep W (configFetched W s)).1
    (basicConfigStep W (configFetched W s)).2
  have hf := configFetched_retry W s
  have hc : (configFetched W s).retryConfigCount = s.retryConfigCount :=
    congrArg Prod.fst hf
  have hn : (configFetched W s).nextConfigUpdateTs = s.nextConfigUpdateTs :=
    congrArg Prod.snd hf
  have hbc : (basicConfigStep W (configFetched W s)).1.retryConfigCount =
      if (configFetched W s).nukiConfigValid = true ∧
          (storeNukiId (configFetched W s)).prefs.nuki_id_opener =
            (storeNukiId (configFetched W s)).nukiConfig.nukiId then 0
      else (configFetched W s).retryConfigCount + 1 := congrArg Prod.fst b1
  have hbn : (basicConfigStep W (configFetched W s)).1.nextConfigUpdateTs =
      (configFetched W s).nextConfigUpdateTs := congrArg Prod.snd b1
  unfold configCycleEnd configExpected
  refine ⟨?_, ?_⟩
  · rw [a1]
    unfold countAfterCycle
    by_cases ha : advancedFails W s
    · rw [if_pos ha]
      unfold advancedFails at ha
      rw [if_neg ha]
      by_cases hb : basicFails W s
      · rw [if_pos hb]
        unfold basicFails configMatches at hb
        rw [if_neg hb] at hbc
        show ((basicConfigStep W (configFetched W s)).1.retryConfigCount + 1,
          (basicConfigStep W (configFetched W s)).1.nextConfigUpdateTs) = _
        rw [hbc, hbn, hc, hn]
        congr 1
        omega
      · rw [if_neg hb]
        unfold basicFails configMatches at hb
        rw [if_pos (not_not.mp hb)] at hbc
        show ((basicConfigStep W (configFetched W s)).1.retryConfigCount + 1,
          (basicConfigStep W (configFetched W s)).1.nextConfigUpdateTs) = _
        rw [hbc, hbn, hn]
        rfl
    · rw [if_neg ha]
      unfold advancedFails at ha
      rw [if_pos (not_not.mp ha)]
      show ((0 : Int), (basicConfigStep W (configFetched W s)).1.nextConfigUpdateTs) = _
      rw [hbn, hn]
  · rw [a2, b2]
    unfold basicFails advancedFails configMatches
    rw [not_not, not_not]

theorem updateConfig_retry (W : World) (s : State) :
    (updateConfig W s).retryConfigCount =
      countAfterCycle (basicFails W s) (advancedFails W s) s.retryConfigCount ∧
    (updateConfig W s).nextConfigUpdateTs =
      if (basicFails W s ∨ advancedFails W s) ∧
          countAfterCycle (basicFails W s) (advancedFails W s) s.retryConfigCount < 11 then
        W.millis (configCycleEnd W s).io + 60000
      else s.nextConfigUpdateTs := by
  obtain ⟨h1, h2⟩ := configCycleEnd_retry W s
  have hc : (configCycleEnd W s).retryConfigCount =
      countAfterCycle (basicFails W s) (advancedFails W s) s.retryConfigCount :=
    congrArg Prod.fst h1
  have hn : (configCycleEnd W s).nextConfigUpdateTs = s.nextConfigUpdateTs :=
    congrArg Prod.snd h1
  have he : (!configExpected W s) = true ↔ basicFails W s ∨ advancedFails W s := by
    rw [Bool.not_eq_true', ← Bool.not_eq_true, h2]
    tauto
  rw [updateConfig_unfold]
  by_cases hr : (!configExpected W s) = true ∧ (configCycleEnd W s).retryConfigCount < 11
  · rw [if_pos hr, if_pos ⟨he.mp hr.1, hc ▸ hr.2⟩]
    exact ⟨hc, rfl⟩
  · rw [if_neg hr, if_neg (fun h => hr ⟨he.mpr h.1, hc.symm ▸ h.2⟩)]
    exact ⟨hc, hn⟩

/-- C36 (code defect): what `updateConfig` does with `_retryConfigCount`.  Both halves
of the function count a failure and either half resets the counter, so a call entered
with the counter at `c` leaves it at `c + 2` when both halves fail, at 1 when only the
advanced half fails and at 0 when the advanced half passes; the call reschedules the
refresh 60 s after the clock value it reads exactly when a half failed and the counter
it leaves is below 11.  In a run of calls entered with the counter at 0 in which both
halves fail every time, call `k` (counted from 1) leaves the counter at `2 * k` and
reschedules exactly when `k ≤ 5`; in a run in which only one half fails every call
reschedules, however long the run. -/
theorem config_retry_reschedule (W : World) (between : Nat → State → State) (s : State)
    (rounds : Nat) (h0 : s.retryConfigCount = 0)
    (hkeep : ∀ k t, (between k t).retryConfigCount = t.retryConfigCount) :
    ((∀ k, k < rounds → basicFails W (cycleEntry W between k s) ∧
        advancedFails W (cycleEntry W between k s)) →
      ∀ k, k < rounds →
        (configCycles W between (k + 1) s).retryConfigCount = 2 * ((k : Int) + 1) ∧
        (configCycles W between (k + 1) s).nextConfigUpdateTs =
          if k + 1 ≤ 5 then W.millis (configCycleEnd W (cycleEntry W between k s)).io + 60000
          else (cycleEntry W between k s).nextConfigUpdateTs) ∧
    ((∀ k, k < rounds → ¬ basicFails W (cycleEntry W between k s) ∧
        advancedFails W (cycleEntry W between k s)) →
      ∀ k, k < rounds →
        (configCycles W between (k + 1) s).retryConfigCount = 1 ∧
        (configCycles W between (k + 1) s).nextConfigUpdateTs =
          W.millis (configCycleEnd W (cycleEntry W between k s)).io + 60000) ∧
    ((∀ k, k < rounds → basicFails W (cycleEntry W between k s) ∧
        ¬ advancedFails W (cycleEntry W between k s)) →
      ∀ k, k < rounds →
        (configCycles W between (k + 1) s).retryConfigCount = 0 ∧
        (configCycles W between (k + 1) s).nextConfigUpdateTs =
          W.millis (configCycleEnd W (cycleEntry W between k s)).io + 60000) := by
  refine ⟨fun hf => ?_, fun hf k hk => ?_, fun hf k hk => ?_⟩
  · have hinv : ∀ k, k ≤ rounds →
        (configCycles W between k s).retryConfigCount = 2 * (k : Int) := by
      intro k
      induction k with
      | zero => intro _; exact h0
      | succ j ih =>
        intro hj
        obtain ⟨hb, ha⟩ := hf j (by omega)
        have h1 := (updateConfig_retry W (cycleEntry W between j s)).1
        unfold countAfterCycle at h1
        rw [if_pos ha, if_pos hb] at h1
        show (updateConfig W (cycleEntry W between j s)).retryConfigCount = _
        rw [h1]
        show (between j (configCycles W between j s)).retryConfigCount + 2 = _
        rw [hkeep, ih (by omega)]
        push_cast
        omega
    intro k hk
    obtain ⟨hb, ha⟩ := hf k hk
    obtain ⟨h1, h2⟩ := updateConfig_retry W (cycleEntry W between k s)
    have hc : (cycleEntry W between k s).retryConfigCount = 2 * (k : Int) := by
      show (between k (configCycles W between k s)).retryConfigCount = _
      rw [hkeep, hinv k (by omega)]
    unfold countAfterCycle at h1 h2
    rw [if_pos ha, if_pos hb, hc] at h1 h2
    refine ⟨h1.trans (by omega), ?_⟩
    show (updateConfig W (cycleEntry W between k s)).nextConfigUpdateTs = _
    rw [h2]
    by_cases h5 : k + 1 ≤ 5
    · rw [if_pos ⟨Or.inl hb, by omega⟩, if_pos h5]
    · rw [if_neg (fun h => h5 (by omega)), if_neg h5]
  · obtain ⟨hb, ha⟩ := hf k hk
    obtain ⟨h1, h2⟩ := updateConfig_retry W (cycleEntry W between k s)
    unfold countAfterCycle at h1 h2
    rw [if_pos ha, if_neg hb] at h1 h2
    rw [if_pos ⟨Or.inr ha, by decide⟩] at h2
    exact ⟨h1, h2⟩
  · obtain ⟨hb, ha⟩ := hf k hk
    obtain ⟨h1, h2⟩ := updateConfig_retry W (cycleEntry W between k s)
    unfold countAfterCycle at h1 h2
    rw [if_neg ha] at h1 h2
    rw [if_pos ⟨Or.inl hb, by decide⟩] at h2
    exact ⟨h1, h2⟩

set_option maxRecDepth 100000 in
theorem deadLink_config_fails : ∀ k, k < 6 →
    basicFails deadLink (cycleEntry deadLink (fun _ t => t) k configStart) ∧
      advancedFails deadLink (cycleEntry deadLink (fun _ t => t) k configStart) := by
  decide

set_option maxRecDepth 100000 in
theorem advancedTimesOut_config_fails : ∀ k, k < 12 →
    ¬ basicFails advancedTimesOut (cycleEntry advancedTimesOut (fun _ t => t) k configStart) ∧
      advancedFails advancedTimesOut
        (cycleEntry advancedTimesOut (fun _ t => t) k configStart) := by
  decide

set_option maxRecDepth 100000 in
theorem config_cycle_clocks :
    deadLink.millis
        (configCycleEnd deadLink (cycleEntry deadLink (fun _ t => t) 4 configStart)).io +
      60000 = 84000 ∧
    (cycleEntry deadLink (fun _ t => t) 5 configStart).nextConfigUpdateTs = 84000 ∧
    advancedTimesOut.millis
        (configCycleEnd advancedTimesOut
          (cycleEntry advancedTimesOut (fun _ t => t) 11 configStart)).io +
      60000 = 119000 := by
  decide

/-- C36 on a transport where every command times out: the fifth call of `updateConfig`
leaves the counter at 10 and reschedules at 84000 ms, the sixth leaves it at 12 and
the schedule as it was.  On an opener that answers `requestConfig` and never
`requestAdvancedConfig` the twelfth call leaves the counter at 1 and reschedules at
119000 ms. -/
theorem config_retry_reschedule_witness :
    (configCycles deadLink (fun _ t => t) (4 + 1) configStart).retryConfigCount = 10 ∧
    (configCycles deadLink (fun _ t => t) (4 + 1) configStart).nextConfigUpdateTs = 84000 ∧
    (configCycles deadLink (fun _ t => t) (5 + 1) configStart).retryConfigCount = 12 ∧
    (configCycles deadLink (fun _ t => t) (5 + 1) configStart).nextConfigUpdateTs = 84000 ∧
    (configCycles advancedTimesOut (fun _ t => t) (11 + 1) configStart).retryConfigCount = 1 ∧
    (configCycles advancedTimesOut (fun _ t => t) (11 + 1) configStart).nextConfigUpdateTs =
      119000 :=
  have h := (config_retry_reschedule deadLink (fun _ t => t) configStart 6 rfl
    (fun _ _ => rfl)).1 deadLink_config_fails
  have g := (config_retry_reschedule advancedTimesOut (fun _ t => t) configStart 12 rfl
    (fun _ _ => rfl)).2.1 advancedTimesOut_config_fails
  ⟨(h 4 (by decide)).1,
    (h 4 (by decide)).2.trans ((if_pos (by decide)).trans config_cycle_clocks.1),
    (h 5 (by decide)).1,
    (h 5 (by decide)).2.trans ((if_neg (by decide)).trans config_cycle_clocks.2.1),
    (g 11 (by decide)).1, (g 11 (by decide)).2.trans config_cycle_clocks.2.2⟩

/-! ## The write of the opener identifier -/

theorem retryLoop_prefs (W : World) (cmd : Event) (store : Nat → CmdResult → State → State)
    (hstore : ∀ io r t, (store io r t).prefs = t.prefs) :
    ∀ (fuel : Nat) (result : CmdResult) (s : State),
      (retryLoop W cmd store fuel result s).2.prefs = s.prefs := by
  intro fuel
  induction fuel with
  | zero => intro result s; rfl
  | succ n ih =>
    intro result s
    simp only [retryLoop]
    split_ifs with h1 h2
    · rw [ih]
      exact hstore _ _ _
    · exact hstore _ _ _
    · rfl

theorem configFetched_prefs (W : World) (s : State) :
    (configFetched W s).prefs = s.prefs := by
  have h1 : (readConfig W s).prefs = s.prefs := by
    unfold readConfig
    simp only []
    refine retryLoop_prefs W _ _ ?_ _ _ _
    exact fun _ _ _ => rfl
  have h2 : (readAdvancedConfig W (readConfig W s)).prefs = (readConfig W s).prefs := by
    unfold readAdvancedConfig
    simp only []
    refine retryLoop_prefs W _ _ ?_ _ _ _
    exact fun _ _ _ => rfl
  exact h2.trans h1

theorem configFetched_idWrite (W : World) (s : State) :
    Silent idWrite s (configFetched W s) :=
  silent_set _ (readAdvancedConfig_idWrite W (readConfig_idWrite W (silent_refl idWrite s)))

theorem matchedConfigStep_idWrite (W : World) {a s : State} (h : Silent idWrite a s) :
    Silent idWrite a (matchedConfigStep W s) := by
  unfold matchedConfigStep
  simp only []
  repeat' (first
    | with_reducible exact h
    | with_reducible apply silent_ite
    | with_reducible apply silent_set
    | with_reducible apply silent_emitted
    | with_reducible apply verifyPinStatus_idWrite
    | with_reducible apply updateTimeControl_idWrite
    | rfl)

theorem storeNukiId_written (s : State) :
    (storeNukiId s).trace.filterMap idWrite =
      s.trace.filterMap idWrite ++
        (if s.prefs.nuki_id_opener = 0 ∨ s.retryConfigCount = 10 then [s.nukiConfig.nukiId]
          else []) := by
  unfold storeNukiId
  split_ifs
  · rw [emit_trace, List.filterMap_append]
    rfl
  · rw [List.append_nil]

theorem basicConfigStep_written (W : World) (t : State) :
    (basicConfigStep W t).1.trace.filterMap idWrite =
      t.trace.filterMap idWrite ++
        (if t.nukiConfigValid = true ∧
            (t.prefs.nuki_id_opener = 0 ∨ t.retryConfigCount = 10) then
          [t.nukiConfig.nukiId]
        else []) := by
  unfold basicConfigStep
  by_cases h1 : t.nukiConfigValid = true
  · rw [if_pos h1]
    simp only []
    have hw := storeNukiId_written t
    have hc : (if t.nukiConfigValid = true ∧
        (t.prefs.nuki_id_opener = 0 ∨ t.retryConfigCount = 10) then [t.nukiConfig.nukiId]
        else []) =
        (if t.prefs.nuki_id_opener = 0 ∨ t.retryConfigCount = 10 then [t.nukiConfig.nukiId]
          else []) := by
      by_cases h2 : t.prefs.nuki_id_opener = 0 ∨ t.retryConfigCount = 10
      · rw [if_pos ⟨h1, h2⟩, if_pos h2]
      · rw [if_neg (fun h => h2 h.2), if_neg h2]
    rw [hc, ← hw]
    split_ifs
    · exact matchedConfigStep_idWrite W (silent_refl idWrite _)
    · rfl
  · rw [if_neg h1, if_neg (fun h => h1 h.1), List.append_nil]
    rfl

theorem updateConfig_written (W : World) (s : State) :
    (updateConfig W s).trace.filterMap idWrite =
      s.trace.filterMap idWrite ++
        (if (configFetched W s).nukiConfigValid = true ∧
            (s.prefs.nuki_id_opener = 0 ∨ s.retryConfigCount = 10) then
          [(configFetched W s).nukiConfig.nukiId]
        else []) := by
  have hb := basicConfigStep_written W (configFetched W s)
  have hc : (configFetched W s).retryConfigCount = s.retryConfigCount :=
    congrArg Prod.fst (configFetched_retry W s)
  rw [configFetched_prefs, hc, configFetched_idWrite W s] at hb
  have ha : Silent idWrite (basicConfigStep W (configFetched W s)).1 (configCycleEnd W s) := by
    unfold configCycleEnd advancedConfigStep
    split_ifs
    · exact silent_set _ (silent_emitted rfl (silent_refl idWrite _))
    · exact silent_set _ (silent_refl idWrite _)
    · exact silent_set _ (silent_refl idWrite _)
  have hu : Silent idWrite (configCycleEnd W s) (updateConfig W s) := by
    rw [updateConfig_unfold]
    split_ifs
    · exact silent_set _ (silent_step (silent_refl idWrite _))
    · exact silent_refl idWrite _
  exact hu.trans (ha.trans hb)

theorem updateConfig_mismatch (W : World) (s : State) (hp : s.prefs.nuki_id_opener ≠ 0)
    (hc : s.retryConfigCount ≠ 10)
    (hid : (configFetched W s).nukiConfig.nukiId ≠ s.prefs.nuki_id_opener) :
    basicFails W s ∧ advancedFails W s ∧
      (updateConfig W s).prefs.nuki_id_opener = s.prefs.nuki_id_opener := by
  have hfc : (configFetched W s).retryConfigCount = s.retryConfigCount :=
    congrArg Prod.fst (configFetched_retry W s)
  have hfp := configFetched_prefs W s
  have hst : storeNukiId (configFetched W s) = configFetched W s := by
    unfold storeNukiId
    rw [if_neg]
    rw [hfp, hfc]
    exact fun h => h.elim hp hc
  have hb : (basicConfigStep W (configFetched W s)).1.prefs = s.prefs ∧
      (basicConfigStep W (configFetched W s)).1.nukiConfig = (configFetched W s).nukiConfig := by
    unfold basicConfigStep
    rw [hst]
    have hne : ¬ (configFetched W s).prefs.nuki_id_opener =
        (configFetched W s).nukiConfig.nukiId := by
      rw [hfp]
      exact fun h => hid h.symm
    simp only []
    rw [if_neg hne]
    split_ifs
    · exact ⟨hfp, rfl⟩
    · exact ⟨hfp, rfl⟩
  have ha : advancedFails W s := by
    unfold advancedFails
    rw [hb.1, hb.2]
    exact fun h => hid h.2.symm
  refine ⟨?_, ha, ?_⟩
  · unfold basicFails configMatches
    rw [hst, hfp]
    exact fun h => hid h.2.symm
  · have he : (configCycleEnd W s).prefs = s.prefs := by
      unfold advancedFails at ha
      unfold configCycleEnd advancedConfigStep
      rw [if_neg ha]
      exact hb.1
    rw [updateConfig_unfold]
    split_ifs
    · exact congrArg Preferences.nuki_id_opener he
    · exact congrArg Preferences.nuki_id_opener he

/-- C37 (code defect): `updateConfig` writes the observed `nukiId` to the persisted
opener identifier exactly when the basic fetch is valid and either no identifier is
persisted or `_retryConfigCount` is 10 on entry.  The counter does not count cycles:
in a run entered with the counter at 0 and a persisted identifier, in which every
fetch is valid and carries another `nukiId`, both halves of each call count a failure,
so the first five calls write nothing and the sixth call replaces the
identifier. -/
theorem opener_id_written (W : World) (between : Nat → State → State) (s : State)
    (h0 : s.retryConfigCount = 0) (hp : s.prefs.nuki_id_opener ≠ 0)
    (hkeep : ∀ k t, (between k t).retryConfigCount = t.retryConfigCount ∧
      (between k t).prefs.nuki_id_opener = t.prefs.nuki_id_opener)
    (hv : ∀ k, k ≤ 5 →
      (configFetched W (cycleEntry W between k s)).nukiConfigValid = true ∧
        (configFetched W (cycleEntry W between k s)).nukiConfig.nukiId ≠
          s.prefs.nuki_id_opener) :
    (∀ t : State, (updateConfig W t).trace.filterMap idWrite =
      t.trace.filterMap idWrite ++
        (if (configFetched W t).nukiConfigValid = true ∧
            (t.prefs.nuki_id_opener = 0 ∨ t.retryConfigCount = 10) then
          [(configFetched W t).nukiConfig.nukiId]
        else [])) ∧
    (∀ k, k < 5 →
      (configCycles W between (k + 1) s).trace.filterMap idWrite =
        (cycleEntry W between k s).trace.filterMap idWrite) ∧
    (configCycles W between (5 + 1) s).trace.filterMap idWrite =
      (cycleEntry W between 5 s).trace.filterMap idWrite ++
        [(configFetched W (cycleEntry W between 5 s)).nukiConfig.nukiId] := by
  have hentry : ∀ k,
      (configCycles W between k s).retryConfigCount = 2 * (k : Int) →
      (configCycles W between k s).prefs.nuki_id_opener = s.prefs.nuki_id_opener →
      (cycleEntry W between k s).retryConfigCount = 2 * (k : Int) ∧
        (cycleEntry W between k s).prefs.nuki_id_opener = s.prefs.nuki_id_opener := by
    intro k h1 h2
    obtain ⟨k1, k2⟩ := hkeep k (configCycles W between k s)
    exact ⟨k1.trans h1, k2.trans h2⟩
  have hinv : ∀ k, k ≤ 5 →
      (configCycles W between k s).retryConfigCount = 2 * (k : Int) ∧
      (configCycles W between k s).prefs.nuki_id_opener = s.prefs.nuki_id_opener := by
    intro k
    induction k with
    | zero => intro _; exact ⟨h0, rfl⟩
    | succ j ih =>
      intro hj
      obtain ⟨i1, i2⟩ := ih (by omega)
      obtain ⟨e1, e2⟩ := hentry j i1 i2
      obtain ⟨-, v2⟩ := hv j (by omega)
      obtain ⟨m1, m2, m3⟩ := updateConfig_mismatch W (cycleEntry W between j s)
        (by rw [e2]; exact hp) (by rw [e1]; omega) (by rw [e2]; exact v2)
      have hr := (updateConfig_retry W (cycleEntry W between j s)).1
      unfold countAfterCycle at hr
      rw [if_pos m2, if_pos m1, e1] at hr
      refine ⟨?_, ?_⟩
      · show (updateConfig W (cycleEntry W between j s)).retryConfigCount = _
        rw [hr]
        push_cast
        omega
      · show (updateConfig W (cycleEntry W between j s)).prefs.nuki_id_opener = _
        rw [m3, e2]
  refine ⟨updateConfig_written W, fun k hk => ?_, ?_⟩
  · obtain ⟨i1, i2⟩ := hinv k (by omega)
    obtain ⟨e1, e2⟩ := hentry k i1 i2
    have hw := updateConfig_written W (cycleEntry W between k s)
    rw [if_neg, List.append_nil] at hw
    · exact hw
    · rw [e1, e2]
      exact fun h => h.2.elim hp (by omega)
  · obtain ⟨i1, i2⟩ := hinv 5 (by omega)
    obtain ⟨e1, e2⟩ := hentry 5 i1 i2
    have hw := updateConfig_written W (cycleEntry W between 5 s)
    rw [if_pos ⟨(hv 5 (by omega)).1, Or.inr (e1.trans (by decide))⟩] at hw
    exact hw

set_option maxRecDepth 100000 in
theorem configOfSeventySeven_valid : ∀ k, k ≤ 5 →
    (configFetched configOfSeventySeven
        (cycleEntry configOfSeventySeven (fun _ t => t) k knowsOpenerFive)).nukiConfigValid =
      true ∧
    (configFetched configOfSeventySeven
        (cycleEntry configOfSeventySeven (fun _ t => t) k knowsOpenerFive)).nukiConfig.nukiId ≠
      knowsOpenerFive.prefs.nuki_id_opener := by
  decide

set_option maxRecDepth 100000 in
theorem configOfSeventySeven_entry :
    (cycleEntry configOfSeventySeven (fun _ t => t) 4 knowsOpenerFive).trace.filterMap
        idWrite = [] ∧
    (cycleEntry configOfSeventySeven (fun _ t => t) 5 knowsOpenerFive).trace.filterMap
        idWrite = [] ∧
    (configFetched configOfSeventySeven
      (cycleEntry configOfSeventySeven (fun _ t => t) 5 knowsOpenerFive)).nukiConfig.nukiId =
        77 := by
  decide

/-- C37 on an opener whose config carries identifier 77, with identifier 5 persisted:
five calls of `updateConfig` leave the identifier unwritten, the sixth writes 77. -/
theorem opener_id_written_witness :
    (configCycles configOfSeventySeven (fun _ t => t) (4 + 1)
      knowsOpenerFive).trace.filterMap idWrite = [] ∧
    (configCycles configOfSeventySeven (fun _ t => t) (5 + 1)
      knowsOpenerFive).trace.filterMap idWrite = [77] :=
  have h := opener_id_written configOfSeventySeven (fun _ t => t) knowsOpenerFive rfl
    (by decide) (fun _ _ => ⟨rfl, rfl⟩) configOfSeventySeven_valid
  ⟨(h.2.1 4 (by decide)).trans configOfSeventySeven_entry.1,
    h.2.2.trans (by rw [configOfSeventySeven_entry.2.1, configOfSeventySeven_entry.2.2]; rfl)⟩

end NukiOpener
